import Mathlib

/-!
# Reference recurrent sequence operators (`sequences.hpp`)

A shallow embedding of `ngraph::runtime::reference::cell_pass`, `lstm_sequence`,
`gru_sequence` and `rnn_sequence`, followed by theorems about them.

Conventions of the embedding:

* A tensor buffer (`char*` viewed as `T*`) is a `List α` of elements in row-major order;
  every byte count of the source is divided by `sizeof(T)`.
* A `Shape` is a `List Nat`; `size_t` arithmetic is arithmetic on `Nat`.
* `std::vector` indexing `v[i]` is `v.getD i d` with the indicated default.
* A pointer into a vector of scratch buffers is the index of the buffer it points at
  (`some i`), the null pointer is `none`.
* Functions that write through output pointers take the current contents of the
  destination buffers and return the contents after the call.
* Where the source has undefined behaviour (a read or write past the end of a buffer, a
  division by zero for a time length of 0) the embedding is total: a read past the end gives
  nothing, a buffer keeps its size, `x / 0 = 0`. The theorems carry the preconditions on
  shapes and buffer sizes that exclude these cases.
* `split.hpp`, `concat.hpp` and the three cell headers are not part of `sequences.hpp`:
  `slice_axis`, `split` and `concat` are modelled from the spec, the cell evaluators are
  parameters (`CellEvaluators`).
* The definitions named `*_checked` embed the same code a second time with every vector
  access, unsigned subtraction and divisor checked: they return `none` where the source
  would index out of range, wrap around or divide by zero.
-/

set_option autoImplicit false

namespace ngraph.runtime.reference

/-! ## Data model -/

/-- A tensor shape: the ordered dimension sizes. -/
abbrev Shape := List Nat

/-- The number of elements of a tensor of shape `shape` (`ngraph::shape_size`). -/
def shape_size (shape : Shape) : Nat := shape.prod

/-- The cell kind selector `enum class CellType`. -/
inductive CellType where
  | RNN
  | GRU
  | LSTM
deriving DecidableEq, Repr

/-- The parameter record `struct CellArgs`; `κ` is the type of the clip threshold. -/
structure CellArgs (κ : Type) where
  activation_f : String
  activation_g : String
  activation_h : String
  clip : κ
  linear_before_reset : Bool
deriving DecidableEq, Repr

/-- Modelled from the spec: the enumeration `op::RecurrentSequenceDirection` is declared
outside `sequences.hpp`. The spec names its variants Forward, Reverse and Bidirectional and
speaks of direction values outside the three defined variants, so a direction is
represented by the integer value an `enum class` object holds. -/
structure RecurrentSequenceDirection where
  value : Int
deriving DecidableEq, Repr

/-- The enumerator `FORWARD`. -/
def RecurrentSequenceDirection.FORWARD : RecurrentSequenceDirection := ⟨0⟩

/-- The enumerator `REVERSE`. -/
def RecurrentSequenceDirection.REVERSE : RecurrentSequenceDirection := ⟨1⟩

/-- The enumerator `BIDIRECTIONAL`. -/
def RecurrentSequenceDirection.BIDIRECTIONAL : RecurrentSequenceDirection := ⟨2⟩

/-- Modelled from the spec: the cell evaluators `lstm_cell`, `rnn_cell` and `gru_cell`
(`lstm_cell.hpp`, `rnn_cell.hpp`, `gru_cell.hpp`) are not part of the sources. Per the spec
an evaluator maps the step input, the previous state(s), weights, recurrence weights, bias
and cell parameters to the new state(s). Arguments are in the order of the C++ call, each
buffer followed by its shape; the result is the list of elements the cell stores through
its destination pointer(s). -/
structure CellEvaluators (α κ : Type) where
  lstm_cell : List α → Shape → List α → Shape → List α → Shape → List α → Shape →
    List α → Shape → List α → Shape → String → String → String → κ → List α × List α
  rnn_cell : List α → Shape → List α → Shape → List α → Shape → List α → Shape →
    List α → Shape → String → κ → List α
  gru_cell : List α → Shape → List α → Shape → List α → Shape → List α → Shape →
    List α → Shape → String → String → κ → Bool → List α

section Buffers

variable {α : Type}

/-- Writing the elements `vals` at the start of the buffer `dst`. The buffer keeps its size:
elements past `vals` are unchanged, and nothing is written past the end of `dst`. -/
def store (dst vals : List α) : List α :=
  (vals ++ dst.drop vals.length).take dst.length

/-- The call `std::memcpy(dst, src, n * sizeof(T))`. -/
def memcpy (dst src : List α) (n : Nat) : List α :=
  store dst (src.take n)

/-- Modelled from the spec: the slice primitive underlying the Splitter (`slice.hpp` is not
part of the sources). `slice_axis data shape axis lo hi` is the sub-tensor
`data[..., lo:hi, ...]` along `axis`, in row-major order. -/
def slice_axis (data : List α) (shape : Shape) (axis lo hi : Nat) : List α :=
  (List.range (shape.take axis).prod).flatMap fun o =>
    (data.drop ((o * shape.getD axis 0 + lo) * (shape.drop (axis + 1)).prod)).take
      ((hi - lo) * (shape.drop (axis + 1)).prod)

/-- Modelled from the spec: the Splitter `reference::split` (`split.hpp` is not part of the
sources) divides a tensor along `axis` into `num_splits` equal contiguous slices. The
result lists the slices in order; the caller stores part `k` through `out_data[k]`. -/
def split (data : List α) (data_shape : Shape) (axis num_splits : Nat) : List (List α) :=
  (List.range num_splits).map fun i =>
    slice_axis data data_shape axis (i * (data_shape.getD axis 0 / num_splits))
      ((i + 1) * (data_shape.getD axis 0 / num_splits))

/-- The effect of `reference::split(data, data_shape, sizeof(T), axis, num_splits, out_data)`
on the scratch buffers `bufs`: part `k` is stored through the pointer `out_data[k]`. -/
def split_into (data : List α) (data_shape : Shape) (axis num_splits : Nat)
    (out_data : List (Option Nat)) (bufs : List (List α)) : List (List α) :=
  (List.range num_splits).foldl
    (fun bufs k =>
      match out_data.getD k none with
      | some j => bufs.set j (store (bufs.getD j []) ((split data data_shape axis num_splits).getD k []))
      | none => bufs)
    bufs

/-- Modelled from the spec: the Concatenator `reference::concat` (`concat.hpp` is not part
of the sources) merges the tensors `args` of shapes `in_shapes` into one tensor of shape
`out_shape` along `concatenation_axis`. The result is the list of elements written to the
output pointer. -/
def concat (args : List (List α)) (in_shapes : List Shape) (out_shape : Shape)
    (concatenation_axis : Nat) : List α :=
  (List.range (out_shape.take concatenation_axis).prod).flatMap fun step =>
    (args.zip in_shapes).flatMap fun p =>
      (p.1.drop (step * (shape_size p.2 / (out_shape.take concatenation_axis).prod))).take
        (shape_size p.2 / (out_shape.take concatenation_axis).prod)

/-- Reading the buffer a pointer of a pointer table refers to. -/
def deref (bufs : List (List α)) (p : Option Nat) : List α :=
  match p with
  | some j => bufs.getD j []
  | none => []

end Buffers

/-! ## `cell_pass` -/

/-- The lambda `squeeze_axis` of `cell_pass`: a vector of `shape.size() - 1` zeros is
filled, in order, with the dimensions whose index differs from `axis`. -/
def squeeze_axis (shape : Shape) (axis : Nat) : Shape :=
  ((List.range shape.length).foldl
    (fun (st : Shape × Nat) i =>
      if i ≠ axis then (st.1.set st.2 (shape.getD i 0), st.2 + 1) else st)
    (List.replicate (shape.length - 1) 0, 0)).1

section CellPass

variable {α κ : Type}

/-- One iteration of the time loop of `cell_pass` up to the capture of the hidden state:
the cell of the given kind is evaluated on the step input `x` and on the running state held
in `outputs[1]` (and `outputs[2]` for LSTM), and its result is stored back there. -/
def cell_step (ev : CellEvaluators α κ) (type : CellType) (inputs : List (List α))
    (shapes : List Shape) (args : CellArgs κ) (x : List α) (outputs : List (List α)) :
    List (List α) :=
  match type with
  | CellType.LSTM =>
    let r := ev.lstm_cell x (squeeze_axis (shapes.getD 0 []) 1)
      (outputs.getD 1 []) (squeeze_axis (shapes.getD 2 []) 1)
      (outputs.getD 2 []) (squeeze_axis (shapes.getD 3 []) 1)
      (inputs.getD 4 []) (squeeze_axis (shapes.getD 4 []) 0)
      (inputs.getD 5 []) (squeeze_axis (shapes.getD 5 []) 0)
      (inputs.getD 6 []) (squeeze_axis (shapes.getD 6 []) 0)
      args.activation_f args.activation_g args.activation_h args.clip
    let outputs1 := outputs.set 1 (store (outputs.getD 1 []) r.1)
    outputs1.set 2 (store (outputs1.getD 2 []) r.2)
  | CellType.RNN =>
    outputs.set 1 (store (outputs.getD 1 [])
      (ev.rnn_cell x (squeeze_axis (shapes.getD 0 []) 1)
        (outputs.getD 1 []) (squeeze_axis (shapes.getD 2 []) 1)
        (inputs.getD 3 []) (squeeze_axis (shapes.getD 3 []) 0)
        (inputs.getD 4 []) (squeeze_axis (shapes.getD 4 []) 0)
        (inputs.getD 5 []) (squeeze_axis (shapes.getD 5 []) 0)
        args.activation_f args.clip))
  | CellType.GRU =>
    outputs.set 1 (store (outputs.getD 1 [])
      (ev.gru_cell x (squeeze_axis (shapes.getD 0 []) 1)
        (outputs.getD 1 []) (squeeze_axis (shapes.getD 2 []) 1)
        (inputs.getD 3 []) (squeeze_axis (shapes.getD 3 []) 0)
        (inputs.getD 4 []) (squeeze_axis (shapes.getD 4 []) 0)
        (inputs.getD 5 []) (squeeze_axis (shapes.getD 5 []) 0)
        args.activation_f args.activation_g args.clip args.linear_before_reset))

/-- The time loop of `cell_pass`. The state is the pair of the output buffers and `h_list`;
iteration `time_step` evaluates the cell on `in_seqs[time_step]` and copies
`part_shape_size` elements of `outputs[1]` into `h_list[time_step]`. -/
def time_loop (ev : CellEvaluators α κ) (type : CellType) (inputs : List (List α))
    (shapes : List Shape) (args : CellArgs κ) (in_seqs : List (List α))
    (part_shape_size num_splits : Nat) (st : List (List α) × List (List α)) :
    List (List α) × List (List α) :=
  (List.range num_splits).foldl
    (fun st time_step =>
      let outputs := cell_step ev type inputs shapes args (in_seqs.getD time_step []) st.1
      (outputs, st.2.set time_step
        (memcpy (st.2.getD time_step []) (outputs.getD 1 []) part_shape_size)))
    st

/-- The function `cell_pass<T>`: the contents of the output buffers `outputs` after the
call. -/
def cell_pass [Zero α] (ev : CellEvaluators α κ) (type : CellType) (inputs : List (List α))
    (shapes : List Shape) (outputs : List (List α)) (args : CellArgs κ) (is_reverse : Bool) :
    List (List α) :=
  let x_shape_size := shape_size (shapes.getD 0 [])
  -- split X
  let num_splits := (shapes.getD 0 []).getD 1 0
  let in_seqs : List (List α) :=
    List.replicate num_splits (List.replicate (x_shape_size / num_splits) 0)
  let pointers : List (Option Nat) :=
    (List.range num_splits).foldl
      (fun pointers i => pointers.set (if is_reverse then num_splits - i - 1 else i) (some i))
      (List.replicate num_splits none)
  let in_seqs := split_into (inputs.getD 0 []) (shapes.getD 0 []) 1 num_splits pointers in_seqs
  let part_shape : Shape := [(shapes.getD 0 []).getD 0 0, 1, (shapes.getD 2 []).getD 2 0]
  let part_shape_size := shape_size part_shape
  let h_list : List (List α) :=
    List.replicate num_splits (List.replicate (shape_size part_shape) 0)
  -- use outputs as a buffer for temporarily values
  let outputs := outputs.set 1
    (memcpy (outputs.getD 1 []) (inputs.getD 2 []) (shape_size (shapes.getD 2 [])))
  let outputs :=
    if type = CellType.LSTM then
      outputs.set 2 (memcpy (outputs.getD 2 []) (inputs.getD 3 []) (shape_size (shapes.getD 3 [])))
    else outputs
  let st := time_loop ev type inputs shapes args in_seqs part_shape_size num_splits
    (outputs, h_list)
  -- the tensor that concats all the intermediate output values of the hidden
  let in_shapes : List Shape := List.replicate num_splits part_shape
  let to_concat_pointers : List (Option Nat) :=
    (List.range num_splits).foldl
      (fun pointers i => pointers.set (if is_reverse then num_splits - i - 1 else i) (some i))
      (List.replicate num_splits none)
  st.1.set 0 (store (st.1.getD 0 [])
    (concat (to_concat_pointers.map (deref st.2)) in_shapes
      [(shapes.getD 0 []).getD 0 0, (shapes.getD 0 []).getD 1 0, (shapes.getD 2 []).getD 2 0] 1))

end CellPass

/-! ## The sequence adapters -/

section Adapters

variable {α κ : Type}

open RecurrentSequenceDirection

/-- The function `lstm_sequence<T>`: the contents of the caller's buffers `Y`, `Ho` and `Co`
after the call. `seq_lengths` is the raw buffer handed over as `const char*`. -/
def lstm_sequence [Zero α] (ev : CellEvaluators α κ)
    (X : List α) (X_shape : Shape) (H : List α) (H_shape : Shape)
    (C : List α) (C_shape : Shape) (seq_lengths : List α) (seq_lengths_shape : Shape)
    (W : List α) (W_shape : Shape) (R : List α) (R_shape : Shape)
    (B : List α) (B_shape : Shape) (Y Ho Co : List α)
    (activation_f activation_g activation_h : String) (clip : κ)
    (direction : RecurrentSequenceDirection) : List α × List α × List α :=
  if direction = FORWARD ∨ direction = REVERSE then
    let args : CellArgs κ :=
      ⟨activation_f, activation_g, activation_h, clip, false⟩
    let inputs : List (List α) := [X, seq_lengths, H, C, W, R, B]
    let outputs : List (List α) := [Y, Ho, Co]
    let shapes : List Shape :=
      [X_shape, seq_lengths_shape, H_shape, C_shape, W_shape, R_shape, B_shape]
    let outputs := cell_pass ev CellType.LSTM inputs shapes outputs args
      (decide (direction = REVERSE))
    (outputs.getD 0 [], outputs.getD 1 [], outputs.getD 2 [])
  else if direction = BIDIRECTIONAL then
    -- split inputs
    let H_split : List (List α) := List.replicate 2 (List.replicate (shape_size H_shape / 2) 0)
    let C_split : List (List α) := List.replicate 2 (List.replicate (shape_size C_shape / 2) 0)
    let W_split : List (List α) := List.replicate 2 (List.replicate (shape_size W_shape / 2) 0)
    let R_split : List (List α) := List.replicate 2 (List.replicate (shape_size R_shape / 2) 0)
    let B_split : List (List α) := List.replicate 2 (List.replicate (shape_size B_shape / 2) 0)
    let H_split := split_into H H_shape 1 2 [some 0, some 1] H_split
    let C_split := split_into C C_shape 1 2 [some 0, some 1] C_split
    let W_split := split_into W W_shape 0 2 [some 0, some 1] W_split
    let R_split := split_into R R_shape 0 2 [some 0, some 1] R_split
    let B_split := split_into B B_shape 0 2 [some 0, some 1] B_split
    let forward_res_y : List α :=
      List.replicate (H_shape.getD 0 0 * H_shape.getD 2 0 * X_shape.getD 1 0) 0
    let reverse_res_y : List α :=
      List.replicate (H_shape.getD 0 0 * H_shape.getD 2 0 * X_shape.getD 1 0) 0
    let forward_res : List (List α) :=
      List.replicate 2 (List.replicate (H_shape.getD 0 0 * H_shape.getD 2 0) 0)
    let reverse_res : List (List α) :=
      List.replicate 2 (List.replicate (H_shape.getD 0 0 * H_shape.getD 2 0) 0)
    let args : CellArgs κ :=
      ⟨activation_f, activation_g, activation_h, clip, false⟩
    let shapes : List Shape :=
      [X_shape, seq_lengths_shape, H_shape, C_shape, W_shape, R_shape, B_shape]
    -- update H,C,W,R,B shapes after split
    let shapes := shapes.set 2 ((shapes.getD 2 []).set 1 1)
    let shapes := shapes.set 3 ((shapes.getD 3 []).set 1 1)
    let shapes := (List.range' 4 (shapes.length - 4)).foldl
      (fun shapes i => shapes.set i ((shapes.getD i []).set 0 1)) shapes
    -- forward pass
    let fwd := cell_pass ev CellType.LSTM
      [X, seq_lengths, H_split.getD 0 [], C_split.getD 0 [], W_split.getD 0 [],
        R_split.getD 0 [], B_split.getD 0 []]
      shapes [forward_res_y, forward_res.getD 0 [], forward_res.getD 1 []] args false
    -- reverse pass
    let rev := cell_pass ev CellType.LSTM
      [X, seq_lengths, H_split.getD 1 [], C_split.getD 1 [], W_split.getD 1 [],
        R_split.getD 1 [], B_split.getD 1 []]
      shapes [reverse_res_y, reverse_res.getD 0 [], reverse_res.getD 1 []] args true
    -- stack together respective outputs from both forward and reverse passes
    let in_shapes_y : List Shape :=
      [[H_shape.getD 0 0, 1, X_shape.getD 1 0, H_shape.getD 2 0],
       [H_shape.getD 0 0, 1, X_shape.getD 1 0, H_shape.getD 2 0]]
    let in_shapes_h_c : List Shape :=
      [[H_shape.getD 0 0, 1, H_shape.getD 2 0], [H_shape.getD 0 0, 1, H_shape.getD 2 0]]
    let output_shape_y : Shape := [H_shape.getD 0 0, 2, X_shape.getD 1 0, H_shape.getD 2 0]
    let output_shape_h_c : Shape := [H_shape.getD 0 0, 2, H_shape.getD 2 0]
    (store Y (concat [fwd.getD 0 [], rev.getD 0 []] in_shapes_y output_shape_y 1),
     store Ho (concat [fwd.getD 1 [], rev.getD 1 []] in_shapes_h_c output_shape_h_c 1),
     store Co (concat [fwd.getD 2 [], rev.getD 2 []] in_shapes_h_c output_shape_h_c 1))
  else (Y, Ho, Co)

/-- The function `gru_sequence<T>`: the contents of the caller's buffers `Y` and `Ho` after
the call. -/
def gru_sequence [Zero α] (ev : CellEvaluators α κ)
    (X : List α) (X_shape : Shape) (H : List α) (H_shape : Shape)
    (seq_lengths : List α) (seq_lengths_shape : Shape)
    (W : List α) (W_shape : Shape) (R : List α) (R_shape : Shape)
    (B : List α) (B_shape : Shape) (Y Ho : List α)
    (activation_f activation_g : String) (clip : κ)
    (direction : RecurrentSequenceDirection) (linear_before_reset : Bool) :
    List α × List α :=
  if direction = FORWARD ∨ direction = REVERSE then
    let args : CellArgs κ :=
      ⟨activation_f, activation_g, "", clip, linear_before_reset⟩
    let inputs : List (List α) := [X, seq_lengths, H, W, R, B]
    let outputs : List (List α) := [Y, Ho]
    let shapes : List Shape :=
      [X_shape, seq_lengths_shape, H_shape, W_shape, R_shape, B_shape]
    let outputs := cell_pass ev CellType.GRU inputs shapes outputs args
      (decide (direction = REVERSE))
    (outputs.getD 0 [], outputs.getD 1 [])
  else if direction = BIDIRECTIONAL then
    -- split inputs
    let H_split : List (List α) := List.replicate 2 (List.replicate (shape_size H_shape / 2) 0)
    let W_split : List (List α) := List.replicate 2 (List.replicate (shape_size W_shape / 2) 0)
    let R_split : List (List α) := List.replicate 2 (List.replicate (shape_size R_shape / 2) 0)
    let B_split : List (List α) := List.replicate 2 (List.replicate (shape_size B_shape / 2) 0)
    let H_split := split_into H H_shape 1 2 [some 0, some 1] H_split
    let W_split := split_into W W_shape 0 2 [some 0, some 1] W_split
    let R_split := split_into R R_shape 0 2 [some 0, some 1] R_split
    let B_split := split_into B B_shape 0 2 [some 0, some 1] B_split
    let forward_res_y : List α :=
      List.replicate (H_shape.getD 0 0 * H_shape.getD 2 0 * X_shape.getD 1 0) 0
    let forward_res_h : List α := List.replicate (H_shape.getD 0 0 * H_shape.getD 2 0) 0
    let reverse_res_y : List α :=
      List.replicate (H_shape.getD 0 0 * H_shape.getD 2 0 * X_shape.getD 1 0) 0
    let reverse_res_h : List α := List.replicate (H_shape.getD 0 0 * H_shape.getD 2 0) 0
    let args : CellArgs κ :=
      ⟨activation_f, activation_g, "", clip, linear_before_reset⟩
    let shapes : List Shape :=
      [X_shape, seq_lengths_shape, H_shape, W_shape, R_shape, B_shape]
    -- update H,W,R,B shapes after split
    let shapes := shapes.set 2 ((shapes.getD 2 []).set 1 1)
    let shapes := (List.range' 3 (shapes.length - 3)).foldl
      (fun shapes i => shapes.set i ((shapes.getD i []).set 0 1)) shapes
    -- forward pass
    let fwd := cell_pass ev CellType.GRU
      [X, seq_lengths, H_split.getD 0 [], W_split.getD 0 [], R_split.getD 0 [],
        B_split.getD 0 []]
      shapes [forward_res_y, forward_res_h] args false
    -- reverse pass
    let rev := cell_pass ev CellType.GRU
      [X, seq_lengths, H_split.getD 1 [], W_split.getD 1 [], R_split.getD 1 [],
        B_split.getD 1 []]
      shapes [reverse_res_y, reverse_res_h] args true
    -- stack together respective outputs from both forward and reverse passes
    let in_shapes_y : List Shape :=
      [[H_shape.getD 0 0, 1, X_shape.getD 1 0, H_shape.getD 2 0],
       [H_shape.getD 0 0, 1, X_shape.getD 1 0, H_shape.getD 2 0]]
    let in_shapes_h : List Shape :=
      [[H_shape.getD 0 0, 1, H_shape.getD 2 0], [H_shape.getD 0 0, 1, H_shape.getD 2 0]]
    let output_shape_y : Shape := [H_shape.getD 0 0, 2, X_shape.getD 1 0, H_shape.getD 2 0]
    let output_shape_h : Shape := [H_shape.getD 0 0, 2, H_shape.getD 2 0]
    (store Y (concat [fwd.getD 0 [], rev.getD 0 []] in_shapes_y output_shape_y 1),
     store Ho (concat [fwd.getD 1 [], rev.getD 1 []] in_shapes_h output_shape_h 1))
  else (Y, Ho)

/-- The function `rnn_sequence<T>`: the contents of the caller's buffers `Y` and `Ho` after
the call. -/
def rnn_sequence [Zero α] (ev : CellEvaluators α κ)
    (X : List α) (X_shape : Shape) (H : List α) (H_shape : Shape)
    (seq_lengths : List α) (seq_lengths_shape : Shape)
    (W : List α) (W_shape : Shape) (R : List α) (R_shape : Shape)
    (B : List α) (B_shape : Shape) (Y Ho : List α)
    (activation_f : String) (clip : κ)
    (direction : RecurrentSequenceDirection) : List α × List α :=
  if direction = FORWARD ∨ direction = REVERSE then
    let args : CellArgs κ := ⟨activation_f, "", "", clip, false⟩
    let inputs : List (List α) := [X, seq_lengths, H, W, R, B]
    let outputs : List (List α) := [Y, Ho]
    let shapes : List Shape :=
      [X_shape, seq_lengths_shape, H_shape, W_shape, R_shape, B_shape]
    let outputs := cell_pass ev CellType.RNN inputs shapes outputs args
      (decide (direction = REVERSE))
    (outputs.getD 0 [], outputs.getD 1 [])
  else if direction = BIDIRECTIONAL then
    -- split inputs
    let H_split : List (List α) := List.replicate 2 (List.replicate (shape_size H_shape / 2) 0)
    let W_split : List (List α) := List.replicate 2 (List.replicate (shape_size W_shape / 2) 0)
    let R_split : List (List α) := List.replicate 2 (List.replicate (shape_size R_shape / 2) 0)
    let B_split : List (List α) := List.replicate 2 (List.replicate (shape_size B_shape / 2) 0)
    let H_split := split_into H H_shape 1 2 [some 0, some 1] H_split
    let W_split := split_into W W_shape 0 2 [some 0, some 1] W_split
    let R_split := split_into R R_shape 0 2 [some 0, some 1] R_split
    let B_split := split_into B B_shape 0 2 [some 0, some 1] B_split
    let forward_res_y : List α :=
      List.replicate (H_shape.getD 0 0 * H_shape.getD 2 0 * X_shape.getD 1 0) 0
    let forward_res_h : List α := List.replicate (H_shape.getD 0 0 * H_shape.getD 2 0) 0
    let reverse_res_y : List α :=
      List.replicate (H_shape.getD 0 0 * H_shape.getD 2 0 * X_shape.getD 1 0) 0
    let reverse_res_h : List α := List.replicate (H_shape.getD 0 0 * H_shape.getD 2 0) 0
    let args : CellArgs κ := ⟨activation_f, "", "", clip, false⟩
    let shapes : List Shape :=
      [X_shape, seq_lengths_shape, H_shape, W_shape, R_shape, B_shape]
    -- update H,W,R,B shapes after split
    let shapes := shapes.set 2 ((shapes.getD 2 []).set 1 1)
    let shapes := (List.range' 3 (shapes.length - 3)).foldl
      (fun shapes i => shapes.set i ((shapes.getD i []).set 0 1)) shapes
    -- forward pass
    let fwd := cell_pass ev CellType.RNN
      [X, seq_lengths, H_split.getD 0 [], W_split.getD 0 [], R_split.getD 0 [],
        B_split.getD 0 []]
      shapes [forward_res_y, forward_res_h] args false
    -- reverse pass
    let rev := cell_pass ev CellType.RNN
      [X, seq_lengths, H_split.getD 1 [], W_split.getD 1 [], R_split.getD 1 [],
        B_split.getD 1 []]
      shapes [reverse_res_y, reverse_res_h] args true
    -- stack together respective outputs from both forward and reverse passes
    let in_shapes_y : List Shape :=
      [[H_shape.getD 0 0, 1, X_shape.getD 1 0, H_shape.getD 2 0],
       [H_shape.getD 0 0, 1, X_shape.getD 1 0, H_shape.getD 2 0]]
    let in_shapes_h : List Shape :=
      [[H_shape.getD 0 0, 1, H_shape.getD 2 0], [H_shape.getD 0 0, 1, H_shape.getD 2 0]]
    let output_shape_y : Shape := [H_shape.getD 0 0, 2, X_shape.getD 1 0, H_shape.getD 2 0]
    let output_shape_h : Shape := [H_shape.getD 0 0, 2, H_shape.getD 2 0]
    (store Y (concat [fwd.getD 0 [], rev.getD 0 []] in_shapes_y output_shape_y 1),
     store Ho (concat [fwd.getD 1 [], rev.getD 1 []] in_shapes_h output_shape_h 1))
  else (Y, Ho)

end Adapters

/-! ## Auxiliary definitions used in the statements -/

section Auxiliary

variable {α κ : Type}

/-- The index map of the two pointer-assignment loops of `cell_pass`. -/
def dir_index (is_reverse : Bool) (n i : Nat) : Nat := if is_reverse then n - i - 1 else i

/-- The content of `in_seqs[t]` after the split of `X`: the input of iteration `t`. -/
def step_input [Zero α] (inputs : List (List α)) (shapes : List Shape) (is_reverse : Bool)
    (t : Nat) : List α :=
  store (List.replicate (shape_size (shapes.getD 0 []) / (shapes.getD 0 []).getD 1 0) 0)
    ((split (inputs.getD 0 []) (shapes.getD 0 []) 1 ((shapes.getD 0 []).getD 1 0)).getD
      (dir_index is_reverse ((shapes.getD 0 []).getD 1 0) t) [])

/-- The output buffers after the initial state(s) have been copied into them. -/
def init_state (type : CellType) (inputs : List (List α)) (shapes : List Shape)
    (outputs : List (List α)) : List (List α) :=
  if type = CellType.LSTM then
    (outputs.set 1 (memcpy (outputs.getD 1 []) (inputs.getD 2 []) (shape_size (shapes.getD 2 [])))).set 2
      (memcpy ((outputs.set 1 (memcpy (outputs.getD 1 []) (inputs.getD 2 [])
        (shape_size (shapes.getD 2 [])))).getD 2 []) (inputs.getD 3 []) (shape_size (shapes.getD 3 [])))
  else outputs.set 1 (memcpy (outputs.getD 1 []) (inputs.getD 2 []) (shape_size (shapes.getD 2 [])))

/-- The output buffers after `m` iterations of the time loop of `cell_pass`. -/
def run_steps [Zero α] (ev : CellEvaluators α κ) (type : CellType) (inputs : List (List α))
    (shapes : List Shape) (args : CellArgs κ) (is_reverse : Bool) (outputs : List (List α))
    (m : Nat) : List (List α) :=
  (List.range m).foldl
    (fun o t => cell_step ev type inputs shapes args (step_input inputs shapes is_reverse t) o)
    (init_state type inputs shapes outputs)

/-- The content of `h_list[t]` after the time loop: the hidden state captured in
iteration `t`. -/
def captured [Zero α] (ev : CellEvaluators α κ) (type : CellType) (inputs : List (List α))
    (shapes : List Shape) (args : CellArgs κ) (is_reverse : Bool) (outputs : List (List α))
    (t : Nat) : List α :=
  memcpy (List.replicate (shape_size [(shapes.getD 0 []).getD 0 0, 1, (shapes.getD 2 []).getD 2 0]) 0)
    ((run_steps ev type inputs shapes args is_reverse outputs (t + 1)).getD 1 [])
    (shape_size [(shapes.getD 0 []).getD 0 0, 1, (shapes.getD 2 []).getD 2 0])

/-- Interleaving of the parts: for each outer index, one block of `sz` elements of every
part in turn. -/
def gather (b sz : Nat) (parts : List (List α)) : List α :=
  (List.range b).flatMap fun o => parts.flatMap fun a => (a.drop (o * sz)).take sz

/-- Reversal of a tensor of shape `[batch, T, ...]` along the time axis (axis 1): block
`(o, t)` of the result is block `(o, T - 1 - t)` of `data`. -/
def time_reverse (data : List α) (shape : Shape) : List α :=
  (List.range (shape.getD 0 0)).flatMap fun o =>
    (List.range (shape.getD 1 0)).flatMap fun t =>
      (data.drop ((o * shape.getD 1 0 + (shape.getD 1 0 - 1 - t)) * (shape.drop 2).prod)).take
        (shape.drop 2).prod

/-- The state values `(H, C)` returned by one evaluation of the cell of the given kind on the
step input `x` and the previous state `s = (H, C)`; the weights, recurrence weights and bias
are read from `inputs` at the positions `cell_pass` uses for the kind. For the kinds with a
single state the second component is passed through. -/
def evaluate_cell (ev : CellEvaluators α κ) (type : CellType) (inputs : List (List α))
    (shapes : List Shape) (args : CellArgs κ) (x : List α) (s : List α × List α) :
    List α × List α :=
  match type with
  | CellType.LSTM =>
    ev.lstm_cell x (squeeze_axis (shapes.getD 0 []) 1)
      s.1 (squeeze_axis (shapes.getD 2 []) 1)
      s.2 (squeeze_axis (shapes.getD 3 []) 1)
      (inputs.getD 4 []) (squeeze_axis (shapes.getD 4 []) 0)
      (inputs.getD 5 []) (squeeze_axis (shapes.getD 5 []) 0)
      (inputs.getD 6 []) (squeeze_axis (shapes.getD 6 []) 0)
      args.activation_f args.activation_g args.activation_h args.clip
  | CellType.RNN =>
    (ev.rnn_cell x (squeeze_axis (shapes.getD 0 []) 1)
      s.1 (squeeze_axis (shapes.getD 2 []) 1)
      (inputs.getD 3 []) (squeeze_axis (shapes.getD 3 []) 0)
      (inputs.getD 4 []) (squeeze_axis (shapes.getD 4 []) 0)
      (inputs.getD 5 []) (squeeze_axis (shapes.getD 5 []) 0)
      args.activation_f args.clip, s.2)
  | CellType.GRU =>
    (ev.gru_cell x (squeeze_axis (shapes.getD 0 []) 1)
      s.1 (squeeze_axis (shapes.getD 2 []) 1)
      (inputs.getD 3 []) (squeeze_axis (shapes.getD 3 []) 0)
      (inputs.getD 4 []) (squeeze_axis (shapes.getD 4 []) 0)
      (inputs.getD 5 []) (squeeze_axis (shapes.getD 5 []) 0)
      args.activation_f args.activation_g args.clip args.linear_before_reset, s.2)

/-- One application of the cell evaluator to the running state buffers `s = (H, C)`: the
evaluator overwrites the running state buffers in place with the new state(s). -/
def state_step (ev : CellEvaluators α κ) (type : CellType) (inputs : List (List α))
    (shapes : List Shape) (args : CellArgs κ) (x : List α) (s : List α × List α) :
    List α × List α :=
  (store s.1 (evaluate_cell ev type inputs shapes args x s).1,
   store s.2 (evaluate_cell ev type inputs shapes args x s).2)

/-- The running state buffers before the first cell evaluation: the caller's initial hidden
state (and, for LSTM, cell state) copied into the output-state memory. -/
def initial_state (type : CellType) (inputs : List (List α)) (shapes : List Shape)
    (outputs : List (List α)) : List α × List α :=
  (memcpy (outputs.getD 1 []) (inputs.getD 2 []) (shape_size (shapes.getD 2 [])),
   if type = CellType.LSTM then
     memcpy (outputs.getD 2 []) (inputs.getD 3 []) (shape_size (shapes.getD 3 []))
   else outputs.getD 2 [])

/-- The time slices `X[:,0,:], ..., X[:,T-1,:]` of a tensor of shape `[batch, T, input]`. -/
def time_slices (X : List α) (X_shape : Shape) : List (List α) :=
  (List.range (X_shape.getD 1 0)).map fun t => slice_axis X X_shape 1 t (t + 1)

/-- The time slices in the order of consumption: `X[:,0,:], ..., X[:,T-1,:]` when
`is_reverse` is false and `X[:,T-1,:], ..., X[:,0,:]` when it is true. -/
def ordered_slices (X : List α) (X_shape : Shape) (is_reverse : Bool) : List (List α) :=
  if is_reverse then (time_slices X X_shape).reverse else time_slices X X_shape

/-- The running state buffers after the first `m` cell evaluations. -/
def state_after (ev : CellEvaluators α κ) (type : CellType) (inputs : List (List α))
    (shapes : List Shape) (args : CellArgs κ) (is_reverse : Bool) (outputs : List (List α))
    (m : Nat) : List α × List α :=
  ((ordered_slices (inputs.getD 0 []) (shapes.getD 0 []) is_reverse).take m).foldl
    (fun s x => state_step ev type inputs shapes args x s)
    (initial_state type inputs shapes outputs)

/-- The content of the scratch buffer `*_split[i]` of a bidirectional adapter after the
two-way split of `data` along `axis`. -/
def split_half [Zero α] (data : List α) (shape : Shape) (axis i : Nat) : List α :=
  store (List.replicate (shape_size shape / 2) 0) ((split data shape axis 2).getD i [])

/-- The slices at direction index `i` of the outputs `(Y, Hn, Cn)` of a bidirectional
`lstm_sequence` call: `(Y[:,i,:,:], Hn[:,i,:], Cn[:,i,:])`. -/
def direction_slice3 (out : List α × List α × List α) (batch T hidden i : Nat) :
    List α × List α × List α :=
  (slice_axis out.1 [batch, 2, T, hidden] 1 i (i + 1),
   slice_axis out.2.1 [batch, 2, hidden] 1 i (i + 1),
   slice_axis out.2.2 [batch, 2, hidden] 1 i (i + 1))

/-- The slices at direction index `i` of the outputs `(Y, Hn)` of a bidirectional
`gru_sequence` or `rnn_sequence` call: `(Y[:,i,:,:], Hn[:,i,:])`. -/
def direction_slice2 (out : List α × List α) (batch T hidden i : Nat) : List α × List α :=
  (slice_axis out.1 [batch, 2, T, hidden] 1 i (i + 1),
   slice_axis out.2 [batch, 2, hidden] 1 i (i + 1))

/-- One of the two passes of the bidirectional branch of `lstm_sequence`, on its scratch
buffers: the forward pass is `i = 0`, `is_reverse = false`, the reverse pass is `i = 1`,
`is_reverse = true`. The result lists the contents of `*_res_y`, `*_res[0]` and
`*_res[1]` after the pass. -/
def lstm_branch [Zero α] (ev : CellEvaluators α κ)
    (X : List α) (X_shape : Shape) (H : List α) (H_shape : Shape)
    (C : List α) (C_shape : Shape) (seq_lengths : List α) (seq_lengths_shape : Shape)
    (W : List α) (W_shape : Shape) (R : List α) (R_shape : Shape)
    (B : List α) (B_shape : Shape)
    (activation_f activation_g activation_h : String) (clip : κ)
    (i : Nat) (is_reverse : Bool) : List (List α) :=
  cell_pass ev CellType.LSTM
    [X, seq_lengths, split_half H H_shape 1 i, split_half C C_shape 1 i,
      split_half W W_shape 0 i, split_half R R_shape 0 i, split_half B B_shape 0 i]
    [X_shape, seq_lengths_shape, H_shape.set 1 1, C_shape.set 1 1, W_shape.set 0 1,
      R_shape.set 0 1, B_shape.set 0 1]
    [List.replicate (H_shape.getD 0 0 * H_shape.getD 2 0 * X_shape.getD 1 0) 0,
      List.replicate (H_shape.getD 0 0 * H_shape.getD 2 0) 0,
      List.replicate (H_shape.getD 0 0 * H_shape.getD 2 0) 0]
    ⟨activation_f, activation_g, activation_h, clip, false⟩ is_reverse

/-- One of the two passes of the bidirectional branch of `gru_sequence` (`type = GRU`) or
`rnn_sequence` (`type = RNN`), on its scratch buffers: the forward pass is `i = 0`,
`is_reverse = false`, the reverse pass is `i = 1`, `is_reverse = true`. The result lists
the contents of `*_res_y` and `*_res_h` after the pass. -/
def single_state_branch [Zero α] (ev : CellEvaluators α κ) (type : CellType)
    (X : List α) (X_shape : Shape) (H : List α) (H_shape : Shape)
    (seq_lengths : List α) (seq_lengths_shape : Shape)
    (W : List α) (W_shape : Shape) (R : List α) (R_shape : Shape)
    (B : List α) (B_shape : Shape) (args : CellArgs κ)
    (i : Nat) (is_reverse : Bool) : List (List α) :=
  cell_pass ev type
    [X, seq_lengths, split_half H H_shape 1 i, split_half W W_shape 0 i,
      split_half R R_shape 0 i, split_half B B_shape 0 i]
    [X_shape, seq_lengths_shape, H_shape.set 1 1, W_shape.set 0 1, R_shape.set 0 1,
      B_shape.set 0 1]
    [List.replicate (H_shape.getD 0 0 * H_shape.getD 2 0 * X_shape.getD 1 0) 0,
      List.replicate (H_shape.getD 0 0 * H_shape.getD 2 0) 0]
    args is_reverse

/-- Element-wise sum of two tensors of the same shape. -/
def vadd [Add α] (a b : List α) : List α := List.zipWith (· + ·) a b

/-- The sum `H0 + Σ_{i ≤ t} mulW (X_i)` over the time slices `X_i = X[:,i,:]`, added to `H0`
one after the other in the order `i = 0, ..., t`. -/
def prefix_sum [Add α] (mulW : List α → List α) (H0 X : List α) (X_shape : Shape) (t : Nat) :
    List α :=
  ((List.range (t + 1)).map fun i => mulW (slice_axis X X_shape 1 i (i + 1))).foldl vadd H0

/-- Modelled from the spec: the Plain cell evaluator `rnn_cell` (`rnn_cell.hpp` is not part of
the sources), in exact integer arithmetic. For `X` of shape `[batch, input]`, `H` of shape
`[batch, hidden]`, `W` of shape `[hidden, input]`, `R` of shape `[hidden, hidden]` and `B`
of shape `[hidden]` the new state is `f(clip(X · Wᵀ + H · Rᵀ + B))`, where the activation
`f` is the identity and a clip threshold of `0` means that no clipping is applied. -/
def rnn_cell_exact (X : List Int) (X_shape : Shape) (H : List Int) (H_shape : Shape)
    (W : List Int) (_W_shape : Shape) (R : List Int) (_R_shape : Shape)
    (B : List Int) (_B_shape : Shape) (_activation_f : String) (clip : Int) : List Int :=
  (List.range (H_shape.getD 0 0)).flatMap fun n =>
    (List.range (H_shape.getD 1 0)).map fun j =>
      let v :=
        ((List.range (X_shape.getD 1 0)).map fun i =>
          X.getD (n * X_shape.getD 1 0 + i) 0 * W.getD (j * X_shape.getD 1 0 + i) 0).sum +
        ((List.range (H_shape.getD 1 0)).map fun k =>
          H.getD (n * H_shape.getD 1 0 + k) 0 * R.getD (j * H_shape.getD 1 0 + k) 0).sum +
        B.getD j 0
      if clip = 0 then v else max (-clip) (min clip v)

/-- Integer cell evaluators used to instantiate the theorems at concrete inputs. The Plain
cell is `rnn_cell_exact`; the Gated and LongShortTerm cells are integer stand-ins that
return a state of the given state shape and depend on every argument, the previous state
entering with a factor different from one so that the order of the steps matters. -/
def test_cells : CellEvaluators Int Int where
  lstm_cell := fun X _ H H_shape C _ W _ R _ B _ _ _ _ clip =>
    ((List.range (shape_size H_shape)).map fun j =>
        2 * H.getD j 0 + C.getD j 0 + X.sum + W.sum + Int.ofNat j,
     (List.range (shape_size H_shape)).map fun j =>
        3 * C.getD j 0 + H.getD j 0 + X.sum + R.sum + B.sum + clip)
  rnn_cell := rnn_cell_exact
  gru_cell := fun X _ H H_shape W _ R _ B _ _ _ clip linear_before_reset =>
    (List.range (shape_size H_shape)).map fun j =>
      2 * H.getD j 0 + X.sum + W.sum + R.sum + B.sum + clip + Int.ofNat j +
        (if linear_before_reset then 1 else 0)

/-- The product `x · Wᵀ` of `x` of shape `[batch, input]` with `W` of shape
`[hidden, input]`, of shape `[batch, hidden]`. -/
def matmul_t (batch input hidden : Nat) (W x : List Int) : List Int :=
  (List.range batch).flatMap fun n =>
    (List.range hidden).map fun j =>
      ((List.range input).map fun i => x.getD (n * input + i) 0 * W.getD (j * input + i) 0).sum

/-- Example input list of an LSTM `cell_pass` call: `X` of shape `[2, 3, 2]`, `seq_lengths`,
`H0` and `C0` of shape `[2, 1, 2]`, `W`, `R` of shape `[1, 8, 2]` and `B` of shape
`[1, 8]`. -/
def example_inputs : List (List Int) :=
  [[1, 2, 3, 4, 5, 6, 7, 8, 9, 10, 11, 12], [3, 3], [1, 0, 2, 1], [0, 1, 1, 0],
   [1, 2, 3, 4, 5, 6, 7, 8, 9, 10, 11, 12, 13, 14, 15, 16],
   [1, 0, 1, 0, 1, 0, 1, 0, 1, 0, 1, 0, 1, 0, 1, 0], [1, 1, 1, 1, 2, 2, 2, 2]]

/-- The shapes of `example_inputs`. -/
def example_shapes : List Shape :=
  [[2, 3, 2], [2], [2, 1, 2], [2, 1, 2], [1, 8, 2], [1, 8, 2], [1, 8]]

/-- Example cell parameters. -/
def example_args : CellArgs Int := ⟨"sigmoid", "tanh", "tanh", 0, false⟩

/-- The scratch vector `in_seqs` of `cell_pass` after the split of `X` through the pointer
table: `in_seqs[t]` is the step input read by iteration `t` of the time loop. -/
def in_seqs [Zero α] (inputs : List (List α)) (shapes : List Shape) (is_reverse : Bool) :
    List (List α) :=
  split_into (inputs.getD 0 []) (shapes.getD 0 []) 1 ((shapes.getD 0 []).getD 1 0)
    ((List.range ((shapes.getD 0 []).getD 1 0)).foldl
      (fun pointers i =>
        pointers.set (if is_reverse then (shapes.getD 0 []).getD 1 0 - i - 1 else i) (some i))
      (List.replicate ((shapes.getD 0 []).getD 1 0) none))
    (List.replicate ((shapes.getD 0 []).getD 1 0)
      (List.replicate (shape_size (shapes.getD 0 []) / (shapes.getD 0 []).getD 1 0) 0))

/-- The state of the time loop of `cell_pass` (the output buffers and `h_list`) after its
first `m` iterations. -/
def loop_state [Zero α] (ev : CellEvaluators α κ) (type : CellType) (inputs : List (List α))
    (shapes : List Shape) (outputs : List (List α)) (args : CellArgs κ) (is_reverse : Bool)
    (m : Nat) : List (List α) × List (List α) :=
  time_loop ev type inputs shapes args (in_seqs inputs shapes is_reverse)
    (shape_size [(shapes.getD 0 []).getD 0 0, 1, (shapes.getD 2 []).getD 2 0]) m
    (init_state type inputs shapes outputs,
      List.replicate ((shapes.getD 0 []).getD 1 0)
        (List.replicate
          (shape_size [(shapes.getD 0 []).getD 0 0, 1, (shapes.getD 2 []).getD 2 0]) 0))

/-- Integer cell evaluators that behave as `test_cells` when called with the cell parameters
`activation_f`, `activation_g`, `activation_h`, `clip` (LongShortTerm), `activation_f`,
`activation_g`, `clip`, `linear_before_reset` (Gated) or `activation_f`, `clip` (Plain), and
return no elements when called with any other parameters. -/
def test_cells_at (activation_f activation_g activation_h : String) (clip : Int)
    (linear_before_reset : Bool) : CellEvaluators Int Int where
  lstm_cell := fun X Xs H Hs C Cs W Ws R Rs B Bs f g h c =>
    if f = activation_f ∧ g = activation_g ∧ h = activation_h ∧ c = clip then
      test_cells.lstm_cell X Xs H Hs C Cs W Ws R Rs B Bs f g h c
    else ([], [])
  rnn_cell := fun X Xs H Hs W Ws R Rs B Bs f c =>
    if f = activation_f ∧ c = clip then test_cells.rnn_cell X Xs H Hs W Ws R Rs B Bs f c
    else []
  gru_cell := fun X Xs H Hs W Ws R Rs B Bs f g c l =>
    if f = activation_f ∧ g = activation_g ∧ c = clip ∧ l = linear_before_reset then
      test_cells.gru_cell X Xs H Hs W Ws R Rs B Bs f g c l
    else []

/-- The shape list of the bidirectional branch of `lstm_sequence` after the update of the
`H`, `C`, `W`, `R`, `B` shapes: the list handed to both `cell_pass` calls. -/
def lstm_bidirectional_shapes (X_shape seq_lengths_shape H_shape C_shape W_shape R_shape
    B_shape : Shape) : List Shape :=
  let shapes : List Shape :=
    [X_shape, seq_lengths_shape, H_shape, C_shape, W_shape, R_shape, B_shape]
  let shapes := shapes.set 2 ((shapes.getD 2 []).set 1 1)
  let shapes := shapes.set 3 ((shapes.getD 3 []).set 1 1)
  (List.range' 4 (shapes.length - 4)).foldl
    (fun shapes i => shapes.set i ((shapes.getD i []).set 0 1)) shapes

/-- The shape list of the bidirectional branch of `gru_sequence` and of `rnn_sequence`
after the update of the `H`, `W`, `R`, `B` shapes: the list handed to both `cell_pass`
calls. -/
def single_state_bidirectional_shapes (X_shape seq_lengths_shape H_shape W_shape R_shape
    B_shape : Shape) : List Shape :=
  let shapes : List Shape :=
    [X_shape, seq_lengths_shape, H_shape, W_shape, R_shape, B_shape]
  let shapes := shapes.set 2 ((shapes.getD 2 []).set 1 1)
  (List.range' 3 (shapes.length - 3)).foldl
    (fun shapes i => shapes.set i ((shapes.getD i []).set 0 1)) shapes

/-- Checked form of the lambda `squeeze_axis`: the result is `none` when `shape.size() - 1`
wraps around (empty shape) or when a write `new_shape[j]` or a read `shape[i]` is out of
range, and the squeezed shape otherwise. -/
def squeeze_axis_checked (shape : Shape) (axis : Nat) : Option Shape :=
  if shape.length = 0 then none
  else
    Option.map Prod.fst
      (List.foldlM
        (fun (st : Shape × Nat) i =>
          if i ≠ axis then
            if st.2 < st.1.length then
              Option.map (fun d => (st.1.set st.2 d, st.2 + 1)) shape[i]?
            else none
          else some st)
        (List.replicate (shape.length - 1) 0, 0) (List.range shape.length))

/-- The call `squeeze_axis(shapes[k], axis)` with the access `shapes[k]` checked. -/
def squeeze_shape_checked (shapes : List Shape) (k axis : Nat) : Option Shape := do
  let s ← shapes[k]?
  squeeze_axis_checked s axis

/-- Checked form of the two pointer-assignment loops of `cell_pass`
(`pointers[is_reverse ? num_splits - i - 1 : i] = bufs[i].data()` over a vector `bufs` of
`nbufs` buffers): the result is `none` when `bufs[i]` is out of range, when the unsigned
subtraction `num_splits - i - 1` wraps around or when the written slot is out of range. -/
def assign_pointers_checked (is_reverse : Bool) (num_splits nbufs : Nat) :
    Option (List (Option Nat)) :=
  List.foldlM
    (fun (pointers : List (Option Nat)) i =>
      if i < nbufs then
        if is_reverse then
          if i + 1 ≤ num_splits ∧ num_splits - i - 1 < pointers.length then
            some (pointers.set (num_splits - i - 1) (some i))
          else none
        else if i < pointers.length then some (pointers.set i (some i))
        else none
      else none)
    (List.replicate num_splits none) (List.range num_splits)

/-- A pointer-table entry handed to `split` or `concat` is valid when it is not null and
refers to one of the `nbufs` scratch buffers. -/
def valid_pointer (nbufs : Nat) (p : Option Nat) : Bool :=
  match p with
  | some j => decide (j < nbufs)
  | none => false

/-- The operands `inputs[k]`, `inputs[k + 1]`, `inputs[k + 2]` of a cell call (weights,
recurrence weights, bias), each with its shape squeezed along axis 0, every access
checked. -/
def weight_operands_checked (inputs : List (List α)) (shapes : List Shape) (k : Nat) :
    Option ((List α × Shape) × (List α × Shape) × (List α × Shape)) := do
  let w ← inputs[k]?
  let qw ← squeeze_shape_checked shapes k 0
  let r ← inputs[k + 1]?
  let qr ← squeeze_shape_checked shapes (k + 1) 0
  let b ← inputs[k + 2]?
  let qb ← squeeze_shape_checked shapes (k + 2) 0
  pure ((w, qw), (r, qr), (b, qb))

/-- Checked form of `cell_step`: every access `shapes[k]`, `inputs[k]`, `outputs[k]` and
every `squeeze_axis` call is checked; the result is `none` when one of them is out of
range. -/
def cell_step_checked (ev : CellEvaluators α κ) (type : CellType) (inputs : List (List α))
    (shapes : List Shape) (args : CellArgs κ) (x : List α) (outputs : List (List α)) :
    Option (List (List α)) :=
  match type with
  | CellType.LSTM => do
    let q0 ← squeeze_shape_checked shapes 0 1
    let h ← outputs[1]?
    let q2 ← squeeze_shape_checked shapes 2 1
    let c ← outputs[2]?
    let q3 ← squeeze_shape_checked shapes 3 1
    let p ← weight_operands_checked inputs shapes 4
    let res := ev.lstm_cell x q0 h q2 c q3 p.1.1 p.1.2 p.2.1.1 p.2.1.2 p.2.2.1 p.2.2.2
      args.activation_f args.activation_g args.activation_h args.clip
    pure ((outputs.set 1 (store h res.1)).set 2 (store c res.2))
  | CellType.RNN => do
    let q0 ← squeeze_shape_checked shapes 0 1
    let h ← outputs[1]?
    let q2 ← squeeze_shape_checked shapes 2 1
    let p ← weight_operands_checked inputs shapes 3
    pure (outputs.set 1 (store h
      (ev.rnn_cell x q0 h q2 p.1.1 p.1.2 p.2.1.1 p.2.1.2 p.2.2.1 p.2.2.2
        args.activation_f args.clip)))
  | CellType.GRU => do
    let q0 ← squeeze_shape_checked shapes 0 1
    let h ← outputs[1]?
    let q2 ← squeeze_shape_checked shapes 2 1
    let p ← weight_operands_checked inputs shapes 3
    pure (outputs.set 1 (store h
      (ev.gru_cell x q0 h q2 p.1.1 p.1.2 p.2.1.1 p.2.1.2 p.2.2.1 p.2.2.2
        args.activation_f args.activation_g args.clip args.linear_before_reset)))

/-- Checked form of `time_loop`: the accesses `in_seqs[time_step]`, `h_list[time_step]` and
`outputs[1]` and the cell step are checked in every iteration. -/
def time_loop_checked (ev : CellEvaluators α κ) (type : CellType) (inputs : List (List α))
    (shapes : List Shape) (args : CellArgs κ) (in_seqs : List (List α))
    (part_shape_size num_splits : Nat) (st : List (List α) × List (List α)) :
    Option (List (List α) × List (List α)) :=
  List.foldlM
    (fun (st : List (List α) × List (List α)) time_step => do
      let x ← in_seqs[time_step]?
      let outputs ← cell_step_checked ev type inputs shapes args x st.1
      let hbuf ← st.2[time_step]?
      let h ← outputs[1]?
      pure (outputs, st.2.set time_step (memcpy hbuf h part_shape_size)))
    st (List.range num_splits)

/-- Checked form of the first part of `cell_pass` (the split of `X`): the result is
`num_splits` and the vector `in_seqs` after the split, or `none` when `shapes[0]`,
`shapes[0].at(1)` or `inputs[0]` is out of range, when the divisor `num_splits` of
`x_shape_size / num_splits` is zero, when the pointer loop fails or when the pointer table
handed to `split` holds an unassigned entry. -/
def split_input_checked [Zero α] (inputs : List (List α)) (shapes : List Shape)
    (is_reverse : Bool) : Option (Nat × List (List α)) := do
  let s0 ← shapes[0]?
  let x_shape_size := shape_size s0
  let num_splits ← s0[1]?
  if num_splits = 0 then none
  else do
    let in_seqs : List (List α) :=
      List.replicate num_splits (List.replicate (x_shape_size / num_splits) 0)
    let pointers ← assign_pointers_checked is_reverse num_splits in_seqs.length
    let X ← inputs[0]?
    if pointers.all (valid_pointer in_seqs.length) = false then none
    else pure (num_splits, split_into X s0 1 num_splits pointers in_seqs)

/-- Checked form of `Shape part_shape{shapes[0][0], 1, shapes[2][2]}`. -/
def part_shape_checked (shapes : List Shape) : Option Shape := do
  let s0 ← shapes[0]?
  let d00 ← s0[0]?
  let s2 ← shapes[2]?
  let d22 ← s2[2]?
  pure [d00, 1, d22]

/-- Checked form of the copies of the initial state(s) into `outputs[1]` (and `outputs[2]`
for LSTM). -/
def init_state_checked (type : CellType) (inputs : List (List α)) (shapes : List Shape)
    (outputs : List (List α)) : Option (List (List α)) := do
  let o1 ← outputs[1]?
  let H ← inputs[2]?
  let s2 ← shapes[2]?
  let outputs := outputs.set 1 (memcpy o1 H (shape_size s2))
  if type = CellType.LSTM then do
    let o2 ← outputs[2]?
    let C ← inputs[3]?
    let s3 ← shapes[3]?
    pure (outputs.set 2 (memcpy o2 C (shape_size s3)))
  else pure outputs

/-- Checked form of the output shape `{shapes[0][0], shapes[0][1], shapes[2][2]}` handed to
`concat`. -/
def out_shape_checked (shapes : List Shape) : Option Shape := do
  let s0 ← shapes[0]?
  let d00 ← s0[0]?
  let d01 ← s0[1]?
  let s2 ← shapes[2]?
  let d22 ← s2[2]?
  pure [d00, d01, d22]

/-- Checked form of the last part of `cell_pass` (the concatenation of `h_list` into
`outputs[0]`) on the state `st` left by the time loop. -/
def concat_output_checked (shapes : List Shape) (is_reverse : Bool) (num_splits : Nat)
    (part_shape : Shape) (st : List (List α) × List (List α)) : Option (List (List α)) := do
  let to_concat_pointers ← assign_pointers_checked is_reverse num_splits st.2.length
  if to_concat_pointers.all (valid_pointer st.2.length) = false then none
  else do
    let o0 ← st.1[0]?
    let out_shape ← out_shape_checked shapes
    pure (st.1.set 0 (store o0
      (concat (to_concat_pointers.map (deref st.2)) (List.replicate num_splits part_shape)
        out_shape 1)))

/-- Checked form of `cell_pass`: the same computation with every vector access
(`shapes[k]`, `shapes[k][j]`, `inputs[k]`, `outputs[k]`, `pointers[..]`,
`to_concat_pointers[..]`, `in_seqs[..]`, `h_list[..]`, the accesses of `squeeze_axis`), the
divisor of `x_shape_size / num_splits` and the pointer tables handed to `split` and
`concat` checked. The result is `none` when an index is out of range, an unsigned
subtraction wraps around, the divisor is zero or a pointer table holds an unassigned
entry. -/
def cell_pass_checked [Zero α] (ev : CellEvaluators α κ) (type : CellType)
    (inputs : List (List α)) (shapes : List Shape) (outputs : List (List α))
    (args : CellArgs κ) (is_reverse : Bool) : Option (List (List α)) := do
  let p ← split_input_checked inputs shapes is_reverse
  let part_shape ← part_shape_checked shapes
  let h_list : List (List α) := List.replicate p.1 (List.replicate (shape_size part_shape) 0)
  let outputs ← init_state_checked type inputs shapes outputs
  let st ← time_loop_checked ev type inputs shapes args p.2 (shape_size part_shape) p.1
    (outputs, h_list)
  concat_output_checked shapes is_reverse p.1 part_shape st

/-- The tensor that the final `concat` call of `cell_pass` writes through `outputs[0]`: the
buffers of `h_list` after the time loop, in the order of `to_concat_pointers`, joined along
axis 1. -/
def concat_result [Zero α] (ev : CellEvaluators α κ) (type : CellType)
    (inputs : List (List α)) (shapes : List Shape) (outputs : List (List α))
    (args : CellArgs κ) (is_reverse : Bool) : List α :=
  concat
    (((List.range ((shapes.getD 0 []).getD 1 0)).foldl
        (fun pointers i =>
          pointers.set (if is_reverse then (shapes.getD 0 []).getD 1 0 - i - 1 else i) (some i))
        (List.replicate ((shapes.getD 0 []).getD 1 0) none)).map
      (deref (loop_state ev type inputs shapes outputs args is_reverse
        ((shapes.getD 0 []).getD 1 0)).2))
    (List.replicate ((shapes.getD 0 []).getD 1 0)
      [(shapes.getD 0 []).getD 0 0, 1, (shapes.getD 2 []).getD 2 0])
    [(shapes.getD 0 []).getD 0 0, (shapes.getD 0 []).getD 1 0, (shapes.getD 2 []).getD 2 0] 1

/-- The input list of pass `i` of the bidirectional branch of `lstm_sequence`: `X`,
`seq_lengths` and the scratch buffers `H_split[i]`, `C_split[i]`, `W_split[i]`,
`R_split[i]`, `B_split[i]`. -/
def lstm_branch_inputs [Zero α] (X seq_lengths H : List α) (H_shape : Shape) (C : List α)
    (C_shape : Shape) (W : List α) (W_shape : Shape) (R : List α) (R_shape : Shape)
    (B : List α) (B_shape : Shape) (i : Nat) : List (List α) :=
  [X, seq_lengths, split_half H H_shape 1 i, split_half C C_shape 1 i,
    split_half W W_shape 0 i, split_half R R_shape 0 i, split_half B B_shape 0 i]

/-- The input list of pass `i` of the bidirectional branch of `gru_sequence` and of
`rnn_sequence`: `X`, `seq_lengths` and the scratch buffers `H_split[i]`, `W_split[i]`,
`R_split[i]`, `B_split[i]`. -/
def single_state_branch_inputs [Zero α] (X seq_lengths H : List α) (H_shape : Shape)
    (W : List α) (W_shape : Shape) (R : List α) (R_shape : Shape)
    (B : List α) (B_shape : Shape) (i : Nat) : List (List α) :=
  [X, seq_lengths, split_half H H_shape 1 i, split_half W W_shape 0 i,
    split_half R R_shape 0 i, split_half B B_shape 0 i]

/-- The freshly created scratch output buffers of one pass of the bidirectional branch of
`lstm_sequence`: the output-sequence buffer `*_res_y` and the two state buffers
`*_res[0]`, `*_res[1]`. -/
def lstm_scratch_outputs [Zero α] (X_shape H_shape : Shape) : List (List α) :=
  [List.replicate (H_shape.getD 0 0 * H_shape.getD 2 0 * X_shape.getD 1 0) 0,
    List.replicate (H_shape.getD 0 0 * H_shape.getD 2 0) 0,
    List.replicate (H_shape.getD 0 0 * H_shape.getD 2 0) 0]

/-- The freshly created scratch output buffers of one pass of the bidirectional branch of
`gru_sequence` and of `rnn_sequence`: the output-sequence buffer `*_res_y` and the state
buffer `*_res_h`. -/
def single_state_scratch_outputs [Zero α] (X_shape H_shape : Shape) : List (List α) :=
  [List.replicate (H_shape.getD 0 0 * H_shape.getD 2 0 * X_shape.getD 1 0) 0,
    List.replicate (H_shape.getD 0 0 * H_shape.getD 2 0) 0]

end Auxiliary

/-! ## Lemmas on buffers, pointer tables and the time loop -/

section Lemmas

variable {α κ : Type}

theorem length_store (dst vals : List α) : (store dst vals).length = dst.length := by
  simp [store]
  omega

theorem length_memcpy (dst src : List α) (n : Nat) : (memcpy dst src n).length = dst.length :=
  length_store _ _

theorem capture_loop (step : Nat → List (List α) → List (List α)) (pss : Nat)
    (o0 hl0 : List (List α)) (m : Nat) (hm : m ≤ hl0.length) :
    (List.range m).foldl
      (fun (st : List (List α) × List (List α)) t =>
        (step t st.1, st.2.set t (memcpy (st.2.getD t []) ((step t st.1).getD 1 []) pss)))
      (o0, hl0) =
    ((List.range m).foldl (fun o t => step t o) o0,
     (List.range m).map (fun t => memcpy (hl0.getD t [])
        (((List.range (t + 1)).foldl (fun o t => step t o) o0).getD 1 []) pss) ++ hl0.drop m) := by
  induction m with
  | zero => simp
  | succ m ih =>
    rw [List.range_succ, List.foldl_append, ih (by omega)]
    simp only [List.foldl_cons, List.foldl_nil, List.map_append, List.map_cons, List.map_nil,
      List.foldl_append]
    congr 1
    have hlt : m < hl0.length := by omega
    rw [List.set_append]
    simp only [List.length_map, List.length_range, lt_self_iff_false, ↓reduceIte, Nat.sub_self]
    rw [List.drop_eq_getElem_cons hlt]
    simp only [List.set_cons_zero, List.append_assoc, List.singleton_append]
    congr 3
    · rw [List.getD_eq_getElem?_getD, List.getD_eq_getElem?_getD,
        List.getElem?_append_right (by simp)]
      simp [hlt]
    · rw [List.range_succ, List.foldl_append]
      rfl

theorem foldl_set_spec {β : Type} (f : Nat → Nat) (G : Nat → List β → β) (init : List β) (m : Nat)
    (hinj : ∀ i j, i < m → j < m → f i = f j → i = j) :
    ((List.range m).foldl (fun b i => b.set (f i) (G i b)) init).length = init.length ∧
    (∀ k, (∀ i, i < m → f i ≠ k) →
      ((List.range m).foldl (fun b i => b.set (f i) (G i b)) init)[k]? = init[k]?) := by
  induction m with
  | zero => simp
  | succ m ih =>
    have ih' := ih (fun i j hi hj => hinj i j (by omega) (by omega))
    rw [List.range_succ, List.foldl_append]
    simp only [List.foldl_cons, List.foldl_nil, List.length_set]
    refine ⟨ih'.1, ?_⟩
    intro k hk
    rw [List.getElem?_set_ne (hk m (by omega))]
    exact ih'.2 k (fun i hi => hk i (by omega))

theorem foldl_set_assigned {β : Type} (f : Nat → Nat) (g : Nat → β → β) (d : β)
    (init : List β) (m : Nat)
    (hinj : ∀ i j, i < m → j < m → f i = f j → i = j)
    (hlt : ∀ i, i < m → f i < init.length) :
    ∀ i, i < m →
    ((List.range m).foldl (fun b i => b.set (f i) (g i (b.getD (f i) d))) init)[f i]? =
      some (g i (init.getD (f i) d)) := by
  induction m with
  | zero => intro i hi; omega
  | succ m ih =>
    intro i hi
    have hinj' : ∀ i j, i < m → j < m → f i = f j → i = j :=
      fun i j hi hj => hinj i j (by omega) (by omega)
    have hs := foldl_set_spec f (fun i b => g i (b.getD (f i) d)) init m hinj'
    rw [List.range_succ, List.foldl_append]
    simp only [List.foldl_cons, List.foldl_nil]
    by_cases him : i = m
    · subst him
      rw [List.getElem?_set_eq_of_lt]
      · have := hs.2 (f i) (fun j hj hfj => by have := hinj j i (by omega) (by omega) hfj; omega)
        simp only [List.getD_eq_getElem?_getD] at this ⊢
        rw [this]
      · rw [hs.1]; exact hlt i (by omega)
    · have hne : f m ≠ f i := fun h => him (hinj i m hi (by omega) h.symm)
      rw [List.getElem?_set_ne hne]
      exact ih hinj' (fun j hj => hlt j (by omega)) i (by omega)

theorem dir_index_lt (r : Bool) (n i : Nat) (h : i < n) : dir_index r n i < n := by
  unfold dir_index; split <;> omega

theorem dir_index_invol (r : Bool) (n i : Nat) (h : i < n) :
    dir_index r n (dir_index r n i) = i := by
  unfold dir_index; cases r
  · simp
  · simp; omega

theorem dir_index_inj (r : Bool) (n i j : Nat) (hi : i < n) (hj : j < n)
    (h : dir_index r n i = dir_index r n j) : i = j := by
  unfold dir_index at h; cases r <;> simp at h <;> omega

/-- A loop assigning slot `dir_index i` in iteration `i`, for `i < n`, fills all `n` slots. -/
theorem perm_loop {β : Type} (r : Bool) (n : Nat) (g : Nat → β → β) (d : β) (init : List β)
    (hlen : init.length = n) :
    (List.range n).foldl
      (fun b i => b.set (if r then n - i - 1 else i) (g i (b.getD (if r then n - i - 1 else i) d)))
      init =
    (List.range n).map (fun k => g (dir_index r n k) (init.getD k d)) := by
  have hinj : ∀ i j, i < n → j < n → dir_index r n i = dir_index r n j → i = j :=
    fun i j hi hj h => dir_index_inj r n i j hi hj h
  have hs := foldl_set_spec (dir_index r n) (fun i b => g i (b.getD (dir_index r n i) d)) init n hinj
  apply List.ext_getElem?
  intro k
  by_cases hk : k < n
  · have h1 := foldl_set_assigned (dir_index r n) g d init n hinj
      (fun i hi => by rw [hlen]; exact dir_index_lt r n i hi) (dir_index r n k) (dir_index_lt r n k hk)
    rw [dir_index_invol r n k hk] at h1
    simp only [dir_index] at h1 ⊢
    rw [h1]
    simp [hk, dir_index]
  · have hs1 := hs.1
    simp only [dir_index] at hs1
    rw [List.getElem?_eq_none (by rw [hs1, hlen]; omega), List.getElem?_eq_none (by simp; omega)]

theorem pointer_table (r : Bool) (n : Nat) :
    (List.range n).foldl
      (fun (pointers : List (Option Nat)) i => pointers.set (if r then n - i - 1 else i) (some i))
      (List.replicate n none) =
    (List.range n).map (fun k => some (dir_index r n k)) := by
  have := perm_loop r n (fun i (_ : Option Nat) => some i) none (List.replicate n none) (by simp)
  simpa using this

theorem split_into_table (data : List α) (shape : Shape) (axis n : Nat) (r : Bool)
    (bufs : List (List α)) (hlen : bufs.length = n) :
    split_into data shape axis n ((List.range n).map (fun k => some (dir_index r n k))) bufs =
    (List.range n).map (fun t =>
      store (bufs.getD t []) ((split data shape axis n).getD (dir_index r n t) [])) := by
  unfold split_into
  have := perm_loop r n (fun k old => store old ((split data shape axis n).getD k [])) [] bufs hlen
  rw [← this]
  apply List.foldl_ext
  intro b k hk
  have hk' : k < n := by simpa using hk
  simp [hk', dir_index, List.getD_eq_getElem?_getD]

theorem getD_map_range {β : Type} (F : Nat → β) (d : β) (n t : Nat) (h : t < n) :
    ((List.range n).map F).getD t d = F t := by
  simp [List.getD_eq_getElem?_getD, h]

theorem getD_replicate_lt {β : Type} (a d : β) (n t : Nat) (h : t < n) :
    (List.replicate n a).getD t d = a := by
  simp [List.getD_eq_getElem?_getD, h]

theorem cell_pass_eq [Zero α] (ev : CellEvaluators α κ) (type : CellType)
    (inputs : List (List α)) (shapes : List Shape) (outputs : List (List α))
    (args : CellArgs κ) (is_reverse : Bool) :
    cell_pass ev type inputs shapes outputs args is_reverse =
      (run_steps ev type inputs shapes args is_reverse outputs ((shapes.getD 0 []).getD 1 0)).set 0
        (store ((run_steps ev type inputs shapes args is_reverse outputs
            ((shapes.getD 0 []).getD 1 0)).getD 0 [])
          (concat
            ((List.range ((shapes.getD 0 []).getD 1 0)).map fun k =>
              captured ev type inputs shapes args is_reverse outputs
                (dir_index is_reverse ((shapes.getD 0 []).getD 1 0) k))
            (List.replicate ((shapes.getD 0 []).getD 1 0)
              [(shapes.getD 0 []).getD 0 0, 1, (shapes.getD 2 []).getD 2 0])
            [(shapes.getD 0 []).getD 0 0, (shapes.getD 0 []).getD 1 0, (shapes.getD 2 []).getD 2 0]
            1)) := by
  unfold cell_pass
  simp only [pointer_table]
  rw [split_into_table _ _ _ _ _ _ (by simp)]
  unfold time_loop
  generalize hn : (shapes.getD 0 []).getD 1 0 = n
  have hbody : ∀ (st : List (List α) × List (List α)) (t : Nat), t ∈ List.range n →
      (fun (st : List (List α) × List (List α)) time_step =>
        let outputs := cell_step ev type inputs shapes args
          (((List.range n).map fun t =>
            store ((List.replicate n (List.replicate (shape_size (shapes.getD 0 []) / n) (0:α))).getD t [])
              ((split (inputs.getD 0 []) (shapes.getD 0 []) 1 n).getD (dir_index is_reverse n t) [])).getD
              time_step []) st.1
        (outputs, st.2.set time_step (memcpy (st.2.getD time_step []) (outputs.getD 1 [])
          (shape_size [(shapes.getD 0 []).getD 0 0, 1, (shapes.getD 2 []).getD 2 0])))) st t =
      (fun (st : List (List α) × List (List α)) t =>
        ((fun t o => cell_step ev type inputs shapes args (step_input inputs shapes is_reverse t) o) t st.1,
          st.2.set t (memcpy (st.2.getD t [])
            (((fun t o => cell_step ev type inputs shapes args (step_input inputs shapes is_reverse t) o)
              t st.1).getD 1 [])
            (shape_size [(shapes.getD 0 []).getD 0 0, 1, (shapes.getD 2 []).getD 2 0])))) st t := by
    intro st t ht
    have ht' : t < n := by simpa using ht
    simp only [getD_map_range _ _ _ _ ht', getD_replicate_lt _ _ _ _ ht', step_input, hn]
  rw [List.foldl_ext _ _ _ hbody, capture_loop _ _ _ _ _ (by simp)]
  simp only [run_steps, init_state, captured, hn]
  have hinit : (if type = CellType.LSTM then
        (outputs.set 1 (memcpy (outputs.getD 1 []) (inputs.getD 2 []) (shape_size (shapes.getD 2 [])))).set 2
          (memcpy ((outputs.set 1 (memcpy (outputs.getD 1 []) (inputs.getD 2 [])
            (shape_size (shapes.getD 2 [])))).getD 2 []) (inputs.getD 3 []) (shape_size (shapes.getD 3 [])))
      else outputs.set 1 (memcpy (outputs.getD 1 []) (inputs.getD 2 []) (shape_size (shapes.getD 2 [])))) =
      init_state type inputs shapes outputs := rfl
  congr 3
  simp only [List.map_map]
  apply List.map_congr_left
  intro k hk
  have hk' : k < n := by simpa using hk
  have hd := dir_index_lt is_reverse n k hk'
  simp [deref, List.getD_eq_getElem?_getD, List.getElem?_append_left, hd]

theorem length_flatMap_const {β : Type} (l : List β) (f : β → List α) (c : Nat)
    (h : ∀ o ∈ l, (f o).length = c) : (l.flatMap f).length = l.length * c := by
  induction l with
  | nil => simp
  | cons x l ih =>
    simp only [List.flatMap_cons, List.length_append, List.length_cons]
    rw [h x (by simp), ih (fun o ho => h o (by simp [ho]))]
    ring

theorem flatMap_drop_take {β : Type} (l : List β) (f : β → List α) (sz : Nat)
    (h : ∀ o ∈ l, (f o).length = sz) (j : Nat) (hj : j < l.length) :
    ((l.flatMap f).drop (j * sz)).take sz = f (l.get ⟨j, hj⟩) := by
  induction l generalizing j with
  | nil => simp at hj
  | cons x l ih =>
    simp only [List.flatMap_cons]
    cases j with
    | zero =>
      simp only [Nat.zero_mul, List.drop_zero, List.get_cons_zero]
      have hx := h x (by simp)
      rw [List.take_append_of_le_length (by omega), List.take_of_length_le (by omega)]
      rfl
    | succ j =>
      have hx := h x (by simp)
      have e : (j + 1) * sz = (f x).length + j * sz := by rw [hx]; ring
      rw [e, List.drop_append]
      exact ih (fun o ho => h o (by simp [ho])) j (by simpa using hj)

theorem flatMap_range_blocks (a : List α) (sz b : Nat) :
    (List.range b).flatMap (fun o => (a.drop (o * sz)).take sz) = a.take (b * sz) := by
  induction b with
  | zero => simp
  | succ b ih =>
    rw [List.range_succ, List.flatMap_append, ih]
    simp only [List.flatMap_cons, List.flatMap_nil, List.append_nil]
    rw [show (b + 1) * sz = b * sz + sz by ring, List.take_add]

theorem length_block (a : List α) (o sz : Nat) (h : (o + 1) * sz ≤ a.length) :
    ((a.drop (o * sz)).take sz).length = sz := by
  have e : (o + 1) * sz = o * sz + sz := by ring
  simp only [List.length_take, List.length_drop]
  omega

theorem drop_drop_take (G : List α) (p q N sz : Nat) (h : q + sz ≤ N) :
    (G.drop (p + q)).take sz = (((G.drop p).take N).drop q).take sz := by
  rw [List.drop_take, List.take_take, List.drop_drop]
  congr 1
  omega

theorem drop_take_gather (b sz : Nat) (parts : List (List α))
    (hlen : ∀ a ∈ parts, b * sz ≤ a.length) (o k : Nat) (ho : o < b) (hk : k < parts.length) :
    ((gather b sz parts).drop ((o * parts.length + k) * sz)).take sz =
      ((parts.getD k []).drop (o * sz)).take sz := by
  have hblk : ∀ o' ∈ List.range b, ∀ a ∈ parts, ((a.drop (o' * sz)).take sz).length = sz := by
    intro o' ho' a ha
    apply length_block
    have := hlen a ha
    have ho'' : o' + 1 ≤ b := by simpa using ho'
    calc (o' + 1) * sz ≤ b * sz := Nat.mul_le_mul_right _ ho''
      _ ≤ a.length := this
  have hrow : ∀ o' ∈ List.range b,
      (parts.flatMap fun a => (a.drop (o' * sz)).take sz).length = parts.length * sz :=
    fun o' ho' => length_flatMap_const _ _ _ (hblk o' ho')
  have e : (o * parts.length + k) * sz = o * (parts.length * sz) + k * sz := by ring
  have hk' : k * sz + sz ≤ parts.length * sz := by
    calc k * sz + sz = (k + 1) * sz := by ring
      _ ≤ parts.length * sz := Nat.mul_le_mul_right _ hk
  rw [e, drop_drop_take _ _ _ (parts.length * sz) _ hk']
  unfold gather
  rw [flatMap_drop_take _ _ _ hrow o (by simpa using ho)]
  simp only [List.get_eq_getElem, List.getElem_range]
  rw [flatMap_drop_take _ _ _ (hblk o (by simpa using ho)) k hk]
  simp [List.getD_eq_getElem?_getD, hk]

theorem slice_gather (b sz : Nat) (parts : List (List α))
    (hlen : ∀ a ∈ parts, b * sz ≤ a.length) (k : Nat) (hk : k < parts.length) :
    (List.range b).flatMap
      (fun o => ((gather b sz parts).drop ((o * parts.length + k) * sz)).take sz) =
      (parts.getD k []).take (b * sz) := by
  rw [← flatMap_range_blocks]
  apply List.flatMap_congr
  intro o ho
  exact drop_take_gather b sz parts hlen o k (by simpa using ho) hk

theorem zip_replicate {β : Type} (args : List α) (n : Nat) (s : β) (h : args.length = n) :
    args.zip (List.replicate n s) = args.map (fun a => (a, s)) := by
  induction args generalizing n with
  | nil => simp
  | cons a args ih =>
    cases n with
    | zero => simp at h
    | succ n =>
      simp only [List.replicate_succ, List.zip_cons_cons, List.map_cons]
      rw [ih n (by simpa using h)]

theorem concat_eq_gather (args : List (List α)) (n : Nat) (s out : Shape)
    (h : args.length = n) :
    concat args (List.replicate n s) out 1 =
      gather (out.take 1).prod (shape_size s / (out.take 1).prod) args := by
  unfold concat gather
  rw [zip_replicate args n s h]
  simp [List.flatMap_map]

theorem slice_axis_one (data : List α) (b n : Nat) (rest : Shape) (k : Nat) :
    slice_axis data (b :: n :: rest) 1 k (k + 1) =
      (List.range b).flatMap fun o => (data.drop ((o * n + k) * rest.prod)).take rest.prod := by
  simp [slice_axis]

theorem length_slice_axis_one (data : List α) (b n : Nat) (rest : Shape) (k : Nat)
    (hk : k < n) (hlen : b * n * rest.prod ≤ data.length) :
    (slice_axis data (b :: n :: rest) 1 k (k + 1)).length = b * rest.prod := by
  rw [slice_axis_one, length_flatMap_const _ _ rest.prod]
  · simp
  · intro o ho
    apply length_block
    have ho' : o < b := by simpa using ho
    calc (o * n + k + 1) * rest.prod ≤ (b * n) * rest.prod := by
          apply Nat.mul_le_mul_right
          calc o * n + k + 1 ≤ o * n + n := by omega
            _ = (o + 1) * n := by ring
            _ ≤ b * n := Nat.mul_le_mul_right _ ho'
      _ ≤ data.length := hlen

/-- The time slice `k` of the concatenation of `n` per-step tensors is the `k`-th tensor. -/
theorem slice_axis_gather (b sz : Nat) (parts : List (List α))
    (hlen : ∀ a ∈ parts, a.length = b * sz) (k : Nat) (hk : k < parts.length) :
    slice_axis (gather b sz parts) [b, parts.length, sz] 1 k (k + 1) = parts.getD k [] := by
  rw [slice_axis_one]
  simp only [List.prod_cons, List.prod_nil, Nat.mul_one]
  rw [slice_gather b sz parts (fun a ha => by rw [hlen a ha]) k hk]
  apply List.take_of_length_le
  have hmem : parts.getD k [] ∈ parts := by
    rw [List.getD_eq_getElem?_getD, List.getElem?_eq_getElem hk]
    simp
  rw [hlen _ hmem]

theorem length_gather (b sz : Nat) (parts : List (List α))
    (hlen : ∀ a ∈ parts, b * sz ≤ a.length) :
    (gather b sz parts).length = b * (parts.length * sz) := by
  unfold gather
  rw [length_flatMap_const _ _ (parts.length * sz)]
  · simp
  · intro o ho
    apply length_flatMap_const
    intro a ha
    apply length_block
    have ho' : o + 1 ≤ b := by simpa using ho
    calc (o + 1) * sz ≤ b * sz := Nat.mul_le_mul_right _ ho'
      _ ≤ a.length := hlen a ha

theorem time_reverse_eq_gather (data : List α) (b n : Nat) (rest : Shape)
    (hlen : b * n * rest.prod ≤ data.length) :
    time_reverse data (b :: n :: rest) =
      gather b rest.prod
        ((List.range n).map fun t => slice_axis data (b :: n :: rest) 1 (n - 1 - t) (n - 1 - t + 1)) := by
  unfold time_reverse gather
  simp only [List.getD_cons_zero, List.getD_cons_succ, List.drop_succ_cons, List.drop_zero,
    List.flatMap_map]
  apply List.flatMap_congr
  intro o ho
  apply List.flatMap_congr
  intro t ht
  have ho' : o < b := by simpa using ho
  have ht' : t < n := by simpa using ht
  rw [slice_axis_one]
  have hb : ∀ o' ∈ List.range b,
      ((data.drop ((o' * n + (n - 1 - t)) * rest.prod)).take rest.prod).length = rest.prod := by
    intro o' ho''
    apply length_block
    have ho3 : o' < b := by simpa using ho''
    calc (o' * n + (n - 1 - t) + 1) * rest.prod ≤ (b * n) * rest.prod := by
          apply Nat.mul_le_mul_right
          calc o' * n + (n - 1 - t) + 1 ≤ o' * n + n := by omega
            _ = (o' + 1) * n := by ring
            _ ≤ b * n := Nat.mul_le_mul_right _ ho3
      _ ≤ data.length := hlen
  rw [flatMap_drop_take _ _ _ hb o (by simpa using ho')]
  simp

theorem length_cell_step (ev : CellEvaluators α κ) (type : CellType) (inputs : List (List α))
    (shapes : List Shape) (args : CellArgs κ) (x : List α) (o : List (List α)) :
    (cell_step ev type inputs shapes args x o).length = o.length := by
  cases type <;> simp [cell_step]

theorem getD_zero_cell_step (ev : CellEvaluators α κ) (type : CellType) (inputs : List (List α))
    (shapes : List Shape) (args : CellArgs κ) (x : List α) (o : List (List α)) :
    (cell_step ev type inputs shapes args x o).getD 0 [] = o.getD 0 [] := by
  cases type <;> simp [cell_step, List.getD_eq_getElem?_getD, List.getElem?_set_ne]

theorem length_init_state (type : CellType) (inputs : List (List α)) (shapes : List Shape)
    (o : List (List α)) : (init_state type inputs shapes o).length = o.length := by
  unfold init_state; split <;> simp

theorem getD_zero_init_state (type : CellType) (inputs : List (List α)) (shapes : List Shape)
    (o : List (List α)) : (init_state type inputs shapes o).getD 0 [] = o.getD 0 [] := by
  unfold init_state; split <;> simp [List.getD_eq_getElem?_getD, List.getElem?_set_ne]

theorem length_run_steps [Zero α] (ev : CellEvaluators α κ) (type : CellType)
    (inputs : List (List α)) (shapes : List Shape) (args : CellArgs κ) (r : Bool)
    (o : List (List α)) (m : Nat) :
    (run_steps ev type inputs shapes args r o m).length = o.length := by
  induction m with
  | zero => simp [run_steps, length_init_state]
  | succ m ih =>
    unfold run_steps at ih ⊢
    rw [List.range_succ, List.foldl_append]
    simp only [List.foldl_cons, List.foldl_nil, length_cell_step, ih]

theorem getD_zero_run_steps [Zero α] (ev : CellEvaluators α κ) (type : CellType)
    (inputs : List (List α)) (shapes : List Shape) (args : CellArgs κ) (r : Bool)
    (o : List (List α)) (m : Nat) :
    (run_steps ev type inputs shapes args r o m).getD 0 [] = o.getD 0 [] := by
  induction m with
  | zero => simp only [run_steps, List.range_zero, List.foldl_nil, getD_zero_init_state]
  | succ m ih =>
    unfold run_steps at ih ⊢
    rw [List.range_succ, List.foldl_append]
    simp only [List.foldl_cons, List.foldl_nil, getD_zero_cell_step, ih]

theorem run_steps_succ [Zero α] (ev : CellEvaluators α κ) (type : CellType)
    (inputs : List (List α)) (shapes : List Shape) (args : CellArgs κ) (r : Bool)
    (o : List (List α)) (m : Nat) :
    run_steps ev type inputs shapes args r o (m + 1) =
      cell_step ev type inputs shapes args (step_input inputs shapes r m)
        (run_steps ev type inputs shapes args r o m) := by
  unfold run_steps
  rw [List.range_succ, List.foldl_append]
  rfl

theorem run_steps_congr [Zero α] (ev : CellEvaluators α κ) (type : CellType)
    (inputs inputs' : List (List α)) (shapes shapes' : List Shape) (args : CellArgs κ)
    (r r' : Bool) (o o' : List (List α)) (m : Nat)
    (h0 : init_state type inputs shapes o = init_state type inputs' shapes' o')
    (hstep : ∀ x s, cell_step ev type inputs shapes args x s =
      cell_step ev type inputs' shapes' args x s)
    (hx : ∀ t, t < m → step_input inputs shapes r t = step_input inputs' shapes' r' t) :
    run_steps ev type inputs shapes args r o m =
      run_steps ev type inputs' shapes' args r' o' m := by
  induction m with
  | zero => simp [run_steps, h0]
  | succ m ih =>
    rw [run_steps_succ, run_steps_succ, ih (fun t ht => hx t (by omega)), hx m (by omega), hstep]

theorem length_captured [Zero α] (ev : CellEvaluators α κ) (type : CellType)
    (inputs : List (List α)) (shapes : List Shape) (args : CellArgs κ) (r : Bool)
    (o : List (List α)) (t : Nat) :
    (captured ev type inputs shapes args r o t).length =
      (shapes.getD 0 []).getD 0 0 * (shapes.getD 2 []).getD 2 0 := by
  simp [captured, length_memcpy, shape_size]

theorem getD_zero_cell_pass [Zero α] (ev : CellEvaluators α κ) (type : CellType)
    (inputs : List (List α)) (shapes : List Shape) (Y : List α) (orest : List (List α))
    (args : CellArgs κ) (r : Bool) :
    (cell_pass ev type inputs shapes (Y :: orest) args r).getD 0 [] =
      store Y (gather ((shapes.getD 0 []).getD 0 0) ((shapes.getD 2 []).getD 2 0)
        ((List.range ((shapes.getD 0 []).getD 1 0)).map fun k =>
          captured ev type inputs shapes args r (Y :: orest)
            (dir_index r ((shapes.getD 0 []).getD 1 0) k))) := by
  rw [cell_pass_eq, getD_zero_run_steps, concat_eq_gather _ _ _ _ (by simp)]
  have hl := length_run_steps ev type inputs shapes args r (Y :: orest) ((shapes.getD 0 []).getD 1 0)
  rw [List.getD_eq_getElem?_getD, List.getElem?_set_eq_of_lt]
  · simp only [Option.getD_some, List.getD_cons_zero, List.take_succ_cons, List.take_zero,
      List.prod_cons, List.prod_nil, Nat.mul_one, shape_size, Nat.one_mul]
    by_cases hb : (shapes.getD 0 []).getD 0 0 = 0
    · rw [hb]; simp [gather]
    · rw [Nat.mul_div_cancel_left _ (Nat.pos_of_ne_zero hb)]
  · rw [hl]; simp

theorem getD_succ_cell_pass [Zero α] (ev : CellEvaluators α κ) (type : CellType)
    (inputs : List (List α)) (shapes : List Shape) (o : List (List α))
    (args : CellArgs κ) (r : Bool) (i : Nat) :
    (cell_pass ev type inputs shapes o args r).getD (i + 1) [] =
      (run_steps ev type inputs shapes args r o ((shapes.getD 0 []).getD 1 0)).getD (i + 1) [] := by
  rw [cell_pass_eq]
  simp [List.getD_eq_getElem?_getD, List.getElem?_set_ne]

theorem store_eq_append (dst vals : List α) (h : vals.length ≤ dst.length) :
    store dst vals = vals ++ dst.drop vals.length := by
  unfold store
  apply List.take_of_length_le
  simp
  omega

theorem store_eq_of_length_eq (dst vals : List α) (h : vals.length = dst.length) :
    store dst vals = vals := by
  simp [store, h]

theorem take_store (dst vals : List α) (n : Nat) (hn : vals.length = n) (h : n ≤ dst.length) :
    (store dst vals).take n = vals := by
  subst hn
  rw [store_eq_append dst vals h]
  simp

theorem slice_time_reverse (X : List α) (b n i : Nat) (hX : b * n * i ≤ X.length)
    (t : Nat) (ht : t < n) :
    slice_axis (time_reverse X [b, n, i]) [b, n, i] 1 t (t + 1) =
      slice_axis X [b, n, i] 1 (n - 1 - t) (n - 1 - t + 1) := by
  rw [time_reverse_eq_gather X b n [i] (by simpa using hX)]
  have h := slice_axis_gather b i
    ((List.range n).map fun t => slice_axis X [b, n, i] 1 (n - 1 - t) (n - 1 - t + 1))
    (by
      intro a ha
      simp only [List.mem_map, List.mem_range] at ha
      obtain ⟨t', ht', rfl⟩ := ha
      have := length_slice_axis_one X b n [i] (n - 1 - t') (by omega) (by simpa using hX)
      simpa using this)
    t (by simpa using ht)
  simp only [List.length_map, List.length_range] at h
  simp only [List.prod_cons, List.prod_nil, Nat.mul_one]
  rw [h, getD_map_range _ _ _ _ ht]

theorem time_reverse_gather (b sz n : Nat) (c : Nat → List α)
    (hc : ∀ t, t < n → (c t).length = b * sz) :
    time_reverse (gather b sz ((List.range n).map c)) [b, n, sz] =
      gather b sz ((List.range n).map fun k => c (n - 1 - k)) := by
  have hparts : ∀ a ∈ (List.range n).map c, a.length = b * sz := by
    intro a ha
    simp only [List.mem_map, List.mem_range] at ha
    obtain ⟨t, ht, rfl⟩ := ha
    exact hc t ht
  have hlen := length_gather b sz ((List.range n).map c) (fun a ha => by rw [hparts a ha])
  simp only [List.length_map, List.length_range] at hlen
  rw [time_reverse_eq_gather _ b n [sz] (by rw [hlen]; simp; ring_nf; exact le_refl _)]
  simp only [List.prod_cons, List.prod_nil, Nat.mul_one]
  congr 1
  apply List.map_congr_left
  intro k hk
  have hk' : k < n := by simpa using hk
  have h := slice_axis_gather b sz ((List.range n).map c) hparts (n - 1 - k) (by simp; omega)
  simp only [List.length_map, List.length_range] at h
  rw [h, getD_map_range _ _ _ _ (by omega)]

/-- C1: direction symmetry of `cell_pass`. For every cell kind, every cell evaluator and every
input `X` of shape `[batch, T, input]` with `T ≥ 1`, all other arguments being the same,
the output sequence of the run with `is_reverse = true` on `X` is the time reversal (along
axis 1) of the output sequence of the run with `is_reverse = false` on the time-reversed
`X`, and the final hidden state and the final cell state of the two runs are equal. -/
theorem cell_pass_direction_symmetry [Zero α] (ev : CellEvaluators α κ) (type : CellType)
    (X : List α) (rest : List (List α)) (shapes : List Shape) (Y : List α)
    (orest : List (List α)) (args : CellArgs κ) (batch T input : Nat)
    (hshape : shapes.getD 0 [] = [batch, T, input]) (hT : 1 ≤ T)
    (hX : X.length = batch * T * input)
    (hY : batch * T * (shapes.getD 2 []).getD 2 0 ≤ Y.length) :
    ((cell_pass ev type (X :: rest) shapes (Y :: orest) args true).getD 0 []).take
        (batch * T * (shapes.getD 2 []).getD 2 0) =
      time_reverse
        (((cell_pass ev type (time_reverse X [batch, T, input] :: rest) shapes (Y :: orest)
          args false).getD 0 []).take (batch * T * (shapes.getD 2 []).getD 2 0))
        [batch, T, (shapes.getD 2 []).getD 2 0] ∧
    (cell_pass ev type (X :: rest) shapes (Y :: orest) args true).getD 1 [] =
      (cell_pass ev type (time_reverse X [batch, T, input] :: rest) shapes (Y :: orest)
        args false).getD 1 [] ∧
    (cell_pass ev type (X :: rest) shapes (Y :: orest) args true).getD 2 [] =
      (cell_pass ev type (time_reverse X [batch, T, input] :: rest) shapes (Y :: orest)
        args false).getD 2 [] := by
  have hrun : ∀ m, m ≤ T →
      run_steps ev type (X :: rest) shapes args true (Y :: orest) m =
        run_steps ev type (time_reverse X [batch, T, input] :: rest) shapes args false
          (Y :: orest) m := by
    intro m hm
    apply run_steps_congr
    · simp [init_state]
    · intro x s
      cases type <;> simp [cell_step]
    · intro t ht
      have ht' : t < T := by omega
      have hd : dir_index true T t < T := dir_index_lt true T t ht'
      simp only [step_input, hshape, List.getD_cons_zero, List.getD_cons_succ, split,
        getD_map_range _ _ _ _ hd, getD_map_range _ _ _ _ (dir_index_lt false T t ht'),
        Nat.div_self (show 0 < T by omega), Nat.mul_one]
      congr 1
      rw [show dir_index false T t = t from rfl, slice_time_reverse X batch T input (by omega) t ht']
      simp [dir_index]
      congr 1 <;> omega
  have hcap : ∀ t, t < T →
      captured ev type (X :: rest) shapes args true (Y :: orest) t =
        captured ev type (time_reverse X [batch, T, input] :: rest) shapes args false
          (Y :: orest) t := by
    intro t ht
    simp only [captured, hrun (t + 1) (by omega)]
  refine ⟨?_, ?_, ?_⟩
  · rw [getD_zero_cell_pass, getD_zero_cell_pass]
    simp only [hshape, List.getD_cons_zero, List.getD_cons_succ]
    generalize hh : (shapes.getD 2 []).getD 2 0 = hidden at *
    have hlenc : ∀ t, t < T →
        (captured ev type (time_reverse X [batch, T, input] :: rest) shapes args false
          (Y :: orest) t).length = batch * hidden := by
      intro t ht
      rw [length_captured, hshape, hh]
      rfl
    have hlenF := length_gather batch hidden
      ((List.range T).map fun k =>
        captured ev type (time_reverse X [batch, T, input] :: rest) shapes args false
          (Y :: orest) (dir_index false T k))
      (by
        intro a ha
        simp only [List.mem_map, List.mem_range] at ha
        obtain ⟨t, ht, rfl⟩ := ha
        rw [hlenc _ (dir_index_lt false T t ht)])
    have hlenR := length_gather batch hidden
      ((List.range T).map fun k =>
        captured ev type (X :: rest) shapes args true (Y :: orest) (dir_index true T k))
      (by
        intro a ha
        simp only [List.mem_map, List.mem_range] at ha
        obtain ⟨t, ht, rfl⟩ := ha
        rw [hcap _ (dir_index_lt true T t ht), hlenc _ (dir_index_lt true T t ht)])
    simp only [List.length_map, List.length_range] at hlenF hlenR
    have eN : batch * T * hidden = batch * (T * hidden) := by ring
    rw [eN]
    rw [take_store _ _ _ hlenR (by omega), take_store _ _ _ hlenF (by omega)]
    have := time_reverse_gather batch hidden T
      (fun k => captured ev type (time_reverse X [batch, T, input] :: rest) shapes args false
          (Y :: orest) k) hlenc
    simp only [dir_index, Bool.false_eq_true, ↓reduceIte] at this ⊢
    rw [this]
    congr 1
    apply List.map_congr_left
    intro k hk
    have hk' : k < T := by simpa using hk
    have := hcap (T - k - 1) (by omega)
    simp only [dir_index, ↓reduceIte] at this ⊢
    rw [this]
    congr 1
    omega
  · rw [getD_succ_cell_pass, getD_succ_cell_pass, hshape]
    simp only [List.getD_cons_zero, List.getD_cons_succ]
    rw [hrun T (le_refl _)]
  · rw [getD_succ_cell_pass, getD_succ_cell_pass, hshape]
    simp only [List.getD_cons_zero, List.getD_cons_succ]
    rw [hrun T (le_refl _)]

theorem store_self (a : List α) : store a a = a := by
  simp [store]

theorem memcpy_eq_take (dst src : List α) (n : Nat) (hd : dst.length = n) (hs : n ≤ src.length) :
    memcpy dst src n = src.take n := by
  unfold memcpy
  apply store_eq_of_length_eq
  simp [hd, hs]

theorem state_pair_cell_step (ev : CellEvaluators α κ) (type : CellType)
    (inputs : List (List α)) (shapes : List Shape) (args : CellArgs κ) (x : List α)
    (o : List (List α)) (h2 : 2 ≤ o.length) (h3 : type = CellType.LSTM → 3 ≤ o.length) :
    ((cell_step ev type inputs shapes args x o).getD 1 [],
      (cell_step ev type inputs shapes args x o).getD 2 []) =
      state_step ev type inputs shapes args x (o.getD 1 [], o.getD 2 []) := by
  cases type with
  | LSTM =>
    have h3' := h3 rfl
    simp only [cell_step, state_step, evaluate_cell, List.getD_eq_getElem?_getD]
    rw [List.getElem?_set_ne (by omega), List.getElem?_set_eq_of_lt _ (by omega),
      List.getElem?_set_eq_of_lt _ (by simp; omega), List.getElem?_set_ne (by omega)]
    rfl
  | RNN =>
    simp only [cell_step, state_step, evaluate_cell, List.getD_eq_getElem?_getD, store_self]
    rw [List.getElem?_set_eq_of_lt _ (by omega), List.getElem?_set_ne (by omega)]
    rfl
  | GRU =>
    simp only [cell_step, state_step, evaluate_cell, List.getD_eq_getElem?_getD, store_self]
    rw [List.getElem?_set_eq_of_lt _ (by omega), List.getElem?_set_ne (by omega)]
    rfl

theorem state_pair_init_state (type : CellType) (inputs : List (List α)) (shapes : List Shape)
    (o : List (List α)) (h2 : 2 ≤ o.length) (h3 : type = CellType.LSTM → 3 ≤ o.length) :
    ((init_state type inputs shapes o).getD 1 [], (init_state type inputs shapes o).getD 2 []) =
      initial_state type inputs shapes o := by
  unfold init_state initial_state
  by_cases ht : type = CellType.LSTM
  · have h3' := h3 ht
    simp only [ht, ↓reduceIte, List.getD_eq_getElem?_getD]
    rw [List.getElem?_set_ne (by omega), List.getElem?_set_eq_of_lt _ (by omega),
      List.getElem?_set_eq_of_lt _ (by simp; omega), List.getElem?_set_ne (by omega)]
    rfl
  · simp only [ht, ↓reduceIte, List.getD_eq_getElem?_getD]
    rw [List.getElem?_set_eq_of_lt _ (by omega), List.getElem?_set_ne (by omega)]
    rfl

theorem state_pair_run_steps [Zero α] (ev : CellEvaluators α κ) (type : CellType)
    (inputs : List (List α)) (shapes : List Shape) (args : CellArgs κ) (r : Bool)
    (o : List (List α)) (h2 : 2 ≤ o.length) (h3 : type = CellType.LSTM → 3 ≤ o.length)
    (m : Nat) :
    ((run_steps ev type inputs shapes args r o m).getD 1 [],
      (run_steps ev type inputs shapes args r o m).getD 2 []) =
      ((List.range m).map (step_input inputs shapes r)).foldl
        (fun s x => state_step ev type inputs shapes args x s)
        (initial_state type inputs shapes o) := by
  induction m with
  | zero =>
    simp only [run_steps, List.range_zero, List.foldl_nil, List.map_nil]
    exact state_pair_init_state type inputs shapes o h2 h3
  | succ m ih =>
    rw [run_steps_succ, List.range_succ, List.map_append, List.foldl_append, ← ih]
    simp only [List.map_cons, List.map_nil, List.foldl_cons, List.foldl_nil]
    apply state_pair_cell_step
    · rw [length_run_steps]; exact h2
    · intro ht; rw [length_run_steps]; exact h3 ht

theorem step_input_eq_slice [Zero α] (inputs : List (List α)) (shapes : List Shape) (r : Bool)
    (batch T input : Nat) (hshape : shapes.getD 0 [] = [batch, T, input])
    (hX : batch * T * input ≤ (inputs.getD 0 []).length) (t : Nat) (ht : t < T) :
    step_input inputs shapes r t =
      slice_axis (inputs.getD 0 []) [batch, T, input] 1 (dir_index r T t) (dir_index r T t + 1) := by
  have hd := dir_index_lt r T t ht
  simp only [step_input, hshape, List.getD_cons_zero, List.getD_cons_succ, split,
    getD_map_range _ _ _ _ hd, Nat.div_self (show 0 < T by omega), Nat.mul_one]
  apply store_eq_of_length_eq
  have := length_slice_axis_one (inputs.getD 0 []) batch T [input] (dir_index r T t) hd
    (by simpa using hX)
  rw [this]
  simp only [List.length_replicate, shape_size, List.prod_cons, List.prod_nil, Nat.mul_one]
  rw [show batch * (T * input) = T * (batch * input) by ring,
    Nat.mul_div_cancel_left _ (show 0 < T by omega)]

theorem reverse_map_range {β : Type} (f : Nat → β) (n : Nat) :
    ((List.range n).map f).reverse = (List.range n).map fun t => f (n - 1 - t) := by
  apply List.ext_getElem?
  intro k
  by_cases hk : k < n
  · rw [List.getElem?_reverse (by simpa using hk)]
    simp [hk, show n - 1 - k < n by omega]
  · rw [List.getElem?_eq_none (by simp; omega), List.getElem?_eq_none (by simp; omega)]

theorem ordered_slices_eq (X : List α) (batch T input : Nat) (r : Bool) :
    ordered_slices X [batch, T, input] r =
      (List.range T).map fun t =>
        slice_axis X [batch, T, input] 1 (dir_index r T t) (dir_index r T t + 1) := by
  cases r
  · simp [ordered_slices, time_slices, dir_index]
  · simp only [ordered_slices, time_slices, ↓reduceIte, List.getD_cons_zero, List.getD_cons_succ]
    rw [reverse_map_range]
    apply List.map_congr_left
    intro t ht
    simp only [dir_index, ↓reduceIte]
    congr 1 <;> omega

theorem map_step_input [Zero α] (inputs : List (List α)) (shapes : List Shape) (r : Bool)
    (batch T input : Nat) (hshape : shapes.getD 0 [] = [batch, T, input])
    (hX : batch * T * input ≤ (inputs.getD 0 []).length) (m : Nat) (hm : m ≤ T) :
    (List.range m).map (step_input inputs shapes r) =
      (ordered_slices (inputs.getD 0 []) (shapes.getD 0 []) r).take m := by
  rw [hshape, ordered_slices_eq, ← List.map_take, List.take_range, Nat.min_eq_left hm]
  apply List.map_congr_left
  intro t ht
  exact step_input_eq_slice inputs shapes r batch T input hshape hX t
    (by have : t < m := by simpa using ht
        omega)

theorem state_pair_eq_state_after [Zero α] (ev : CellEvaluators α κ) (type : CellType)
    (inputs : List (List α)) (shapes : List Shape) (args : CellArgs κ) (r : Bool)
    (o : List (List α)) (batch T input : Nat) (hshape : shapes.getD 0 [] = [batch, T, input])
    (hX : batch * T * input ≤ (inputs.getD 0 []).length)
    (h2 : 2 ≤ o.length) (h3 : type = CellType.LSTM → 3 ≤ o.length) (m : Nat) (hm : m ≤ T) :
    ((run_steps ev type inputs shapes args r o m).getD 1 [],
      (run_steps ev type inputs shapes args r o m).getD 2 []) =
      state_after ev type inputs shapes args r o m := by
  rw [state_pair_run_steps ev type inputs shapes args r o h2 h3 m,
    map_step_input inputs shapes r batch T input hshape hX m hm]
  rfl

theorem length_foldl_state_step (ev : CellEvaluators α κ) (type : CellType)
    (inputs : List (List α)) (shapes : List Shape) (args : CellArgs κ) (xs : List (List α))
    (s : List α × List α) :
    ((xs.foldl (fun s x => state_step ev type inputs shapes args x s) s).1.length = s.1.length) ∧
    ((xs.foldl (fun s x => state_step ev type inputs shapes args x s) s).2.length = s.2.length) := by
  induction xs generalizing s with
  | nil => simp
  | cons x xs ih =>
    simp only [List.foldl_cons]
    rw [(ih _).1, (ih _).2]
    simp [state_step, length_store]

theorem length_state_after_fst (ev : CellEvaluators α κ) (type : CellType)
    (inputs : List (List α)) (shapes : List Shape) (args : CellArgs κ) (r : Bool)
    (o : List (List α)) (m : Nat) :
    (state_after ev type inputs shapes args r o m).1.length = (o.getD 1 []).length := by
  unfold state_after
  rw [(length_foldl_state_step ev type inputs shapes args _ _).1]
  simp [initial_state, length_memcpy]

theorem state_after_succ (ev : CellEvaluators α κ) (type : CellType)
    (inputs : List (List α)) (shapes : List Shape) (args : CellArgs κ) (r : Bool)
    (o : List (List α)) (m : Nat)
    (hm : m < (ordered_slices (inputs.getD 0 []) (shapes.getD 0 []) r).length) :
    state_after ev type inputs shapes args r o (m + 1) =
      state_step ev type inputs shapes args
        ((ordered_slices (inputs.getD 0 []) (shapes.getD 0 []) r).getD m [])
        (state_after ev type inputs shapes args r o m) := by
  unfold state_after
  generalize ordered_slices (inputs.getD 0 []) (shapes.getD 0 []) r = L at hm ⊢
  rw [List.take_succ, List.foldl_append, List.getD_eq_getElem?_getD, List.getElem?_eq_getElem hm]
  rfl

theorem length_ordered_slices (X : List α) (batch T input : Nat) (r : Bool) :
    (ordered_slices X [batch, T, input] r).length = T := by
  rw [ordered_slices_eq]; simp

theorem slice_axis_gather_of_length (b sz n : Nat) (parts : List (List α))
    (hn : parts.length = n) (hlen : ∀ a ∈ parts, a.length = b * sz) (k : Nat) (hk : k < n) :
    slice_axis (gather b sz parts) [b, n, sz] 1 k (k + 1) = parts.getD k [] := by
  subst hn
  exact slice_axis_gather b sz parts hlen k hk

theorem final_hidden_eq_state_after [Zero α] (ev : CellEvaluators α κ) (type : CellType)
    (inputs : List (List α)) (shapes : List Shape) (outputs : List (List α))
    (args : CellArgs κ) (is_reverse : Bool) (batch T input : Nat)
    (hshape : shapes.getD 0 [] = [batch, T, input])
    (hX : (inputs.getD 0 []).length = batch * T * input)
    (h2 : 2 ≤ outputs.length) (h3 : type = CellType.LSTM → 3 ≤ outputs.length) :
    (cell_pass ev type inputs shapes outputs args is_reverse).getD 1 [] =
      (state_after ev type inputs shapes args is_reverse outputs T).1 := by
  rw [getD_succ_cell_pass, hshape]
  simp only [List.getD_cons_zero, List.getD_cons_succ]
  have := state_pair_eq_state_after ev type inputs shapes args is_reverse outputs batch T input
    hshape (by omega) h2 h3 T (le_refl _)
  rw [← this]

theorem output_slice_eq_state_after [Zero α] (ev : CellEvaluators α κ) (type : CellType)
    (inputs : List (List α)) (shapes : List Shape) (Y Ho : List α) (orest : List (List α))
    (args : CellArgs κ) (is_reverse : Bool) (batch T input hidden : Nat)
    (hshape0 : shapes.getD 0 [] = [batch, T, input])
    (hshape2 : shapes.getD 2 [] = [batch, 1, hidden])
    (hX : (inputs.getD 0 []).length = batch * T * input)
    (hY : Y.length = batch * T * hidden) (hHo : Ho.length = batch * hidden)
    (h3 : type = CellType.LSTM → orest ≠ []) (k : Nat) (hk : k < T) :
    slice_axis ((cell_pass ev type inputs shapes (Y :: Ho :: orest) args is_reverse).getD 0 [])
        [batch, T, hidden] 1 k (k + 1) =
      (state_after ev type inputs shapes args is_reverse (Y :: Ho :: orest)
        ((if is_reverse then T - 1 - k else k) + 1)).1 := by
  have hj : (if is_reverse then T - 1 - k else k) = dir_index is_reverse T k := by
    unfold dir_index; split <;> omega
  have hjlt := dir_index_lt is_reverse T k hk
  have h3' : type = CellType.LSTM → 3 ≤ (Y :: Ho :: orest).length := by
    intro ht
    have := h3 ht
    cases orest with
    | nil => exact absurd rfl this
    | cons c cs => simp
  rw [hj, getD_zero_cell_pass, hshape0, hshape2]
  · simp only [List.getD_cons_zero, List.getD_cons_succ]
    have hcap : ∀ t, t < T →
        captured ev type inputs shapes args is_reverse (Y :: Ho :: orest) t =
          (state_after ev type inputs shapes args is_reverse (Y :: Ho :: orest) (t + 1)).1 := by
      intro t ht
      have hp := state_pair_eq_state_after ev type inputs shapes args is_reverse
        (Y :: Ho :: orest) batch T input hshape0 (by omega) (by simp) h3' (t + 1) (by omega)
      have hp1 := congrArg Prod.fst hp
      simp only at hp1
      have hl := length_state_after_fst ev type inputs shapes args is_reverse
        (Y :: Ho :: orest) (t + 1)
      simp only [List.getD_cons_zero, List.getD_cons_succ] at hl
      simp only [captured, hshape0, hshape2, List.getD_cons_zero, List.getD_cons_succ, hp1]
      rw [memcpy_eq_take _ _ _ (by simp) (by rw [hl, hHo]; simp [shape_size])]
      apply List.take_of_length_le
      rw [hl, hHo]; simp [shape_size]
    have hparts : ∀ a ∈ (List.range T).map (fun k =>
        captured ev type inputs shapes args is_reverse (Y :: Ho :: orest)
          (dir_index is_reverse T k)), a.length = batch * hidden := by
      intro a ha
      simp only [List.mem_map, List.mem_range] at ha
      obtain ⟨t, ht, rfl⟩ := ha
      rw [length_captured, hshape0, hshape2]
      rfl
    have hg := length_gather batch hidden _ (fun a ha => by rw [hparts a ha])
    simp only [List.length_map, List.length_range] at hg
    rw [store_eq_of_length_eq _ _ (by rw [hg, hY]; ring),
      slice_axis_gather_of_length batch hidden T _ (by simp) hparts k hk,
      getD_map_range _ _ _ _ hk, hcap _ hjlt]

/-- C5: temporal order of the output sequence of `cell_pass`. For every cell kind, both
values of `is_reverse` and every time index `k < T`, the cell evaluation at iteration
position `j` (`j = k` when `is_reverse` is false, `j = T - 1 - k` when it is true) is the one
that consumes the input slice `X[:,k,:]`, and the slice `Y[:,k,:]` of the output sequence is
the hidden state emitted by that evaluation: the state buffer after iteration `j`, which
holds the value the evaluator returned for `X[:,k,:]` and the state left by the first `j`
iterations. Precondition: the hidden-state shape is `[batch, 1, hidden]` with the batch of
`X`. -/
theorem cell_pass_output_temporal_order [Zero α] (ev : CellEvaluators α κ) (type : CellType)
    (inputs : List (List α)) (shapes : List Shape) (Y Ho : List α) (orest : List (List α))
    (args : CellArgs κ) (is_reverse : Bool) (batch T input hidden : Nat)
    (hshape0 : shapes.getD 0 [] = [batch, T, input])
    (hshape2 : shapes.getD 2 [] = [batch, 1, hidden])
    (hX : (inputs.getD 0 []).length = batch * T * input)
    (hY : Y.length = batch * T * hidden) (hHo : Ho.length = batch * hidden)
    (h3 : type = CellType.LSTM → orest ≠ []) (k : Nat) (hk : k < T) :
    (ordered_slices (inputs.getD 0 []) (shapes.getD 0 []) is_reverse).getD
        (if is_reverse then T - 1 - k else k) [] =
      slice_axis (inputs.getD 0 []) (shapes.getD 0 []) 1 k (k + 1) ∧
    slice_axis ((cell_pass ev type inputs shapes (Y :: Ho :: orest) args is_reverse).getD 0 [])
        [batch, T, hidden] 1 k (k + 1) =
      (state_after ev type inputs shapes args is_reverse (Y :: Ho :: orest)
        ((if is_reverse then T - 1 - k else k) + 1)).1 ∧
    slice_axis ((cell_pass ev type inputs shapes (Y :: Ho :: orest) args is_reverse).getD 0 [])
        [batch, T, hidden] 1 k (k + 1) =
      store
        (state_after ev type inputs shapes args is_reverse (Y :: Ho :: orest)
          (if is_reverse then T - 1 - k else k)).1
        (evaluate_cell ev type inputs shapes args
          (slice_axis (inputs.getD 0 []) (shapes.getD 0 []) 1 k (k + 1))
          (state_after ev type inputs shapes args is_reverse (Y :: Ho :: orest)
            (if is_reverse then T - 1 - k else k))).1 ∧
    ((evaluate_cell ev type inputs shapes args
          (slice_axis (inputs.getD 0 []) (shapes.getD 0 []) 1 k (k + 1))
          (state_after ev type inputs shapes args is_reverse (Y :: Ho :: orest)
            (if is_reverse then T - 1 - k else k))).1.length = batch * hidden →
      slice_axis ((cell_pass ev type inputs shapes (Y :: Ho :: orest) args is_reverse).getD 0 [])
          [batch, T, hidden] 1 k (k + 1) =
        (evaluate_cell ev type inputs shapes args
          (slice_axis (inputs.getD 0 []) (shapes.getD 0 []) 1 k (k + 1))
          (state_after ev type inputs shapes args is_reverse (Y :: Ho :: orest)
            (if is_reverse then T - 1 - k else k))).1) := by
  have hj : (if is_reverse then T - 1 - k else k) = dir_index is_reverse T k := by
    unfold dir_index; split <;> omega
  have hjlt := dir_index_lt is_reverse T k hk
  have hslice : (ordered_slices (inputs.getD 0 []) (shapes.getD 0 []) is_reverse).getD
      (dir_index is_reverse T k) [] =
      slice_axis (inputs.getD 0 []) (shapes.getD 0 []) 1 k (k + 1) := by
    rw [hshape0, ordered_slices_eq, getD_map_range _ _ _ _ hjlt,
      dir_index_invol is_reverse T k hk]
  have hout := output_slice_eq_state_after ev type inputs shapes Y Ho orest args is_reverse
    batch T input hidden hshape0 hshape2 hX hY hHo h3 k hk
  have hsucc := state_after_succ ev type inputs shapes args is_reverse (Y :: Ho :: orest)
    (dir_index is_reverse T k) (by rw [hshape0, length_ordered_slices]; exact hjlt)
  rw [hslice] at hsucc
  rw [hj] at hout ⊢
  refine ⟨hslice, hout, ?_, ?_⟩
  · rw [hout, hsucc]
    rfl
  · intro hl
    rw [hout, hsucc]
    simp only [state_step]
    apply store_eq_of_length_eq
    rw [hl, length_state_after_fst]
    simp [hHo]

theorem cell_pass_seq_lengths [Zero α] (ev : CellEvaluators α κ) (type : CellType)
    (X sl sl' : List α) (rest : List (List α)) (Xs sls sls' : Shape) (srest : List Shape)
    (o : List (List α)) (args : CellArgs κ) (r : Bool) :
    cell_pass ev type (X :: sl :: rest) (Xs :: sls :: srest) o args r =
      cell_pass ev type (X :: sl' :: rest) (Xs :: sls' :: srest) o args r := by
  have hstep : cell_step ev type (X :: sl :: rest) (Xs :: sls :: srest) args =
      cell_step ev type (X :: sl' :: rest) (Xs :: sls' :: srest) args := by
    funext x s
    cases type <;> simp [cell_step]
  simp only [cell_pass, time_loop, hstep, List.getD_cons_zero, List.getD_cons_succ]

theorem store_congr (dst dst' vals : List α) (h : dst.length = dst'.length)
    (hv : dst.length ≤ vals.length) : store dst vals = store dst' vals := by
  unfold store
  rw [List.drop_of_length_le hv, List.drop_of_length_le (by omega), h]

theorem length_getD_set_store (o : List (List α)) (j i : Nat) (v : List α) :
    ((o.set j (store (o.getD j []) v)).getD i []).length = (o.getD i []).length := by
  simp only [List.getD_eq_getElem?_getD, List.getElem?_set]
  by_cases hji : j = i
  · subst hji
    by_cases hj : j < o.length
    · simp [hj, length_store]
    · simp [hj, List.getElem?_eq_none (Nat.le_of_not_lt hj)]
  · simp [hji]

theorem length_getD_cell_step (ev : CellEvaluators α κ) (type : CellType)
    (inputs : List (List α)) (shapes : List Shape) (args : CellArgs κ) (x : List α)
    (o : List (List α)) (i : Nat) :
    ((cell_step ev type inputs shapes args x o).getD i []).length = (o.getD i []).length := by
  cases type
  · simp only [cell_step, length_getD_set_store]
  · simp only [cell_step, length_getD_set_store]
  · simp only [cell_step, length_getD_set_store]

theorem length_getD_init_state (type : CellType) (inputs : List (List α)) (shapes : List Shape)
    (o : List (List α)) (i : Nat) :
    ((init_state type inputs shapes o).getD i []).length = (o.getD i []).length := by
  unfold init_state memcpy
  split
  · simp only [length_getD_set_store]
  · simp only [length_getD_set_store]

theorem length_getD_run_steps [Zero α] (ev : CellEvaluators α κ) (type : CellType)
    (inputs : List (List α)) (shapes : List Shape) (args : CellArgs κ) (r : Bool)
    (o : List (List α)) (m i : Nat) :
    ((run_steps ev type inputs shapes args r o m).getD i []).length = (o.getD i []).length := by
  induction m with
  | zero =>
    simp only [run_steps, List.range_zero, List.foldl_nil]
    exact length_getD_init_state type inputs shapes o i
  | succ m ih => rw [run_steps_succ, length_getD_cell_step, ih]

theorem length_getD_cell_pass [Zero α] (ev : CellEvaluators α κ) (type : CellType)
    (inputs : List (List α)) (shapes : List Shape) (o : List (List α)) (args : CellArgs κ)
    (r : Bool) (i : Nat) :
    ((cell_pass ev type inputs shapes o args r).getD i []).length = (o.getD i []).length := by
  rw [cell_pass_eq, length_getD_set_store, length_getD_run_steps]

theorem tail_cell_step (ev : CellEvaluators α κ) (type : CellType)
    (inputs : List (List α)) (shapes : List Shape) (args : CellArgs κ) (x : List α)
    (a a' : List α) (t : List (List α)) :
    cell_step ev type inputs shapes args x (a :: t) =
      a :: (cell_step ev type inputs shapes args x (a' :: t)).tail := by
  cases type <;> simp [cell_step]

theorem run_steps_cons [Zero α] (ev : CellEvaluators α κ) (type : CellType)
    (inputs : List (List α)) (shapes : List Shape) (args : CellArgs κ) (r : Bool)
    (Y Y' : List α) (t t' : List (List α))
    (h0 : (init_state type inputs shapes (Y :: t)).tail =
      (init_state type inputs shapes (Y' :: t')).tail) (m : Nat) :
    run_steps ev type inputs shapes args r (Y :: t) m =
      Y :: (run_steps ev type inputs shapes args r (Y' :: t') m).tail := by
  induction m with
  | zero =>
    simp only [run_steps, List.range_zero, List.foldl_nil]
    rw [← h0]
    unfold init_state
    split <;> simp
  | succ m ih =>
    rw [run_steps_succ, run_steps_succ, ih]
    have hne : run_steps ev type inputs shapes args r (Y' :: t') m ≠ [] := by
      intro h
      have := length_run_steps ev type inputs shapes args r (Y' :: t') m
      rw [h] at this
      simp at this
    obtain ⟨a', tl, htl⟩ := List.exists_cons_of_ne_nil hne
    rw [htl]
    exact tail_cell_step ev type inputs shapes args _ Y a' tl

/-- The result of `cell_pass` does not depend on the previous contents of the output
buffers when these have the sizes of the tensors written to them. -/
theorem cell_pass_fresh_outputs [Zero α] (ev : CellEvaluators α κ) (type : CellType)
    (inputs : List (List α)) (shapes : List Shape) (args : CellArgs κ) (r : Bool)
    (Y Y' : List α) (t t' : List (List α))
    (hY : Y.length = Y'.length)
    (hYle : Y.length ≤ (shapes.getD 0 []).getD 0 0 *
      ((shapes.getD 0 []).getD 1 0 * (shapes.getD 2 []).getD 2 0))
    (h0 : (init_state type inputs shapes (Y :: t)).tail =
      (init_state type inputs shapes (Y' :: t')).tail) :
    cell_pass ev type inputs shapes (Y :: t) args r =
      cell_pass ev type inputs shapes (Y' :: t') args r := by
  have hrun := run_steps_cons ev type inputs shapes args r Y Y' t t' h0
  have hne : ∀ m, ∃ tl, run_steps ev type inputs shapes args r (Y' :: t') m = Y' :: tl := by
    intro m
    have hl := length_run_steps ev type inputs shapes args r (Y' :: t') m
    have hz := getD_zero_run_steps ev type inputs shapes args r (Y' :: t') m
    cases hrs : run_steps ev type inputs shapes args r (Y' :: t') m with
    | nil => rw [hrs] at hl; simp at hl
    | cons a tl =>
      rw [hrs] at hz
      simp only [List.getD_cons_zero] at hz
      exact ⟨tl, by rw [hz]⟩
  have hcap : ∀ k, captured ev type inputs shapes args r (Y :: t) k =
      captured ev type inputs shapes args r (Y' :: t') k := by
    intro k
    obtain ⟨tl, htl⟩ := hne (k + 1)
    simp only [captured, hrun (k + 1), htl, List.tail_cons, List.getD_cons_succ]
  rw [cell_pass_eq, cell_pass_eq]
  simp only [hcap]
  obtain ⟨tl, htl⟩ := hne ((shapes.getD 0 []).getD 1 0)
  rw [hrun, htl]
  simp only [List.tail_cons, List.set_cons_zero, List.getD_cons_zero]
  congr 1
  apply store_congr _ _ _ hY
  rw [concat_eq_gather _ _ _ _ (by simp)]
  simp only [List.take_succ_cons, List.take_zero, List.prod_cons, List.prod_nil, Nat.mul_one,
    shape_size, Nat.one_mul]
  by_cases hb : (shapes.getD 0 []).getD 0 0 = 0
  · rw [hb] at hYle
    simp only [Nat.zero_mul] at hYle
    omega
  · rw [Nat.mul_div_cancel_left _ (Nat.pos_of_ne_zero hb),
      length_gather _ _ _ (by
        intro a ha
        simp only [List.mem_map, List.mem_range] at ha
        obtain ⟨k, _, rfl⟩ := ha
        rw [length_captured])]
    simpa using hYle

theorem slice_axis_zero (data : List α) (d : Nat) (rest : Shape) (lo hi : Nat) :
    slice_axis data (d :: rest) 0 lo hi =
      (data.drop (lo * rest.prod)).take ((hi - lo) * rest.prod) := by
  simp only [slice_axis, List.take_zero, List.prod_nil, List.getD_cons_zero, Nat.zero_add,
    List.drop_succ_cons, List.drop_zero]
  rw [show List.range 1 = [0] from rfl]
  simp

theorem split_half_axis0 [Zero α] (data : List α) (rest : Shape) (i : Nat) (hi : i < 2)
    (hlen : data.length = 2 * rest.prod) :
    split_half data (2 :: rest) 0 i = slice_axis data (2 :: rest) 0 i (i + 1) := by
  unfold split_half split
  rw [getD_map_range _ _ _ _ hi]
  simp only [List.getD_cons_zero, Nat.div_self (show 0 < 2 by omega), Nat.mul_one]
  apply store_eq_of_length_eq
  rw [slice_axis_zero]
  simp only [List.length_take, List.length_drop, List.length_replicate, shape_size,
    List.prod_cons, hlen, Nat.add_sub_cancel_left, Nat.one_mul]
  rw [Nat.mul_div_cancel_left _ (show 0 < 2 by omega)]
  have : i = 0 ∨ i = 1 := by omega
  rcases this with h | h <;> subst h <;> simp <;> omega

theorem split_half_axis1 [Zero α] (data : List α) (b h : Nat) (i : Nat) (hi : i < 2)
    (hlen : data.length = b * 2 * h) :
    split_half data [b, 2, h] 1 i = slice_axis data [b, 2, h] 1 i (i + 1) := by
  unfold split_half split
  rw [getD_map_range _ _ _ _ hi]
  simp only [List.getD_cons_zero, List.getD_cons_succ, Nat.div_self (show 0 < 2 by omega),
    Nat.mul_one]
  apply store_eq_of_length_eq
  rw [length_slice_axis_one data b 2 [h] i hi (by simp [hlen])]
  simp only [List.length_replicate, shape_size, List.prod_cons, List.prod_nil, Nat.mul_one]
  rw [show b * (2 * h) = 2 * (b * h) by ring, Nat.mul_div_cancel_left _ (show 0 < 2 by omega)]

theorem slice_axis_gather_rest (b sz n : Nat) (rest : Shape) (parts : List (List α))
    (hn : parts.length = n) (hrest : rest.prod = sz)
    (hlen : ∀ a ∈ parts, a.length = b * sz) (k : Nat) (hk : k < n) :
    slice_axis (gather b sz parts) (b :: n :: rest) 1 k (k + 1) = parts.getD k [] := by
  subst hn
  rw [slice_axis_one, hrest, slice_gather b sz parts (fun a ha => by rw [hlen a ha]) k hk]
  apply List.take_of_length_le
  have hmem : parts.getD k [] ∈ parts := by
    rw [List.getD_eq_getElem?_getD, List.getElem?_eq_getElem hk]
    simp
  rw [hlen _ hmem]

/-- Stacking two tensors along a new direction axis and slicing the result at direction
index `i` gives back the `i`-th tensor. -/
theorem slice_store_concat_two (b sz : Nat) (rest s : Shape) (hrest : rest.prod = sz)
    (hs : shape_size s = b * sz) (P0 P1 dst : List α) (h0 : P0.length = b * sz)
    (h1 : P1.length = b * sz) (hd : dst.length = b * (2 * sz)) (i : Nat) (hi : i < 2) :
    slice_axis (store dst (concat [P0, P1] (List.replicate 2 s) (b :: 2 :: rest) 1))
      (b :: 2 :: rest) 1 i (i + 1) = [P0, P1].getD i [] := by
  have hparts : ∀ a ∈ [P0, P1], a.length = b * sz := by
    intro a ha
    simp only [List.mem_cons, List.mem_singleton, List.not_mem_nil, or_false] at ha
    rcases ha with rfl | rfl
    · exact h0
    · exact h1
  have hc : concat [P0, P1] (List.replicate 2 s) (b :: 2 :: rest) 1 = gather b sz [P0, P1] := by
    rw [concat_eq_gather _ _ _ _ (by simp)]
    simp only [List.take_succ_cons, List.take_zero, List.prod_cons, List.prod_nil, Nat.mul_one,
      hs]
    by_cases hb : b = 0
    · subst hb; simp [gather]
    · rw [Nat.mul_div_cancel_left _ (Nat.pos_of_ne_zero hb)]
  have hg := length_gather b sz [P0, P1] (fun a ha => by rw [hparts a ha])
  simp only [List.length_cons, List.length_nil] at hg
  rw [hc, store_eq_of_length_eq _ _ (by rw [hg, hd])]
  exact slice_axis_gather_rest b sz 2 rest [P0, P1] (by simp) hrest hparts i hi

theorem lstm_sequence_bidirectional_eq [Zero α] (ev : CellEvaluators α κ)
    (X : List α) (X_shape : Shape) (H : List α) (H_shape : Shape)
    (C : List α) (C_shape : Shape) (seq_lengths : List α) (seq_lengths_shape : Shape)
    (W : List α) (W_shape : Shape) (R : List α) (R_shape : Shape)
    (B : List α) (B_shape : Shape) (Y Ho Co : List α)
    (activation_f activation_g activation_h : String) (clip : κ) :
    lstm_sequence ev X X_shape H H_shape C C_shape seq_lengths seq_lengths_shape
        W W_shape R R_shape B B_shape Y Ho Co activation_f activation_g activation_h clip
        RecurrentSequenceDirection.BIDIRECTIONAL =
      (store Y (concat
        [(lstm_branch ev X X_shape H H_shape C C_shape seq_lengths seq_lengths_shape
            W W_shape R R_shape B B_shape activation_f activation_g activation_h clip
            0 false).getD 0 [],
         (lstm_branch ev X X_shape H H_shape C C_shape seq_lengths seq_lengths_shape
            W W_shape R R_shape B B_shape activation_f activation_g activation_h clip
            1 true).getD 0 []]
        (List.replicate 2 [H_shape.getD 0 0, 1, X_shape.getD 1 0, H_shape.getD 2 0])
        [H_shape.getD 0 0, 2, X_shape.getD 1 0, H_shape.getD 2 0] 1),
       store Ho (concat
        [(lstm_branch ev X X_shape H H_shape C C_shape seq_lengths seq_lengths_shape
            W W_shape R R_shape B B_shape activation_f activation_g activation_h clip
            0 false).getD 1 [],
         (lstm_branch ev X X_shape H H_shape C C_shape seq_lengths seq_lengths_shape
            W W_shape R R_shape B B_shape activation_f activation_g activation_h clip
            1 true).getD 1 []]
        (List.replicate 2 [H_shape.getD 0 0, 1, H_shape.getD 2 0])
        [H_shape.getD 0 0, 2, H_shape.getD 2 0] 1),
       store Co (concat
        [(lstm_branch ev X X_shape H H_shape C C_shape seq_lengths seq_lengths_shape
            W W_shape R R_shape B B_shape activation_f activation_g activation_h clip
            0 false).getD 2 [],
         (lstm_branch ev X X_shape H H_shape C C_shape seq_lengths seq_lengths_shape
            W W_shape R R_shape B B_shape activation_f activation_g activation_h clip
            1 true).getD 2 []]
        (List.replicate 2 [H_shape.getD 0 0, 1, H_shape.getD 2 0])
        [H_shape.getD 0 0, 2, H_shape.getD 2 0] 1)) := by
  rfl

theorem gru_sequence_bidirectional_eq [Zero α] (ev : CellEvaluators α κ)
    (X : List α) (X_shape : Shape) (H : List α) (H_shape : Shape)
    (seq_lengths : List α) (seq_lengths_shape : Shape)
    (W : List α) (W_shape : Shape) (R : List α) (R_shape : Shape)
    (B : List α) (B_shape : Shape) (Y Ho : List α)
    (activation_f activation_g : String) (clip : κ) (linear_before_reset : Bool) :
    gru_sequence ev X X_shape H H_shape seq_lengths seq_lengths_shape
        W W_shape R R_shape B B_shape Y Ho activation_f activation_g clip
        RecurrentSequenceDirection.BIDIRECTIONAL linear_before_reset =
      (store Y (concat
        [(single_state_branch ev CellType.GRU X X_shape H H_shape seq_lengths
            seq_lengths_shape W W_shape R R_shape B B_shape
            ⟨activation_f, activation_g, "", clip, linear_before_reset⟩ 0 false).getD 0 [],
         (single_state_branch ev CellType.GRU X X_shape H H_shape seq_lengths
            seq_lengths_shape W W_shape R R_shape B B_shape
            ⟨activation_f, activation_g, "", clip, linear_before_reset⟩ 1 true).getD 0 []]
        (List.replicate 2 [H_shape.getD 0 0, 1, X_shape.getD 1 0, H_shape.getD 2 0])
        [H_shape.getD 0 0, 2, X_shape.getD 1 0, H_shape.getD 2 0] 1),
       store Ho (concat
        [(single_state_branch ev CellType.GRU X X_shape H H_shape seq_lengths
            seq_lengths_shape W W_shape R R_shape B B_shape
            ⟨activation_f, activation_g, "", clip, linear_before_reset⟩ 0 false).getD 1 [],
         (single_state_branch ev CellType.GRU X X_shape H H_shape seq_lengths
            seq_lengths_shape W W_shape R R_shape B B_shape
            ⟨activation_f, activation_g, "", clip, linear_before_reset⟩ 1 true).getD 1 []]
        (List.replicate 2 [H_shape.getD 0 0, 1, H_shape.getD 2 0])
        [H_shape.getD 0 0, 2, H_shape.getD 2 0] 1)) := by
  rfl

theorem rnn_sequence_bidirectional_eq [Zero α] (ev : CellEvaluators α κ)
    (X : List α) (X_shape : Shape) (H : List α) (H_shape : Shape)
    (seq_lengths : List α) (seq_lengths_shape : Shape)
    (W : List α) (W_shape : Shape) (R : List α) (R_shape : Shape)
    (B : List α) (B_shape : Shape) (Y Ho : List α)
    (activation_f : String) (clip : κ) :
    rnn_sequence ev X X_shape H H_shape seq_lengths seq_lengths_shape
        W W_shape R R_shape B B_shape Y Ho activation_f clip
        RecurrentSequenceDirection.BIDIRECTIONAL =
      (store Y (concat
        [(single_state_branch ev CellType.RNN X X_shape H H_shape seq_lengths
            seq_lengths_shape W W_shape R R_shape B B_shape
            ⟨activation_f, "", "", clip, false⟩ 0 false).getD 0 [],
         (single_state_branch ev CellType.RNN X X_shape H H_shape seq_lengths
            seq_lengths_shape W W_shape R R_shape B B_shape
            ⟨activation_f, "", "", clip, false⟩ 1 true).getD 0 []]
        (List.replicate 2 [H_shape.getD 0 0, 1, X_shape.getD 1 0, H_shape.getD 2 0])
        [H_shape.getD 0 0, 2, X_shape.getD 1 0, H_shape.getD 2 0] 1),
       store Ho (concat
        [(single_state_branch ev CellType.RNN X X_shape H H_shape seq_lengths
            seq_lengths_shape W W_shape R R_shape B B_shape
            ⟨activation_f, "", "", clip, false⟩ 0 false).getD 1 [],
         (single_state_branch ev CellType.RNN X X_shape H H_shape seq_lengths
            seq_lengths_shape W W_shape R R_shape B B_shape
            ⟨activation_f, "", "", clip, false⟩ 1 true).getD 1 []]
        (List.replicate 2 [H_shape.getD 0 0, 1, H_shape.getD 2 0])
        [H_shape.getD 0 0, 2, H_shape.getD 2 0] 1)) := by
  rfl

theorem lstm_branch_eq [Zero α] (ev : CellEvaluators α κ)
    (X H C seq_lengths W R B : List α) (seq_lengths_shape wr rr br : Shape)
    (Yf Hof Cof : List α) (activation_f activation_g activation_h : String) (clip : κ)
    (batch T input hidden : Nat) (i : Nat) (is_reverse : Bool) (hi : i < 2)
    (hH : H.length = batch * 2 * hidden) (hC : C.length = batch * 2 * hidden)
    (hW : W.length = 2 * wr.prod) (hR : R.length = 2 * rr.prod) (hB : B.length = 2 * br.prod)
    (hYf : Yf.length = batch * T * hidden) (hHof : Hof.length = batch * hidden)
    (hCof : Cof.length = batch * hidden) :
    lstm_branch ev X [batch, T, input] H [batch, 2, hidden] C [batch, 2, hidden]
        seq_lengths seq_lengths_shape W (2 :: wr) R (2 :: rr) B (2 :: br)
        activation_f activation_g activation_h clip i is_reverse =
      cell_pass ev CellType.LSTM
        [X, seq_lengths, slice_axis H [batch, 2, hidden] 1 i (i + 1),
          slice_axis C [batch, 2, hidden] 1 i (i + 1), slice_axis W (2 :: wr) 0 i (i + 1),
          slice_axis R (2 :: rr) 0 i (i + 1), slice_axis B (2 :: br) 0 i (i + 1)]
        [[batch, T, input], seq_lengths_shape, [batch, 1, hidden], [batch, 1, hidden],
          1 :: wr, 1 :: rr, 1 :: br]
        [Yf, Hof, Cof]
        ⟨activation_f, activation_g, activation_h, clip, false⟩ is_reverse := by
  unfold lstm_branch
  rw [split_half_axis1 H batch hidden i hi hH, split_half_axis1 C batch hidden i hi hC,
    split_half_axis0 W wr i hi hW, split_half_axis0 R rr i hi hR, split_half_axis0 B br i hi hB]
  simp only [List.set_cons_succ, List.set_cons_zero, List.getD_cons_zero, List.getD_cons_succ]
  have hsl := length_slice_axis_one H batch 2 [hidden] i hi (by simp [hH])
  have hsc := length_slice_axis_one C batch 2 [hidden] i hi (by simp [hC])
  simp only [List.prod_cons, List.prod_nil, Nat.mul_one] at hsl hsc
  apply cell_pass_fresh_outputs
  · rw [List.length_replicate, hYf]; ring
  · simp only [List.length_replicate, List.getD_cons_zero, List.getD_cons_succ]
    apply le_of_eq; ring
  · simp only [init_state, ↓reduceIte, List.getD_cons_zero, List.getD_cons_succ,
      List.set_cons_succ, List.set_cons_zero, List.tail_cons, shape_size, List.prod_cons,
      List.prod_nil, Nat.mul_one, Nat.one_mul]
    rw [memcpy_eq_take _ _ _ (by simp) (by rw [hsl]),
      memcpy_eq_take _ _ _ (by simp) (by rw [hsc]),
      memcpy_eq_take _ _ _ hHof (by rw [hsl]),
      memcpy_eq_take _ _ _ hCof (by rw [hsc])]

theorem single_state_branch_eq [Zero α] (ev : CellEvaluators α κ) (type : CellType)
    (htype : type ≠ CellType.LSTM)
    (X H seq_lengths W R B : List α) (seq_lengths_shape wr rr br : Shape)
    (Yf Hof : List α) (args : CellArgs κ)
    (batch T input hidden : Nat) (i : Nat) (is_reverse : Bool) (hi : i < 2)
    (hH : H.length = batch * 2 * hidden)
    (hW : W.length = 2 * wr.prod) (hR : R.length = 2 * rr.prod) (hB : B.length = 2 * br.prod)
    (hYf : Yf.length = batch * T * hidden) (hHof : Hof.length = batch * hidden) :
    single_state_branch ev type X [batch, T, input] H [batch, 2, hidden]
        seq_lengths seq_lengths_shape W (2 :: wr) R (2 :: rr) B (2 :: br) args i is_reverse =
      cell_pass ev type
        [X, seq_lengths, slice_axis H [batch, 2, hidden] 1 i (i + 1),
          slice_axis W (2 :: wr) 0 i (i + 1),
          slice_axis R (2 :: rr) 0 i (i + 1), slice_axis B (2 :: br) 0 i (i + 1)]
        [[batch, T, input], seq_lengths_shape, [batch, 1, hidden], 1 :: wr, 1 :: rr, 1 :: br]
        [Yf, Hof] args is_reverse := by
  unfold single_state_branch
  rw [split_half_axis1 H batch hidden i hi hH,
    split_half_axis0 W wr i hi hW, split_half_axis0 R rr i hi hR, split_half_axis0 B br i hi hB]
  simp only [List.set_cons_succ, List.set_cons_zero, List.getD_cons_zero, List.getD_cons_succ]
  have hsl := length_slice_axis_one H batch 2 [hidden] i hi (by simp [hH])
  simp only [List.prod_cons, List.prod_nil, Nat.mul_one] at hsl
  apply cell_pass_fresh_outputs
  · rw [List.length_replicate, hYf]; ring
  · simp only [List.length_replicate, List.getD_cons_zero, List.getD_cons_succ]
    apply le_of_eq; ring
  · simp only [init_state, htype, ↓reduceIte, List.getD_cons_zero, List.getD_cons_succ,
      List.set_cons_succ, List.set_cons_zero, List.tail_cons, shape_size, List.prod_cons,
      List.prod_nil, Nat.mul_one, Nat.one_mul]
    rw [memcpy_eq_take _ _ _ (by simp) (by rw [hsl]),
      memcpy_eq_take _ _ _ hHof (by rw [hsl])]

/-- C2: bidirectional decomposition for `lstm_sequence`. With `H0` and `C0` of shape
`[batch, 2, hidden]`, `W`, `R`, `B` of leading dimension 2 and `T ≥ 1`, the slices
`Y[:,0,:,:]`, `Hn[:,0,:]`, `Cn[:,0,:]` of the BIDIRECTIONAL result are the outputs of a
standalone FORWARD call on the index-0 halves `H0[:,0:1,:]`, `C0[:,0:1,:]`, `W[0:1]`, `R[0:1]`,
`B[0:1]`, and the slices at direction index 1 are the outputs of a standalone REVERSE call
on the index-1 halves; `X`, the activations and `clip` are the same in all three calls. -/
theorem lstm_sequence_bidirectional_decomposition [Zero α] (ev : CellEvaluators α κ)
    (X H C seq_lengths W R B : List α) (seq_lengths_shape wr rr br : Shape)
    (Y Ho Co Yf Hof Cof Yr Hor Cor : List α)
    (activation_f activation_g activation_h : String) (clip : κ)
    (batch T input hidden : Nat) (_hT : 1 ≤ T)
    (hH : H.length = batch * 2 * hidden) (hC : C.length = batch * 2 * hidden)
    (hW : W.length = 2 * wr.prod) (hR : R.length = 2 * rr.prod) (hB : B.length = 2 * br.prod)
    (hY : Y.length = batch * 2 * T * hidden) (hHo : Ho.length = batch * 2 * hidden)
    (hCo : Co.length = batch * 2 * hidden)
    (hYf : Yf.length = batch * T * hidden) (hHof : Hof.length = batch * hidden)
    (hCof : Cof.length = batch * hidden)
    (hYr : Yr.length = batch * T * hidden) (hHor : Hor.length = batch * hidden)
    (hCor : Cor.length = batch * hidden) :
    direction_slice3
        (lstm_sequence ev X [batch, T, input] H [batch, 2, hidden] C [batch, 2, hidden]
          seq_lengths seq_lengths_shape W (2 :: wr) R (2 :: rr) B (2 :: br) Y Ho Co
          activation_f activation_g activation_h clip RecurrentSequenceDirection.BIDIRECTIONAL)
        batch T hidden 0 =
      lstm_sequence ev X [batch, T, input]
        (slice_axis H [batch, 2, hidden] 1 0 1) [batch, 1, hidden]
        (slice_axis C [batch, 2, hidden] 1 0 1) [batch, 1, hidden]
        seq_lengths seq_lengths_shape
        (slice_axis W (2 :: wr) 0 0 1) (1 :: wr) (slice_axis R (2 :: rr) 0 0 1) (1 :: rr)
        (slice_axis B (2 :: br) 0 0 1) (1 :: br) Yf Hof Cof
        activation_f activation_g activation_h clip RecurrentSequenceDirection.FORWARD ∧
    direction_slice3
        (lstm_sequence ev X [batch, T, input] H [batch, 2, hidden] C [batch, 2, hidden]
          seq_lengths seq_lengths_shape W (2 :: wr) R (2 :: rr) B (2 :: br) Y Ho Co
          activation_f activation_g activation_h clip RecurrentSequenceDirection.BIDIRECTIONAL)
        batch T hidden 1 =
      lstm_sequence ev X [batch, T, input]
        (slice_axis H [batch, 2, hidden] 1 1 2) [batch, 1, hidden]
        (slice_axis C [batch, 2, hidden] 1 1 2) [batch, 1, hidden]
        seq_lengths seq_lengths_shape
        (slice_axis W (2 :: wr) 0 1 2) (1 :: wr) (slice_axis R (2 :: rr) 0 1 2) (1 :: rr)
        (slice_axis B (2 :: br) 0 1 2) (1 :: br) Yr Hor Cor
        activation_f activation_g activation_h clip RecurrentSequenceDirection.REVERSE := by
  have hF := lstm_branch_eq ev X H C seq_lengths W R B seq_lengths_shape wr rr br Yf Hof Cof
    activation_f activation_g activation_h clip batch T input hidden 0 false (by omega)
    hH hC hW hR hB hYf hHof hCof
  have hRv := lstm_branch_eq ev X H C seq_lengths W R B seq_lengths_shape wr rr br Yr Hor Cor
    activation_f activation_g activation_h clip batch T input hidden 1 true (by omega)
    hH hC hW hR hB hYr hHor hCor
  have hfw : lstm_sequence ev X [batch, T, input]
        (slice_axis H [batch, 2, hidden] 1 0 1) [batch, 1, hidden]
        (slice_axis C [batch, 2, hidden] 1 0 1) [batch, 1, hidden]
        seq_lengths seq_lengths_shape
        (slice_axis W (2 :: wr) 0 0 1) (1 :: wr) (slice_axis R (2 :: rr) 0 0 1) (1 :: rr)
        (slice_axis B (2 :: br) 0 0 1) (1 :: br) Yf Hof Cof
        activation_f activation_g activation_h clip RecurrentSequenceDirection.FORWARD =
      ((lstm_branch ev X [batch, T, input] H [batch, 2, hidden] C [batch, 2, hidden]
          seq_lengths seq_lengths_shape W (2 :: wr) R (2 :: rr) B (2 :: br)
          activation_f activation_g activation_h clip 0 false).getD 0 [],
       (lstm_branch ev X [batch, T, input] H [batch, 2, hidden] C [batch, 2, hidden]
          seq_lengths seq_lengths_shape W (2 :: wr) R (2 :: rr) B (2 :: br)
          activation_f activation_g activation_h clip 0 false).getD 1 [],
       (lstm_branch ev X [batch, T, input] H [batch, 2, hidden] C [batch, 2, hidden]
          seq_lengths seq_lengths_shape W (2 :: wr) R (2 :: rr) B (2 :: br)
          activation_f activation_g activation_h clip 0 false).getD 2 []) := by
    rw [hF]; rfl
  have hrv : lstm_sequence ev X [batch, T, input]
        (slice_axis H [batch, 2, hidden] 1 1 2) [batch, 1, hidden]
        (slice_axis C [batch, 2, hidden] 1 1 2) [batch, 1, hidden]
        seq_lengths seq_lengths_shape
        (slice_axis W (2 :: wr) 0 1 2) (1 :: wr) (slice_axis R (2 :: rr) 0 1 2) (1 :: rr)
        (slice_axis B (2 :: br) 0 1 2) (1 :: br) Yr Hor Cor
        activation_f activation_g activation_h clip RecurrentSequenceDirection.REVERSE =
      ((lstm_branch ev X [batch, T, input] H [batch, 2, hidden] C [batch, 2, hidden]
          seq_lengths seq_lengths_shape W (2 :: wr) R (2 :: rr) B (2 :: br)
          activation_f activation_g activation_h clip 1 true).getD 0 [],
       (lstm_branch ev X [batch, T, input] H [batch, 2, hidden] C [batch, 2, hidden]
          seq_lengths seq_lengths_shape W (2 :: wr) R (2 :: rr) B (2 :: br)
          activation_f activation_g activation_h clip 1 true).getD 1 [],
       (lstm_branch ev X [batch, T, input] H [batch, 2, hidden] C [batch, 2, hidden]
          seq_lengths seq_lengths_shape W (2 :: wr) R (2 :: rr) B (2 :: br)
          activation_f activation_g activation_h clip 1 true).getD 2 []) := by
    rw [hRv]; rfl
  have hlF : ∀ j, ((lstm_branch ev X [batch, T, input] H [batch, 2, hidden] C
      [batch, 2, hidden] seq_lengths seq_lengths_shape W (2 :: wr) R (2 :: rr) B (2 :: br)
      activation_f activation_g activation_h clip 0 false).getD j []).length =
      ([Yf, Hof, Cof].getD j []).length := by
    intro j; rw [hF, length_getD_cell_pass]
  have hlR : ∀ j, ((lstm_branch ev X [batch, T, input] H [batch, 2, hidden] C
      [batch, 2, hidden] seq_lengths seq_lengths_shape W (2 :: wr) R (2 :: rr) B (2 :: br)
      activation_f activation_g activation_h clip 1 true).getD j []).length =
      ([Yr, Hor, Cor].getD j []).length := by
    intro j; rw [hRv, length_getD_cell_pass]
  rw [hfw, hrv, lstm_sequence_bidirectional_eq]
  simp only [direction_slice3, List.getD_cons_zero, List.getD_cons_succ]
  have hy := fun i hi => slice_store_concat_two batch (T * hidden) [T, hidden]
    [batch, 1, T, hidden] (by simp) (by simp [shape_size]) _ _ Y
    (by rw [hlF 0]; simp [hYf]; ring) (by rw [hlR 0]; simp [hYr]; ring)
    (by rw [hY]; ring) i hi
  have hh := fun i hi => slice_store_concat_two batch hidden [hidden]
    [batch, 1, hidden] (by simp) (by simp [shape_size]) _ _ Ho
    (by rw [hlF 1]; simp [hHof]) (by rw [hlR 1]; simp [hHor])
    (by rw [hHo]; ring) i hi
  have hc := fun i hi => slice_store_concat_two batch hidden [hidden]
    [batch, 1, hidden] (by simp) (by simp [shape_size]) _ _ Co
    (by rw [hlF 2]; simp [hCof]) (by rw [hlR 2]; simp [hCor])
    (by rw [hCo]; ring) i hi
  constructor
  · rw [hy 0 (by omega), hh 0 (by omega), hc 0 (by omega)]
    rfl
  · rw [hy 1 (by omega), hh 1 (by omega), hc 1 (by omega)]
    rfl

theorem single_state_decomposition [Zero α] (ev : CellEvaluators α κ) (type : CellType)
    (htype : type ≠ CellType.LSTM)
    (X H seq_lengths W R B : List α) (seq_lengths_shape wr rr br : Shape)
    (Y Ho Yf Hof Yr Hor : List α) (args : CellArgs κ)
    (batch T input hidden : Nat)
    (hH : H.length = batch * 2 * hidden)
    (hW : W.length = 2 * wr.prod) (hR : R.length = 2 * rr.prod) (hB : B.length = 2 * br.prod)
    (hY : Y.length = batch * 2 * T * hidden) (hHo : Ho.length = batch * 2 * hidden)
    (hYf : Yf.length = batch * T * hidden) (hHof : Hof.length = batch * hidden)
    (hYr : Yr.length = batch * T * hidden) (hHor : Hor.length = batch * hidden) :
    direction_slice2
        (store Y (concat
          [(single_state_branch ev type X [batch, T, input] H [batch, 2, hidden] seq_lengths
              seq_lengths_shape W (2 :: wr) R (2 :: rr) B (2 :: br) args 0 false).getD 0 [],
           (single_state_branch ev type X [batch, T, input] H [batch, 2, hidden] seq_lengths
              seq_lengths_shape W (2 :: wr) R (2 :: rr) B (2 :: br) args 1 true).getD 0 []]
          (List.replicate 2 [batch, 1, T, hidden]) [batch, 2, T, hidden] 1),
         store Ho (concat
          [(single_state_branch ev type X [batch, T, input] H [batch, 2, hidden] seq_lengths
              seq_lengths_shape W (2 :: wr) R (2 :: rr) B (2 :: br) args 0 false).getD 1 [],
           (single_state_branch ev type X [batch, T, input] H [batch, 2, hidden] seq_lengths
              seq_lengths_shape W (2 :: wr) R (2 :: rr) B (2 :: br) args 1 true).getD 1 []]
          (List.replicate 2 [batch, 1, hidden]) [batch, 2, hidden] 1))
        batch T hidden 0 =
      ((cell_pass ev type
          [X, seq_lengths, slice_axis H [batch, 2, hidden] 1 0 1,
            slice_axis W (2 :: wr) 0 0 1, slice_axis R (2 :: rr) 0 0 1,
            slice_axis B (2 :: br) 0 0 1]
          [[batch, T, input], seq_lengths_shape, [batch, 1, hidden], 1 :: wr, 1 :: rr, 1 :: br]
          [Yf, Hof] args false).getD 0 [],
       (cell_pass ev type
          [X, seq_lengths, slice_axis H [batch, 2, hidden] 1 0 1,
            slice_axis W (2 :: wr) 0 0 1, slice_axis R (2 :: rr) 0 0 1,
            slice_axis B (2 :: br) 0 0 1]
          [[batch, T, input], seq_lengths_shape, [batch, 1, hidden], 1 :: wr, 1 :: rr, 1 :: br]
          [Yf, Hof] args false).getD 1 []) ∧
    direction_slice2
        (store Y (concat
          [(single_state_branch ev type X [batch, T, input] H [batch, 2, hidden] seq_lengths
              seq_lengths_shape W (2 :: wr) R (2 :: rr) B (2 :: br) args 0 false).getD 0 [],
           (single_state_branch ev type X [batch, T, input] H [batch, 2, hidden] seq_lengths
              seq_lengths_shape W (2 :: wr) R (2 :: rr) B (2 :: br) args 1 true).getD 0 []]
          (List.replicate 2 [batch, 1, T, hidden]) [batch, 2, T, hidden] 1),
         store Ho (concat
          [(single_state_branch ev type X [batch, T, input] H [batch, 2, hidden] seq_lengths
              seq_lengths_shape W (2 :: wr) R (2 :: rr) B (2 :: br) args 0 false).getD 1 [],
           (single_state_branch ev type X [batch, T, input] H [batch, 2, hidden] seq_lengths
              seq_lengths_shape W (2 :: wr) R (2 :: rr) B (2 :: br) args 1 true).getD 1 []]
          (List.replicate 2 [batch, 1, hidden]) [batch, 2, hidden] 1))
        batch T hidden 1 =
      ((cell_pass ev type
          [X, seq_lengths, slice_axis H [batch, 2, hidden] 1 1 2,
            slice_axis W (2 :: wr) 0 1 2, slice_axis R (2 :: rr) 0 1 2,
            slice_axis B (2 :: br) 0 1 2]
          [[batch, T, input], seq_lengths_shape, [batch, 1, hidden], 1 :: wr, 1 :: rr, 1 :: br]
          [Yr, Hor] args true).getD 0 [],
       (cell_pass ev type
          [X, seq_lengths, slice_axis H [batch, 2, hidden] 1 1 2,
            slice_axis W (2 :: wr) 0 1 2, slice_axis R (2 :: rr) 0 1 2,
            slice_axis B (2 :: br) 0 1 2]
          [[batch, T, input], seq_lengths_shape, [batch, 1, hidden], 1 :: wr, 1 :: rr, 1 :: br]
          [Yr, Hor] args true).getD 1 []) := by
  have hF := single_state_branch_eq ev type htype X H seq_lengths W R B seq_lengths_shape
    wr rr br Yf Hof args batch T input hidden 0 false (by omega) hH hW hR hB hYf hHof
  have hRv := single_state_branch_eq ev type htype X H seq_lengths W R B seq_lengths_shape
    wr rr br Yr Hor args batch T input hidden 1 true (by omega) hH hW hR hB hYr hHor
  have hlF : ∀ j, ((single_state_branch ev type X [batch, T, input] H [batch, 2, hidden]
      seq_lengths seq_lengths_shape W (2 :: wr) R (2 :: rr) B (2 :: br) args 0
      false).getD j []).length = ([Yf, Hof].getD j []).length := by
    intro j; rw [hF, length_getD_cell_pass]
  have hlR : ∀ j, ((single_state_branch ev type X [batch, T, input] H [batch, 2, hidden]
      seq_lengths seq_lengths_shape W (2 :: wr) R (2 :: rr) B (2 :: br) args 1
      true).getD j []).length = ([Yr, Hor].getD j []).length := by
    intro j; rw [hRv, length_getD_cell_pass]
  simp only [direction_slice2]
  have hy := fun i hi => slice_store_concat_two batch (T * hidden) [T, hidden]
    [batch, 1, T, hidden] (by simp) (by simp [shape_size]) _ _ Y
    (by rw [hlF 0]; simp [hYf]; ring) (by rw [hlR 0]; simp [hYr]; ring)
    (by rw [hY]; ring) i hi
  have hh := fun i hi => slice_store_concat_two batch hidden [hidden]
    [batch, 1, hidden] (by simp) (by simp [shape_size]) _ _ Ho
    (by rw [hlF 1]; simp [hHof]) (by rw [hlR 1]; simp [hHor])
    (by rw [hHo]; ring) i hi
  constructor
  · rw [hy 0 (by omega), hh 0 (by omega), ← hF]
    rfl
  · rw [hy 1 (by omega), hh 1 (by omega), ← hRv]
    rfl

/-- C3: bidirectional decomposition for `gru_sequence` and `rnn_sequence`. For each of the
two adapters, with `H0` of shape `[batch, 2, hidden]`, `W`, `R`, `B` of leading dimension 2
and `T ≥ 1`, the slices `Y[:,0,:,:]` and `Hn[:,0,:]` of the BIDIRECTIONAL outputs are the `Y`
and `Hn` of a FORWARD call of the same adapter on the index-0 halves of `H0`, `W`, `R`, `B`,
and the slices at direction index 1 are the `Y` and `Hn` of a REVERSE call on the index-1
halves, with `X` and all cell parameters unchanged. -/
theorem gru_rnn_sequence_bidirectional_decomposition [Zero α] (ev : CellEvaluators α κ)
    (X H seq_lengths W R B : List α) (seq_lengths_shape wr rr br : Shape)
    (Y Ho Yf Hof Yr Hor : List α)
    (activation_f activation_g : String) (clip : κ) (linear_before_reset : Bool)
    (batch T input hidden : Nat) (_hT : 1 ≤ T)
    (hH : H.length = batch * 2 * hidden)
    (hW : W.length = 2 * wr.prod) (hR : R.length = 2 * rr.prod) (hB : B.length = 2 * br.prod)
    (hY : Y.length = batch * 2 * T * hidden) (hHo : Ho.length = batch * 2 * hidden)
    (hYf : Yf.length = batch * T * hidden) (hHof : Hof.length = batch * hidden)
    (hYr : Yr.length = batch * T * hidden) (hHor : Hor.length = batch * hidden) :
    (direction_slice2
        (gru_sequence ev X [batch, T, input] H [batch, 2, hidden]
          seq_lengths seq_lengths_shape W (2 :: wr) R (2 :: rr) B (2 :: br) Y Ho
          activation_f activation_g clip RecurrentSequenceDirection.BIDIRECTIONAL
          linear_before_reset)
        batch T hidden 0 =
      gru_sequence ev X [batch, T, input]
        (slice_axis H [batch, 2, hidden] 1 0 1) [batch, 1, hidden]
        seq_lengths seq_lengths_shape
        (slice_axis W (2 :: wr) 0 0 1) (1 :: wr) (slice_axis R (2 :: rr) 0 0 1) (1 :: rr)
        (slice_axis B (2 :: br) 0 0 1) (1 :: br) Yf Hof
        activation_f activation_g clip RecurrentSequenceDirection.FORWARD
        linear_before_reset ∧
    direction_slice2
        (gru_sequence ev X [batch, T, input] H [batch, 2, hidden]
          seq_lengths seq_lengths_shape W (2 :: wr) R (2 :: rr) B (2 :: br) Y Ho
          activation_f activation_g clip RecurrentSequenceDirection.BIDIRECTIONAL
          linear_before_reset)
        batch T hidden 1 =
      gru_sequence ev X [batch, T, input]
        (slice_axis H [batch, 2, hidden] 1 1 2) [batch, 1, hidden]
        seq_lengths seq_lengths_shape
        (slice_axis W (2 :: wr) 0 1 2) (1 :: wr) (slice_axis R (2 :: rr) 0 1 2) (1 :: rr)
        (slice_axis B (2 :: br) 0 1 2) (1 :: br) Yr Hor
        activation_f activation_g clip RecurrentSequenceDirection.REVERSE
        linear_before_reset) ∧
    (direction_slice2
        (rnn_sequence ev X [batch, T, input] H [batch, 2, hidden]
          seq_lengths seq_lengths_shape W (2 :: wr) R (2 :: rr) B (2 :: br) Y Ho
          activation_f clip RecurrentSequenceDirection.BIDIRECTIONAL)
        batch T hidden 0 =
      rnn_sequence ev X [batch, T, input]
        (slice_axis H [batch, 2, hidden] 1 0 1) [batch, 1, hidden]
        seq_lengths seq_lengths_shape
        (slice_axis W (2 :: wr) 0 0 1) (1 :: wr) (slice_axis R (2 :: rr) 0 0 1) (1 :: rr)
        (slice_axis B (2 :: br) 0 0 1) (1 :: br) Yf Hof
        activation_f clip RecurrentSequenceDirection.FORWARD ∧
    direction_slice2
        (rnn_sequence ev X [batch, T, input] H [batch, 2, hidden]
          seq_lengths seq_lengths_shape W (2 :: wr) R (2 :: rr) B (2 :: br) Y Ho
          activation_f clip RecurrentSequenceDirection.BIDIRECTIONAL)
        batch T hidden 1 =
      rnn_sequence ev X [batch, T, input]
        (slice_axis H [batch, 2, hidden] 1 1 2) [batch, 1, hidden]
        seq_lengths seq_lengths_shape
        (slice_axis W (2 :: wr) 0 1 2) (1 :: wr) (slice_axis R (2 :: rr) 0 1 2) (1 :: rr)
        (slice_axis B (2 :: br) 0 1 2) (1 :: br) Yr Hor
        activation_f clip RecurrentSequenceDirection.REVERSE) := by
  have hg := single_state_decomposition ev CellType.GRU (by decide) X H seq_lengths W R B
    seq_lengths_shape wr rr br Y Ho Yf Hof Yr Hor
    ⟨activation_f, activation_g, "", clip, linear_before_reset⟩ batch T input hidden
    hH hW hR hB hY hHo hYf hHof hYr hHor
  have hr := single_state_decomposition ev CellType.RNN (by decide) X H seq_lengths W R B
    seq_lengths_shape wr rr br Y Ho Yf Hof Yr Hor
    ⟨activation_f, "", "", clip, false⟩ batch T input hidden
    hH hW hR hB hY hHo hYf hHof hYr hHor
  refine ⟨⟨?_, ?_⟩, ⟨?_, ?_⟩⟩
  · rw [gru_sequence_bidirectional_eq]
    exact hg.1
  · rw [gru_sequence_bidirectional_eq]
    exact hg.2
  · rw [rnn_sequence_bidirectional_eq]
    exact hr.1
  · rw [rnn_sequence_bidirectional_eq]
    exact hr.2

/-- C7: sequence lengths are ignored. For each of `lstm_sequence`, `gru_sequence` and
`rnn_sequence`, every direction value, and any two calls that agree on every argument except
the `seq_lengths` buffer and `seq_lengths_shape`, the outputs `Y`, `Ho` (and `Co`) of the
two calls are identical: no batch element is truncated or masked by a sequence length. -/
theorem seq_lengths_ignored [Zero α] (ev : CellEvaluators α κ)
    (X : List α) (X_shape : Shape) (H : List α) (H_shape : Shape)
    (C : List α) (C_shape : Shape) (seq_lengths seq_lengths' : List α)
    (seq_lengths_shape seq_lengths_shape' : Shape)
    (W : List α) (W_shape : Shape) (R : List α) (R_shape : Shape)
    (B : List α) (B_shape : Shape) (Y Ho Co : List α)
    (activation_f activation_g activation_h : String) (clip : κ)
    (direction : RecurrentSequenceDirection) (linear_before_reset : Bool) :
    lstm_sequence ev X X_shape H H_shape C C_shape seq_lengths seq_lengths_shape
        W W_shape R R_shape B B_shape Y Ho Co activation_f activation_g activation_h clip
        direction =
      lstm_sequence ev X X_shape H H_shape C C_shape seq_lengths' seq_lengths_shape'
        W W_shape R R_shape B B_shape Y Ho Co activation_f activation_g activation_h clip
        direction ∧
    gru_sequence ev X X_shape H H_shape seq_lengths seq_lengths_shape
        W W_shape R R_shape B B_shape Y Ho activation_f activation_g clip direction
        linear_before_reset =
      gru_sequence ev X X_shape H H_shape seq_lengths' seq_lengths_shape'
        W W_shape R R_shape B B_shape Y Ho activation_f activation_g clip direction
        linear_before_reset ∧
    rnn_sequence ev X X_shape H H_shape seq_lengths seq_lengths_shape
        W W_shape R R_shape B B_shape Y Ho activation_f clip direction =
      rnn_sequence ev X X_shape H H_shape seq_lengths' seq_lengths_shape'
        W W_shape R R_shape B B_shape Y Ho activation_f clip direction := by
  have hl : ∀ i r, lstm_branch ev X X_shape H H_shape C C_shape seq_lengths seq_lengths_shape
      W W_shape R R_shape B B_shape activation_f activation_g activation_h clip i r =
      lstm_branch ev X X_shape H H_shape C C_shape seq_lengths' seq_lengths_shape'
      W W_shape R R_shape B B_shape activation_f activation_g activation_h clip i r := by
    intro i r
    unfold lstm_branch
    exact cell_pass_seq_lengths ev _ _ _ _ _ _ _ _ _ _ _ _
  have hs : ∀ type args i r, single_state_branch ev type X X_shape H H_shape seq_lengths
      seq_lengths_shape W W_shape R R_shape B B_shape args i r =
      single_state_branch ev type X X_shape H H_shape seq_lengths' seq_lengths_shape'
      W W_shape R R_shape B B_shape args i r := by
    intro type args i r
    unfold single_state_branch
    exact cell_pass_seq_lengths ev _ _ _ _ _ _ _ _ _ _ _ _
  by_cases h1 : direction = RecurrentSequenceDirection.FORWARD ∨
      direction = RecurrentSequenceDirection.REVERSE
  · refine ⟨?_, ?_, ?_⟩
    · simp only [lstm_sequence, h1, ↓reduceIte]
      rw [cell_pass_seq_lengths ev _ X seq_lengths seq_lengths' _ X_shape seq_lengths_shape
        seq_lengths_shape']
    · simp only [gru_sequence, h1, ↓reduceIte]
      rw [cell_pass_seq_lengths ev _ X seq_lengths seq_lengths' _ X_shape seq_lengths_shape
        seq_lengths_shape']
    · simp only [rnn_sequence, h1, ↓reduceIte]
      rw [cell_pass_seq_lengths ev _ X seq_lengths seq_lengths' _ X_shape seq_lengths_shape
        seq_lengths_shape']
  · by_cases h2 : direction = RecurrentSequenceDirection.BIDIRECTIONAL
    · subst h2
      refine ⟨?_, ?_, ?_⟩
      · rw [lstm_sequence_bidirectional_eq, lstm_sequence_bidirectional_eq]
        simp only [hl]
      · rw [gru_sequence_bidirectional_eq, gru_sequence_bidirectional_eq]
        simp only [hs]
      · rw [rnn_sequence_bidirectional_eq, rnn_sequence_bidirectional_eq]
        simp only [hs]
    · refine ⟨?_, ?_, ?_⟩
      · simp only [lstm_sequence, h1, h2, ↓reduceIte]
      · simp only [gru_sequence, h1, h2, ↓reduceIte]
      · simp only [rnn_sequence, h1, h2, ↓reduceIte]

/-- C8: an unrecognised direction is a silent no-op. For each of `lstm_sequence`,
`gru_sequence` and `rnn_sequence`, if `direction` is a value other than FORWARD, REVERSE and
BIDIRECTIONAL, the call returns normally with the output buffers `Y`, `Ho` (and `Co`) equal
to their contents before the call, whatever the cell evaluators are: no cell evaluation
contributes to the result and no error is reported. -/
theorem unrecognised_direction_no_op [Zero α] (ev : CellEvaluators α κ)
    (X : List α) (X_shape : Shape) (H : List α) (H_shape : Shape)
    (C : List α) (C_shape : Shape) (seq_lengths : List α) (seq_lengths_shape : Shape)
    (W : List α) (W_shape : Shape) (R : List α) (R_shape : Shape)
    (B : List α) (B_shape : Shape) (Y Ho Co : List α)
    (activation_f activation_g activation_h : String) (clip : κ)
    (direction : RecurrentSequenceDirection) (linear_before_reset : Bool)
    (hF : direction ≠ RecurrentSequenceDirection.FORWARD)
    (hR : direction ≠ RecurrentSequenceDirection.REVERSE)
    (hB : direction ≠ RecurrentSequenceDirection.BIDIRECTIONAL) :
    lstm_sequence ev X X_shape H H_shape C C_shape seq_lengths seq_lengths_shape
        W W_shape R R_shape B B_shape Y Ho Co activation_f activation_g activation_h clip
        direction = (Y, Ho, Co) ∧
    gru_sequence ev X X_shape H H_shape seq_lengths seq_lengths_shape
        W W_shape R R_shape B B_shape Y Ho activation_f activation_g clip direction
        linear_before_reset = (Y, Ho) ∧
    rnn_sequence ev X X_shape H H_shape seq_lengths seq_lengths_shape
        W W_shape R R_shape B B_shape Y Ho activation_f clip direction = (Y, Ho) := by
  refine ⟨?_, ?_, ?_⟩
  · simp only [lstm_sequence, hF, hR, hB, or_self, ↓reduceIte]
  · simp only [gru_sequence, hF, hR, hB, or_self, ↓reduceIte]
  · simp only [rnn_sequence, hF, hR, hB, or_self, ↓reduceIte]

/-- C10: single-direction delegation. For each of `lstm_sequence`, `gru_sequence` and
`rnn_sequence` and direction FORWARD or REVERSE, the outputs of the adapter are those of
one `cell_pass` call of the matching cell kind on the caller's buffers and unmodified
shapes, with `is_reverse = false` for FORWARD and `is_reverse = true` for REVERSE. -/
theorem single_direction_delegation [Zero α] (ev : CellEvaluators α κ)
    (X : List α) (X_shape : Shape) (H : List α) (H_shape : Shape)
    (C : List α) (C_shape : Shape) (seq_lengths : List α) (seq_lengths_shape : Shape)
    (W : List α) (W_shape : Shape) (R : List α) (R_shape : Shape)
    (B : List α) (B_shape : Shape) (Y Ho Co : List α)
    (activation_f activation_g activation_h : String) (clip : κ)
    (linear_before_reset : Bool) :
    (∀ is_reverse : Bool,
      lstm_sequence ev X X_shape H H_shape C C_shape seq_lengths seq_lengths_shape
          W W_shape R R_shape B B_shape Y Ho Co activation_f activation_g activation_h clip
          (if is_reverse then RecurrentSequenceDirection.REVERSE
            else RecurrentSequenceDirection.FORWARD) =
        ((cell_pass ev CellType.LSTM [X, seq_lengths, H, C, W, R, B]
            [X_shape, seq_lengths_shape, H_shape, C_shape, W_shape, R_shape, B_shape]
            [Y, Ho, Co] ⟨activation_f, activation_g, activation_h, clip, false⟩
            is_reverse).getD 0 [],
         (cell_pass ev CellType.LSTM [X, seq_lengths, H, C, W, R, B]
            [X_shape, seq_lengths_shape, H_shape, C_shape, W_shape, R_shape, B_shape]
            [Y, Ho, Co] ⟨activation_f, activation_g, activation_h, clip, false⟩
            is_reverse).getD 1 [],
         (cell_pass ev CellType.LSTM [X, seq_lengths, H, C, W, R, B]
            [X_shape, seq_lengths_shape, H_shape, C_shape, W_shape, R_shape, B_shape]
            [Y, Ho, Co] ⟨activation_f, activation_g, activation_h, clip, false⟩
            is_reverse).getD 2 [])) ∧
    (∀ is_reverse : Bool,
      gru_sequence ev X X_shape H H_shape seq_lengths seq_lengths_shape
          W W_shape R R_shape B B_shape Y Ho activation_f activation_g clip
          (if is_reverse then RecurrentSequenceDirection.REVERSE
            else RecurrentSequenceDirection.FORWARD) linear_before_reset =
        ((cell_pass ev CellType.GRU [X, seq_lengths, H, W, R, B]
            [X_shape, seq_lengths_shape, H_shape, W_shape, R_shape, B_shape]
            [Y, Ho] ⟨activation_f, activation_g, "", clip, linear_before_reset⟩
            is_reverse).getD 0 [],
         (cell_pass ev CellType.GRU [X, seq_lengths, H, W, R, B]
            [X_shape, seq_lengths_shape, H_shape, W_shape, R_shape, B_shape]
            [Y, Ho] ⟨activation_f, activation_g, "", clip, linear_before_reset⟩
            is_reverse).getD 1 [])) ∧
    (∀ is_reverse : Bool,
      rnn_sequence ev X X_shape H H_shape seq_lengths seq_lengths_shape
          W W_shape R R_shape B B_shape Y Ho activation_f clip
          (if is_reverse then RecurrentSequenceDirection.REVERSE
            else RecurrentSequenceDirection.FORWARD) =
        ((cell_pass ev CellType.RNN [X, seq_lengths, H, W, R, B]
            [X_shape, seq_lengths_shape, H_shape, W_shape, R_shape, B_shape]
            [Y, Ho] ⟨activation_f, "", "", clip, false⟩ is_reverse).getD 0 [],
         (cell_pass ev CellType.RNN [X, seq_lengths, H, W, R, B]
            [X_shape, seq_lengths_shape, H_shape, W_shape, R_shape, B_shape]
            [Y, Ho] ⟨activation_f, "", "", clip, false⟩ is_reverse).getD 1 [])) := by
  refine ⟨?_, ?_, ?_⟩ <;> intro is_reverse <;> cases is_reverse <;> rfl

theorem length_vadd [Add α] (a b : List α) : (vadd a b).length = min a.length b.length := by
  simp [vadd]

theorem rnn_state_after_eq_prefix_sum [Zero α] [Add α] (ev : CellEvaluators α κ)
    (X H seq_lengths W R B : List α) (seq_lengths_shape W_shape R_shape B_shape : Shape)
    (Y Ho : List α) (args : CellArgs κ)
    (batch T input hidden : Nat) (mulW : List α → List α)
    (hX : X.length = batch * T * input) (hH : H.length = batch * hidden)
    (hHo : Ho.length = batch * hidden)
    (hmul : ∀ x, (mulW x).length = batch * hidden)
    (hcell : ∀ x h, x.length = batch * input → h.length = batch * hidden →
      ev.rnn_cell x [batch, input] h [batch, hidden] W (squeeze_axis W_shape 0)
        R (squeeze_axis R_shape 0) B (squeeze_axis B_shape 0) args.activation_f args.clip =
        vadd h (mulW x))
    (m : Nat) (hm : m < T) :
    (state_after ev CellType.RNN [X, seq_lengths, H, W, R, B]
      [[batch, T, input], seq_lengths_shape, [batch, 1, hidden], W_shape, R_shape, B_shape]
      args false [Y, Ho] (m + 1)).1 = prefix_sum mulW H X [batch, T, input] m := by
  have hinit : (state_after ev CellType.RNN [X, seq_lengths, H, W, R, B]
      [[batch, T, input], seq_lengths_shape, [batch, 1, hidden], W_shape, R_shape, B_shape]
      args false [Y, Ho] 0).1 = H := by
    simp only [state_after, List.take_zero, List.foldl_nil, initial_state, List.getD_cons_zero,
      List.getD_cons_succ, shape_size, List.prod_cons, List.prod_nil, Nat.mul_one, Nat.one_mul]
    rw [memcpy_eq_take _ _ _ hHo (by omega)]
    exact List.take_of_length_le (by omega)
  have hstep : ∀ j, j < T →
      (state_after ev CellType.RNN [X, seq_lengths, H, W, R, B]
        [[batch, T, input], seq_lengths_shape, [batch, 1, hidden], W_shape, R_shape, B_shape]
        args false [Y, Ho] (j + 1)).1 =
      vadd (state_after ev CellType.RNN [X, seq_lengths, H, W, R, B]
        [[batch, T, input], seq_lengths_shape, [batch, 1, hidden], W_shape, R_shape, B_shape]
        args false [Y, Ho] j).1 (mulW (slice_axis X [batch, T, input] 1 j (j + 1))) := by
    intro j hj
    have hl := length_state_after_fst ev CellType.RNN [X, seq_lengths, H, W, R, B]
      [[batch, T, input], seq_lengths_shape, [batch, 1, hidden], W_shape, R_shape, B_shape]
      args false [Y, Ho] j
    simp only [List.getD_cons_zero, List.getD_cons_succ, hHo] at hl
    rw [state_after_succ _ _ _ _ _ _ _ _ (by
      simp only [List.getD_cons_zero]
      rw [length_ordered_slices]; exact hj)]
    simp only [List.getD_cons_zero, ordered_slices_eq, getD_map_range _ _ _ _ hj, dir_index,
      Bool.false_eq_true, ↓reduceIte, state_step, evaluate_cell, List.getD_cons_succ]
    have hsx := length_slice_axis_one X batch T [input] j hj (by simp [hX])
    simp only [List.prod_cons, List.prod_nil, Nat.mul_one] at hsx
    rw [show squeeze_axis [batch, T, input] 1 = [batch, input] from rfl,
      show squeeze_axis [batch, 1, hidden] 1 = [batch, hidden] from rfl,
      hcell _ _ hsx hl]
    apply store_eq_of_length_eq
    rw [length_vadd, hl, hmul]
    simp
  induction m with
  | zero =>
    rw [hstep 0 hm, hinit]
    simp [prefix_sum, List.range_succ]
  | succ m ih =>
    rw [hstep (m + 1) hm, ih (by omega)]
    simp only [prefix_sum]
    rw [List.range_succ (m + 1), List.map_append, List.foldl_append]
    rfl

/-- C9: Scenario A (Plain, forward). For `rnn_sequence` with direction FORWARD and a cell
whose update, for the given weights, is `H' = H + X_t · W` (identity activation, zero bias,
identity recurrence weights, no clipping), the output at every step `t < T` is
`H0 + Σ_{i ≤ t} X_i · W` and the final state is the output at step `T - 1`, in exact
arithmetic and for every `T ≥ 1`; `mulW x` stands for the product `x · W`. -/
theorem rnn_sequence_forward_prefix_sums [Zero α] [Add α] (ev : CellEvaluators α κ)
    (X H seq_lengths W R B : List α) (seq_lengths_shape W_shape R_shape B_shape : Shape)
    (Y Ho : List α) (activation_f : String) (clip : κ)
    (batch T input hidden : Nat) (mulW : List α → List α) (hT : 1 ≤ T)
    (hX : X.length = batch * T * input) (hH : H.length = batch * hidden)
    (hY : Y.length = batch * T * hidden) (hHo : Ho.length = batch * hidden)
    (hmul : ∀ x, (mulW x).length = batch * hidden)
    (hcell : ∀ x h, x.length = batch * input → h.length = batch * hidden →
      ev.rnn_cell x [batch, input] h [batch, hidden] W (squeeze_axis W_shape 0)
        R (squeeze_axis R_shape 0) B (squeeze_axis B_shape 0) activation_f clip =
        vadd h (mulW x)) :
    (∀ t, t < T →
      slice_axis
          (rnn_sequence ev X [batch, T, input] H [batch, 1, hidden] seq_lengths
            seq_lengths_shape W W_shape R R_shape B B_shape Y Ho activation_f clip
            RecurrentSequenceDirection.FORWARD).1
          [batch, T, hidden] 1 t (t + 1) =
        prefix_sum mulW H X [batch, T, input] t) ∧
    (rnn_sequence ev X [batch, T, input] H [batch, 1, hidden] seq_lengths
        seq_lengths_shape W W_shape R R_shape B B_shape Y Ho activation_f clip
        RecurrentSequenceDirection.FORWARD).2 =
      slice_axis
        (rnn_sequence ev X [batch, T, input] H [batch, 1, hidden] seq_lengths
          seq_lengths_shape W W_shape R R_shape B B_shape Y Ho activation_f clip
          RecurrentSequenceDirection.FORWARD).1
        [batch, T, hidden] 1 (T - 1) (T - 1 + 1) := by
  have hseq : rnn_sequence ev X [batch, T, input] H [batch, 1, hidden] seq_lengths
        seq_lengths_shape W W_shape R R_shape B B_shape Y Ho activation_f clip
        RecurrentSequenceDirection.FORWARD =
      ((cell_pass ev CellType.RNN [X, seq_lengths, H, W, R, B]
          [[batch, T, input], seq_lengths_shape, [batch, 1, hidden], W_shape, R_shape, B_shape]
          [Y, Ho] ⟨activation_f, "", "", clip, false⟩ false).getD 0 [],
       (cell_pass ev CellType.RNN [X, seq_lengths, H, W, R, B]
          [[batch, T, input], seq_lengths_shape, [batch, 1, hidden], W_shape, R_shape, B_shape]
          [Y, Ho] ⟨activation_f, "", "", clip, false⟩ false).getD 1 []) := rfl
  have hslice : ∀ t, t < T →
      slice_axis ((cell_pass ev CellType.RNN [X, seq_lengths, H, W, R, B]
          [[batch, T, input], seq_lengths_shape, [batch, 1, hidden], W_shape, R_shape, B_shape]
          [Y, Ho] ⟨activation_f, "", "", clip, false⟩ false).getD 0 [])
        [batch, T, hidden] 1 t (t + 1) = prefix_sum mulW H X [batch, T, input] t := by
    intro t ht
    have h := output_slice_eq_state_after ev CellType.RNN [X, seq_lengths, H, W, R, B]
      [[batch, T, input], seq_lengths_shape, [batch, 1, hidden], W_shape, R_shape, B_shape]
      Y Ho [] ⟨activation_f, "", "", clip, false⟩ false batch T input hidden rfl rfl hX hY hHo
      (by intro h; cases h) t ht
    rw [h]
    simp only [Bool.false_eq_true, ↓reduceIte]
    exact rnn_state_after_eq_prefix_sum ev X H seq_lengths W R B seq_lengths_shape W_shape
      R_shape B_shape Y Ho ⟨activation_f, "", "", clip, false⟩ batch T input hidden mulW
      hX hH hHo hmul hcell t ht
  rw [hseq]
  refine ⟨hslice, ?_⟩
  simp only
  rw [hslice (T - 1) (by omega),
    final_hidden_eq_state_after ev CellType.RNN [X, seq_lengths, H, W, R, B]
      [[batch, T, input], seq_lengths_shape, [batch, 1, hidden], W_shape, R_shape, B_shape]
      [Y, Ho] ⟨activation_f, "", "", clip, false⟩ false batch T input rfl hX (by simp)
      (by intro h; cases h)]
  have := rnn_state_after_eq_prefix_sum ev X H seq_lengths W R B seq_lengths_shape W_shape
      R_shape B_shape Y Ho ⟨activation_f, "", "", clip, false⟩ batch T input hidden mulW
      hX hH hHo hmul hcell (T - 1) (by omega)
  rw [show T - 1 + 1 = T by omega] at this
  exact this

theorem length_matmul_t (batch input hidden : Nat) (W x : List Int) :
    (matmul_t batch input hidden W x).length = batch * hidden := by
  unfold matmul_t
  rw [length_flatMap_const _ _ hidden (by intro o _; simp)]
  simp

theorem rnn_cell_exact_identity (x h : List Int) (hx : x.length = 1 * 2) (hh : h.length = 1 * 2) :
    test_cells.rnn_cell x [1, 2] h [1, 2] [1, 0, 0, 1] (squeeze_axis [1, 2, 2] 0)
        [1, 0, 0, 1] (squeeze_axis [1, 2, 2] 0) [0, 0] (squeeze_axis [1, 2] 0) "identity" 0 =
      vadd h (matmul_t 1 2 2 [1, 0, 0, 1] x) := by
  match x, h, hx, hh with
  | [a, b], [c, d], _, _ =>
    simp [test_cells, rnn_cell_exact, vadd, matmul_t, List.range_succ, add_comm]

/-- Witness of C1: an LSTM pass over `X` of shape `[2, 3, 2]`. -/
theorem cell_pass_direction_symmetry_witness :
    (example_shapes.getD 0 [] = [2, 3, 2] ∧ 1 ≤ 3 ∧
      ([1, 2, 3, 4, 5, 6, 7, 8, 9, 10, 11, 12] : List Int).length = 2 * 3 * 2 ∧
      2 * 3 * (example_shapes.getD 2 []).getD 2 0 ≤ (List.replicate 12 (9 : Int)).length) ∧
    (((cell_pass test_cells CellType.LSTM
          ([1, 2, 3, 4, 5, 6, 7, 8, 9, 10, 11, 12] :: example_inputs.tail) example_shapes
          (List.replicate 12 9 :: [[7, 7, 7, 7], [8, 8, 8, 8]]) example_args true).getD 0 []).take
        (2 * 3 * (example_shapes.getD 2 []).getD 2 0) =
      time_reverse
        (((cell_pass test_cells CellType.LSTM
          (time_reverse [1, 2, 3, 4, 5, 6, 7, 8, 9, 10, 11, 12] [2, 3, 2] :: example_inputs.tail)
          example_shapes (List.replicate 12 9 :: [[7, 7, 7, 7], [8, 8, 8, 8]])
          example_args false).getD 0 []).take (2 * 3 * (example_shapes.getD 2 []).getD 2 0))
        [2, 3, (example_shapes.getD 2 []).getD 2 0] ∧
    (cell_pass test_cells CellType.LSTM
        ([1, 2, 3, 4, 5, 6, 7, 8, 9, 10, 11, 12] :: example_inputs.tail) example_shapes
        (List.replicate 12 9 :: [[7, 7, 7, 7], [8, 8, 8, 8]]) example_args true).getD 1 [] =
      (cell_pass test_cells CellType.LSTM
        (time_reverse [1, 2, 3, 4, 5, 6, 7, 8, 9, 10, 11, 12] [2, 3, 2] :: example_inputs.tail)
        example_shapes (List.replicate 12 9 :: [[7, 7, 7, 7], [8, 8, 8, 8]])
        example_args false).getD 1 [] ∧
    (cell_pass test_cells CellType.LSTM
        ([1, 2, 3, 4, 5, 6, 7, 8, 9, 10, 11, 12] :: example_inputs.tail) example_shapes
        (List.replicate 12 9 :: [[7, 7, 7, 7], [8, 8, 8, 8]]) example_args true).getD 2 [] =
      (cell_pass test_cells CellType.LSTM
        (time_reverse [1, 2, 3, 4, 5, 6, 7, 8, 9, 10, 11, 12] [2, 3, 2] :: example_inputs.tail)
        example_shapes (List.replicate 12 9 :: [[7, 7, 7, 7], [8, 8, 8, 8]])
        example_args false).getD 2 []) :=
  ⟨⟨rfl, by decide, rfl, by decide⟩,
    cell_pass_direction_symmetry test_cells CellType.LSTM
      [1, 2, 3, 4, 5, 6, 7, 8, 9, 10, 11, 12] example_inputs.tail example_shapes
      (List.replicate 12 9) [[7, 7, 7, 7], [8, 8, 8, 8]] example_args 2 3 2
      rfl (by decide) rfl (by decide)⟩

/-- Witness of C2: batch 2, time 4, hidden 3, input 1. -/
theorem lstm_sequence_bidirectional_decomposition_witness :
    ((1 ≤ 4) ∧
      (((List.range 12).map Int.ofNat).length = 2 * 2 * 3) ∧
      (((List.range 12).map fun i => 2 * Int.ofNat i).length = 2 * 2 * 3) ∧
      (((List.range 24).map Int.ofNat).length = 2 * [12, 1].prod) ∧
      (((List.range 72).map Int.ofNat).length = 2 * [12, 3].prod) ∧
      (((List.range 24).map Int.ofNat).length = 2 * [12].prod) ∧
      ((List.replicate 48 0).length = 2 * 2 * 4 * 3) ∧
      ((List.replicate 12 0).length = 2 * 2 * 3) ∧
      ((List.replicate 12 0).length = 2 * 2 * 3) ∧
      ((List.replicate 24 5).length = 2 * 4 * 3) ∧
      ((List.replicate 6 5).length = 2 * 3) ∧
      ((List.replicate 6 5).length = 2 * 3) ∧
      ((List.replicate 24 6).length = 2 * 4 * 3) ∧
      ((List.replicate 6 6).length = 2 * 3) ∧
      ((List.replicate 6 6).length = 2 * 3)) ∧
    (direction_slice3
        (lstm_sequence test_cells [1, 2, 3, 4, 5, 6, 7, 8] [2, 4, 1] ((List.range 12).map
            Int.ofNat) [2, 2, 3] ((List.range 12).map fun i => 2 * Int.ofNat i) [2, 2, 3]
          [4, 4] [2] ((List.range 24).map Int.ofNat) (2 :: [12, 1]) ((List.range 72).map Int.ofNat)
              (2 :: [12, 3]) ((List.range 24).map Int.ofNat) (2 :: [12]) (List.replicate 48 0)
              (List.replicate 12 0) (List.replicate 12 0)
          "sigmoid" "tanh" "tanh" (0 : Int) RecurrentSequenceDirection.BIDIRECTIONAL)
        2 4 3 0 =
      lstm_sequence test_cells [1, 2, 3, 4, 5, 6, 7, 8] [2, 4, 1]
        (slice_axis ((List.range 12).map Int.ofNat) [2, 2, 3] 1 0 1) [2, 1, 3]
        (slice_axis ((List.range 12).map fun i => 2 * Int.ofNat i) [2, 2, 3] 1 0 1) [2, 1, 3]
        [4, 4] [2]
        (slice_axis ((List.range 24).map Int.ofNat) (2 :: [12, 1]) 0 0 1) (1 :: [12, 1])
            (slice_axis ((List.range 72).map Int.ofNat) (2 :: [12, 3]) 0 0 1) (1 :: [12, 3])
        (slice_axis ((List.range 24).map Int.ofNat) (2 :: [12]) 0 0 1) (1 :: [12]) (List.replicate
            24 5) (List.replicate 6 5) (List.replicate 6 5)
        "sigmoid" "tanh" "tanh" (0 : Int) RecurrentSequenceDirection.FORWARD ∧
    direction_slice3
        (lstm_sequence test_cells [1, 2, 3, 4, 5, 6, 7, 8] [2, 4, 1] ((List.range 12).map
            Int.ofNat) [2, 2, 3] ((List.range 12).map fun i => 2 * Int.ofNat i) [2, 2, 3]
          [4, 4] [2] ((List.range 24).map Int.ofNat) (2 :: [12, 1]) ((List.range 72).map Int.ofNat)
              (2 :: [12, 3]) ((List.range 24).map Int.ofNat) (2 :: [12]) (List.replicate 48 0)
              (List.replicate 12 0) (List.replicate 12 0)
          "sigmoid" "tanh" "tanh" (0 : Int) RecurrentSequenceDirection.BIDIRECTIONAL)
        2 4 3 1 =
      lstm_sequence test_cells [1, 2, 3, 4, 5, 6, 7, 8] [2, 4, 1]
        (slice_axis ((List.range 12).map Int.ofNat) [2, 2, 3] 1 1 2) [2, 1, 3]
        (slice_axis ((List.range 12).map fun i => 2 * Int.ofNat i) [2, 2, 3] 1 1 2) [2, 1, 3]
        [4, 4] [2]
        (slice_axis ((List.range 24).map Int.ofNat) (2 :: [12, 1]) 0 1 2) (1 :: [12, 1])
            (slice_axis ((List.range 72).map Int.ofNat) (2 :: [12, 3]) 0 1 2) (1 :: [12, 3])
        (slice_axis ((List.range 24).map Int.ofNat) (2 :: [12]) 0 1 2) (1 :: [12]) (List.replicate
            24 6) (List.replicate 6 6) (List.replicate 6 6)
        "sigmoid" "tanh" "tanh" (0 : Int) RecurrentSequenceDirection.REVERSE) :=
  ⟨⟨by decide, rfl, rfl, rfl, rfl, rfl, rfl, rfl, rfl, rfl, rfl, rfl, rfl, rfl, rfl⟩,
    lstm_sequence_bidirectional_decomposition test_cells [1, 2, 3, 4, 5, 6, 7, 8] ((List.range
        12).map Int.ofNat) ((List.range 12).map fun i => 2 * Int.ofNat i) [4, 4] ((List.range
        24).map Int.ofNat) ((List.range 72).map Int.ofNat) ((List.range 24).map Int.ofNat) [2] [12,
        1] [12, 3] [12] (List.replicate 48 0) (List.replicate 12 0) (List.replicate 12 0)
        (List.replicate 24 5) (List.replicate 6 5) (List.replicate 6 5) (List.replicate 24 6)
        (List.replicate 6 6) (List.replicate 6 6) "sigmoid" "tanh" "tanh" (0 : Int) 2 4 1 3 (by
        decide) rfl rfl rfl rfl rfl rfl rfl rfl rfl rfl rfl rfl rfl rfl⟩

/-- Witness of C3: batch 2, time 4, hidden 3, input 1. -/
theorem gru_rnn_sequence_bidirectional_decomposition_witness :
    ((1 ≤ 4) ∧
      (((List.range 12).map Int.ofNat).length = 2 * 2 * 3) ∧
      (((List.range 18).map Int.ofNat).length = 2 * [9, 1].prod) ∧
      (((List.range 54).map Int.ofNat).length = 2 * [9, 3].prod) ∧
      (((List.range 18).map Int.ofNat).length = 2 * [9].prod) ∧
      ((List.replicate 48 0).length = 2 * 2 * 4 * 3) ∧
      ((List.replicate 12 0).length = 2 * 2 * 3) ∧
      ((List.replicate 24 5).length = 2 * 4 * 3) ∧
      ((List.replicate 6 5).length = 2 * 3) ∧
      ((List.replicate 24 6).length = 2 * 4 * 3) ∧
      ((List.replicate 6 6).length = 2 * 3)) ∧
    ((direction_slice2
        (gru_sequence test_cells [1, 2, 3, 4, 5, 6, 7, 8] [2, 4, 1] ((List.range 12).map Int.ofNat)
            [2, 2, 3]
          [4, 4] [2] ((List.range 18).map Int.ofNat) (2 :: [9, 1]) ((List.range 54).map Int.ofNat)
              (2 :: [9, 3]) ((List.range 18).map Int.ofNat) (2 :: [9]) (List.replicate 48 0)
              (List.replicate 12 0)
          "sigmoid" "tanh" (0 : Int) RecurrentSequenceDirection.BIDIRECTIONAL
          true)
        2 4 3 0 =
      gru_sequence test_cells [1, 2, 3, 4, 5, 6, 7, 8] [2, 4, 1]
        (slice_axis ((List.range 12).map Int.ofNat) [2, 2, 3] 1 0 1) [2, 1, 3]
        [4, 4] [2]
        (slice_axis ((List.range 18).map Int.ofNat) (2 :: [9, 1]) 0 0 1) (1 :: [9, 1]) (slice_axis
            ((List.range 54).map Int.ofNat) (2 :: [9, 3]) 0 0 1) (1 :: [9, 3])
        (slice_axis ((List.range 18).map Int.ofNat) (2 :: [9]) 0 0 1) (1 :: [9]) (List.replicate 24
            5) (List.replicate 6 5)
        "sigmoid" "tanh" (0 : Int) RecurrentSequenceDirection.FORWARD
        true ∧
    direction_slice2
        (gru_sequence test_cells [1, 2, 3, 4, 5, 6, 7, 8] [2, 4, 1] ((List.range 12).map Int.ofNat)
            [2, 2, 3]
          [4, 4] [2] ((List.range 18).map Int.ofNat) (2 :: [9, 1]) ((List.range 54).map Int.ofNat)
              (2 :: [9, 3]) ((List.range 18).map Int.ofNat) (2 :: [9]) (List.replicate 48 0)
              (List.replicate 12 0)
          "sigmoid" "tanh" (0 : Int) RecurrentSequenceDirection.BIDIRECTIONAL
          true)
        2 4 3 1 =
      gru_sequence test_cells [1, 2, 3, 4, 5, 6, 7, 8] [2, 4, 1]
        (slice_axis ((List.range 12).map Int.ofNat) [2, 2, 3] 1 1 2) [2, 1, 3]
        [4, 4] [2]
        (slice_axis ((List.range 18).map Int.ofNat) (2 :: [9, 1]) 0 1 2) (1 :: [9, 1]) (slice_axis
            ((List.range 54).map Int.ofNat) (2 :: [9, 3]) 0 1 2) (1 :: [9, 3])
        (slice_axis ((List.range 18).map Int.ofNat) (2 :: [9]) 0 1 2) (1 :: [9]) (List.replicate 24
            6) (List.replicate 6 6)
        "sigmoid" "tanh" (0 : Int) RecurrentSequenceDirection.REVERSE
        true) ∧
    (direction_slice2
        (rnn_sequence test_cells [1, 2, 3, 4, 5, 6, 7, 8] [2, 4, 1] ((List.range 12).map Int.ofNat)
            [2, 2, 3]
          [4, 4] [2] ((List.range 18).map Int.ofNat) (2 :: [9, 1]) ((List.range 54).map Int.ofNat)
              (2 :: [9, 3]) ((List.range 18).map Int.ofNat) (2 :: [9]) (List.replicate 48 0)
              (List.replicate 12 0)
          "sigmoid" (0 : Int) RecurrentSequenceDirection.BIDIRECTIONAL)
        2 4 3 0 =
      rnn_sequence test_cells [1, 2, 3, 4, 5, 6, 7, 8] [2, 4, 1]
        (slice_axis ((List.range 12).map Int.ofNat) [2, 2, 3] 1 0 1) [2, 1, 3]
        [4, 4] [2]
        (slice_axis ((List.range 18).map Int.ofNat) (2 :: [9, 1]) 0 0 1) (1 :: [9, 1]) (slice_axis
            ((List.range 54).map Int.ofNat) (2 :: [9, 3]) 0 0 1) (1 :: [9, 3])
        (slice_axis ((List.range 18).map Int.ofNat) (2 :: [9]) 0 0 1) (1 :: [9]) (List.replicate 24
            5) (List.replicate 6 5)
        "sigmoid" (0 : Int) RecurrentSequenceDirection.FORWARD ∧
    direction_slice2
        (rnn_sequence test_cells [1, 2, 3, 4, 5, 6, 7, 8] [2, 4, 1] ((List.range 12).map Int.ofNat)
            [2, 2, 3]
          [4, 4] [2] ((List.range 18).map Int.ofNat) (2 :: [9, 1]) ((List.range 54).map Int.ofNat)
              (2 :: [9, 3]) ((List.range 18).map Int.ofNat) (2 :: [9]) (List.replicate 48 0)
              (List.replicate 12 0)
          "sigmoid" (0 : Int) RecurrentSequenceDirection.BIDIRECTIONAL)
        2 4 3 1 =
      rnn_sequence test_cells [1, 2, 3, 4, 5, 6, 7, 8] [2, 4, 1]
        (slice_axis ((List.range 12).map Int.ofNat) [2, 2, 3] 1 1 2) [2, 1, 3]
        [4, 4] [2]
        (slice_axis ((List.range 18).map Int.ofNat) (2 :: [9, 1]) 0 1 2) (1 :: [9, 1]) (slice_axis
            ((List.range 54).map Int.ofNat) (2 :: [9, 3]) 0 1 2) (1 :: [9, 3])
        (slice_axis ((List.range 18).map Int.ofNat) (2 :: [9]) 0 1 2) (1 :: [9]) (List.replicate 24
            6) (List.replicate 6 6)
        "sigmoid" (0 : Int) RecurrentSequenceDirection.REVERSE)) :=
  ⟨⟨by decide, rfl, rfl, rfl, rfl, rfl, rfl, rfl, rfl, rfl, rfl⟩,
    gru_rnn_sequence_bidirectional_decomposition test_cells [1, 2, 3, 4, 5, 6, 7, 8] ((List.range
        12).map Int.ofNat) [4, 4] ((List.range 18).map Int.ofNat) ((List.range 54).map Int.ofNat)
        ((List.range 18).map Int.ofNat) [2] [9, 1] [9, 3] [9] (List.replicate 48 0) (List.replicate
        12 0) (List.replicate 24 5) (List.replicate 6 5) (List.replicate 24 6) (List.replicate 6 6)
        "sigmoid" "tanh" (0 : Int) true 2 4 1 3 (by decide) rfl rfl rfl rfl rfl rfl rfl rfl rfl rfl⟩

/-- Witness of C8: the direction value 3. -/
theorem unrecognised_direction_no_op_witness :
    (((⟨3⟩ : RecurrentSequenceDirection) ≠ RecurrentSequenceDirection.FORWARD) ∧
      ((⟨3⟩ : RecurrentSequenceDirection) ≠ RecurrentSequenceDirection.REVERSE) ∧
      ((⟨3⟩ : RecurrentSequenceDirection) ≠ RecurrentSequenceDirection.BIDIRECTIONAL)) ∧
    (lstm_sequence test_cells [1, 2, 3, 4, 5, 6] [1, 3, 2] [0, 0] [1, 1, 2] [0, 0] [1, 1, 2] [3] [1]
        [1, 0, 0, 1] [1, 2, 2] [1, 0, 0, 1] [1, 2, 2] [0, 0] [1, 2] [9, 9, 9, 9, 9, 9] [7, 7] [8,
            8] "tanh" "tanh" "tanh" (0 : Int)
        (⟨3⟩ : RecurrentSequenceDirection) = ([9, 9, 9, 9, 9, 9], [7, 7], [8, 8]) ∧
    gru_sequence test_cells [1, 2, 3, 4, 5, 6] [1, 3, 2] [0, 0] [1, 1, 2] [3] [1]
        [1, 0, 0, 1] [1, 2, 2] [1, 0, 0, 1] [1, 2, 2] [0, 0] [1, 2] [9, 9, 9, 9, 9, 9] [7, 7]
            "tanh" "tanh" (0 : Int) (⟨3⟩ : RecurrentSequenceDirection)
        false = ([9, 9, 9, 9, 9, 9], [7, 7]) ∧
    rnn_sequence test_cells [1, 2, 3, 4, 5, 6] [1, 3, 2] [0, 0] [1, 1, 2] [3] [1]
        [1, 0, 0, 1] [1, 2, 2] [1, 0, 0, 1] [1, 2, 2] [0, 0] [1, 2] [9, 9, 9, 9, 9, 9] [7, 7]
            "tanh" (0 : Int) (⟨3⟩ : RecurrentSequenceDirection) = ([9, 9, 9, 9, 9, 9], [7, 7])) :=
  ⟨⟨by decide, by decide, by decide⟩,
    unrecognised_direction_no_op test_cells [1, 2, 3, 4, 5, 6] [1, 3, 2] [0, 0] [1, 1, 2] [0, 0]
        [1, 1, 2] [3] [1] [1, 0, 0, 1] [1, 2, 2] [1, 0, 0, 1] [1, 2, 2] [0, 0] [1, 2] [9, 9, 9, 9,
        9, 9] [7, 7] [8, 8] "tanh" "tanh" "tanh" (0 : Int) (⟨3⟩ : RecurrentSequenceDirection) false
        (by decide) (by decide) (by decide)⟩

/-- Witness of C9: batch 1, time 3, input size 2, hidden 2, `H0 = [0, 0]`, identity weights,
zero bias; the outputs are the running sums `[1, 2]`, `[4, 6]`, `[9, 12]` of the inputs. -/
theorem rnn_sequence_forward_prefix_sums_witness :
    ((1 ≤ 3) ∧
      ([1, 2, 3, 4, 5, 6].length = 1 * 3 * 2) ∧
      ([0, 0].length = 1 * 2) ∧
      ([9, 9, 9, 9, 9, 9].length = 1 * 3 * 2) ∧
      ([7, 7].length = 1 * 2) ∧
      (∀ x, ((matmul_t 1 2 2 [1, 0, 0, 1]) x).length = 1 * 2) ∧
      (∀ x h, x.length = 1 * 2 → h.length = 1 * 2 → test_cells.rnn_cell x [1, 2] h [1, 2] [1, 0, 0,
          1] (squeeze_axis [1, 2, 2] 0) [1, 0, 0, 1] (squeeze_axis [1, 2, 2] 0) [0, 0]
          (squeeze_axis [1, 2] 0) "identity" (0 : Int) = vadd h ((matmul_t 1 2 2 [1, 0, 0, 1]) x)))
          ∧
    ((∀ t, t < 3 →
      slice_axis
          (rnn_sequence test_cells [1, 2, 3, 4, 5, 6] [1, 3, 2] [0, 0] [1, 1, 2] [3]
            [1] [1, 0, 0, 1] [1, 2, 2] [1, 0, 0, 1] [1, 2, 2] [0, 0] [1, 2] [9, 9, 9, 9, 9, 9] [7,
                7] "identity" (0 : Int)
            RecurrentSequenceDirection.FORWARD).1
          [1, 3, 2] 1 t (t + 1) =
        prefix_sum (matmul_t 1 2 2 [1, 0, 0, 1]) [0, 0] [1, 2, 3, 4, 5, 6] [1, 3, 2] t) ∧
    (rnn_sequence test_cells [1, 2, 3, 4, 5, 6] [1, 3, 2] [0, 0] [1, 1, 2] [3]
        [1] [1, 0, 0, 1] [1, 2, 2] [1, 0, 0, 1] [1, 2, 2] [0, 0] [1, 2] [9, 9, 9, 9, 9, 9] [7, 7]
            "identity" (0 : Int)
        RecurrentSequenceDirection.FORWARD).2 =
      slice_axis
        (rnn_sequence test_cells [1, 2, 3, 4, 5, 6] [1, 3, 2] [0, 0] [1, 1, 2] [3]
          [1] [1, 0, 0, 1] [1, 2, 2] [1, 0, 0, 1] [1, 2, 2] [0, 0] [1, 2] [9, 9, 9, 9, 9, 9] [7, 7]
              "identity" (0 : Int)
          RecurrentSequenceDirection.FORWARD).1
        [1, 3, 2] 1 (3 - 1) (3 - 1 + 1)) ∧
    (rnn_sequence test_cells [1, 2, 3, 4, 5, 6] [1, 3, 2] [0, 0] [1, 1, 2] [3] [1]
        [1, 0, 0, 1] [1, 2, 2] [1, 0, 0, 1] [1, 2, 2] [0, 0] [1, 2] [9, 9, 9, 9, 9, 9] [7, 7]
        "identity" 0 RecurrentSequenceDirection.FORWARD = ([1, 2, 4, 6, 9, 12], [9, 12])) :=
  ⟨⟨by decide, rfl, rfl, rfl, rfl, length_matmul_t 1 2 2 [1, 0, 0, 1], rnn_cell_exact_identity⟩,
    rnn_sequence_forward_prefix_sums test_cells [1, 2, 3, 4, 5, 6] [0, 0] [3] [1, 0, 0, 1] [1, 0,
        0, 1] [0, 0] [1] [1, 2, 2] [1, 2, 2] [1, 2] [9, 9, 9, 9, 9, 9] [7, 7] "identity" (0 : Int)
        1 3 2 2 (matmul_t 1 2 2 [1, 0, 0, 1]) (by decide) rfl rfl rfl rfl (length_matmul_t 1 2 2
        [1, 0, 0, 1]) rnn_cell_exact_identity,
    by decide⟩

/-- Witness of C5: the reverse LSTM pass over three time steps; the output slice at time index 0
is the hidden state emitted by the last iteration, the one that consumes `X[:,0,:]`. -/
theorem cell_pass_output_temporal_order_witness :
    ((example_shapes.getD 0 [] = [2, 3, 2]) ∧
      (example_shapes.getD 2 [] = [2, 1, 2]) ∧
      ((example_inputs.getD 0 []).length = 2 * 3 * 2) ∧
      ((List.replicate 12 9).length = 2 * 3 * 2) ∧
      ([7, 7, 7, 7].length = 2 * 2) ∧
      (CellType.LSTM = CellType.LSTM → [[8, 8, 8, 8]] ≠ []) ∧
      (0 < 3)) ∧
    ((ordered_slices (example_inputs.getD 0 []) (example_shapes.getD 0 []) true).getD
        (if true then 3 - 1 - 0 else 0) [] =
      slice_axis (example_inputs.getD 0 []) (example_shapes.getD 0 []) 1 0 (0 + 1) ∧
    slice_axis ((cell_pass test_cells CellType.LSTM example_inputs example_shapes ((List.replicate
        12 9) :: [7, 7, 7, 7] :: [[8, 8, 8, 8]]) example_args true).getD 0 [])
        [2, 3, 2] 1 0 (0 + 1) =
      (state_after test_cells CellType.LSTM example_inputs example_shapes example_args true
          ((List.replicate 12 9) :: [7, 7, 7, 7] :: [[8, 8, 8, 8]])
        ((if true then 3 - 1 - 0 else 0) + 1)).1 ∧
    slice_axis ((cell_pass test_cells CellType.LSTM example_inputs example_shapes ((List.replicate
        12 9) :: [7, 7, 7, 7] :: [[8, 8, 8, 8]]) example_args true).getD 0 [])
        [2, 3, 2] 1 0 (0 + 1) =
      store
        (state_after test_cells CellType.LSTM example_inputs example_shapes example_args true
            ((List.replicate 12 9) :: [7, 7, 7, 7] :: [[8, 8, 8, 8]])
          (if true then 3 - 1 - 0 else 0)).1
        (evaluate_cell test_cells CellType.LSTM example_inputs example_shapes example_args
          (slice_axis (example_inputs.getD 0 []) (example_shapes.getD 0 []) 1 0 (0 + 1))
          (state_after test_cells CellType.LSTM example_inputs example_shapes example_args true
              ((List.replicate 12 9) :: [7, 7, 7, 7] :: [[8, 8, 8, 8]])
            (if true then 3 - 1 - 0 else 0))).1 ∧
    ((evaluate_cell test_cells CellType.LSTM example_inputs example_shapes example_args
          (slice_axis (example_inputs.getD 0 []) (example_shapes.getD 0 []) 1 0 (0 + 1))
          (state_after test_cells CellType.LSTM example_inputs example_shapes example_args true
              ((List.replicate 12 9) :: [7, 7, 7, 7] :: [[8, 8, 8, 8]])
            (if true then 3 - 1 - 0 else 0))).1.length = 2 * 2 →
      slice_axis ((cell_pass test_cells CellType.LSTM example_inputs example_shapes
          ((List.replicate 12 9) :: [7, 7, 7, 7] :: [[8, 8, 8, 8]]) example_args true).getD 0 [])
          [2, 3, 2] 1 0 (0 + 1) =
        (evaluate_cell test_cells CellType.LSTM example_inputs example_shapes example_args
          (slice_axis (example_inputs.getD 0 []) (example_shapes.getD 0 []) 1 0 (0 + 1))
          (state_after test_cells CellType.LSTM example_inputs example_shapes example_args true
              ((List.replicate 12 9) :: [7, 7, 7, 7] :: [[8, 8, 8, 8]])
            (if true then 3 - 1 - 0 else 0))).1)) :=
  ⟨⟨rfl, rfl, rfl, rfl, rfl, fun _ => by decide, by decide⟩,
    cell_pass_output_temporal_order test_cells CellType.LSTM example_inputs example_shapes
        (List.replicate 12 9) [7, 7, 7, 7] [[8, 8, 8, 8]] example_args true 2 3 2 2 rfl rfl rfl rfl
        rfl (fun _ => by decide) 0 (by decide)⟩

theorem memcpy_congr (dst dst' src : List α) (n : Nat) (h : dst.length = dst'.length)
    (hn : dst.length ≤ n) (hs : dst.length ≤ src.length) :
    memcpy dst src n = memcpy dst' src n := by
  unfold memcpy
  apply store_congr _ _ _ h
  simp only [List.length_take]
  omega

theorem length_concat_two (b sz : Nat) (rest s : Shape)
    (hs : shape_size s = b * sz) (P0 P1 : List α) (h0 : b * sz ≤ P0.length)
    (h1 : b * sz ≤ P1.length) :
    (concat [P0, P1] (List.replicate 2 s) (b :: 2 :: rest) 1).length = b * (2 * sz) := by
  have hparts : ∀ a ∈ [P0, P1], b * sz ≤ a.length := by
    intro a ha
    simp only [List.mem_cons, List.mem_singleton, List.not_mem_nil, or_false] at ha
    rcases ha with rfl | rfl
    · exact h0
    · exact h1
  rw [concat_eq_gather _ _ _ _ (by simp)]
  simp only [List.take_succ_cons, List.take_zero, List.prod_cons, List.prod_nil, Nat.mul_one, hs]
  by_cases hb : b = 0
  · subst hb; simp [gather]
  · rw [Nat.mul_div_cancel_left _ (Nat.pos_of_ne_zero hb), length_gather b sz [P0, P1] hparts]
    simp

theorem length_getD_lstm_branch [Zero α] (ev : CellEvaluators α κ)
    (X : List α) (X_shape : Shape) (H : List α) (H_shape : Shape)
    (C : List α) (C_shape : Shape) (seq_lengths : List α) (seq_lengths_shape : Shape)
    (W : List α) (W_shape : Shape) (R : List α) (R_shape : Shape)
    (B : List α) (B_shape : Shape)
    (activation_f activation_g activation_h : String) (clip : κ) (i : Nat) (r : Bool) (j : Nat) :
    ((lstm_branch ev X X_shape H H_shape C C_shape seq_lengths seq_lengths_shape
        W W_shape R R_shape B B_shape activation_f activation_g activation_h clip
        i r).getD j []).length =
      (([List.replicate (H_shape.getD 0 0 * H_shape.getD 2 0 * X_shape.getD 1 0) 0,
        List.replicate (H_shape.getD 0 0 * H_shape.getD 2 0) 0,
        List.replicate (H_shape.getD 0 0 * H_shape.getD 2 0) 0] : List (List α)).getD j
          []).length := by
  unfold lstm_branch
  rw [length_getD_cell_pass]

theorem length_getD_single_state_branch [Zero α] (ev : CellEvaluators α κ) (type : CellType)
    (X : List α) (X_shape : Shape) (H : List α) (H_shape : Shape)
    (seq_lengths : List α) (seq_lengths_shape : Shape)
    (W : List α) (W_shape : Shape) (R : List α) (R_shape : Shape)
    (B : List α) (B_shape : Shape) (args : CellArgs κ) (i : Nat) (r : Bool) (j : Nat) :
    ((single_state_branch ev type X X_shape H H_shape seq_lengths seq_lengths_shape
        W W_shape R R_shape B B_shape args i r).getD j []).length =
      (([List.replicate (H_shape.getD 0 0 * H_shape.getD 2 0 * X_shape.getD 1 0) 0,
        List.replicate (H_shape.getD 0 0 * H_shape.getD 2 0) 0] : List (List α)).getD j
          []).length := by
  unfold single_state_branch
  rw [length_getD_cell_pass]

/-- A single-direction LSTM `cell_pass` on output buffers of the sizes of the tensors written
to them does not depend on the previous contents of the buffers. -/
theorem cell_pass_fresh3 [Zero α] (ev : CellEvaluators α κ)
    (X sl H C : List α) (rest : List (List α)) (sls : Shape) (srest : List Shape)
    (args : CellArgs κ) (r : Bool) (Y Y' Ho Ho' Co Co' : List α) (batch T input hidden : Nat)
    (hH : H.length = batch * hidden) (hC : C.length = batch * hidden)
    (hY : Y.length = batch * T * hidden) (hY' : Y'.length = batch * T * hidden)
    (hHo : Ho.length = batch * hidden) (hHo' : Ho'.length = batch * hidden)
    (hCo : Co.length = batch * hidden) (hCo' : Co'.length = batch * hidden) :
    cell_pass ev CellType.LSTM (X :: sl :: H :: C :: rest)
        ([batch, T, input] :: sls :: [batch, 1, hidden] :: [batch, 1, hidden] :: srest)
        [Y, Ho, Co] args r =
      cell_pass ev CellType.LSTM (X :: sl :: H :: C :: rest)
        ([batch, T, input] :: sls :: [batch, 1, hidden] :: [batch, 1, hidden] :: srest)
        [Y', Ho', Co'] args r := by
  apply cell_pass_fresh_outputs
  · rw [hY, hY']
  · simp only [List.getD_cons_zero, List.getD_cons_succ, hY]
    apply le_of_eq; ring
  · have e1 := memcpy_congr Ho Ho' H (shape_size [batch, 1, hidden]) (by rw [hHo, hHo'])
      (by simp [shape_size, hHo]) (by rw [hHo, hH])
    have e2 := memcpy_congr Co Co' C (shape_size [batch, 1, hidden]) (by rw [hCo, hCo'])
      (by simp [shape_size, hCo]) (by rw [hCo, hC])
    simp only [init_state, ↓reduceIte, List.getD_cons_zero, List.getD_cons_succ,
      List.set_cons_succ, List.set_cons_zero, List.tail_cons, e1, e2]

/-- A single-direction RNN or GRU `cell_pass` on output buffers of the sizes of the tensors
written to them does not depend on the previous contents of the buffers. -/
theorem cell_pass_fresh2 [Zero α] (ev : CellEvaluators α κ) (type : CellType)
    (htype : type ≠ CellType.LSTM)
    (X sl H : List α) (rest : List (List α)) (sls : Shape) (srest : List Shape)
    (args : CellArgs κ) (r : Bool) (Y Y' Ho Ho' : List α) (batch T input hidden : Nat)
    (hH : H.length = batch * hidden)
    (hY : Y.length = batch * T * hidden) (hY' : Y'.length = batch * T * hidden)
    (hHo : Ho.length = batch * hidden) (hHo' : Ho'.length = batch * hidden) :
    cell_pass ev type (X :: sl :: H :: rest)
        ([batch, T, input] :: sls :: [batch, 1, hidden] :: srest) [Y, Ho] args r =
      cell_pass ev type (X :: sl :: H :: rest)
        ([batch, T, input] :: sls :: [batch, 1, hidden] :: srest) [Y', Ho'] args r := by
  apply cell_pass_fresh_outputs
  · rw [hY, hY']
  · simp only [List.getD_cons_zero, List.getD_cons_succ, hY]
    apply le_of_eq; ring
  · have e1 := memcpy_congr Ho Ho' H (shape_size [batch, 1, hidden]) (by rw [hHo, hHo'])
      (by simp [shape_size, hHo]) (by rw [hHo, hH])
    simp only [init_state, htype, ↓reduceIte, List.getD_cons_zero, List.getD_cons_succ,
      List.set_cons_succ, List.set_cons_zero, List.tail_cons, e1]

/-- C11: no residual state leakage. For each adapter and each of the three defined
directions, with `T ≥ 1` and consistent shapes (`dirs` is 1 for FORWARD and REVERSE and 2 for
BIDIRECTIONAL), the contents of `Y`, `Ho` (and `Co`) after the call do not depend on the
contents these buffers held before the call: every element of every output is overwritten,
so the outputs are a function of the input buffers, shapes and parameters only, and repeated
calls with identical inputs give identical outputs. -/
theorem no_residual_state_leakage [Zero α] (ev : CellEvaluators α κ)
    (X H C seq_lengths W R B : List α)
    (seq_lengths_shape W_shape R_shape B_shape : Shape)
    (Y Ho Co Y' Ho' Co' : List α)
    (activation_f activation_g activation_h : String) (clip : κ)
    (direction : RecurrentSequenceDirection) (linear_before_reset : Bool)
    (batch T input hidden dirs : Nat) (_hT : 1 ≤ T)
    (hdir : (direction = RecurrentSequenceDirection.BIDIRECTIONAL ∧ dirs = 2) ∨
      ((direction = RecurrentSequenceDirection.FORWARD ∨
        direction = RecurrentSequenceDirection.REVERSE) ∧ dirs = 1))
    (hH : H.length = batch * dirs * hidden) (hC : C.length = batch * dirs * hidden)
    (hY : Y.length = batch * dirs * T * hidden) (hY' : Y'.length = batch * dirs * T * hidden)
    (hHo : Ho.length = batch * dirs * hidden) (hHo' : Ho'.length = batch * dirs * hidden)
    (hCo : Co.length = batch * dirs * hidden) (hCo' : Co'.length = batch * dirs * hidden) :
    lstm_sequence ev X [batch, T, input] H [batch, dirs, hidden] C [batch, dirs, hidden]
        seq_lengths seq_lengths_shape W W_shape R R_shape B B_shape Y Ho Co
        activation_f activation_g activation_h clip direction =
      lstm_sequence ev X [batch, T, input] H [batch, dirs, hidden] C [batch, dirs, hidden]
        seq_lengths seq_lengths_shape W W_shape R R_shape B B_shape Y' Ho' Co'
        activation_f activation_g activation_h clip direction ∧
    gru_sequence ev X [batch, T, input] H [batch, dirs, hidden]
        seq_lengths seq_lengths_shape W W_shape R R_shape B B_shape Y Ho
        activation_f activation_g clip direction linear_before_reset =
      gru_sequence ev X [batch, T, input] H [batch, dirs, hidden]
        seq_lengths seq_lengths_shape W W_shape R R_shape B B_shape Y' Ho'
        activation_f activation_g clip direction linear_before_reset ∧
    rnn_sequence ev X [batch, T, input] H [batch, dirs, hidden]
        seq_lengths seq_lengths_shape W W_shape R R_shape B B_shape Y Ho
        activation_f clip direction =
      rnn_sequence ev X [batch, T, input] H [batch, dirs, hidden]
        seq_lengths seq_lengths_shape W W_shape R R_shape B B_shape Y' Ho'
        activation_f clip direction := by
  rcases hdir with ⟨hd, h2⟩ | ⟨hd, h1⟩
  · subst hd h2
    have hsy : ∀ (P0 P1 : List α), batch * (T * hidden) ≤ P0.length →
        batch * (T * hidden) ≤ P1.length →
        store Y (concat [P0, P1] (List.replicate 2 [batch, 1, T, hidden])
          [batch, 2, T, hidden] 1) =
        store Y' (concat [P0, P1] (List.replicate 2 [batch, 1, T, hidden])
          [batch, 2, T, hidden] 1) := by
      intro P0 P1 h0 h1
      apply store_congr _ _ _ (by rw [hY, hY'])
      rw [length_concat_two batch (T * hidden) [T, hidden] [batch, 1, T, hidden]
        (by simp [shape_size]) P0 P1 h0 h1, hY]
      apply le_of_eq; ring
    have hsh : ∀ (D D' P0 P1 : List α), D.length = batch * 2 * hidden →
        D'.length = batch * 2 * hidden → batch * hidden ≤ P0.length →
        batch * hidden ≤ P1.length →
        store D (concat [P0, P1] (List.replicate 2 [batch, 1, hidden])
          [batch, 2, hidden] 1) =
        store D' (concat [P0, P1] (List.replicate 2 [batch, 1, hidden])
          [batch, 2, hidden] 1) := by
      intro D D' P0 P1 hD hD' h0 h1
      apply store_congr _ _ _ (by rw [hD, hD'])
      rw [length_concat_two batch hidden [hidden] [batch, 1, hidden]
        (by simp [shape_size]) P0 P1 h0 h1, hD]
      apply le_of_eq; ring
    refine ⟨?_, ?_, ?_⟩
    · rw [lstm_sequence_bidirectional_eq, lstm_sequence_bidirectional_eq]
      simp only [List.getD_cons_zero, List.getD_cons_succ]
      rw [hsy _ _ (by rw [length_getD_lstm_branch]; simp; apply le_of_eq; ring)
          (by rw [length_getD_lstm_branch]; simp; apply le_of_eq; ring),
        hsh Ho Ho' _ _ hHo hHo' (by rw [length_getD_lstm_branch]; simp)
          (by rw [length_getD_lstm_branch]; simp),
        hsh Co Co' _ _ hCo hCo' (by rw [length_getD_lstm_branch]; simp)
          (by rw [length_getD_lstm_branch]; simp)]
    · rw [gru_sequence_bidirectional_eq, gru_sequence_bidirectional_eq]
      simp only [List.getD_cons_zero, List.getD_cons_succ]
      rw [hsy _ _ (by rw [length_getD_single_state_branch]; simp; apply le_of_eq; ring)
          (by rw [length_getD_single_state_branch]; simp; apply le_of_eq; ring),
        hsh Ho Ho' _ _ hHo hHo' (by rw [length_getD_single_state_branch]; simp)
          (by rw [length_getD_single_state_branch]; simp)]
    · rw [rnn_sequence_bidirectional_eq, rnn_sequence_bidirectional_eq]
      simp only [List.getD_cons_zero, List.getD_cons_succ]
      rw [hsy _ _ (by rw [length_getD_single_state_branch]; simp; apply le_of_eq; ring)
          (by rw [length_getD_single_state_branch]; simp; apply le_of_eq; ring),
        hsh Ho Ho' _ _ hHo hHo' (by rw [length_getD_single_state_branch]; simp)
          (by rw [length_getD_single_state_branch]; simp)]
  · subst h1
    simp only [Nat.mul_one] at hH hC hY hY' hHo hHo' hCo hCo'
    refine ⟨?_, ?_, ?_⟩
    · simp only [lstm_sequence, hd, ↓reduceIte]
      rw [cell_pass_fresh3 ev X seq_lengths H C _ _ _ _ _ Y Y' Ho Ho' Co Co' batch T input hidden
        hH hC hY hY' hHo hHo' hCo hCo']
    · simp only [gru_sequence, hd, ↓reduceIte]
      rw [cell_pass_fresh2 ev CellType.GRU (by decide) X seq_lengths H _ _ _ _ _ Y Y' Ho Ho'
        batch T input hidden hH hY hY' hHo hHo']
    · simp only [rnn_sequence, hd, ↓reduceIte]
      rw [cell_pass_fresh2 ev CellType.RNN (by decide) X seq_lengths H _ _ _ _ _ Y Y' Ho Ho'
        batch T input hidden hH hY hY' hHo hHo']

/-- Stacking two tensors of `b * sz` elements along a new axis 1 into a buffer of
`b * 2 * sz` elements overwrites the whole buffer; the slices of the result at index 0 and 1
of the new axis are the two tensors, in this order. -/
theorem stack_two_layout (b sz : Nat) (rest s : Shape) (hrest : rest.prod = sz)
    (hs : shape_size s = b * sz) (P0 P1 dst : List α) (h0 : P0.length = b * sz)
    (h1 : P1.length = b * sz) (hd : dst.length = b * (2 * sz)) :
    store dst (concat [P0, P1] [s, s] (b :: 2 :: rest) 1) =
        concat [P0, P1] [s, s] (b :: 2 :: rest) 1 ∧
      (concat [P0, P1] [s, s] (b :: 2 :: rest) 1).length = b * (2 * sz) ∧
      slice_axis (store dst (concat [P0, P1] [s, s] (b :: 2 :: rest) 1))
        (b :: 2 :: rest) 1 0 1 = P0 ∧
      slice_axis (store dst (concat [P0, P1] [s, s] (b :: 2 :: rest) 1))
        (b :: 2 :: rest) 1 1 2 = P1 := by
  have hl := length_concat_two b sz rest s hs P0 P1 (by rw [h0]) (by rw [h1])
  have e : ([s, s] : List Shape) = List.replicate 2 s := rfl
  rw [e]
  refine ⟨store_eq_of_length_eq _ _ (by rw [hl, hd]), hl, ?_, ?_⟩
  · exact slice_store_concat_two b sz rest s hrest hs P0 P1 dst h0 h1 hd 0 (by omega)
  · exact slice_store_concat_two b sz rest s hrest hs P0 P1 dst h0 h1 hd 1 (by omega)

theorem lstm_direction_slice [Zero α] (ev : CellEvaluators α κ)
    (X H C seq_lengths W R B : List α) (seq_lengths_shape W_shape R_shape B_shape : Shape)
    (Y Ho Co : List α) (activation_f activation_g activation_h : String) (clip : κ)
    (batch T input hidden : Nat)
    (hY : Y.length = batch * 2 * T * hidden) (hHo : Ho.length = batch * 2 * hidden)
    (hCo : Co.length = batch * 2 * hidden) :
    direction_slice3
        (lstm_sequence ev X [batch, T, input] H [batch, 2, hidden] C [batch, 2, hidden]
          seq_lengths seq_lengths_shape W W_shape R R_shape B B_shape Y Ho Co
          activation_f activation_g activation_h clip RecurrentSequenceDirection.BIDIRECTIONAL)
        batch T hidden 0 =
      ((lstm_branch ev X [batch, T, input] H [batch, 2, hidden] C [batch, 2, hidden]
          seq_lengths seq_lengths_shape W W_shape R R_shape B B_shape
          activation_f activation_g activation_h clip 0 false).getD 0 [],
       (lstm_branch ev X [batch, T, input] H [batch, 2, hidden] C [batch, 2, hidden]
          seq_lengths seq_lengths_shape W W_shape R R_shape B B_shape
          activation_f activation_g activation_h clip 0 false).getD 1 [],
       (lstm_branch ev X [batch, T, input] H [batch, 2, hidden] C [batch, 2, hidden]
          seq_lengths seq_lengths_shape W W_shape R R_shape B B_shape
          activation_f activation_g activation_h clip 0 false).getD 2 []) ∧
    direction_slice3
        (lstm_sequence ev X [batch, T, input] H [batch, 2, hidden] C [batch, 2, hidden]
          seq_lengths seq_lengths_shape W W_shape R R_shape B B_shape Y Ho Co
          activation_f activation_g activation_h clip RecurrentSequenceDirection.BIDIRECTIONAL)
        batch T hidden 1 =
      ((lstm_branch ev X [batch, T, input] H [batch, 2, hidden] C [batch, 2, hidden]
          seq_lengths seq_lengths_shape W W_shape R R_shape B B_shape
          activation_f activation_g activation_h clip 1 true).getD 0 [],
       (lstm_branch ev X [batch, T, input] H [batch, 2, hidden] C [batch, 2, hidden]
          seq_lengths seq_lengths_shape W W_shape R R_shape B B_shape
          activation_f activation_g activation_h clip 1 true).getD 1 [],
       (lstm_branch ev X [batch, T, input] H [batch, 2, hidden] C [batch, 2, hidden]
          seq_lengths seq_lengths_shape W W_shape R R_shape B B_shape
          activation_f activation_g activation_h clip 1 true).getD 2 []) := by
  rw [lstm_sequence_bidirectional_eq]
  simp only [direction_slice3, List.getD_cons_zero, List.getD_cons_succ,
    show ∀ s : Shape, List.replicate 2 s = [s, s] from fun _ => rfl]
  have hy := stack_two_layout batch (T * hidden) [T, hidden] [batch, 1, T, hidden] (by simp)
    (by simp [shape_size])
    ((lstm_branch ev X [batch, T, input] H [batch, 2, hidden] C [batch, 2, hidden]
      seq_lengths seq_lengths_shape W W_shape R R_shape B B_shape
      activation_f activation_g activation_h clip 0 false).getD 0 [])
    ((lstm_branch ev X [batch, T, input] H [batch, 2, hidden] C [batch, 2, hidden]
      seq_lengths seq_lengths_shape W W_shape R R_shape B B_shape
      activation_f activation_g activation_h clip 1 true).getD 0 []) Y
    (by rw [length_getD_lstm_branch]; simp; ring)
    (by rw [length_getD_lstm_branch]; simp; ring) (by rw [hY]; ring)
  have hh := fun j (hj : j = 1 ∨ j = 2) (D : List α) (hD : D.length = batch * 2 * hidden) =>
    stack_two_layout batch hidden [hidden] [batch, 1, hidden] (by simp)
    (by simp [shape_size])
    ((lstm_branch ev X [batch, T, input] H [batch, 2, hidden] C [batch, 2, hidden]
      seq_lengths seq_lengths_shape W W_shape R R_shape B B_shape
      activation_f activation_g activation_h clip 0 false).getD j [])
    ((lstm_branch ev X [batch, T, input] H [batch, 2, hidden] C [batch, 2, hidden]
      seq_lengths seq_lengths_shape W W_shape R R_shape B B_shape
      activation_f activation_g activation_h clip 1 true).getD j []) D
    (by rw [length_getD_lstm_branch]; rcases hj with rfl | rfl <;> simp)
    (by rw [length_getD_lstm_branch]; rcases hj with rfl | rfl <;> simp) (by rw [hD]; ring)
  have h1 := hh 1 (Or.inl rfl) Ho hHo
  have h2 := hh 2 (Or.inr rfl) Co hCo
  exact ⟨by rw [hy.2.2.1, h1.2.2.1, h2.2.2.1], by rw [hy.2.2.2, h1.2.2.2, h2.2.2.2]⟩

theorem single_state_direction_slice [Zero α] (ev : CellEvaluators α κ) (type : CellType)
    (X H seq_lengths W R B : List α) (seq_lengths_shape W_shape R_shape B_shape : Shape)
    (Y Ho : List α) (args : CellArgs κ) (batch T input hidden : Nat)
    (hY : Y.length = batch * 2 * T * hidden) (hHo : Ho.length = batch * 2 * hidden) :
    direction_slice2
        (store Y (concat
          [(single_state_branch ev type X [batch, T, input] H [batch, 2, hidden] seq_lengths
              seq_lengths_shape W W_shape R R_shape B B_shape args 0 false).getD 0 [],
           (single_state_branch ev type X [batch, T, input] H [batch, 2, hidden] seq_lengths
              seq_lengths_shape W W_shape R R_shape B B_shape args 1 true).getD 0 []]
          [[batch, 1, T, hidden], [batch, 1, T, hidden]] [batch, 2, T, hidden] 1),
         store Ho (concat
          [(single_state_branch ev type X [batch, T, input] H [batch, 2, hidden] seq_lengths
              seq_lengths_shape W W_shape R R_shape B B_shape args 0 false).getD 1 [],
           (single_state_branch ev type X [batch, T, input] H [batch, 2, hidden] seq_lengths
              seq_lengths_shape W W_shape R R_shape B B_shape args 1 true).getD 1 []]
          [[batch, 1, hidden], [batch, 1, hidden]] [batch, 2, hidden] 1))
        batch T hidden 0 =
      ((single_state_branch ev type X [batch, T, input] H [batch, 2, hidden] seq_lengths
          seq_lengths_shape W W_shape R R_shape B B_shape args 0 false).getD 0 [],
       (single_state_branch ev type X [batch, T, input] H [batch, 2, hidden] seq_lengths
          seq_lengths_shape W W_shape R R_shape B B_shape args 0 false).getD 1 []) ∧
    direction_slice2
        (store Y (concat
          [(single_state_branch ev type X [batch, T, input] H [batch, 2, hidden] seq_lengths
              seq_lengths_shape W W_shape R R_shape B B_shape args 0 false).getD 0 [],
           (single_state_branch ev type X [batch, T, input] H [batch, 2, hidden] seq_lengths
              seq_lengths_shape W W_shape R R_shape B B_shape args 1 true).getD 0 []]
          [[batch, 1, T, hidden], [batch, 1, T, hidden]] [batch, 2, T, hidden] 1),
         store Ho (concat
          [(single_state_branch ev type X [batch, T, input] H [batch, 2, hidden] seq_lengths
              seq_lengths_shape W W_shape R R_shape B B_shape args 0 false).getD 1 [],
           (single_state_branch ev type X [batch, T, input] H [batch, 2, hidden] seq_lengths
              seq_lengths_shape W W_shape R R_shape B B_shape args 1 true).getD 1 []]
          [[batch, 1, hidden], [batch, 1, hidden]] [batch, 2, hidden] 1))
        batch T hidden 1 =
      ((single_state_branch ev type X [batch, T, input] H [batch, 2, hidden] seq_lengths
          seq_lengths_shape W W_shape R R_shape B B_shape args 1 true).getD 0 [],
       (single_state_branch ev type X [batch, T, input] H [batch, 2, hidden] seq_lengths
          seq_lengths_shape W W_shape R R_shape B B_shape args 1 true).getD 1 []) := by
  simp only [direction_slice2]
  have hy := stack_two_layout batch (T * hidden) [T, hidden] [batch, 1, T, hidden] (by simp)
    (by simp [shape_size])
    ((single_state_branch ev type X [batch, T, input] H [batch, 2, hidden] seq_lengths
      seq_lengths_shape W W_shape R R_shape B B_shape args 0 false).getD 0 [])
    ((single_state_branch ev type X [batch, T, input] H [batch, 2, hidden] seq_lengths
      seq_lengths_shape W W_shape R R_shape B B_shape args 1 true).getD 0 []) Y
    (by rw [length_getD_single_state_branch]; simp; ring)
    (by rw [length_getD_single_state_branch]; simp; ring) (by rw [hY]; ring)
  have hh := stack_two_layout batch hidden [hidden] [batch, 1, hidden] (by simp)
    (by simp [shape_size])
    ((single_state_branch ev type X [batch, T, input] H [batch, 2, hidden] seq_lengths
      seq_lengths_shape W W_shape R R_shape B B_shape args 0 false).getD 1 [])
    ((single_state_branch ev type X [batch, T, input] H [batch, 2, hidden] seq_lengths
      seq_lengths_shape W W_shape R R_shape B B_shape args 1 true).getD 1 []) Ho
    (by rw [length_getD_single_state_branch]; simp)
    (by rw [length_getD_single_state_branch]; simp) (by rw [hHo]; ring)
  exact ⟨by rw [hy.2.2.1, hh.2.2.1], by rw [hy.2.2.2, hh.2.2.2]⟩

theorem lstm_bidirectional_stack [Zero α] (ev : CellEvaluators α κ)
    (X H C seq_lengths W R B : List α) (seq_lengths_shape W_shape R_shape B_shape : Shape)
    (Y Ho Co : List α) (activation_f activation_g activation_h : String) (clip : κ)
    (batch T input hidden : Nat)
    (hY : Y.length = batch * 2 * T * hidden) (hHo : Ho.length = batch * 2 * hidden)
    (hCo : Co.length = batch * 2 * hidden) :
    lstm_sequence ev X [batch, T, input] H [batch, 2, hidden] C [batch, 2, hidden]
        seq_lengths seq_lengths_shape W W_shape R R_shape B B_shape Y Ho Co
        activation_f activation_g activation_h clip RecurrentSequenceDirection.BIDIRECTIONAL =
      (concat
        [(lstm_branch ev X [batch, T, input] H [batch, 2, hidden] C [batch, 2, hidden]
            seq_lengths seq_lengths_shape W W_shape R R_shape B B_shape
            activation_f activation_g activation_h clip 0 false).getD 0 [],
         (lstm_branch ev X [batch, T, input] H [batch, 2, hidden] C [batch, 2, hidden]
            seq_lengths seq_lengths_shape W W_shape R R_shape B B_shape
            activation_f activation_g activation_h clip 1 true).getD 0 []]
        [[batch, 1, T, hidden], [batch, 1, T, hidden]] [batch, 2, T, hidden] 1,
       concat
        [(lstm_branch ev X [batch, T, input] H [batch, 2, hidden] C [batch, 2, hidden]
            seq_lengths seq_lengths_shape W W_shape R R_shape B B_shape
            activation_f activation_g activation_h clip 0 false).getD 1 [],
         (lstm_branch ev X [batch, T, input] H [batch, 2, hidden] C [batch, 2, hidden]
            seq_lengths seq_lengths_shape W W_shape R R_shape B B_shape
            activation_f activation_g activation_h clip 1 true).getD 1 []]
        [[batch, 1, hidden], [batch, 1, hidden]] [batch, 2, hidden] 1,
       concat
        [(lstm_branch ev X [batch, T, input] H [batch, 2, hidden] C [batch, 2, hidden]
            seq_lengths seq_lengths_shape W W_shape R R_shape B B_shape
            activation_f activation_g activation_h clip 0 false).getD 2 [],
         (lstm_branch ev X [batch, T, input] H [batch, 2, hidden] C [batch, 2, hidden]
            seq_lengths seq_lengths_shape W W_shape R R_shape B B_shape
            activation_f activation_g activation_h clip 1 true).getD 2 []]
        [[batch, 1, hidden], [batch, 1, hidden]] [batch, 2, hidden] 1) ∧
    (lstm_sequence ev X [batch, T, input] H [batch, 2, hidden] C [batch, 2, hidden]
        seq_lengths seq_lengths_shape W W_shape R R_shape B B_shape Y Ho Co
        activation_f activation_g activation_h clip
        RecurrentSequenceDirection.BIDIRECTIONAL).1.length = shape_size [batch, 2, T, hidden] ∧
    (lstm_sequence ev X [batch, T, input] H [batch, 2, hidden] C [batch, 2, hidden]
        seq_lengths seq_lengths_shape W W_shape R R_shape B B_shape Y Ho Co
        activation_f activation_g activation_h clip
        RecurrentSequenceDirection.BIDIRECTIONAL).2.1.length = shape_size [batch, 2, hidden] ∧
    (lstm_sequence ev X [batch, T, input] H [batch, 2, hidden] C [batch, 2, hidden]
        seq_lengths seq_lengths_shape W W_shape R R_shape B B_shape Y Ho Co
        activation_f activation_g activation_h clip
        RecurrentSequenceDirection.BIDIRECTIONAL).2.2.length = shape_size [batch, 2, hidden] := by
  rw [lstm_sequence_bidirectional_eq]
  simp only [List.getD_cons_zero, List.getD_cons_succ,
    show ∀ s : Shape, List.replicate 2 s = [s, s] from fun _ => rfl]
  have hy := stack_two_layout batch (T * hidden) [T, hidden] [batch, 1, T, hidden] (by simp)
    (by simp [shape_size])
    ((lstm_branch ev X [batch, T, input] H [batch, 2, hidden] C [batch, 2, hidden]
      seq_lengths seq_lengths_shape W W_shape R R_shape B B_shape
      activation_f activation_g activation_h clip 0 false).getD 0 [])
    ((lstm_branch ev X [batch, T, input] H [batch, 2, hidden] C [batch, 2, hidden]
      seq_lengths seq_lengths_shape W W_shape R R_shape B B_shape
      activation_f activation_g activation_h clip 1 true).getD 0 []) Y
    (by rw [length_getD_lstm_branch]; simp; ring)
    (by rw [length_getD_lstm_branch]; simp; ring) (by rw [hY]; ring)
  have hh := fun j (hj : j = 1 ∨ j = 2) (D : List α) (hD : D.length = batch * 2 * hidden) =>
    stack_two_layout batch hidden [hidden] [batch, 1, hidden] (by simp)
    (by simp [shape_size])
    ((lstm_branch ev X [batch, T, input] H [batch, 2, hidden] C [batch, 2, hidden]
      seq_lengths seq_lengths_shape W W_shape R R_shape B B_shape
      activation_f activation_g activation_h clip 0 false).getD j [])
    ((lstm_branch ev X [batch, T, input] H [batch, 2, hidden] C [batch, 2, hidden]
      seq_lengths seq_lengths_shape W W_shape R R_shape B B_shape
      activation_f activation_g activation_h clip 1 true).getD j []) D
    (by rw [length_getD_lstm_branch]; rcases hj with rfl | rfl <;> simp)
    (by rw [length_getD_lstm_branch]; rcases hj with rfl | rfl <;> simp) (by rw [hD]; ring)
  have h1 := hh 1 (Or.inl rfl) Ho hHo
  have h2 := hh 2 (Or.inr rfl) Co hCo
  rw [hy.1, h1.1, h2.1]
  refine ⟨rfl, ?_, ?_, ?_⟩
  · rw [hy.2.1]; simp [shape_size]
  · rw [h1.2.1]; simp [shape_size]
  · rw [h2.2.1]; simp [shape_size]

theorem single_state_bidirectional_stack [Zero α] (ev : CellEvaluators α κ) (type : CellType)
    (X H seq_lengths W R B : List α) (seq_lengths_shape W_shape R_shape B_shape : Shape)
    (Y Ho : List α) (args : CellArgs κ) (batch T input hidden : Nat)
    (hY : Y.length = batch * 2 * T * hidden) (hHo : Ho.length = batch * 2 * hidden) :
    ((store Y (concat
          [(single_state_branch ev type X [batch, T, input] H [batch, 2, hidden] seq_lengths
              seq_lengths_shape W W_shape R R_shape B B_shape args 0 false).getD 0 [],
           (single_state_branch ev type X [batch, T, input] H [batch, 2, hidden] seq_lengths
              seq_lengths_shape W W_shape R R_shape B B_shape args 1 true).getD 0 []]
          [[batch, 1, T, hidden], [batch, 1, T, hidden]] [batch, 2, T, hidden] 1),
       store Ho (concat
          [(single_state_branch ev type X [batch, T, input] H [batch, 2, hidden] seq_lengths
              seq_lengths_shape W W_shape R R_shape B B_shape args 0 false).getD 1 [],
           (single_state_branch ev type X [batch, T, input] H [batch, 2, hidden] seq_lengths
              seq_lengths_shape W W_shape R R_shape B B_shape args 1 true).getD 1 []]
          [[batch, 1, hidden], [batch, 1, hidden]] [batch, 2, hidden] 1)) :
        List α × List α) =
      (concat
          [(single_state_branch ev type X [batch, T, input] H [batch, 2, hidden] seq_lengths
              seq_lengths_shape W W_shape R R_shape B B_shape args 0 false).getD 0 [],
           (single_state_branch ev type X [batch, T, input] H [batch, 2, hidden] seq_lengths
              seq_lengths_shape W W_shape R R_shape B B_shape args 1 true).getD 0 []]
          [[batch, 1, T, hidden], [batch, 1, T, hidden]] [batch, 2, T, hidden] 1,
       concat
          [(single_state_branch ev type X [batch, T, input] H [batch, 2, hidden] seq_lengths
              seq_lengths_shape W W_shape R R_shape B B_shape args 0 false).getD 1 [],
           (single_state_branch ev type X [batch, T, input] H [batch, 2, hidden] seq_lengths
              seq_lengths_shape W W_shape R R_shape B B_shape args 1 true).getD 1 []]
          [[batch, 1, hidden], [batch, 1, hidden]] [batch, 2, hidden] 1) ∧
    (concat
          [(single_state_branch ev type X [batch, T, input] H [batch, 2, hidden] seq_lengths
              seq_lengths_shape W W_shape R R_shape B B_shape args 0 false).getD 0 [],
           (single_state_branch ev type X [batch, T, input] H [batch, 2, hidden] seq_lengths
              seq_lengths_shape W W_shape R R_shape B B_shape args 1 true).getD 0 []]
          [[batch, 1, T, hidden], [batch, 1, T, hidden]] [batch, 2, T, hidden] 1).length =
        shape_size [batch, 2, T, hidden] ∧
    (concat
          [(single_state_branch ev type X [batch, T, input] H [batch, 2, hidden] seq_lengths
              seq_lengths_shape W W_shape R R_shape B B_shape args 0 false).getD 1 [],
           (single_state_branch ev type X [batch, T, input] H [batch, 2, hidden] seq_lengths
              seq_lengths_shape W W_shape R R_shape B B_shape args 1 true).getD 1 []]
          [[batch, 1, hidden], [batch, 1, hidden]] [batch, 2, hidden] 1).length =
        shape_size [batch, 2, hidden] := by
  have hy := stack_two_layout batch (T * hidden) [T, hidden] [batch, 1, T, hidden] (by simp)
    (by simp [shape_size])
    ((single_state_branch ev type X [batch, T, input] H [batch, 2, hidden] seq_lengths
      seq_lengths_shape W W_shape R R_shape B B_shape args 0 false).getD 0 [])
    ((single_state_branch ev type X [batch, T, input] H [batch, 2, hidden] seq_lengths
      seq_lengths_shape W W_shape R R_shape B B_shape args 1 true).getD 0 []) Y
    (by rw [length_getD_single_state_branch]; simp; ring)
    (by rw [length_getD_single_state_branch]; simp; ring) (by rw [hY]; ring)
  have hh := stack_two_layout batch hidden [hidden] [batch, 1, hidden] (by simp)
    (by simp [shape_size])
    ((single_state_branch ev type X [batch, T, input] H [batch, 2, hidden] seq_lengths
      seq_lengths_shape W W_shape R R_shape B B_shape args 0 false).getD 1 [])
    ((single_state_branch ev type X [batch, T, input] H [batch, 2, hidden] seq_lengths
      seq_lengths_shape W W_shape R R_shape B B_shape args 1 true).getD 1 []) Ho
    (by rw [length_getD_single_state_branch]; simp)
    (by rw [length_getD_single_state_branch]; simp) (by rw [hHo]; ring)
  rw [hy.1, hh.1]
  refine ⟨rfl, ?_, ?_⟩
  · rw [hy.2.1]; simp [shape_size]
  · rw [hh.2.1]; simp [shape_size]

/-- C12: bidirectional output layout. For each adapter with direction BIDIRECTIONAL, `X` of
shape `[batch, T, input]` and `H0` of shape `[batch, 2, hidden]`, the output sequence `Y` is
the concatenation along axis 1 of the forward and the reverse branch sequence, each viewed as
`[batch, 1, T, hidden]`, in the order forward then reverse; it has the
`batch * 2 * T * hidden` elements of the shape `[batch, 2, T, hidden]`, its slice at
direction index 0 is the forward sequence and its slice at index 1 the reverse sequence. Each
final state is the same concatenation of two `[batch, 1, hidden]` parts, of shape
`[batch, 2, hidden]`. -/
theorem bidirectional_output_layout [Zero α] (ev : CellEvaluators α κ)
    (X H C seq_lengths W R B : List α) (seq_lengths_shape W_shape R_shape B_shape : Shape)
    (Y Ho Co : List α) (activation_f activation_g activation_h : String) (clip : κ)
    (linear_before_reset : Bool) (batch T input hidden : Nat)
    (hY : Y.length = batch * 2 * T * hidden) (hHo : Ho.length = batch * 2 * hidden)
    (hCo : Co.length = batch * 2 * hidden) :
    ((lstm_sequence ev X [batch, T, input] H [batch, 2, hidden] C [batch, 2, hidden]
        seq_lengths seq_lengths_shape W W_shape R R_shape B B_shape Y Ho Co
        activation_f activation_g activation_h clip RecurrentSequenceDirection.BIDIRECTIONAL) =
      (concat
        [(lstm_branch ev X [batch, T, input] H [batch, 2, hidden] C [batch, 2, hidden]
            seq_lengths seq_lengths_shape W W_shape R R_shape B B_shape
            activation_f activation_g activation_h clip 0 false).getD 0 [],
         (lstm_branch ev X [batch, T, input] H [batch, 2, hidden] C [batch, 2, hidden]
            seq_lengths seq_lengths_shape W W_shape R R_shape B B_shape
            activation_f activation_g activation_h clip 1 true).getD 0 []]
        [[batch, 1, T, hidden], [batch, 1, T, hidden]] [batch, 2, T, hidden] 1,
       concat
        [(lstm_branch ev X [batch, T, input] H [batch, 2, hidden] C [batch, 2, hidden]
            seq_lengths seq_lengths_shape W W_shape R R_shape B B_shape
            activation_f activation_g activation_h clip 0 false).getD 1 [],
         (lstm_branch ev X [batch, T, input] H [batch, 2, hidden] C [batch, 2, hidden]
            seq_lengths seq_lengths_shape W W_shape R R_shape B B_shape
            activation_f activation_g activation_h clip 1 true).getD 1 []]
        [[batch, 1, hidden], [batch, 1, hidden]] [batch, 2, hidden] 1,
       concat
        [(lstm_branch ev X [batch, T, input] H [batch, 2, hidden] C [batch, 2, hidden]
            seq_lengths seq_lengths_shape W W_shape R R_shape B B_shape
            activation_f activation_g activation_h clip 0 false).getD 2 [],
         (lstm_branch ev X [batch, T, input] H [batch, 2, hidden] C [batch, 2, hidden]
            seq_lengths seq_lengths_shape W W_shape R R_shape B B_shape
            activation_f activation_g activation_h clip 1 true).getD 2 []]
        [[batch, 1, hidden], [batch, 1, hidden]] [batch, 2, hidden] 1) ∧
    (lstm_sequence ev X [batch, T, input] H [batch, 2, hidden] C [batch, 2, hidden]
        seq_lengths seq_lengths_shape W W_shape R R_shape B B_shape Y Ho Co
        activation_f activation_g activation_h clip RecurrentSequenceDirection.BIDIRECTIONAL).1.length = shape_size [batch, 2, T, hidden] ∧
    (lstm_sequence ev X [batch, T, input] H [batch, 2, hidden] C [batch, 2, hidden]
        seq_lengths seq_lengths_shape W W_shape R R_shape B B_shape Y Ho Co
        activation_f activation_g activation_h clip RecurrentSequenceDirection.BIDIRECTIONAL).2.1.length = shape_size [batch, 2, hidden] ∧
    (lstm_sequence ev X [batch, T, input] H [batch, 2, hidden] C [batch, 2, hidden]
        seq_lengths seq_lengths_shape W W_shape R R_shape B B_shape Y Ho Co
        activation_f activation_g activation_h clip RecurrentSequenceDirection.BIDIRECTIONAL).2.2.length = shape_size [batch, 2, hidden] ∧
    direction_slice3 (lstm_sequence ev X [batch, T, input] H [batch, 2, hidden] C [batch, 2, hidden]
        seq_lengths seq_lengths_shape W W_shape R R_shape B B_shape Y Ho Co
        activation_f activation_g activation_h clip RecurrentSequenceDirection.BIDIRECTIONAL) batch T hidden 0 =
      ((lstm_branch ev X [batch, T, input] H [batch, 2, hidden] C [batch, 2, hidden]
            seq_lengths seq_lengths_shape W W_shape R R_shape B B_shape
            activation_f activation_g activation_h clip 0 false).getD 0 [],
       (lstm_branch ev X [batch, T, input] H [batch, 2, hidden] C [batch, 2, hidden]
            seq_lengths seq_lengths_shape W W_shape R R_shape B B_shape
            activation_f activation_g activation_h clip 0 false).getD 1 [],
       (lstm_branch ev X [batch, T, input] H [batch, 2, hidden] C [batch, 2, hidden]
            seq_lengths seq_lengths_shape W W_shape R R_shape B B_shape
            activation_f activation_g activation_h clip 0 false).getD 2 []) ∧
    direction_slice3 (lstm_sequence ev X [batch, T, input] H [batch, 2, hidden] C [batch, 2, hidden]
        seq_lengths seq_lengths_shape W W_shape R R_shape B B_shape Y Ho Co
        activation_f activation_g activation_h clip RecurrentSequenceDirection.BIDIRECTIONAL) batch T hidden 1 =
      ((lstm_branch ev X [batch, T, input] H [batch, 2, hidden] C [batch, 2, hidden]
            seq_lengths seq_lengths_shape W W_shape R R_shape B B_shape
            activation_f activation_g activation_h clip 1 true).getD 0 [],
       (lstm_branch ev X [batch, T, input] H [batch, 2, hidden] C [batch, 2, hidden]
            seq_lengths seq_lengths_shape W W_shape R R_shape B B_shape
            activation_f activation_g activation_h clip 1 true).getD 1 [],
       (lstm_branch ev X [batch, T, input] H [batch, 2, hidden] C [batch, 2, hidden]
            seq_lengths seq_lengths_shape W W_shape R R_shape B B_shape
            activation_f activation_g activation_h clip 1 true).getD 2 [])) ∧
    ((gru_sequence ev X [batch, T, input] H [batch, 2, hidden]
        seq_lengths seq_lengths_shape W W_shape R R_shape B B_shape Y Ho
        activation_f activation_g clip RecurrentSequenceDirection.BIDIRECTIONAL
        linear_before_reset) =
      (concat
        [(single_state_branch ev CellType.GRU X [batch, T, input] H [batch, 2, hidden]
            seq_lengths seq_lengths_shape W W_shape R R_shape B B_shape
            ⟨activation_f, activation_g, "", clip, linear_before_reset⟩ 0 false).getD 0 [],
         (single_state_branch ev CellType.GRU X [batch, T, input] H [batch, 2, hidden]
            seq_lengths seq_lengths_shape W W_shape R R_shape B B_shape
            ⟨activation_f, activation_g, "", clip, linear_before_reset⟩ 1 true).getD 0 []]
        [[batch, 1, T, hidden], [batch, 1, T, hidden]] [batch, 2, T, hidden] 1,
       concat
        [(single_state_branch ev CellType.GRU X [batch, T, input] H [batch, 2, hidden]
            seq_lengths seq_lengths_shape W W_shape R R_shape B B_shape
            ⟨activation_f, activation_g, "", clip, linear_before_reset⟩ 0 false).getD 1 [],
         (single_state_branch ev CellType.GRU X [batch, T, input] H [batch, 2, hidden]
            seq_lengths seq_lengths_shape W W_shape R R_shape B B_shape
            ⟨activation_f, activation_g, "", clip, linear_before_reset⟩ 1 true).getD 1 []]
        [[batch, 1, hidden], [batch, 1, hidden]] [batch, 2, hidden] 1) ∧
    (gru_sequence ev X [batch, T, input] H [batch, 2, hidden]
        seq_lengths seq_lengths_shape W W_shape R R_shape B B_shape Y Ho
        activation_f activation_g clip RecurrentSequenceDirection.BIDIRECTIONAL
        linear_before_reset).1.length = shape_size [batch, 2, T, hidden] ∧
    (gru_sequence ev X [batch, T, input] H [batch, 2, hidden]
        seq_lengths seq_lengths_shape W W_shape R R_shape B B_shape Y Ho
        activation_f activation_g clip RecurrentSequenceDirection.BIDIRECTIONAL
        linear_before_reset).2.length = shape_size [batch, 2, hidden] ∧
    direction_slice2 (gru_sequence ev X [batch, T, input] H [batch, 2, hidden]
        seq_lengths seq_lengths_shape W W_shape R R_shape B B_shape Y Ho
        activation_f activation_g clip RecurrentSequenceDirection.BIDIRECTIONAL
        linear_before_reset) batch T hidden 0 =
      ((single_state_branch ev CellType.GRU X [batch, T, input] H [batch, 2, hidden]
            seq_lengths seq_lengths_shape W W_shape R R_shape B B_shape
            ⟨activation_f, activation_g, "", clip, linear_before_reset⟩ 0 false).getD 0 [],
       (single_state_branch ev CellType.GRU X [batch, T, input] H [batch, 2, hidden]
            seq_lengths seq_lengths_shape W W_shape R R_shape B B_shape
            ⟨activation_f, activation_g, "", clip, linear_before_reset⟩ 0 false).getD 1 []) ∧
    direction_slice2 (gru_sequence ev X [batch, T, input] H [batch, 2, hidden]
        seq_lengths seq_lengths_shape W W_shape R R_shape B B_shape Y Ho
        activation_f activation_g clip RecurrentSequenceDirection.BIDIRECTIONAL
        linear_before_reset) batch T hidden 1 =
      ((single_state_branch ev CellType.GRU X [batch, T, input] H [batch, 2, hidden]
            seq_lengths seq_lengths_shape W W_shape R R_shape B B_shape
            ⟨activation_f, activation_g, "", clip, linear_before_reset⟩ 1 true).getD 0 [],
       (single_state_branch ev CellType.GRU X [batch, T, input] H [batch, 2, hidden]
            seq_lengths seq_lengths_shape W W_shape R R_shape B B_shape
            ⟨activation_f, activation_g, "", clip, linear_before_reset⟩ 1 true).getD 1 [])) ∧
    ((rnn_sequence ev X [batch, T, input] H [batch, 2, hidden]
        seq_lengths seq_lengths_shape W W_shape R R_shape B B_shape Y Ho
        activation_f clip RecurrentSequenceDirection.BIDIRECTIONAL) =
      (concat
        [(single_state_branch ev CellType.RNN X [batch, T, input] H [batch, 2, hidden]
            seq_lengths seq_lengths_shape W W_shape R R_shape B B_shape
            ⟨activation_f, "", "", clip, false⟩ 0 false).getD 0 [],
         (single_state_branch ev CellType.RNN X [batch, T, input] H [batch, 2, hidden]
            seq_lengths seq_lengths_shape W W_shape R R_shape B B_shape
            ⟨activation_f, "", "", clip, false⟩ 1 true).getD 0 []]
        [[batch, 1, T, hidden], [batch, 1, T, hidden]] [batch, 2, T, hidden] 1,
       concat
        [(single_state_branch ev CellType.RNN X [batch, T, input] H [batch, 2, hidden]
            seq_lengths seq_lengths_shape W W_shape R R_shape B B_shape
            ⟨activation_f, "", "", clip, false⟩ 0 false).getD 1 [],
         (single_state_branch ev CellType.RNN X [batch, T, input] H [batch, 2, hidden]
            seq_lengths seq_lengths_shape W W_shape R R_shape B B_shape
            ⟨activation_f, "", "", clip, false⟩ 1 true).getD 1 []]
        [[batch, 1, hidden], [batch, 1, hidden]] [batch, 2, hidden] 1) ∧
    (rnn_sequence ev X [batch, T, input] H [batch, 2, hidden]
        seq_lengths seq_lengths_shape W W_shape R R_shape B B_shape Y Ho
        activation_f clip RecurrentSequenceDirection.BIDIRECTIONAL).1.length = shape_size [batch, 2, T, hidden] ∧
    (rnn_sequence ev X [batch, T, input] H [batch, 2, hidden]
        seq_lengths seq_lengths_shape W W_shape R R_shape B B_shape Y Ho
        activation_f clip RecurrentSequenceDirection.BIDIRECTIONAL).2.length = shape_size [batch, 2, hidden] ∧
    direction_slice2 (rnn_sequence ev X [batch, T, input] H [batch, 2, hidden]
        seq_lengths seq_lengths_shape W W_shape R R_shape B B_shape Y Ho
        activation_f clip RecurrentSequenceDirection.BIDIRECTIONAL) batch T hidden 0 =
      ((single_state_branch ev CellType.RNN X [batch, T, input] H [batch, 2, hidden]
            seq_lengths seq_lengths_shape W W_shape R R_shape B B_shape
            ⟨activation_f, "", "", clip, false⟩ 0 false).getD 0 [],
       (single_state_branch ev CellType.RNN X [batch, T, input] H [batch, 2, hidden]
            seq_lengths seq_lengths_shape W W_shape R R_shape B B_shape
            ⟨activation_f, "", "", clip, false⟩ 0 false).getD 1 []) ∧
    direction_slice2 (rnn_sequence ev X [batch, T, input] H [batch, 2, hidden]
        seq_lengths seq_lengths_shape W W_shape R R_shape B B_shape Y Ho
        activation_f clip RecurrentSequenceDirection.BIDIRECTIONAL) batch T hidden 1 =
      ((single_state_branch ev CellType.RNN X [batch, T, input] H [batch, 2, hidden]
            seq_lengths seq_lengths_shape W W_shape R R_shape B B_shape
            ⟨activation_f, "", "", clip, false⟩ 1 true).getD 0 [],
       (single_state_branch ev CellType.RNN X [batch, T, input] H [batch, 2, hidden]
            seq_lengths seq_lengths_shape W W_shape R R_shape B B_shape
            ⟨activation_f, "", "", clip, false⟩ 1 true).getD 1 [])) := by
  have hl := lstm_bidirectional_stack ev X H C seq_lengths W R B seq_lengths_shape W_shape
    R_shape B_shape Y Ho Co activation_f activation_g activation_h clip batch T input hidden
    hY hHo hCo
  have hls := lstm_direction_slice ev X H C seq_lengths W R B seq_lengths_shape W_shape
    R_shape B_shape Y Ho Co activation_f activation_g activation_h clip batch T input hidden
    hY hHo hCo
  have hg := single_state_bidirectional_stack ev CellType.GRU X H seq_lengths W R B
    seq_lengths_shape W_shape R_shape B_shape Y Ho ⟨activation_f, activation_g, "", clip, linear_before_reset⟩
    batch T input hidden hY hHo
  have hgs := single_state_direction_slice ev CellType.GRU X H seq_lengths W R B
    seq_lengths_shape W_shape R_shape B_shape Y Ho ⟨activation_f, activation_g, "", clip, linear_before_reset⟩
    batch T input hidden hY hHo
  have hr := single_state_bidirectional_stack ev CellType.RNN X H seq_lengths W R B
    seq_lengths_shape W_shape R_shape B_shape Y Ho ⟨activation_f, "", "", clip, false⟩
    batch T input hidden hY hHo
  have hrs := single_state_direction_slice ev CellType.RNN X H seq_lengths W R B
    seq_lengths_shape W_shape R_shape B_shape Y Ho ⟨activation_f, "", "", clip, false⟩
    batch T input hidden hY hHo
  refine ⟨⟨hl.1, hl.2.1, hl.2.2.1, hl.2.2.2, hls.1, hls.2⟩, ⟨?_, ?_, ?_, ?_, ?_⟩,
    ⟨?_, ?_, ?_, ?_, ?_⟩⟩
  · rw [gru_sequence_bidirectional_eq]; exact hg.1
  · rw [gru_sequence_bidirectional_eq, show ∀ p q : List α, ((p, q) : List α × List α).1 = p
      from fun _ _ => rfl]
    exact (congrArg List.length (congrArg Prod.fst hg.1)).trans hg.2.1
  · rw [gru_sequence_bidirectional_eq]
    exact (congrArg List.length (congrArg Prod.snd hg.1)).trans hg.2.2
  · rw [gru_sequence_bidirectional_eq]; exact hgs.1
  · rw [gru_sequence_bidirectional_eq]; exact hgs.2
  · rw [rnn_sequence_bidirectional_eq]; exact hr.1
  · rw [rnn_sequence_bidirectional_eq]
    exact (congrArg List.length (congrArg Prod.fst hr.1)).trans hr.2.1
  · rw [rnn_sequence_bidirectional_eq]
    exact (congrArg List.length (congrArg Prod.snd hr.1)).trans hr.2.2
  · rw [rnn_sequence_bidirectional_eq]; exact hrs.1
  · rw [rnn_sequence_bidirectional_eq]; exact hrs.2

theorem lstm_branch_congr [Zero α] (ev : CellEvaluators α κ)
    (X seq_lengths H C W R B H' C' W' R' B' : List α) (seq_lengths_shape wr rr br : Shape)
    (activation_f activation_g activation_h : String) (clip : κ)
    (batch T input hidden : Nat) (i : Nat) (r : Bool) (hi : i < 2)
    (hH : H.length = batch * 2 * hidden) (hH' : H'.length = batch * 2 * hidden)
    (hC : C.length = batch * 2 * hidden) (hC' : C'.length = batch * 2 * hidden)
    (hW : W.length = 2 * wr.prod) (hW' : W'.length = 2 * wr.prod)
    (hR : R.length = 2 * rr.prod) (hR' : R'.length = 2 * rr.prod)
    (hB : B.length = 2 * br.prod) (hB' : B'.length = 2 * br.prod)
    (eH : slice_axis H [batch, 2, hidden] 1 i (i + 1) =
      slice_axis H' [batch, 2, hidden] 1 i (i + 1))
    (eC : slice_axis C [batch, 2, hidden] 1 i (i + 1) =
      slice_axis C' [batch, 2, hidden] 1 i (i + 1))
    (eW : slice_axis W (2 :: wr) 0 i (i + 1) = slice_axis W' (2 :: wr) 0 i (i + 1))
    (eR : slice_axis R (2 :: rr) 0 i (i + 1) = slice_axis R' (2 :: rr) 0 i (i + 1))
    (eB : slice_axis B (2 :: br) 0 i (i + 1) = slice_axis B' (2 :: br) 0 i (i + 1)) :
    lstm_branch ev X [batch, T, input] H [batch, 2, hidden] C [batch, 2, hidden]
        seq_lengths seq_lengths_shape W (2 :: wr) R (2 :: rr) B (2 :: br)
        activation_f activation_g activation_h clip i r =
      lstm_branch ev X [batch, T, input] H' [batch, 2, hidden] C' [batch, 2, hidden]
        seq_lengths seq_lengths_shape W' (2 :: wr) R' (2 :: rr) B' (2 :: br)
        activation_f activation_g activation_h clip i r := by
  unfold lstm_branch
  rw [split_half_axis1 H batch hidden i hi hH, split_half_axis1 C batch hidden i hi hC,
    split_half_axis0 W wr i hi hW, split_half_axis0 R rr i hi hR, split_half_axis0 B br i hi hB,
    split_half_axis1 H' batch hidden i hi hH', split_half_axis1 C' batch hidden i hi hC',
    split_half_axis0 W' wr i hi hW', split_half_axis0 R' rr i hi hR',
    split_half_axis0 B' br i hi hB', eH, eC, eW, eR, eB]

theorem single_state_branch_congr [Zero α] (ev : CellEvaluators α κ) (type : CellType)
    (X seq_lengths H W R B H' W' R' B' : List α) (seq_lengths_shape wr rr br : Shape)
    (args : CellArgs κ)
    (batch T input hidden : Nat) (i : Nat) (r : Bool) (hi : i < 2)
    (hH : H.length = batch * 2 * hidden) (hH' : H'.length = batch * 2 * hidden)
    (hW : W.length = 2 * wr.prod) (hW' : W'.length = 2 * wr.prod)
    (hR : R.length = 2 * rr.prod) (hR' : R'.length = 2 * rr.prod)
    (hB : B.length = 2 * br.prod) (hB' : B'.length = 2 * br.prod)
    (eH : slice_axis H [batch, 2, hidden] 1 i (i + 1) =
      slice_axis H' [batch, 2, hidden] 1 i (i + 1))
    (eW : slice_axis W (2 :: wr) 0 i (i + 1) = slice_axis W' (2 :: wr) 0 i (i + 1))
    (eR : slice_axis R (2 :: rr) 0 i (i + 1) = slice_axis R' (2 :: rr) 0 i (i + 1))
    (eB : slice_axis B (2 :: br) 0 i (i + 1) = slice_axis B' (2 :: br) 0 i (i + 1)) :
    single_state_branch ev type X [batch, T, input] H [batch, 2, hidden]
        seq_lengths seq_lengths_shape W (2 :: wr) R (2 :: rr) B (2 :: br) args i r =
      single_state_branch ev type X [batch, T, input] H' [batch, 2, hidden]
        seq_lengths seq_lengths_shape W' (2 :: wr) R' (2 :: rr) B' (2 :: br) args i r := by
  unfold single_state_branch
  rw [split_half_axis1 H batch hidden i hi hH,
    split_half_axis0 W wr i hi hW, split_half_axis0 R rr i hi hR, split_half_axis0 B br i hi hB,
    split_half_axis1 H' batch hidden i hi hH',
    split_half_axis0 W' wr i hi hW', split_half_axis0 R' rr i hi hR',
    split_half_axis0 B' br i hi hB', eH, eW, eR, eB]

/-- C13: no cross-branch interaction in bidirectional mode. For each adapter with direction
BIDIRECTIONAL and each direction index `i` (0 or 1), any two calls that agree on `X`, the cell
parameters and the index-`i` halves of `H0` (`C0`), `W`, `R`, `B`, and differ arbitrarily in
the other halves, give identical slices `Y[:,i,:,:]`, `Hn[:,i,:]` (and `Cn[:,i,:]`): the
index-0 slices of the outputs do not depend on the index-1 halves of the inputs, and the
index-1 slices do not depend on the index-0 halves. -/
theorem bidirectional_no_cross_branch_interaction [Zero α] (ev : CellEvaluators α κ)
    (X seq_lengths H C W R B H' C' W' R' B' : List α) (seq_lengths_shape wr rr br : Shape)
    (Y Ho Co : List α) (activation_f activation_g activation_h : String) (clip : κ)
    (linear_before_reset : Bool) (batch T input hidden : Nat) (i : Nat) (hi : i < 2)
    (hH : H.length = batch * 2 * hidden) (hH' : H'.length = batch * 2 * hidden)
    (hC : C.length = batch * 2 * hidden) (hC' : C'.length = batch * 2 * hidden)
    (hW : W.length = 2 * wr.prod) (hW' : W'.length = 2 * wr.prod)
    (hR : R.length = 2 * rr.prod) (hR' : R'.length = 2 * rr.prod)
    (hB : B.length = 2 * br.prod) (hB' : B'.length = 2 * br.prod)
    (hY : Y.length = batch * 2 * T * hidden) (hHo : Ho.length = batch * 2 * hidden)
    (hCo : Co.length = batch * 2 * hidden)
    (eH : slice_axis H [batch, 2, hidden] 1 i (i + 1) =
      slice_axis H' [batch, 2, hidden] 1 i (i + 1))
    (eC : slice_axis C [batch, 2, hidden] 1 i (i + 1) =
      slice_axis C' [batch, 2, hidden] 1 i (i + 1))
    (eW : slice_axis W (2 :: wr) 0 i (i + 1) = slice_axis W' (2 :: wr) 0 i (i + 1))
    (eR : slice_axis R (2 :: rr) 0 i (i + 1) = slice_axis R' (2 :: rr) 0 i (i + 1))
    (eB : slice_axis B (2 :: br) 0 i (i + 1) = slice_axis B' (2 :: br) 0 i (i + 1)) :
    direction_slice3
        (lstm_sequence ev X [batch, T, input] H [batch, 2, hidden] C [batch, 2, hidden]
          seq_lengths seq_lengths_shape W (2 :: wr) R (2 :: rr) B (2 :: br) Y Ho Co
          activation_f activation_g activation_h clip RecurrentSequenceDirection.BIDIRECTIONAL)
        batch T hidden i =
      direction_slice3
        (lstm_sequence ev X [batch, T, input] H' [batch, 2, hidden] C' [batch, 2, hidden]
          seq_lengths seq_lengths_shape W' (2 :: wr) R' (2 :: rr) B' (2 :: br) Y Ho Co
          activation_f activation_g activation_h clip RecurrentSequenceDirection.BIDIRECTIONAL)
        batch T hidden i ∧
    direction_slice2
        (gru_sequence ev X [batch, T, input] H [batch, 2, hidden]
          seq_lengths seq_lengths_shape W (2 :: wr) R (2 :: rr) B (2 :: br) Y Ho
          activation_f activation_g clip RecurrentSequenceDirection.BIDIRECTIONAL
          linear_before_reset)
        batch T hidden i =
      direction_slice2
        (gru_sequence ev X [batch, T, input] H' [batch, 2, hidden]
          seq_lengths seq_lengths_shape W' (2 :: wr) R' (2 :: rr) B' (2 :: br) Y Ho
          activation_f activation_g clip RecurrentSequenceDirection.BIDIRECTIONAL
          linear_before_reset)
        batch T hidden i ∧
    direction_slice2
        (rnn_sequence ev X [batch, T, input] H [batch, 2, hidden]
          seq_lengths seq_lengths_shape W (2 :: wr) R (2 :: rr) B (2 :: br) Y Ho
          activation_f clip RecurrentSequenceDirection.BIDIRECTIONAL)
        batch T hidden i =
      direction_slice2
        (rnn_sequence ev X [batch, T, input] H' [batch, 2, hidden]
          seq_lengths seq_lengths_shape W' (2 :: wr) R' (2 :: rr) B' (2 :: br) Y Ho
          activation_f clip RecurrentSequenceDirection.BIDIRECTIONAL)
        batch T hidden i := by
  have hl := fun r => lstm_branch_congr ev X seq_lengths H C W R B H' C' W' R' B'
    seq_lengths_shape wr rr br activation_f activation_g activation_h clip batch T input hidden
    i r hi hH hH' hC hC' hW hW' hR hR' hB hB' eH eC eW eR eB
  have hs := fun type args r => single_state_branch_congr ev type X seq_lengths H W R B
    H' W' R' B' seq_lengths_shape wr rr br args batch T input hidden
    i r hi hH hH' hW hW' hR hR' hB hB' eH eW eR eB
  have h1 := lstm_direction_slice ev X H C seq_lengths W R B seq_lengths_shape (2 :: wr)
    (2 :: rr) (2 :: br) Y Ho Co activation_f activation_g activation_h clip batch T input
    hidden hY hHo hCo
  have h2 := lstm_direction_slice ev X H' C' seq_lengths W' R' B' seq_lengths_shape (2 :: wr)
    (2 :: rr) (2 :: br) Y Ho Co activation_f activation_g activation_h clip batch T input
    hidden hY hHo hCo
  have g1 := fun type args => single_state_direction_slice ev type X H seq_lengths W R B
    seq_lengths_shape (2 :: wr) (2 :: rr) (2 :: br) Y Ho args batch T input hidden hY hHo
  have g2 := fun type args => single_state_direction_slice ev type X H' seq_lengths W' R' B'
    seq_lengths_shape (2 :: wr) (2 :: rr) (2 :: br) Y Ho args batch T input hidden hY hHo
  have hcases : i = 0 ∨ i = 1 := by omega
  rcases hcases with rfl | rfl
  · refine ⟨?_, ?_, ?_⟩
    · rw [h1.1, h2.1, hl false]
    · rw [gru_sequence_bidirectional_eq, gru_sequence_bidirectional_eq]
      exact ((g1 _ _).1.trans (by rw [hs _ _ false])).trans (g2 _ _).1.symm
    · rw [rnn_sequence_bidirectional_eq, rnn_sequence_bidirectional_eq]
      exact ((g1 _ _).1.trans (by rw [hs _ _ false])).trans (g2 _ _).1.symm
  · refine ⟨?_, ?_, ?_⟩
    · rw [h1.2, h2.2, hl true]
    · rw [gru_sequence_bidirectional_eq, gru_sequence_bidirectional_eq]
      exact ((g1 _ _).2.trans (by rw [hs _ _ true])).trans (g2 _ _).2.symm
    · rw [rnn_sequence_bidirectional_eq, rnn_sequence_bidirectional_eq]
      exact ((g1 _ _).2.trans (by rw [hs _ _ true])).trans (g2 _ _).2.symm

theorem in_seqs_eq [Zero α] (inputs : List (List α)) (shapes : List Shape) (r : Bool) :
    in_seqs inputs shapes r =
      (List.range ((shapes.getD 0 []).getD 1 0)).map (step_input inputs shapes r) := by
  unfold in_seqs
  simp only [pointer_table]
  rw [split_into_table _ _ _ _ _ _ (by simp)]
  apply List.map_congr_left
  intro t ht
  have ht' : t < (shapes.getD 0 []).getD 1 0 := by simpa using ht
  simp only [getD_replicate_lt _ _ _ _ ht', step_input]

theorem loop_state_eq [Zero α] (ev : CellEvaluators α κ) (type : CellType)
    (inputs : List (List α)) (shapes : List Shape) (outputs : List (List α))
    (args : CellArgs κ) (r : Bool) (m : Nat) (hm : m ≤ (shapes.getD 0 []).getD 1 0) :
    (loop_state ev type inputs shapes outputs args r m).1 =
      run_steps ev type inputs shapes args r outputs m := by
  unfold loop_state time_loop
  rw [in_seqs_eq]
  have hbody : ∀ (st : List (List α) × List (List α)) (t : Nat), t ∈ List.range m →
      (fun (st : List (List α) × List (List α)) time_step =>
        let outputs := cell_step ev type inputs shapes args
          (((List.range ((shapes.getD 0 []).getD 1 0)).map
            (step_input inputs shapes r)).getD time_step []) st.1
        (outputs, st.2.set time_step (memcpy (st.2.getD time_step []) (outputs.getD 1 [])
          (shape_size [(shapes.getD 0 []).getD 0 0, 1, (shapes.getD 2 []).getD 2 0])))) st t =
      (fun (st : List (List α) × List (List α)) t =>
        ((fun t o => cell_step ev type inputs shapes args (step_input inputs shapes r t) o) t st.1,
          st.2.set t (memcpy (st.2.getD t [])
            (((fun t o => cell_step ev type inputs shapes args (step_input inputs shapes r t) o)
              t st.1).getD 1 [])
            (shape_size [(shapes.getD 0 []).getD 0 0, 1, (shapes.getD 2 []).getD 2 0])))) st t := by
    intro st t ht
    have ht' : t < (shapes.getD 0 []).getD 1 0 := by
      have : t < m := by simpa using ht
      omega
    simp only [getD_map_range _ _ _ _ ht']
  rw [List.foldl_ext _ _ _ hbody, capture_loop _ _ _ _ _ (by simpa using hm)]
  rfl

theorem cell_pass_eq_loop_state [Zero α] (ev : CellEvaluators α κ) (type : CellType)
    (inputs : List (List α)) (shapes : List Shape) (outputs : List (List α))
    (args : CellArgs κ) (r : Bool) (i : Nat) :
    (cell_pass ev type inputs shapes outputs args r).getD (i + 1) [] =
      (loop_state ev type inputs shapes outputs args r ((shapes.getD 0 []).getD 1 0)).1.getD
        (i + 1) [] := by
  rw [getD_succ_cell_pass, loop_state_eq _ _ _ _ _ _ _ _ (le_refl _)]

theorem getD_one_init_state (type : CellType) (inputs : List (List α)) (shapes : List Shape)
    (o : List (List α)) (h2 : 2 ≤ o.length) :
    (init_state type inputs shapes o).getD 1 [] =
      memcpy (o.getD 1 []) (inputs.getD 2 []) (shape_size (shapes.getD 2 [])) := by
  unfold init_state
  split
  · simp only [List.getD_eq_getElem?_getD]
    rw [List.getElem?_set_ne (by omega), List.getElem?_set_eq_of_lt _ (by omega)]
    rfl
  · simp only [List.getD_eq_getElem?_getD]
    rw [List.getElem?_set_eq_of_lt _ (by omega)]
    rfl

theorem memcpy_eq_self_of_length (dst src : List α) (n : Nat) (hd : dst.length = n)
    (hs : src.length = n) : memcpy dst src n = src := by
  rw [memcpy_eq_take _ _ _ hd (by omega)]
  exact List.take_of_length_le (by omega)

/-- C14: order of the step inputs of `cell_pass`. For `X` of shape `[batch, T, input]` with
`T ≥ 1`, every cell kind and every iteration position `t < T` of the time loop, the step
input `in_seqs[t]` is the slice `X[:,T-1-t,:]` when `is_reverse` is true and `X[:,t,:]` when
it is false, and iteration `t` evaluates the cell on that slice and on the state buffers
left by the first `t` iterations. In particular with `is_reverse = true` the first
evaluation receives the last slice `X[:,T-1,:]` together with the buffers before the loop,
whose hidden-state buffer `outputs[1]` holds the copy of the initial state `H0` (`H0`
itself when both have the size of the state shape). The state outputs of `cell_pass` are
those of the loop after `T` iterations, and `gru_sequence` with direction REVERSE is such a
pass with `is_reverse = true`. -/
theorem cell_pass_step_input_order [Zero α] (ev : CellEvaluators α κ) (type : CellType)
    (inputs : List (List α)) (shapes : List Shape) (outputs : List (List α))
    (args : CellArgs κ) (is_reverse : Bool) (batch T input : Nat)
    (hshape : shapes.getD 0 [] = [batch, T, input]) (hT : 1 ≤ T)
    (hX : (inputs.getD 0 []).length = batch * T * input) (h2 : 2 ≤ outputs.length) :
    (∀ t, t < T →
      (in_seqs inputs shapes is_reverse).getD t [] =
        slice_axis (inputs.getD 0 []) (shapes.getD 0 []) 1
          (if is_reverse then T - 1 - t else t) ((if is_reverse then T - 1 - t else t) + 1)) ∧
    (∀ t, t < T →
      (loop_state ev type inputs shapes outputs args is_reverse (t + 1)).1 =
        cell_step ev type inputs shapes args
          (slice_axis (inputs.getD 0 []) (shapes.getD 0 []) 1
            (if is_reverse then T - 1 - t else t) ((if is_reverse then T - 1 - t else t) + 1))
          (loop_state ev type inputs shapes outputs args is_reverse t).1) ∧
    (is_reverse = true →
      (loop_state ev type inputs shapes outputs args is_reverse 1).1 =
        cell_step ev type inputs shapes args
          (slice_axis (inputs.getD 0 []) (shapes.getD 0 []) 1 (T - 1) T)
          (init_state type inputs shapes outputs)) ∧
    (init_state type inputs shapes outputs).getD 1 [] =
      memcpy (outputs.getD 1 []) (inputs.getD 2 []) (shape_size (shapes.getD 2 [])) ∧
    ((outputs.getD 1 []).length = shape_size (shapes.getD 2 []) →
      (inputs.getD 2 []).length = shape_size (shapes.getD 2 []) →
      (init_state type inputs shapes outputs).getD 1 [] = inputs.getD 2 []) ∧
    (∀ i, (cell_pass ev type inputs shapes outputs args is_reverse).getD (i + 1) [] =
      (loop_state ev type inputs shapes outputs args is_reverse T).1.getD (i + 1) []) ∧
    (∀ (X H seq_lengths W R B : List α)
      (H_shape seq_lengths_shape W_shape R_shape B_shape : Shape) (Y Ho : List α)
      (activation_f activation_g : String) (clip : κ) (linear_before_reset : Bool),
      gru_sequence ev X [batch, T, input] H H_shape seq_lengths seq_lengths_shape
          W W_shape R R_shape B B_shape Y Ho activation_f activation_g clip
          RecurrentSequenceDirection.REVERSE linear_before_reset =
        ((cell_pass ev CellType.GRU [X, seq_lengths, H, W, R, B]
            [[batch, T, input], seq_lengths_shape, H_shape, W_shape, R_shape, B_shape]
            [Y, Ho] ⟨activation_f, activation_g, "", clip, linear_before_reset⟩
            true).getD 0 [],
         (loop_state ev CellType.GRU [X, seq_lengths, H, W, R, B]
            [[batch, T, input], seq_lengths_shape, H_shape, W_shape, R_shape, B_shape]
            [Y, Ho] ⟨activation_f, activation_g, "", clip, linear_before_reset⟩
            true T).1.getD 1 [])) := by
  have hT' : (shapes.getD 0 []).getD 1 0 = T := by rw [hshape]; rfl
  have hdir : ∀ t, (if is_reverse then T - 1 - t else t) = dir_index is_reverse T t := by
    intro t; unfold dir_index; split <;> omega
  have hstep : ∀ t, t < T → step_input inputs shapes is_reverse t =
      slice_axis (inputs.getD 0 []) (shapes.getD 0 []) 1
        (if is_reverse then T - 1 - t else t) ((if is_reverse then T - 1 - t else t) + 1) := by
    intro t ht
    rw [hdir, hshape]
    exact step_input_eq_slice inputs shapes is_reverse batch T input hshape (by omega) t ht
  have hloop : ∀ t, t < T →
      (loop_state ev type inputs shapes outputs args is_reverse (t + 1)).1 =
        cell_step ev type inputs shapes args
          (slice_axis (inputs.getD 0 []) (shapes.getD 0 []) 1
            (if is_reverse then T - 1 - t else t) ((if is_reverse then T - 1 - t else t) + 1))
          (loop_state ev type inputs shapes outputs args is_reverse t).1 := by
    intro t ht
    rw [loop_state_eq _ _ _ _ _ _ _ _ (by omega), loop_state_eq _ _ _ _ _ _ _ _ (by omega),
      run_steps_succ, hstep t ht]
  refine ⟨?_, hloop, ?_, ?_, ?_, ?_, ?_⟩
  · intro t ht
    rw [in_seqs_eq, hT', getD_map_range _ _ _ _ ht, hstep t ht]
  · intro hr
    have h0 := hloop 0 (by omega)
    rw [hr] at h0 ⊢
    simp only [↓reduceIte, Nat.sub_zero, Nat.zero_add, Nat.sub_add_cancel hT] at h0
    rw [h0, loop_state_eq _ _ _ _ _ _ _ _ (by omega)]
    rfl
  · exact getD_one_init_state type inputs shapes outputs h2
  · intro h1 h2'
    rw [getD_one_init_state type inputs shapes outputs h2]
    exact memcpy_eq_self_of_length _ _ _ h1 h2'
  · intro i
    have := cell_pass_eq_loop_state ev type inputs shapes outputs args is_reverse i
    rw [hT'] at this
    exact this
  · intro X H seq_lengths W R B H_shape seq_lengths_shape W_shape R_shape B_shape Y Ho
      activation_f activation_g clip linear_before_reset
    have := cell_pass_eq_loop_state ev CellType.GRU [X, seq_lengths, H, W, R, B]
      [[batch, T, input], seq_lengths_shape, H_shape, W_shape, R_shape, B_shape]
      [Y, Ho] ⟨activation_f, activation_g, "", clip, linear_before_reset⟩ true 0
    simp only [List.getD_cons_zero, List.getD_cons_succ, Nat.zero_add] at this
    rw [← this]
    rfl

/-- C15: the final state appears in the output sequence. For `cell_pass` with `T ≥ 1`, every
cell kind, `X` of shape `[batch, T, input]` and hidden-state shape `[batch, 1, hidden]`, the
final hidden state written to `outputs[1]` equals the output-sequence slice `Y[:,T-1,:]`
when `is_reverse` is false and the slice `Y[:,0,:]` when `is_reverse` is true. -/
theorem final_state_in_output_sequence [Zero α] (ev : CellEvaluators α κ) (type : CellType)
    (inputs : List (List α)) (shapes : List Shape) (Y Ho : List α) (orest : List (List α))
    (args : CellArgs κ) (is_reverse : Bool) (batch T input hidden : Nat)
    (hshape0 : shapes.getD 0 [] = [batch, T, input])
    (hshape2 : shapes.getD 2 [] = [batch, 1, hidden]) (hT : 1 ≤ T)
    (hX : (inputs.getD 0 []).length = batch * T * input)
    (hY : Y.length = batch * T * hidden) (hHo : Ho.length = batch * hidden)
    (h3 : type = CellType.LSTM → orest ≠ []) :
    (cell_pass ev type inputs shapes (Y :: Ho :: orest) args is_reverse).getD 1 [] =
      slice_axis ((cell_pass ev type inputs shapes (Y :: Ho :: orest) args is_reverse).getD 0 [])
        [batch, T, hidden] 1 (if is_reverse then 0 else T - 1)
        ((if is_reverse then 0 else T - 1) + 1) := by
  have h3' : type = CellType.LSTM → 3 ≤ (Y :: Ho :: orest).length := by
    intro ht
    have := h3 ht
    cases orest with
    | nil => exact absurd rfl this
    | cons c cs => simp
  rw [final_hidden_eq_state_after ev type inputs shapes (Y :: Ho :: orest) args is_reverse
      batch T input hshape0 hX (by simp) h3',
    output_slice_eq_state_after ev type inputs shapes Y Ho orest args is_reverse batch T input
      hidden hshape0 hshape2 hX hY hHo h3 (if is_reverse then 0 else T - 1)
      (by split <;> omega)]
  congr 2
  cases is_reverse
  · simp only [Bool.false_eq_true, ↓reduceIte]; omega
  · simp only [↓reduceIte]; omega

theorem cell_step_append_rest (ev : CellEvaluators α κ) (type : CellType)
    (inputs : List (List α)) (shapes : List Shape) (args : CellArgs κ) (x : List α)
    (a b : List α) (rest : List (List α)) (ht : type ≠ CellType.LSTM) :
    cell_step ev type inputs shapes args x (a :: b :: rest) =
      cell_step ev type inputs shapes args x [a, b] ++ rest := by
  cases type with
  | LSTM => exact absurd rfl ht
  | RNN => simp [cell_step]
  | GRU => simp [cell_step]

theorem init_state_append_rest (type : CellType) (inputs : List (List α))
    (shapes : List Shape) (a b : List α) (rest : List (List α)) (ht : type ≠ CellType.LSTM) :
    init_state type inputs shapes (a :: b :: rest) =
      init_state type inputs shapes [a, b] ++ rest := by
  simp [init_state, ht]

theorem eq_pair_of_length_two {β : Type} (l : List β) (h : l.length = 2) :
    ∃ a b, l = [a, b] := by
  match l, h with
  | [a, b], _ => exact ⟨a, b, rfl⟩

theorem run_steps_append_rest [Zero α] (ev : CellEvaluators α κ) (type : CellType)
    (inputs : List (List α)) (shapes : List Shape) (args : CellArgs κ) (r : Bool)
    (a b : List α) (rest : List (List α)) (ht : type ≠ CellType.LSTM) (m : Nat) :
    run_steps ev type inputs shapes args r (a :: b :: rest) m =
      run_steps ev type inputs shapes args r [a, b] m ++ rest := by
  induction m with
  | zero =>
    simp only [run_steps, List.range_zero, List.foldl_nil]
    exact init_state_append_rest type inputs shapes a b rest ht
  | succ m ih =>
    rw [run_steps_succ, run_steps_succ, ih]
    obtain ⟨a', b', hab⟩ := eq_pair_of_length_two
      (run_steps ev type inputs shapes args r [a, b] m) (by rw [length_run_steps]; rfl)
    rw [hab]
    exact cell_step_append_rest ev type inputs shapes args _ a' b' rest ht

theorem cell_pass_append_rest [Zero α] (ev : CellEvaluators α κ) (type : CellType)
    (inputs : List (List α)) (shapes : List Shape) (args : CellArgs κ) (r : Bool)
    (a b : List α) (rest : List (List α)) (ht : type ≠ CellType.LSTM) :
    cell_pass ev type inputs shapes (a :: b :: rest) args r =
      cell_pass ev type inputs shapes [a, b] args r ++ rest := by
  have hcap : ∀ k, captured ev type inputs shapes args r (a :: b :: rest) k =
      captured ev type inputs shapes args r [a, b] k := by
    intro k
    obtain ⟨a', b', hab⟩ := eq_pair_of_length_two
      (run_steps ev type inputs shapes args r [a, b] (k + 1)) (by rw [length_run_steps]; rfl)
    simp only [captured, run_steps_append_rest ev type inputs shapes args r a b rest ht, hab,
      List.cons_append, List.getD_cons_succ, List.getD_cons_zero]
  rw [cell_pass_eq, cell_pass_eq]
  simp only [hcap]
  obtain ⟨a', b', hab⟩ := eq_pair_of_length_two
    (run_steps ev type inputs shapes args r [a, b] ((shapes.getD 0 []).getD 1 0))
    (by rw [length_run_steps]; rfl)
  rw [run_steps_append_rest ev type inputs shapes args r a b rest ht, hab]
  rfl

/-- C16: threading of the two LSTM states through `cell_pass`. For cell kind LSTM, `X` of
shape `[batch, T, input]` (any `T`, in particular `T ≥ 1`) and hidden-state shape
`[batch, 1, hidden]`: the state buffers `(outputs[1], outputs[2])` after `m ≤ T`
iterations of the time loop are the pair
`state_after m`; before the first evaluation they hold the copies of `H0 = inputs[2]` and
`C0 = inputs[3]` (`C0` itself when the buffer and `C0` have the size of the cell-state
shape); evaluation `m + 1` calls `lstm_cell` on the hidden and the cell state left by
evaluation `m` and stores its two results back; `outputs[1]` and `outputs[2]` after
`cell_pass` are the hidden and the cell state after the last evaluation; and every slice
`Y[:,k,:]` of the output sequence is the hidden component of a state pair. For the kinds
RNN and GRU the output list beyond `outputs[1]` is neither read nor written: the call
returns the result on `[outputs[0], outputs[1]]` followed by the untouched rest. -/
theorem lstm_two_state_threading [Zero α] (ev : CellEvaluators α κ)
    (inputs : List (List α)) (shapes : List Shape) (Y Ho Co : List α) (orest : List (List α))
    (args : CellArgs κ) (is_reverse : Bool) (batch T input hidden : Nat)
    (hshape0 : shapes.getD 0 [] = [batch, T, input])
    (hshape2 : shapes.getD 2 [] = [batch, 1, hidden])
    (hX : (inputs.getD 0 []).length = batch * T * input)
    (hY : Y.length = batch * T * hidden) (hHo : Ho.length = batch * hidden) :
    (∀ m, m ≤ T →
      ((loop_state ev CellType.LSTM inputs shapes (Y :: Ho :: Co :: orest) args is_reverse
          m).1.getD 1 [],
        (loop_state ev CellType.LSTM inputs shapes (Y :: Ho :: Co :: orest) args is_reverse
          m).1.getD 2 []) =
        state_after ev CellType.LSTM inputs shapes args is_reverse (Y :: Ho :: Co :: orest) m) ∧
    state_after ev CellType.LSTM inputs shapes args is_reverse (Y :: Ho :: Co :: orest) 0 =
      (memcpy Ho (inputs.getD 2 []) (shape_size (shapes.getD 2 [])),
       memcpy Co (inputs.getD 3 []) (shape_size (shapes.getD 3 []))) ∧
    (Co.length = shape_size (shapes.getD 3 []) →
      (inputs.getD 3 []).length = shape_size (shapes.getD 3 []) →
      (state_after ev CellType.LSTM inputs shapes args is_reverse (Y :: Ho :: Co :: orest)
        0).2 = inputs.getD 3 []) ∧
    (∀ m, m < T →
      state_after ev CellType.LSTM inputs shapes args is_reverse (Y :: Ho :: Co :: orest)
          (m + 1) =
        (store
          (state_after ev CellType.LSTM inputs shapes args is_reverse (Y :: Ho :: Co :: orest)
            m).1
          (ev.lstm_cell
            ((ordered_slices (inputs.getD 0 []) (shapes.getD 0 []) is_reverse).getD m [])
            (squeeze_axis (shapes.getD 0 []) 1)
            (state_after ev CellType.LSTM inputs shapes args is_reverse
              (Y :: Ho :: Co :: orest) m).1
            (squeeze_axis (shapes.getD 2 []) 1)
            (state_after ev CellType.LSTM inputs shapes args is_reverse
              (Y :: Ho :: Co :: orest) m).2
            (squeeze_axis (shapes.getD 3 []) 1)
            (inputs.getD 4 []) (squeeze_axis (shapes.getD 4 []) 0)
            (inputs.getD 5 []) (squeeze_axis (shapes.getD 5 []) 0)
            (inputs.getD 6 []) (squeeze_axis (shapes.getD 6 []) 0)
            args.activation_f args.activation_g args.activation_h args.clip).1,
         store
          (state_after ev CellType.LSTM inputs shapes args is_reverse (Y :: Ho :: Co :: orest)
            m).2
          (ev.lstm_cell
            ((ordered_slices (inputs.getD 0 []) (shapes.getD 0 []) is_reverse).getD m [])
            (squeeze_axis (shapes.getD 0 []) 1)
            (state_after ev CellType.LSTM inputs shapes args is_reverse
              (Y :: Ho :: Co :: orest) m).1
            (squeeze_axis (shapes.getD 2 []) 1)
            (state_after ev CellType.LSTM inputs shapes args is_reverse
              (Y :: Ho :: Co :: orest) m).2
            (squeeze_axis (shapes.getD 3 []) 1)
            (inputs.getD 4 []) (squeeze_axis (shapes.getD 4 []) 0)
            (inputs.getD 5 []) (squeeze_axis (shapes.getD 5 []) 0)
            (inputs.getD 6 []) (squeeze_axis (shapes.getD 6 []) 0)
            args.activation_f args.activation_g args.activation_h args.clip).2)) ∧
    ((cell_pass ev CellType.LSTM inputs shapes (Y :: Ho :: Co :: orest) args
          is_reverse).getD 1 [],
      (cell_pass ev CellType.LSTM inputs shapes (Y :: Ho :: Co :: orest) args
          is_reverse).getD 2 []) =
      state_after ev CellType.LSTM inputs shapes args is_reverse (Y :: Ho :: Co :: orest) T ∧
    (∀ k, k < T →
      slice_axis
          ((cell_pass ev CellType.LSTM inputs shapes (Y :: Ho :: Co :: orest) args
            is_reverse).getD 0 [])
          [batch, T, hidden] 1 k (k + 1) =
        (state_after ev CellType.LSTM inputs shapes args is_reverse (Y :: Ho :: Co :: orest)
          ((if is_reverse then T - 1 - k else k) + 1)).1) ∧
    (∀ type, type ≠ CellType.LSTM →
      cell_pass ev type inputs shapes (Y :: Ho :: Co :: orest) args is_reverse =
        cell_pass ev type inputs shapes [Y, Ho] args is_reverse ++ Co :: orest) := by
  have hT' : (shapes.getD 0 []).getD 1 0 = T := by rw [hshape0]; rfl
  have hpair : ∀ m, m ≤ T →
      ((run_steps ev CellType.LSTM inputs shapes args is_reverse (Y :: Ho :: Co :: orest)
          m).getD 1 [],
        (run_steps ev CellType.LSTM inputs shapes args is_reverse (Y :: Ho :: Co :: orest)
          m).getD 2 []) =
        state_after ev CellType.LSTM inputs shapes args is_reverse (Y :: Ho :: Co :: orest) m :=
    fun m hm => state_pair_eq_state_after ev CellType.LSTM inputs shapes args is_reverse
      (Y :: Ho :: Co :: orest) batch T input hshape0 (by omega) (by simp) (by simp) m hm
  have hzero : state_after ev CellType.LSTM inputs shapes args is_reverse
      (Y :: Ho :: Co :: orest) 0 =
      (memcpy Ho (inputs.getD 2 []) (shape_size (shapes.getD 2 [])),
       memcpy Co (inputs.getD 3 []) (shape_size (shapes.getD 3 []))) := by
    simp only [state_after, List.take_zero, List.foldl_nil, initial_state, ↓reduceIte,
      List.getD_cons_zero, List.getD_cons_succ]
  refine ⟨?_, hzero, ?_, ?_, ?_, ?_, ?_⟩
  · intro m hm
    rw [loop_state_eq _ _ _ _ _ _ _ _ (by omega)]
    exact hpair m hm
  · intro h1 h2
    rw [hzero]
    exact memcpy_eq_self_of_length _ _ _ h1 h2
  · intro m hm
    rw [state_after_succ ev CellType.LSTM inputs shapes args is_reverse _ m
      (by rw [hshape0, length_ordered_slices]; exact hm)]
    rfl
  · rw [getD_succ_cell_pass, getD_succ_cell_pass, hT']
    exact hpair T (le_refl _)
  · intro k hk
    exact output_slice_eq_state_after ev CellType.LSTM inputs shapes Y Ho (Co :: orest) args
      is_reverse batch T input hidden hshape0 hshape2 hX hY hHo (by simp) k hk
  · intro type ht
    exact cell_pass_append_rest ev type inputs shapes args is_reverse Y Ho (Co :: orest) ht

theorem loop_state_succ [Zero α] (ev : CellEvaluators α κ) (type : CellType)
    (inputs : List (List α)) (shapes : List Shape) (outputs : List (List α))
    (args : CellArgs κ) (r : Bool) (m : Nat) :
    (loop_state ev type inputs shapes outputs args r (m + 1)).1 =
      cell_step ev type inputs shapes args ((in_seqs inputs shapes r).getD m [])
        (loop_state ev type inputs shapes outputs args r m).1 := by
  unfold loop_state time_loop
  rw [List.range_succ, List.foldl_append]
  rfl

theorem loop_state_zero [Zero α] (ev : CellEvaluators α κ) (type : CellType)
    (inputs : List (List α)) (shapes : List Shape) (outputs : List (List α))
    (args : CellArgs κ) (r : Bool) :
    (loop_state ev type inputs shapes outputs args r 0).1 =
      init_state type inputs shapes outputs := by
  rfl

theorem cell_pass_eq_loop [Zero α] (ev : CellEvaluators α κ) (type : CellType)
    (inputs : List (List α)) (shapes : List Shape) (outputs : List (List α))
    (args : CellArgs κ) (r : Bool) :
    cell_pass ev type inputs shapes outputs args r =
      (loop_state ev type inputs shapes outputs args r ((shapes.getD 0 []).getD 1 0)).1.set 0
        (store
          ((loop_state ev type inputs shapes outputs args r
            ((shapes.getD 0 []).getD 1 0)).1.getD 0 [])
          (concat
            (((List.range ((shapes.getD 0 []).getD 1 0)).map fun k =>
                some (dir_index r ((shapes.getD 0 []).getD 1 0) k)).map
              (deref (loop_state ev type inputs shapes outputs args r
                ((shapes.getD 0 []).getD 1 0)).2))
            (List.replicate ((shapes.getD 0 []).getD 1 0)
              [(shapes.getD 0 []).getD 0 0, 1, (shapes.getD 2 []).getD 2 0])
            [(shapes.getD 0 []).getD 0 0, (shapes.getD 0 []).getD 1 0,
              (shapes.getD 2 []).getD 2 0] 1)) := by
  rw [← pointer_table]
  rfl

theorem in_seqs_only_X [Zero α] (inputs : List (List α)) (shapes : List Shape) (r : Bool) :
    in_seqs inputs shapes r = in_seqs [inputs.getD 0 []] [shapes.getD 0 []] r := by
  rfl

theorem getD_two_set_one {β : Type} (o : List β) (v d : β) :
    (o.set 1 v).getD 2 d = o.getD 2 d := by
  simp [List.getD_eq_getElem?_getD, List.getElem?_set_ne]

/-- C17: argument-role wiring. Every cell evaluation of `cell_pass` is one `cell_step` of the
time loop on the unchanged input and shape lists, and the step input depends on `inputs[0]`
only. On the list `[X, seq_lengths, H, C, W, R, B]` built by `lstm_sequence` the state
buffers start as copies of `H` and `C`, and a step calls `lstm_cell` with the running hidden
state, the running cell state, `W` as weights, `R` as recurrence weights and `B` as bias; on
the list `[X, seq_lengths, H, W, R, B]` built by `gru_sequence` and `rnn_sequence` the state
buffer starts as a copy of `H`, and a step calls `gru_cell` or `rnn_cell` with the running
hidden state, `W`, `R` and `B` in these roles. The entry `seq_lengths` at position 1 and its
shape reach no evaluator argument. For every direction the adapters run `cell_pass` on
these lists: on the caller's buffers for FORWARD and REVERSE, and for BIDIRECTIONAL on the
lists of the same order holding the halves `*_split[i]` of `H`, `C`, `W`, `R`, `B`. -/
theorem argument_role_wiring [Zero α] (ev : CellEvaluators α κ)
    (X seq_lengths H C W R B : List α)
    (X_shape seq_lengths_shape H_shape C_shape W_shape R_shape B_shape : Shape)
    (Y Ho Co : List α) (args : CellArgs κ)
    (activation_f activation_g activation_h : String) (clip : κ)
    (linear_before_reset : Bool) (direction : RecurrentSequenceDirection) :
    (∀ (type : CellType) (inputs : List (List α)) (shapes : List Shape)
        (outputs : List (List α)) (is_reverse : Bool),
      cell_pass ev type inputs shapes outputs args is_reverse =
        (loop_state ev type inputs shapes outputs args is_reverse
            ((shapes.getD 0 []).getD 1 0)).1.set 0
          (store
            ((loop_state ev type inputs shapes outputs args is_reverse
              ((shapes.getD 0 []).getD 1 0)).1.getD 0 [])
            (concat
              (((List.range ((shapes.getD 0 []).getD 1 0)).map fun k =>
                  some (dir_index is_reverse ((shapes.getD 0 []).getD 1 0) k)).map
                (deref (loop_state ev type inputs shapes outputs args is_reverse
                  ((shapes.getD 0 []).getD 1 0)).2))
              (List.replicate ((shapes.getD 0 []).getD 1 0)
                [(shapes.getD 0 []).getD 0 0, 1, (shapes.getD 2 []).getD 2 0])
              [(shapes.getD 0 []).getD 0 0, (shapes.getD 0 []).getD 1 0,
                (shapes.getD 2 []).getD 2 0] 1)) ∧
      (loop_state ev type inputs shapes outputs args is_reverse 0).1 =
        init_state type inputs shapes outputs ∧
      (∀ m, (loop_state ev type inputs shapes outputs args is_reverse (m + 1)).1 =
        cell_step ev type inputs shapes args ((in_seqs inputs shapes is_reverse).getD m [])
          (loop_state ev type inputs shapes outputs args is_reverse m).1) ∧
      in_seqs inputs shapes is_reverse =
        in_seqs [inputs.getD 0 []] [shapes.getD 0 []] is_reverse) ∧
    (init_state CellType.LSTM [X, seq_lengths, H, C, W, R, B]
        [X_shape, seq_lengths_shape, H_shape, C_shape, W_shape, R_shape, B_shape]
        [Y, Ho, Co] =
      [Y, memcpy Ho H (shape_size H_shape), memcpy Co C (shape_size C_shape)]) ∧
    (∀ (x : List α) (o : List (List α)),
      cell_step ev CellType.LSTM [X, seq_lengths, H, C, W, R, B]
          [X_shape, seq_lengths_shape, H_shape, C_shape, W_shape, R_shape, B_shape] args x o =
        (o.set 1 (store (o.getD 1 [])
          (ev.lstm_cell x (squeeze_axis X_shape 1) (o.getD 1 []) (squeeze_axis H_shape 1)
            (o.getD 2 []) (squeeze_axis C_shape 1) W (squeeze_axis W_shape 0)
            R (squeeze_axis R_shape 0) B (squeeze_axis B_shape 0)
            args.activation_f args.activation_g args.activation_h args.clip).1)).set 2
          (store (o.getD 2 [])
            (ev.lstm_cell x (squeeze_axis X_shape 1) (o.getD 1 []) (squeeze_axis H_shape 1)
              (o.getD 2 []) (squeeze_axis C_shape 1) W (squeeze_axis W_shape 0)
              R (squeeze_axis R_shape 0) B (squeeze_axis B_shape 0)
              args.activation_f args.activation_g args.activation_h args.clip).2)) ∧
    (∀ type, type ≠ CellType.LSTM →
      init_state type [X, seq_lengths, H, W, R, B]
          [X_shape, seq_lengths_shape, H_shape, W_shape, R_shape, B_shape] [Y, Ho] =
        [Y, memcpy Ho H (shape_size H_shape)]) ∧
    (∀ (x : List α) (o : List (List α)),
      cell_step ev CellType.GRU [X, seq_lengths, H, W, R, B]
          [X_shape, seq_lengths_shape, H_shape, W_shape, R_shape, B_shape] args x o =
        o.set 1 (store (o.getD 1 [])
          (ev.gru_cell x (squeeze_axis X_shape 1) (o.getD 1 []) (squeeze_axis H_shape 1)
            W (squeeze_axis W_shape 0) R (squeeze_axis R_shape 0) B (squeeze_axis B_shape 0)
            args.activation_f args.activation_g args.clip args.linear_before_reset))) ∧
    (∀ (x : List α) (o : List (List α)),
      cell_step ev CellType.RNN [X, seq_lengths, H, W, R, B]
          [X_shape, seq_lengths_shape, H_shape, W_shape, R_shape, B_shape] args x o =
        o.set 1 (store (o.getD 1 [])
          (ev.rnn_cell x (squeeze_axis X_shape 1) (o.getD 1 []) (squeeze_axis H_shape 1)
            W (squeeze_axis W_shape 0) R (squeeze_axis R_shape 0) B (squeeze_axis B_shape 0)
            args.activation_f args.clip))) ∧
    (lstm_sequence ev X X_shape H H_shape C C_shape seq_lengths seq_lengths_shape
        W W_shape R R_shape B B_shape Y Ho Co activation_f activation_g activation_h clip
        direction =
      if direction = RecurrentSequenceDirection.FORWARD ∨
          direction = RecurrentSequenceDirection.REVERSE then
        ((cell_pass ev CellType.LSTM [X, seq_lengths, H, C, W, R, B]
            [X_shape, seq_lengths_shape, H_shape, C_shape, W_shape, R_shape, B_shape]
            [Y, Ho, Co] ⟨activation_f, activation_g, activation_h, clip, false⟩
            (decide (direction = RecurrentSequenceDirection.REVERSE))).getD 0 [],
         (cell_pass ev CellType.LSTM [X, seq_lengths, H, C, W, R, B]
            [X_shape, seq_lengths_shape, H_shape, C_shape, W_shape, R_shape, B_shape]
            [Y, Ho, Co] ⟨activation_f, activation_g, activation_h, clip, false⟩
            (decide (direction = RecurrentSequenceDirection.REVERSE))).getD 1 [],
         (cell_pass ev CellType.LSTM [X, seq_lengths, H, C, W, R, B]
            [X_shape, seq_lengths_shape, H_shape, C_shape, W_shape, R_shape, B_shape]
            [Y, Ho, Co] ⟨activation_f, activation_g, activation_h, clip, false⟩
            (decide (direction = RecurrentSequenceDirection.REVERSE))).getD 2 [])
      else if direction = RecurrentSequenceDirection.BIDIRECTIONAL then
        (store Y (concat
          [(cell_pass ev CellType.LSTM
              [X, seq_lengths, split_half H H_shape 1 0, split_half C C_shape 1 0,
                split_half W W_shape 0 0, split_half R R_shape 0 0, split_half B B_shape 0 0]
              [X_shape, seq_lengths_shape, H_shape.set 1 1, C_shape.set 1 1, W_shape.set 0 1,
                R_shape.set 0 1, B_shape.set 0 1]
              [List.replicate (H_shape.getD 0 0 * H_shape.getD 2 0 * X_shape.getD 1 0) 0,
                List.replicate (H_shape.getD 0 0 * H_shape.getD 2 0) 0,
                List.replicate (H_shape.getD 0 0 * H_shape.getD 2 0) 0]
              ⟨activation_f, activation_g, activation_h, clip, false⟩ false).getD 0 [],
           (cell_pass ev CellType.LSTM
              [X, seq_lengths, split_half H H_shape 1 1, split_half C C_shape 1 1,
                split_half W W_shape 0 1, split_half R R_shape 0 1, split_half B B_shape 0 1]
              [X_shape, seq_lengths_shape, H_shape.set 1 1, C_shape.set 1 1, W_shape.set 0 1,
                R_shape.set 0 1, B_shape.set 0 1]
              [List.replicate (H_shape.getD 0 0 * H_shape.getD 2 0 * X_shape.getD 1 0) 0,
                List.replicate (H_shape.getD 0 0 * H_shape.getD 2 0) 0,
                List.replicate (H_shape.getD 0 0 * H_shape.getD 2 0) 0]
              ⟨activation_f, activation_g, activation_h, clip, false⟩ true).getD 0 []]
          (List.replicate 2 [H_shape.getD 0 0, 1, X_shape.getD 1 0, H_shape.getD 2 0])
          [H_shape.getD 0 0, 2, X_shape.getD 1 0, H_shape.getD 2 0] 1),
         store Ho (concat
          [(cell_pass ev CellType.LSTM
              [X, seq_lengths, split_half H H_shape 1 0, split_half C C_shape 1 0,
                split_half W W_shape 0 0, split_half R R_shape 0 0, split_half B B_shape 0 0]
              [X_shape, seq_lengths_shape, H_shape.set 1 1, C_shape.set 1 1, W_shape.set 0 1,
                R_shape.set 0 1, B_shape.set 0 1]
              [List.replicate (H_shape.getD 0 0 * H_shape.getD 2 0 * X_shape.getD 1 0) 0,
                List.replicate (H_shape.getD 0 0 * H_shape.getD 2 0) 0,
                List.replicate (H_shape.getD 0 0 * H_shape.getD 2 0) 0]
              ⟨activation_f, activation_g, activation_h, clip, false⟩ false).getD 1 [],
           (cell_pass ev CellType.LSTM
              [X, seq_lengths, split_half H H_shape 1 1, split_half C C_shape 1 1,
                split_half W W_shape 0 1, split_half R R_shape 0 1, split_half B B_shape 0 1]
              [X_shape, seq_lengths_shape, H_shape.set 1 1, C_shape.set 1 1, W_shape.set 0 1,
                R_shape.set 0 1, B_shape.set 0 1]
              [List.replicate (H_shape.getD 0 0 * H_shape.getD 2 0 * X_shape.getD 1 0) 0,
                List.replicate (H_shape.getD 0 0 * H_shape.getD 2 0) 0,
                List.replicate (H_shape.getD 0 0 * H_shape.getD 2 0) 0]
              ⟨activation_f, activation_g, activation_h, clip, false⟩ true).getD 1 []]
          (List.replicate 2 [H_shape.getD 0 0, 1, H_shape.getD 2 0])
          [H_shape.getD 0 0, 2, H_shape.getD 2 0] 1),
         store Co (concat
          [(cell_pass ev CellType.LSTM
              [X, seq_lengths, split_half H H_shape 1 0, split_half C C_shape 1 0,
                split_half W W_shape 0 0, split_half R R_shape 0 0, split_half B B_shape 0 0]
              [X_shape, seq_lengths_shape, H_shape.set 1 1, C_shape.set 1 1, W_shape.set 0 1,
                R_shape.set 0 1, B_shape.set 0 1]
              [List.replicate (H_shape.getD 0 0 * H_shape.getD 2 0 * X_shape.getD 1 0) 0,
                List.replicate (H_shape.getD 0 0 * H_shape.getD 2 0) 0,
                List.replicate (H_shape.getD 0 0 * H_shape.getD 2 0) 0]
              ⟨activation_f, activation_g, activation_h, clip, false⟩ false).getD 2 [],
           (cell_pass ev CellType.LSTM
              [X, seq_lengths, split_half H H_shape 1 1, split_half C C_shape 1 1,
                split_half W W_shape 0 1, split_half R R_shape 0 1, split_half B B_shape 0 1]
              [X_shape, seq_lengths_shape, H_shape.set 1 1, C_shape.set 1 1, W_shape.set 0 1,
                R_shape.set 0 1, B_shape.set 0 1]
              [List.replicate (H_shape.getD 0 0 * H_shape.getD 2 0 * X_shape.getD 1 0) 0,
                List.replicate (H_shape.getD 0 0 * H_shape.getD 2 0) 0,
                List.replicate (H_shape.getD 0 0 * H_shape.getD 2 0) 0]
              ⟨activation_f, activation_g, activation_h, clip, false⟩ true).getD 2 []]
          (List.replicate 2 [H_shape.getD 0 0, 1, H_shape.getD 2 0])
          [H_shape.getD 0 0, 2, H_shape.getD 2 0] 1))
      else (Y, Ho, Co)) ∧
    (gru_sequence ev X X_shape H H_shape seq_lengths seq_lengths_shape
        W W_shape R R_shape B B_shape Y Ho activation_f activation_g clip direction
        linear_before_reset =
      if direction = RecurrentSequenceDirection.FORWARD ∨
          direction = RecurrentSequenceDirection.REVERSE then
        ((cell_pass ev CellType.GRU [X, seq_lengths, H, W, R, B]
            [X_shape, seq_lengths_shape, H_shape, W_shape, R_shape, B_shape]
            [Y, Ho] ⟨activation_f, activation_g, "", clip, linear_before_reset⟩
            (decide (direction = RecurrentSequenceDirection.REVERSE))).getD 0 [],
         (cell_pass ev CellType.GRU [X, seq_lengths, H, W, R, B]
            [X_shape, seq_lengths_shape, H_shape, W_shape, R_shape, B_shape]
            [Y, Ho] ⟨activation_f, activation_g, "", clip, linear_before_reset⟩
            (decide (direction = RecurrentSequenceDirection.REVERSE))).getD 1 [])
      else if direction = RecurrentSequenceDirection.BIDIRECTIONAL then
        (store Y (concat
          [(cell_pass ev CellType.GRU
              [X, seq_lengths, split_half H H_shape 1 0, split_half W W_shape 0 0,
                split_half R R_shape 0 0, split_half B B_shape 0 0]
              [X_shape, seq_lengths_shape, H_shape.set 1 1, W_shape.set 0 1, R_shape.set 0 1,
                B_shape.set 0 1]
              [List.replicate (H_shape.getD 0 0 * H_shape.getD 2 0 * X_shape.getD 1 0) 0,
                List.replicate (H_shape.getD 0 0 * H_shape.getD 2 0) 0]
              ⟨activation_f, activation_g, "", clip, linear_before_reset⟩ false).getD 0 [],
           (cell_pass ev CellType.GRU
              [X, seq_lengths, split_half H H_shape 1 1, split_half W W_shape 0 1,
                split_half R R_shape 0 1, split_half B B_shape 0 1]
              [X_shape, seq_lengths_shape, H_shape.set 1 1, W_shape.set 0 1, R_shape.set 0 1,
                B_shape.set 0 1]
              [List.replicate (H_shape.getD 0 0 * H_shape.getD 2 0 * X_shape.getD 1 0) 0,
                List.replicate (H_shape.getD 0 0 * H_shape.getD 2 0) 0]
              ⟨activation_f, activation_g, "", clip, linear_before_reset⟩ true).getD 0 []]
          (List.replicate 2 [H_shape.getD 0 0, 1, X_shape.getD 1 0, H_shape.getD 2 0])
          [H_shape.getD 0 0, 2, X_shape.getD 1 0, H_shape.getD 2 0] 1),
         store Ho (concat
          [(cell_pass ev CellType.GRU
              [X, seq_lengths, split_half H H_shape 1 0, split_half W W_shape 0 0,
                split_half R R_shape 0 0, split_half B B_shape 0 0]
              [X_shape, seq_lengths_shape, H_shape.set 1 1, W_shape.set 0 1, R_shape.set 0 1,
                B_shape.set 0 1]
              [List.replicate (H_shape.getD 0 0 * H_shape.getD 2 0 * X_shape.getD 1 0) 0,
                List.replicate (H_shape.getD 0 0 * H_shape.getD 2 0) 0]
              ⟨activation_f, activation_g, "", clip, linear_before_reset⟩ false).getD 1 [],
           (cell_pass ev CellType.GRU
              [X, seq_lengths, split_half H H_shape 1 1, split_half W W_shape 0 1,
                split_half R R_shape 0 1, split_half B B_shape 0 1]
              [X_shape, seq_lengths_shape, H_shape.set 1 1, W_shape.set 0 1, R_shape.set 0 1,
                B_shape.set 0 1]
              [List.replicate (H_shape.getD 0 0 * H_shape.getD 2 0 * X_shape.getD 1 0) 0,
                List.replicate (H_shape.getD 0 0 * H_shape.getD 2 0) 0]
              ⟨activation_f, activation_g, "", clip, linear_before_reset⟩ true).getD 1 []]
          (List.replicate 2 [H_shape.getD 0 0, 1, H_shape.getD 2 0])
          [H_shape.getD 0 0, 2, H_shape.getD 2 0] 1))
      else (Y, Ho)) ∧
    (rnn_sequence ev X X_shape H H_shape seq_lengths seq_lengths_shape
        W W_shape R R_shape B B_shape Y Ho activation_f clip direction =
      if direction = RecurrentSequenceDirection.FORWARD ∨
          direction = RecurrentSequenceDirection.REVERSE then
        ((cell_pass ev CellType.RNN [X, seq_lengths, H, W, R, B]
            [X_shape, seq_lengths_shape, H_shape, W_shape, R_shape, B_shape]
            [Y, Ho] ⟨activation_f, "", "", clip, false⟩
            (decide (direction = RecurrentSequenceDirection.REVERSE))).getD 0 [],
         (cell_pass ev CellType.RNN [X, seq_lengths, H, W, R, B]
            [X_shape, seq_lengths_shape, H_shape, W_shape, R_shape, B_shape]
            [Y, Ho] ⟨activation_f, "", "", clip, false⟩
            (decide (direction = RecurrentSequenceDirection.REVERSE))).getD 1 [])
      else if direction = RecurrentSequenceDirection.BIDIRECTIONAL then
        (store Y (concat
          [(cell_pass ev CellType.RNN
              [X, seq_lengths, split_half H H_shape 1 0, split_half W W_shape 0 0,
                split_half R R_shape 0 0, split_half B B_shape 0 0]
              [X_shape, seq_lengths_shape, H_shape.set 1 1, W_shape.set 0 1, R_shape.set 0 1,
                B_shape.set 0 1]
              [List.replicate (H_shape.getD 0 0 * H_shape.getD 2 0 * X_shape.getD 1 0) 0,
                List.replicate (H_shape.getD 0 0 * H_shape.getD 2 0) 0]
              ⟨activation_f, "", "", clip, false⟩ false).getD 0 [],
           (cell_pass ev CellType.RNN
              [X, seq_lengths, split_half H H_shape 1 1, split_half W W_shape 0 1,
                split_half R R_shape 0 1, split_half B B_shape 0 1]
              [X_shape, seq_lengths_shape, H_shape.set 1 1, W_shape.set 0 1, R_shape.set 0 1,
                B_shape.set 0 1]
              [List.replicate (H_shape.getD 0 0 * H_shape.getD 2 0 * X_shape.getD 1 0) 0,
                List.replicate (H_shape.getD 0 0 * H_shape.getD 2 0) 0]
              ⟨activation_f, "", "", clip, false⟩ true).getD 0 []]
          (List.replicate 2 [H_shape.getD 0 0, 1, X_shape.getD 1 0, H_shape.getD 2 0])
          [H_shape.getD 0 0, 2, X_shape.getD 1 0, H_shape.getD 2 0] 1),
         store Ho (concat
          [(cell_pass ev CellType.RNN
              [X, seq_lengths, split_half H H_shape 1 0, split_half W W_shape 0 0,
                split_half R R_shape 0 0, split_half B B_shape 0 0]
              [X_shape, seq_lengths_shape, H_shape.set 1 1, W_shape.set 0 1, R_shape.set 0 1,
                B_shape.set 0 1]
              [List.replicate (H_shape.getD 0 0 * H_shape.getD 2 0 * X_shape.getD 1 0) 0,
                List.replicate (H_shape.getD 0 0 * H_shape.getD 2 0) 0]
              ⟨activation_f, "", "", clip, false⟩ false).getD 1 [],
           (cell_pass ev CellType.RNN
              [X, seq_lengths, split_half H H_shape 1 1, split_half W W_shape 0 1,
                split_half R R_shape 0 1, split_half B B_shape 0 1]
              [X_shape, seq_lengths_shape, H_shape.set 1 1, W_shape.set 0 1, R_shape.set 0 1,
                B_shape.set 0 1]
              [List.replicate (H_shape.getD 0 0 * H_shape.getD 2 0 * X_shape.getD 1 0) 0,
                List.replicate (H_shape.getD 0 0 * H_shape.getD 2 0) 0]
              ⟨activation_f, "", "", clip, false⟩ true).getD 1 []]
          (List.replicate 2 [H_shape.getD 0 0, 1, H_shape.getD 2 0])
          [H_shape.getD 0 0, 2, H_shape.getD 2 0] 1))
      else (Y, Ho)) := by
  refine ⟨?_, ?_, ?_, ?_, ?_, ?_, ?_, ?_, ?_⟩
  · intro type inputs shapes outputs is_reverse
    exact ⟨cell_pass_eq_loop ev type inputs shapes outputs args is_reverse,
      loop_state_zero ev type inputs shapes outputs args is_reverse,
      loop_state_succ ev type inputs shapes outputs args is_reverse,
      in_seqs_only_X inputs shapes is_reverse⟩
  · rfl
  · intro x o
    simp only [cell_step, List.getD_cons_zero, List.getD_cons_succ, getD_two_set_one]
  · intro type ht
    simp [init_state, ht]
  · intro x o
    rfl
  · intro x o
    rfl
  · rfl
  · rfl
  · rfl

theorem cell_pass_congr_cells [Zero α] (ev ev' : CellEvaluators α κ) (type : CellType)
    (inputs : List (List α)) (shapes : List Shape) (outputs : List (List α))
    (args : CellArgs κ) (r : Bool)
    (hstep : cell_step ev type inputs shapes args = cell_step ev' type inputs shapes args) :
    cell_pass ev type inputs shapes outputs args r =
      cell_pass ev' type inputs shapes outputs args r := by
  simp only [cell_pass, time_loop, hstep]

/-- C18: the cell parameters are forwarded unchanged. If two families of cell evaluators
agree on every call whose parameters are the caller's (`activation_f`, `activation_g`,
`activation_h`, `clip` for `lstm_cell`; `activation_f`, `activation_g`, `clip`,
`linear_before_reset` for `gru_cell`; `activation_f`, `clip` for `rnn_cell`), whatever they
do on calls with other parameters, then `lstm_sequence`, `gru_sequence` and `rnn_sequence`
give the same outputs with either family, for every direction (single-direction path and
both branches of the bidirectional path): every cell evaluation made by an adapter carries
exactly the caller's parameters. -/
theorem cell_parameters_forwarded [Zero α] (ev ev' : CellEvaluators α κ)
    (X : List α) (X_shape : Shape) (H : List α) (H_shape : Shape)
    (C : List α) (C_shape : Shape) (seq_lengths : List α) (seq_lengths_shape : Shape)
    (W : List α) (W_shape : Shape) (R : List α) (R_shape : Shape)
    (B : List α) (B_shape : Shape) (Y Ho Co : List α)
    (activation_f activation_g activation_h : String) (clip : κ)
    (linear_before_reset : Bool) (direction : RecurrentSequenceDirection)
    (hlstm : ∀ (x : List α) (xs : Shape) (h : List α) (hs : Shape) (c : List α) (cs : Shape)
        (w : List α) (ws : Shape) (r : List α) (rs : Shape) (b : List α) (bs : Shape),
      ev.lstm_cell x xs h hs c cs w ws r rs b bs activation_f activation_g activation_h clip =
        ev'.lstm_cell x xs h hs c cs w ws r rs b bs activation_f activation_g activation_h
          clip)
    (hgru : ∀ (x : List α) (xs : Shape) (h : List α) (hs : Shape)
        (w : List α) (ws : Shape) (r : List α) (rs : Shape) (b : List α) (bs : Shape),
      ev.gru_cell x xs h hs w ws r rs b bs activation_f activation_g clip
          linear_before_reset =
        ev'.gru_cell x xs h hs w ws r rs b bs activation_f activation_g clip
          linear_before_reset)
    (hrnn : ∀ (x : List α) (xs : Shape) (h : List α) (hs : Shape)
        (w : List α) (ws : Shape) (r : List α) (rs : Shape) (b : List α) (bs : Shape),
      ev.rnn_cell x xs h hs w ws r rs b bs activation_f clip =
        ev'.rnn_cell x xs h hs w ws r rs b bs activation_f clip) :
    lstm_sequence ev X X_shape H H_shape C C_shape seq_lengths seq_lengths_shape
        W W_shape R R_shape B B_shape Y Ho Co activation_f activation_g activation_h clip
        direction =
      lstm_sequence ev' X X_shape H H_shape C C_shape seq_lengths seq_lengths_shape
        W W_shape R R_shape B B_shape Y Ho Co activation_f activation_g activation_h clip
        direction ∧
    gru_sequence ev X X_shape H H_shape seq_lengths seq_lengths_shape
        W W_shape R R_shape B B_shape Y Ho activation_f activation_g clip direction
        linear_before_reset =
      gru_sequence ev' X X_shape H H_shape seq_lengths seq_lengths_shape
        W W_shape R R_shape B B_shape Y Ho activation_f activation_g clip direction
        linear_before_reset ∧
    rnn_sequence ev X X_shape H H_shape seq_lengths seq_lengths_shape
        W W_shape R R_shape B B_shape Y Ho activation_f clip direction =
      rnn_sequence ev' X X_shape H H_shape seq_lengths seq_lengths_shape
        W W_shape R R_shape B B_shape Y Ho activation_f clip direction := by
  have hl : ∀ (inputs : List (List α)) (shapes : List Shape) (outputs : List (List α))
      (r : Bool),
      cell_pass ev CellType.LSTM inputs shapes outputs
          ⟨activation_f, activation_g, activation_h, clip, false⟩ r =
        cell_pass ev' CellType.LSTM inputs shapes outputs
          ⟨activation_f, activation_g, activation_h, clip, false⟩ r := by
    intro inputs shapes outputs r
    apply cell_pass_congr_cells
    funext x o
    simp only [cell_step, hlstm]
  have hg : ∀ (inputs : List (List α)) (shapes : List Shape) (outputs : List (List α))
      (r : Bool),
      cell_pass ev CellType.GRU inputs shapes outputs
          ⟨activation_f, activation_g, "", clip, linear_before_reset⟩ r =
        cell_pass ev' CellType.GRU inputs shapes outputs
          ⟨activation_f, activation_g, "", clip, linear_before_reset⟩ r := by
    intro inputs shapes outputs r
    apply cell_pass_congr_cells
    funext x o
    simp only [cell_step, hgru]
  have hr : ∀ (inputs : List (List α)) (shapes : List Shape) (outputs : List (List α))
      (r : Bool),
      cell_pass ev CellType.RNN inputs shapes outputs
          ⟨activation_f, "", "", clip, false⟩ r =
        cell_pass ev' CellType.RNN inputs shapes outputs
          ⟨activation_f, "", "", clip, false⟩ r := by
    intro inputs shapes outputs r
    apply cell_pass_congr_cells
    funext x o
    simp only [cell_step, hrnn]
  refine ⟨?_, ?_, ?_⟩
  · simp only [lstm_sequence, hl]
  · simp only [gru_sequence, hg]
  · simp only [rnn_sequence, hr]

theorem getD_getD_set (s : Shape) (k v j : Nat) :
    (s.set k v).getD j 0 = if j = k ∧ j < s.length then v else s.getD j 0 := by
  simp only [List.getD_eq_getElem?_getD]
  by_cases hjk : j = k
  · subst hjk
    by_cases hlt : j < s.length
    · simp [hlt]
    · simp [hlt, List.getElem?_eq_none (show (s.set j v).length ≤ j by simp; omega),
        List.getElem?_eq_none (show s.length ≤ j by omega)]
  · simp [hjk, List.getElem?_set_ne (Ne.symm hjk)]

theorem lstm_bidirectional_shapes_eq (X_shape seq_lengths_shape H_shape C_shape W_shape
    R_shape B_shape : Shape) :
    lstm_bidirectional_shapes X_shape seq_lengths_shape H_shape C_shape W_shape R_shape
        B_shape =
      [X_shape, seq_lengths_shape, H_shape.set 1 1, C_shape.set 1 1, W_shape.set 0 1,
        R_shape.set 0 1, B_shape.set 0 1] := by
  rfl

theorem single_state_bidirectional_shapes_eq (X_shape seq_lengths_shape H_shape W_shape
    R_shape B_shape : Shape) :
    single_state_bidirectional_shapes X_shape seq_lengths_shape H_shape W_shape R_shape
        B_shape =
      [X_shape, seq_lengths_shape, H_shape.set 1 1, W_shape.set 0 1, R_shape.set 0 1,
        B_shape.set 0 1] := by
  rfl

/-- C19: bidirectional shape adjustment. In the BIDIRECTIONAL branch of `lstm_sequence`,
`gru_sequence` and `rnn_sequence` both `cell_pass` calls (forward and reverse) receive the
same shape list. That list is the caller's list with dimension 1 of the hidden-state shape
(and of the cell-state shape, for LSTM) set to 1 and dimension 0 of each of the `W`, `R` and
`B` shapes set to 1: entry `k` has the rank of the caller's entry `k`, and its dimension `j`
is 1 at these positions (where the dimension exists) and the caller's dimension everywhere
else, in particular throughout the shapes of `X` and `seq_lengths`. -/
theorem bidirectional_shape_adjustment [Zero α] (ev : CellEvaluators α κ)
    (X : List α) (X_shape : Shape) (H : List α) (H_shape : Shape)
    (C : List α) (C_shape : Shape) (seq_lengths : List α) (seq_lengths_shape : Shape)
    (W : List α) (W_shape : Shape) (R : List α) (R_shape : Shape)
    (B : List α) (B_shape : Shape) (Y Ho Co : List α)
    (activation_f activation_g activation_h : String) (clip : κ)
    (linear_before_reset : Bool) :
    (lstm_sequence ev X X_shape H H_shape C C_shape seq_lengths seq_lengths_shape
        W W_shape R R_shape B B_shape Y Ho Co activation_f activation_g activation_h clip
        RecurrentSequenceDirection.BIDIRECTIONAL =
      (fun (fwd rev : List (List α)) =>
        (store Y (concat [fwd.getD 0 [], rev.getD 0 []]
          (List.replicate 2 [H_shape.getD 0 0, 1, X_shape.getD 1 0, H_shape.getD 2 0])
          [H_shape.getD 0 0, 2, X_shape.getD 1 0, H_shape.getD 2 0] 1),
         store Ho (concat [fwd.getD 1 [], rev.getD 1 []]
          (List.replicate 2 [H_shape.getD 0 0, 1, H_shape.getD 2 0])
          [H_shape.getD 0 0, 2, H_shape.getD 2 0] 1),
         store Co (concat [fwd.getD 2 [], rev.getD 2 []]
          (List.replicate 2 [H_shape.getD 0 0, 1, H_shape.getD 2 0])
          [H_shape.getD 0 0, 2, H_shape.getD 2 0] 1)))
        (cell_pass ev CellType.LSTM
          [X, seq_lengths, split_half H H_shape 1 0, split_half C C_shape 1 0,
            split_half W W_shape 0 0, split_half R R_shape 0 0, split_half B B_shape 0 0]
          (lstm_bidirectional_shapes X_shape seq_lengths_shape H_shape C_shape W_shape R_shape
            B_shape)
          [List.replicate (H_shape.getD 0 0 * H_shape.getD 2 0 * X_shape.getD 1 0) 0,
            List.replicate (H_shape.getD 0 0 * H_shape.getD 2 0) 0,
            List.replicate (H_shape.getD 0 0 * H_shape.getD 2 0) 0]
          ⟨activation_f, activation_g, activation_h, clip, false⟩ false)
        (cell_pass ev CellType.LSTM
          [X, seq_lengths, split_half H H_shape 1 1, split_half C C_shape 1 1,
            split_half W W_shape 0 1, split_half R R_shape 0 1, split_half B B_shape 0 1]
          (lstm_bidirectional_shapes X_shape seq_lengths_shape H_shape C_shape W_shape R_shape
            B_shape)
          [List.replicate (H_shape.getD 0 0 * H_shape.getD 2 0 * X_shape.getD 1 0) 0,
            List.replicate (H_shape.getD 0 0 * H_shape.getD 2 0) 0,
            List.replicate (H_shape.getD 0 0 * H_shape.getD 2 0) 0]
          ⟨activation_f, activation_g, activation_h, clip, false⟩ true)) ∧
    (gru_sequence ev X X_shape H H_shape seq_lengths seq_lengths_shape
        W W_shape R R_shape B B_shape Y Ho activation_f activation_g clip
        RecurrentSequenceDirection.BIDIRECTIONAL linear_before_reset =
      (fun (fwd rev : List (List α)) =>
        (store Y (concat [fwd.getD 0 [], rev.getD 0 []]
          (List.replicate 2 [H_shape.getD 0 0, 1, X_shape.getD 1 0, H_shape.getD 2 0])
          [H_shape.getD 0 0, 2, X_shape.getD 1 0, H_shape.getD 2 0] 1),
         store Ho (concat [fwd.getD 1 [], rev.getD 1 []]
          (List.replicate 2 [H_shape.getD 0 0, 1, H_shape.getD 2 0])
          [H_shape.getD 0 0, 2, H_shape.getD 2 0] 1)))
        (cell_pass ev CellType.GRU
          [X, seq_lengths, split_half H H_shape 1 0, split_half W W_shape 0 0,
            split_half R R_shape 0 0, split_half B B_shape 0 0]
          (single_state_bidirectional_shapes X_shape seq_lengths_shape H_shape W_shape R_shape
            B_shape)
          [List.replicate (H_shape.getD 0 0 * H_shape.getD 2 0 * X_shape.getD 1 0) 0,
            List.replicate (H_shape.getD 0 0 * H_shape.getD 2 0) 0]
          ⟨activation_f, activation_g, "", clip, linear_before_reset⟩ false)
        (cell_pass ev CellType.GRU
          [X, seq_lengths, split_half H H_shape 1 1, split_half W W_shape 0 1,
            split_half R R_shape 0 1, split_half B B_shape 0 1]
          (single_state_bidirectional_shapes X_shape seq_lengths_shape H_shape W_shape R_shape
            B_shape)
          [List.replicate (H_shape.getD 0 0 * H_shape.getD 2 0 * X_shape.getD 1 0) 0,
            List.replicate (H_shape.getD 0 0 * H_shape.getD 2 0) 0]
          ⟨activation_f, activation_g, "", clip, linear_before_reset⟩ true)) ∧
    (rnn_sequence ev X X_shape H H_shape seq_lengths seq_lengths_shape
        W W_shape R R_shape B B_shape Y Ho activation_f clip
        RecurrentSequenceDirection.BIDIRECTIONAL =
      (fun (fwd rev : List (List α)) =>
        (store Y (concat [fwd.getD 0 [], rev.getD 0 []]
          (List.replicate 2 [H_shape.getD 0 0, 1, X_shape.getD 1 0, H_shape.getD 2 0])
          [H_shape.getD 0 0, 2, X_shape.getD 1 0, H_shape.getD 2 0] 1),
         store Ho (concat [fwd.getD 1 [], rev.getD 1 []]
          (List.replicate 2 [H_shape.getD 0 0, 1, H_shape.getD 2 0])
          [H_shape.getD 0 0, 2, H_shape.getD 2 0] 1)))
        (cell_pass ev CellType.RNN
          [X, seq_lengths, split_half H H_shape 1 0, split_half W W_shape 0 0,
            split_half R R_shape 0 0, split_half B B_shape 0 0]
          (single_state_bidirectional_shapes X_shape seq_lengths_shape H_shape W_shape R_shape
            B_shape)
          [List.replicate (H_shape.getD 0 0 * H_shape.getD 2 0 * X_shape.getD 1 0) 0,
            List.replicate (H_shape.getD 0 0 * H_shape.getD 2 0) 0]
          ⟨activation_f, "", "", clip, false⟩ false)
        (cell_pass ev CellType.RNN
          [X, seq_lengths, split_half H H_shape 1 1, split_half W W_shape 0 1,
            split_half R R_shape 0 1, split_half B B_shape 0 1]
          (single_state_bidirectional_shapes X_shape seq_lengths_shape H_shape W_shape R_shape
            B_shape)
          [List.replicate (H_shape.getD 0 0 * H_shape.getD 2 0 * X_shape.getD 1 0) 0,
            List.replicate (H_shape.getD 0 0 * H_shape.getD 2 0) 0]
          ⟨activation_f, "", "", clip, false⟩ true)) ∧
    lstm_bidirectional_shapes X_shape seq_lengths_shape H_shape C_shape W_shape R_shape
        B_shape =
      [X_shape, seq_lengths_shape, H_shape.set 1 1, C_shape.set 1 1, W_shape.set 0 1,
        R_shape.set 0 1, B_shape.set 0 1] ∧
    single_state_bidirectional_shapes X_shape seq_lengths_shape H_shape W_shape R_shape
        B_shape =
      [X_shape, seq_lengths_shape, H_shape.set 1 1, W_shape.set 0 1, R_shape.set 0 1,
        B_shape.set 0 1] ∧
    (∀ k,
      ((lstm_bidirectional_shapes X_shape seq_lengths_shape H_shape C_shape W_shape R_shape
          B_shape).getD k []).length =
        (([X_shape, seq_lengths_shape, H_shape, C_shape, W_shape, R_shape, B_shape] :
          List Shape).getD k []).length ∧
      ∀ j,
        ((lstm_bidirectional_shapes X_shape seq_lengths_shape H_shape C_shape W_shape R_shape
            B_shape).getD k []).getD j 0 =
          if (((k = 2 ∨ k = 3) ∧ j = 1) ∨ ((k = 4 ∨ k = 5 ∨ k = 6) ∧ j = 0)) ∧
              j < (([X_shape, seq_lengths_shape, H_shape, C_shape, W_shape, R_shape,
                B_shape] : List Shape).getD k []).length then 1
          else (([X_shape, seq_lengths_shape, H_shape, C_shape, W_shape, R_shape, B_shape] :
            List Shape).getD k []).getD j 0) ∧
    (∀ k,
      ((single_state_bidirectional_shapes X_shape seq_lengths_shape H_shape W_shape R_shape
          B_shape).getD k []).length =
        (([X_shape, seq_lengths_shape, H_shape, W_shape, R_shape, B_shape] :
          List Shape).getD k []).length ∧
      ∀ j,
        ((single_state_bidirectional_shapes X_shape seq_lengths_shape H_shape W_shape R_shape
            B_shape).getD k []).getD j 0 =
          if ((k = 2 ∧ j = 1) ∨ ((k = 3 ∨ k = 4 ∨ k = 5) ∧ j = 0)) ∧
              j < (([X_shape, seq_lengths_shape, H_shape, W_shape, R_shape, B_shape] :
                List Shape).getD k []).length then 1
          else (([X_shape, seq_lengths_shape, H_shape, W_shape, R_shape, B_shape] :
            List Shape).getD k []).getD j 0) := by
  refine ⟨rfl, rfl, rfl, rfl, rfl, ?_, ?_⟩
  · intro k
    rw [lstm_bidirectional_shapes_eq]
    match k with
    | 0 => exact ⟨rfl, fun j => by simp⟩
    | 1 => exact ⟨rfl, fun j => by simp⟩
    | 2 =>
      refine ⟨by simp, fun j => ?_⟩
      simp only [List.getD_cons_zero, List.getD_cons_succ, getD_getD_set]
      simp
    | 3 =>
      refine ⟨by simp, fun j => ?_⟩
      simp only [List.getD_cons_zero, List.getD_cons_succ, getD_getD_set]
      simp
    | 4 =>
      refine ⟨by simp, fun j => ?_⟩
      simp only [List.getD_cons_zero, List.getD_cons_succ, getD_getD_set]
      simp
    | 5 =>
      refine ⟨by simp, fun j => ?_⟩
      simp only [List.getD_cons_zero, List.getD_cons_succ, getD_getD_set]
      simp
    | 6 =>
      refine ⟨by simp, fun j => ?_⟩
      simp only [List.getD_cons_zero, List.getD_cons_succ, getD_getD_set]
      simp
    | k + 7 => exact ⟨rfl, fun j => by simp⟩
  · intro k
    rw [single_state_bidirectional_shapes_eq]
    match k with
    | 0 => exact ⟨rfl, fun j => by simp⟩
    | 1 => exact ⟨rfl, fun j => by simp⟩
    | 2 =>
      refine ⟨by simp, fun j => ?_⟩
      simp only [List.getD_cons_zero, List.getD_cons_succ, getD_getD_set]
      simp
    | 3 =>
      refine ⟨by simp, fun j => ?_⟩
      simp only [List.getD_cons_zero, List.getD_cons_succ, getD_getD_set]
      simp
    | 4 =>
      refine ⟨by simp, fun j => ?_⟩
      simp only [List.getD_cons_zero, List.getD_cons_succ, getD_getD_set]
      simp
    | 5 =>
      refine ⟨by simp, fun j => ?_⟩
      simp only [List.getD_cons_zero, List.getD_cons_succ, getD_getD_set]
      simp
    | k + 6 => exact ⟨rfl, fun j => by simp⟩

theorem foldlM_range_eq_some {σ : Type} (g : σ → Nat → Option σ) (f : σ → Nat → σ)
    (Inv : Nat → σ → Prop) (init : σ) (n : Nat) (h0 : Inv 0 init)
    (hstep : ∀ i s, i < n → Inv i s → g s i = some (f s i) ∧ Inv (i + 1) (f s i)) :
    List.foldlM g init (List.range n) = some ((List.range n).foldl f init) ∧
      Inv n ((List.range n).foldl f init) := by
  induction n with
  | zero => exact ⟨rfl, h0⟩
  | succ n ih =>
    have ih' := ih (fun i s hi hs => hstep i s (by omega) hs)
    have hs := hstep n _ (by omega) ih'.2
    rw [List.range_succ, List.foldlM_append, ih'.1, List.foldl_append]
    simp only [Option.bind_eq_bind, Option.some_bind, List.foldlM_cons, List.foldlM_nil,
      List.foldl_cons, List.foldl_nil, hs.1, Option.pure_def]
    exact ⟨trivial, hs.2⟩

theorem squeeze_axis_checked_eq (shape : Shape) (axis : Nat) (h : axis < shape.length) :
    squeeze_axis_checked shape axis = some (squeeze_axis shape axis) := by
  unfold squeeze_axis_checked squeeze_axis
  rw [if_neg (by omega)]
  have := foldlM_range_eq_some
    (fun (st : Shape × Nat) i =>
      if i ≠ axis then
        if st.2 < st.1.length then
          Option.map (fun d => (st.1.set st.2 d, st.2 + 1)) shape[i]?
        else none
      else some st)
    (fun (st : Shape × Nat) i =>
      if i ≠ axis then (st.1.set st.2 (shape.getD i 0), st.2 + 1) else st)
    (fun i st => st.1.length = shape.length - 1 ∧ st.2 = if i ≤ axis then i else i - 1)
    (List.replicate (shape.length - 1) 0, 0) shape.length (by simp)
    (by
      intro i s hi hinv
      obtain ⟨hl, hj⟩ := hinv
      by_cases hia : i = axis
      · subst hia
        simp only [ne_eq, not_true_eq_false, ↓reduceIte, true_and]
        refine ⟨hl, ?_⟩
        rw [hj]
        simp
      · have hlt : s.2 < s.1.length := by
          rw [hl, hj]
          split <;> omega
        simp only [ne_eq, hia, not_false_eq_true, ↓reduceIte, hlt, List.length_set,
          List.getD_eq_getElem?_getD, List.getElem?_eq_getElem hi, Option.map_some',
          Option.getD_some, true_and]
        refine ⟨hl, ?_⟩
        rw [hj]
        split <;> split <;> omega)
  rw [this.1]
  rfl

theorem assign_pointers_checked_eq (r : Bool) (n : Nat) :
    assign_pointers_checked r n n =
      some ((List.range n).map fun k => some (dir_index r n k)) := by
  unfold assign_pointers_checked
  rw [← pointer_table]
  have := foldlM_range_eq_some
    (fun (pointers : List (Option Nat)) i =>
      if i < n then
        if r then
          if i + 1 ≤ n ∧ n - i - 1 < pointers.length then
            some (pointers.set (n - i - 1) (some i))
          else none
        else if i < pointers.length then some (pointers.set i (some i))
        else none
      else none)
    (fun (pointers : List (Option Nat)) i => pointers.set (if r then n - i - 1 else i) (some i))
    (fun _ pointers => pointers.length = n)
    (List.replicate n none) n (by simp)
    (by
      intro i s hi hinv
      cases r
      · simp [hi, hinv]
      · simp only [hi, ↓reduceIte, hinv, List.length_set, and_true]
        rw [if_pos ⟨by omega, by omega⟩])
  exact this.1

theorem all_valid_pointer (r : Bool) (n : Nat) :
    ((List.range n).map fun k => some (dir_index r n k)).all (valid_pointer n) = true := by
  rw [List.all_eq_true]
  intro p hp
  simp only [List.mem_map, List.mem_range] at hp
  obtain ⟨k, hk, rfl⟩ := hp
  simp [valid_pointer, dir_index_lt r n k hk]

theorem getElem?_eq_some_getD {β : Type} (l : List β) (i : Nat) (d : β) (h : i < l.length) :
    l[i]? = some (l.getD i d) := by
  simp [List.getD_eq_getElem?_getD, List.getElem?_eq_getElem h]

theorem squeeze_shape_checked_eq (shapes : List Shape) (k axis : Nat) (hk : k < shapes.length)
    (hax : axis < (shapes.getD k []).length) :
    squeeze_shape_checked shapes k axis = some (squeeze_axis (shapes.getD k []) axis) := by
  unfold squeeze_shape_checked
  rw [getElem?_eq_some_getD shapes k [] hk]
  exact squeeze_axis_checked_eq _ _ hax

theorem weight_operands_checked_eq (inputs : List (List α)) (shapes : List Shape) (k : Nat)
    (hin : k + 2 < inputs.length) (hsh : k + 2 < shapes.length)
    (hW : ∀ j, k ≤ j → j < shapes.length → 0 < (shapes.getD j []).length) :
    weight_operands_checked inputs shapes k =
      some ((inputs.getD k [], squeeze_axis (shapes.getD k []) 0),
        (inputs.getD (k + 1) [], squeeze_axis (shapes.getD (k + 1) []) 0),
        (inputs.getD (k + 2) [], squeeze_axis (shapes.getD (k + 2) []) 0)) := by
  unfold weight_operands_checked
  simp only [Option.bind_eq_bind, Option.pure_def,
    getElem?_eq_some_getD inputs k [] (by omega),
    getElem?_eq_some_getD inputs (k + 1) [] (by omega),
    getElem?_eq_some_getD inputs (k + 2) [] (by omega),
    squeeze_shape_checked_eq shapes k 0 (by omega) (hW k (by omega) (by omega)),
    squeeze_shape_checked_eq shapes (k + 1) 0 (by omega) (hW (k + 1) (by omega) (by omega)),
    squeeze_shape_checked_eq shapes (k + 2) 0 (by omega) (hW (k + 2) (by omega) (by omega)),
    Option.some_bind]

theorem cell_step_checked_eq (ev : CellEvaluators α κ) (type : CellType)
    (inputs : List (List α)) (shapes : List Shape) (args : CellArgs κ) (x : List α)
    (o : List (List α))
    (hin : inputs.length = if type = CellType.LSTM then 7 else 6)
    (hsh : shapes.length = if type = CellType.LSTM then 7 else 6)
    (ho : o.length = if type = CellType.LSTM then 3 else 2)
    (h0 : 1 < (shapes.getD 0 []).length) (h2 : 1 < (shapes.getD 2 []).length)
    (h3 : type = CellType.LSTM → 1 < (shapes.getD 3 []).length)
    (hW : ∀ s ∈ shapes.drop (if type = CellType.LSTM then 4 else 3), 1 ≤ s.length) :
    cell_step_checked ev type inputs shapes args x o =
      some (cell_step ev type inputs shapes args x o) := by
  have hWk : ∀ k, (if type = CellType.LSTM then 4 else 3) ≤ k → k < shapes.length →
      0 < (shapes.getD k []).length := by
    intro k hk1 hk2
    apply hW
    rw [List.getD_eq_getElem?_getD, List.getElem?_eq_getElem hk2, Option.getD_some]
    have hk3 : k - (if type = CellType.LSTM then 4 else 3) <
        (shapes.drop (if type = CellType.LSTM then 4 else 3)).length := by
      rw [List.length_drop]; omega
    have := List.getElem_mem hk3
    rw [List.getElem_drop] at this
    simpa [Nat.add_sub_cancel' hk1] using this
  cases type with
  | LSTM =>
    simp only [↓reduceIte] at hin hsh ho hWk
    have h3' := h3 rfl
    simp only [cell_step_checked, cell_step, Option.bind_eq_bind, Option.pure_def,
      squeeze_shape_checked_eq shapes 0 1 (by omega) h0,
      squeeze_shape_checked_eq shapes 2 1 (by omega) h2,
      squeeze_shape_checked_eq shapes 3 1 (by omega) h3',
      weight_operands_checked_eq inputs shapes 4 (by omega) (by omega) hWk,
      getElem?_eq_some_getD o 1 [] (by omega), getElem?_eq_some_getD o 2 [] (by omega),
      Option.some_bind, getD_two_set_one]
  | RNN =>
    simp only [reduceCtorEq, ↓reduceIte] at hin hsh ho hWk
    simp only [cell_step_checked, cell_step, Option.bind_eq_bind, Option.pure_def,
      squeeze_shape_checked_eq shapes 0 1 (by omega) h0,
      squeeze_shape_checked_eq shapes 2 1 (by omega) h2,
      weight_operands_checked_eq inputs shapes 3 (by omega) (by omega) hWk,
      getElem?_eq_some_getD o 1 [] (by omega), Option.some_bind]
  | GRU =>
    simp only [reduceCtorEq, ↓reduceIte] at hin hsh ho hWk
    simp only [cell_step_checked, cell_step, Option.bind_eq_bind, Option.pure_def,
      squeeze_shape_checked_eq shapes 0 1 (by omega) h0,
      squeeze_shape_checked_eq shapes 2 1 (by omega) h2,
      weight_operands_checked_eq inputs shapes 3 (by omega) (by omega) hWk,
      getElem?_eq_some_getD o 1 [] (by omega), Option.some_bind]

theorem time_loop_checked_eq (ev : CellEvaluators α κ) (type : CellType)
    (inputs : List (List α)) (shapes : List Shape) (args : CellArgs κ)
    (in_seqs : List (List α)) (pss n : Nat) (st : List (List α) × List (List α))
    (hin : inputs.length = if type = CellType.LSTM then 7 else 6)
    (hsh : shapes.length = if type = CellType.LSTM then 7 else 6)
    (ho : st.1.length = if type = CellType.LSTM then 3 else 2)
    (h0 : 1 < (shapes.getD 0 []).length) (h2 : 1 < (shapes.getD 2 []).length)
    (h3 : type = CellType.LSTM → 1 < (shapes.getD 3 []).length)
    (hW : ∀ s ∈ shapes.drop (if type = CellType.LSTM then 4 else 3), 1 ≤ s.length)
    (hseq : in_seqs.length = n) (hh : st.2.length = n) :
    time_loop_checked ev type inputs shapes args in_seqs pss n st =
        some (time_loop ev type inputs shapes args in_seqs pss n st) ∧
      (time_loop ev type inputs shapes args in_seqs pss n st).1.length = st.1.length ∧
      (time_loop ev type inputs shapes args in_seqs pss n st).2.length = n := by
  unfold time_loop_checked time_loop
  have := foldlM_range_eq_some
    (fun (st : List (List α) × List (List α)) time_step => do
      let x ← in_seqs[time_step]?
      let outputs ← cell_step_checked ev type inputs shapes args x st.1
      let hbuf ← st.2[time_step]?
      let h ← outputs[1]?
      pure (outputs, st.2.set time_step (memcpy hbuf h pss)))
    (fun (st : List (List α) × List (List α)) time_step =>
      let outputs := cell_step ev type inputs shapes args (in_seqs.getD time_step []) st.1
      (outputs, st.2.set time_step
        (memcpy (st.2.getD time_step []) (outputs.getD 1 []) pss)))
    (fun _ s => s.1.length = st.1.length ∧ s.2.length = n)
    st n ⟨rfl, hh⟩
    (by
      intro i s hi hinv
      obtain ⟨hl1, hl2⟩ := hinv
      have hcs := cell_step_checked_eq ev type inputs shapes args (in_seqs.getD i []) s.1
        hin hsh (by rw [hl1]; exact ho) h0 h2 h3 hW
      have ho1 : 1 < (cell_step ev type inputs shapes args (in_seqs.getD i []) s.1).length := by
        rw [length_cell_step, hl1, ho]; split <;> omega
      simp only [Option.bind_eq_bind, Option.pure_def,
        getElem?_eq_some_getD in_seqs i [] (by omega), Option.some_bind, hcs,
        getElem?_eq_some_getD s.2 i [] (by omega),
        getElem?_eq_some_getD _ 1 [] ho1, List.length_set, length_cell_step, hl1, hl2,
        and_self])
  exact ⟨this.1, this.2.1, this.2.2⟩

theorem split_input_checked_eq [Zero α] (inputs : List (List α)) (shapes : List Shape)
    (r : Bool) (hin : 0 < inputs.length) (hsh : 0 < shapes.length)
    (h0 : 1 < (shapes.getD 0 []).length) (hT : 1 ≤ (shapes.getD 0 []).getD 1 0) :
    split_input_checked inputs shapes r =
      some ((shapes.getD 0 []).getD 1 0, in_seqs inputs shapes r) := by
  unfold split_input_checked in_seqs
  simp only [Option.bind_eq_bind, Option.pure_def,
    getElem?_eq_some_getD shapes 0 [] hsh, Option.some_bind,
    getElem?_eq_some_getD (shapes.getD 0 []) 1 0 h0,
    getElem?_eq_some_getD inputs 0 [] hin,
    if_neg (show ¬ (shapes.getD 0 []).getD 1 0 = 0 by omega),
    List.length_replicate, assign_pointers_checked_eq, all_valid_pointer,
    Bool.true_eq_false, ↓reduceIte, pointer_table]

theorem split_input_checked_zero [Zero α] (inputs : List (List α)) (shapes : List Shape)
    (r : Bool) (hz : (shapes.getD 0 []).getD 1 0 = 0) :
    split_input_checked inputs shapes r = none := by
  unfold split_input_checked
  cases hs : shapes[0]? with
  | none => rfl
  | some s0 =>
    have hs0 : shapes.getD 0 [] = s0 := by simp [List.getD_eq_getElem?_getD, hs]
    rw [hs0] at hz
    simp only [Option.bind_eq_bind, Option.some_bind]
    cases hn : s0[1]? with
    | none => rfl
    | some n =>
      have : n = 0 := by
        simpa [List.getD_eq_getElem?_getD, hn] using hz
      subst this
      rfl

theorem part_shape_checked_eq (shapes : List Shape) (hsh : 2 < shapes.length)
    (h0 : 0 < (shapes.getD 0 []).length) (h2 : 2 < (shapes.getD 2 []).length) :
    part_shape_checked shapes =
      some [(shapes.getD 0 []).getD 0 0, 1, (shapes.getD 2 []).getD 2 0] := by
  unfold part_shape_checked
  simp only [Option.bind_eq_bind, Option.pure_def,
    getElem?_eq_some_getD shapes 0 [] (by omega), Option.some_bind,
    getElem?_eq_some_getD (shapes.getD 0 []) 0 0 h0,
    getElem?_eq_some_getD shapes 2 [] hsh,
    getElem?_eq_some_getD (shapes.getD 2 []) 2 0 h2]

theorem out_shape_checked_eq (shapes : List Shape) (hsh : 2 < shapes.length)
    (h0 : 1 < (shapes.getD 0 []).length) (h2 : 2 < (shapes.getD 2 []).length) :
    out_shape_checked shapes =
      some [(shapes.getD 0 []).getD 0 0, (shapes.getD 0 []).getD 1 0,
        (shapes.getD 2 []).getD 2 0] := by
  unfold out_shape_checked
  simp only [Option.bind_eq_bind, Option.pure_def,
    getElem?_eq_some_getD shapes 0 [] (by omega), Option.some_bind,
    getElem?_eq_some_getD (shapes.getD 0 []) 0 0 (by omega),
    getElem?_eq_some_getD (shapes.getD 0 []) 1 0 h0,
    getElem?_eq_some_getD shapes 2 [] hsh,
    getElem?_eq_some_getD (shapes.getD 2 []) 2 0 h2]

theorem init_state_checked_eq (type : CellType) (inputs : List (List α))
    (shapes : List Shape) (outputs : List (List α))
    (hin : inputs.length = if type = CellType.LSTM then 7 else 6)
    (hsh : shapes.length = if type = CellType.LSTM then 7 else 6)
    (hout : outputs.length = if type = CellType.LSTM then 3 else 2) :
    init_state_checked type inputs shapes outputs =
      some (init_state type inputs shapes outputs) := by
  have hin' : 6 ≤ inputs.length := by rw [hin]; split <;> omega
  have hsh' : 6 ≤ shapes.length := by rw [hsh]; split <;> omega
  have hout' : 2 ≤ outputs.length := by rw [hout]; split <;> omega
  unfold init_state_checked init_state
  simp only [Option.bind_eq_bind, Option.pure_def,
    getElem?_eq_some_getD outputs 1 [] (by omega), Option.some_bind,
    getElem?_eq_some_getD inputs 2 [] (by omega),
    getElem?_eq_some_getD shapes 2 [] (by omega)]
  by_cases ht : type = CellType.LSTM
  · rw [ht] at hin hsh hout
    simp only [↓reduceIte] at hin hsh hout
    simp only [ht, ↓reduceIte, Option.bind_eq_bind, Option.pure_def,
      getElem?_eq_some_getD _ 2 [] (show 2 < (outputs.set 1 (memcpy (outputs.getD 1 [])
        (inputs.getD 2 []) (shape_size (shapes.getD 2 [])))).length by simp; omega),
      getElem?_eq_some_getD inputs 3 [] (by omega),
      getElem?_eq_some_getD shapes 3 [] (by omega), Option.some_bind]
  · simp only [ht, ↓reduceIte]

theorem concat_output_checked_eq (shapes : List Shape) (r : Bool) (part_shape : Shape)
    (st : List (List α) × List (List α)) (hsh : 2 < shapes.length)
    (h0 : 1 < (shapes.getD 0 []).length) (h2 : 2 < (shapes.getD 2 []).length)
    (h1 : 0 < st.1.length) (hh : st.2.length = (shapes.getD 0 []).getD 1 0) :
    concat_output_checked shapes r ((shapes.getD 0 []).getD 1 0) part_shape st =
      some (st.1.set 0 (store (st.1.getD 0 [])
        (concat
          (((List.range ((shapes.getD 0 []).getD 1 0)).map fun k =>
            some (dir_index r ((shapes.getD 0 []).getD 1 0) k)).map (deref st.2))
          (List.replicate ((shapes.getD 0 []).getD 1 0) part_shape)
          [(shapes.getD 0 []).getD 0 0, (shapes.getD 0 []).getD 1 0,
            (shapes.getD 2 []).getD 2 0] 1))) := by
  unfold concat_output_checked
  simp only [Option.bind_eq_bind, Option.pure_def, hh, assign_pointers_checked_eq,
    Option.some_bind, all_valid_pointer, Bool.true_eq_false, ↓reduceIte,
    getElem?_eq_some_getD st.1 0 [] h1, out_shape_checked_eq shapes hsh h0 h2]

theorem cell_pass_checked_eq [Zero α] (ev : CellEvaluators α κ) (type : CellType)
    (inputs : List (List α)) (shapes : List Shape) (outputs : List (List α))
    (args : CellArgs κ) (r : Bool)
    (hin : inputs.length = if type = CellType.LSTM then 7 else 6)
    (hsh : shapes.length = if type = CellType.LSTM then 7 else 6)
    (hout : outputs.length = if type = CellType.LSTM then 3 else 2)
    (h0 : (shapes.getD 0 []).length = 3) (hT : 1 ≤ (shapes.getD 0 []).getD 1 0)
    (h2 : (shapes.getD 2 []).length = 3)
    (h3 : type = CellType.LSTM → (shapes.getD 3 []).length = 3)
    (hW : ∀ s ∈ shapes.drop (if type = CellType.LSTM then 4 else 3), 1 ≤ s.length) :
    cell_pass_checked ev type inputs shapes outputs args r =
      some (cell_pass ev type inputs shapes outputs args r) := by
  have hin' : 6 ≤ inputs.length := by rw [hin]; split <;> omega
  have hsh' : 6 ≤ shapes.length := by rw [hsh]; split <;> omega
  have hout' : 2 ≤ outputs.length := by rw [hout]; split <;> omega
  have hinit : (init_state type inputs shapes outputs).length =
      if type = CellType.LSTM then 3 else 2 := by
    rw [length_init_state, hout]
  have hloop := time_loop_checked_eq ev type inputs shapes args (in_seqs inputs shapes r)
    (shape_size [(shapes.getD 0 []).getD 0 0, 1, (shapes.getD 2 []).getD 2 0])
    ((shapes.getD 0 []).getD 1 0)
    (init_state type inputs shapes outputs,
      List.replicate ((shapes.getD 0 []).getD 1 0)
        (List.replicate
          (shape_size [(shapes.getD 0 []).getD 0 0, 1, (shapes.getD 2 []).getD 2 0]) 0))
    hin hsh hinit (by omega) (by omega) (fun ht => by have := h3 ht; omega) hW
    (by rw [in_seqs_eq]; simp) (by simp)
  unfold cell_pass_checked
  simp only [Option.bind_eq_bind,
    split_input_checked_eq inputs shapes r (by omega) (by omega) (by omega) hT,
    part_shape_checked_eq shapes (by omega) (by omega) (by omega),
    init_state_checked_eq type inputs shapes outputs hin hsh hout, Option.some_bind, hloop.1]
  rw [concat_output_checked_eq shapes r _ _ (by omega) (by omega) (by omega)
    (by rw [hloop.2.1, length_init_state]; omega) hloop.2.2, cell_pass_eq_loop]
  rfl

theorem cell_pass_checked_zero [Zero α] (ev : CellEvaluators α κ) (type : CellType)
    (inputs : List (List α)) (shapes : List Shape) (outputs : List (List α))
    (args : CellArgs κ) (r : Bool) (hz : (shapes.getD 0 []).getD 1 0 = 0) :
    cell_pass_checked ev type inputs shapes outputs args r = none := by
  unfold cell_pass_checked
  rw [split_input_checked_zero inputs shapes r hz]
  rfl

theorem dir_index_unique (r : Bool) (n k : Nat) (hk : k < n) :
    ∃! i, i < n ∧ dir_index r n i = k := by
  refine ⟨dir_index r n k, ⟨dir_index_lt r n k hk, dir_index_invol r n k hk⟩, ?_⟩
  rintro i ⟨hi, hik⟩
  rw [← hik, dir_index_invol r n i hi]

/-- C20: safety of `cell_pass` under its precondition. If the input, shape and output lists
have the arity of the cell kind (7, 7, 3 for LSTM; 6, 6, 2 for RNN and GRU), `X` has the
rank-3 shape `[batch, T, input]` with `T ≥ 1`, the state shapes have rank 3 and the `W`,
`R`, `B` shapes have rank at least 1, then the checked form of `cell_pass`, which fails on
any out-of-range vector access (`shapes[0].at(1)`, `shapes[0][0]`, `shapes[2][2]`,
`inputs[k]`, `outputs[k]`, `pointers[..]`, `to_concat_pointers[..]`, `in_seqs[time_step]`,
`h_list[time_step]`, the accesses of `squeeze_axis`), on a wrap-around of
`num_splits - i - 1`, on a zero divisor and on an unassigned pointer slot, succeeds and
returns the result of `cell_pass`. Every `squeeze_axis` call of the loop succeeds, the
pointer loops succeed and fill slot `k` with the buffer `dir_index k < T`, each of the `T`
slots is assigned by exactly one iteration, and `x_shape_size / num_splits` has the non-zero
divisor `T` and remainder zero. For any shape list whose time dimension is 0 the checked
form fails: the divisor `num_splits` is zero. -/
theorem cell_pass_safety [Zero α] (ev : CellEvaluators α κ) (type : CellType)
    (inputs : List (List α)) (shapes : List Shape) (outputs : List (List α))
    (args : CellArgs κ) (is_reverse : Bool) (batch T input : Nat)
    (hin : inputs.length = if type = CellType.LSTM then 7 else 6)
    (hsh : shapes.length = if type = CellType.LSTM then 7 else 6)
    (hout : outputs.length = if type = CellType.LSTM then 3 else 2)
    (hshape0 : shapes.getD 0 [] = [batch, T, input]) (hT : 1 ≤ T)
    (h2 : (shapes.getD 2 []).length = 3)
    (h3 : type = CellType.LSTM → (shapes.getD 3 []).length = 3)
    (hW : ∀ s ∈ shapes.drop (if type = CellType.LSTM then 4 else 3), 1 ≤ s.length) :
    cell_pass_checked ev type inputs shapes outputs args is_reverse =
      some (cell_pass ev type inputs shapes outputs args is_reverse) ∧
    squeeze_axis_checked (shapes.getD 0 []) 1 = some (squeeze_axis (shapes.getD 0 []) 1) ∧
    squeeze_axis_checked (shapes.getD 2 []) 1 = some (squeeze_axis (shapes.getD 2 []) 1) ∧
    (type = CellType.LSTM →
      squeeze_axis_checked (shapes.getD 3 []) 1 = some (squeeze_axis (shapes.getD 3 []) 1)) ∧
    (∀ s ∈ shapes.drop (if type = CellType.LSTM then 4 else 3),
      squeeze_axis_checked s 0 = some (squeeze_axis s 0)) ∧
    assign_pointers_checked is_reverse T T =
      some ((List.range T).map fun k => some (dir_index is_reverse T k)) ∧
    (∀ k, k < T → dir_index is_reverse T k < T) ∧
    (∀ k, k < T → ∃! i, i < T ∧ dir_index is_reverse T i = k) ∧
    (shapes.getD 0 []).getD 1 0 ≠ 0 ∧
    shape_size (shapes.getD 0 []) % (shapes.getD 0 []).getD 1 0 = 0 ∧
    (∀ shapes0 : List Shape, (shapes0.getD 0 []).getD 1 0 = 0 →
      cell_pass_checked ev type inputs shapes0 outputs args is_reverse = none) := by
  refine ⟨?_, ?_, ?_, ?_, ?_, ?_, ?_, ?_, ?_, ?_, ?_⟩
  · exact cell_pass_checked_eq ev type inputs shapes outputs args is_reverse hin hsh hout
      (by rw [hshape0]; rfl) (by rw [hshape0]; exact hT) h2 h3 hW
  · exact squeeze_axis_checked_eq _ _ (by rw [hshape0]; simp)
  · exact squeeze_axis_checked_eq _ _ (by omega)
  · intro ht
    exact squeeze_axis_checked_eq _ _ (by have := h3 ht; omega)
  · intro s hs
    exact squeeze_axis_checked_eq _ _ (hW s hs)
  · exact assign_pointers_checked_eq is_reverse T
  · exact fun k hk => dir_index_lt is_reverse T k hk
  · exact fun k hk => dir_index_unique is_reverse T k hk
  · rw [hshape0]
    simp only [List.getD_cons_zero, List.getD_cons_succ]
    omega
  · rw [hshape0]
    simp only [List.getD_cons_zero, List.getD_cons_succ, shape_size, List.prod_cons,
      List.prod_nil, Nat.mul_one]
    rw [show batch * (T * input) = T * (batch * input) by ring]
    exact Nat.mul_mod_right _ _
  · intro shapes0 hz
    exact cell_pass_checked_zero ev type inputs shapes0 outputs args is_reverse hz

/-- Witness of C11: a bidirectional call with batch 2, time 4, hidden 3 on output buffers
filled with zeros and on output buffers filled with the residual values 5, 6 and 7. -/
theorem no_residual_state_leakage_witness :
    ((1 ≤ 4) ∧
      ((RecurrentSequenceDirection.BIDIRECTIONAL = RecurrentSequenceDirection.BIDIRECTIONAL ∧ 2 =
          2) ∨ ((RecurrentSequenceDirection.BIDIRECTIONAL = RecurrentSequenceDirection.FORWARD ∨
          RecurrentSequenceDirection.BIDIRECTIONAL = RecurrentSequenceDirection.REVERSE) ∧ 2 = 1)) ∧
      (((List.range 12).map Int.ofNat).length = 2 * 2 * 3) ∧
      (((List.range 12).map fun i => 2 * Int.ofNat i).length = 2 * 2 * 3) ∧
      ((List.replicate 48 0).length = 2 * 2 * 4 * 3) ∧
      ((List.replicate 48 5).length = 2 * 2 * 4 * 3) ∧
      ((List.replicate 12 0).length = 2 * 2 * 3) ∧
      ((List.replicate 12 6).length = 2 * 2 * 3) ∧
      ((List.replicate 12 0).length = 2 * 2 * 3) ∧
      ((List.replicate 12 7).length = 2 * 2 * 3)) ∧
    (lstm_sequence test_cells [1, 2, 3, 4, 5, 6, 7, 8] [2, 4, 1] ((List.range 12).map Int.ofNat)
        [2, 2, 3] ((List.range 12).map fun i => 2 * Int.ofNat i) [2, 2, 3]
        [4, 4] [2] ((List.range 24).map Int.ofNat) [2, 12, 1] ((List.range 72).map Int.ofNat) [2,
            12, 3] ((List.range 24).map Int.ofNat) [2, 12] (List.replicate 48 0) (List.replicate 12
            0) (List.replicate 12 0)
        "sigmoid" "tanh" "tanh" (0 : Int) RecurrentSequenceDirection.BIDIRECTIONAL =
      lstm_sequence test_cells [1, 2, 3, 4, 5, 6, 7, 8] [2, 4, 1] ((List.range 12).map Int.ofNat)
          [2, 2, 3] ((List.range 12).map fun i => 2 * Int.ofNat i) [2, 2, 3]
        [4, 4] [2] ((List.range 24).map Int.ofNat) [2, 12, 1] ((List.range 72).map Int.ofNat) [2,
            12, 3] ((List.range 24).map Int.ofNat) [2, 12] (List.replicate 48 5) (List.replicate 12
            6) (List.replicate 12 7)
        "sigmoid" "tanh" "tanh" (0 : Int) RecurrentSequenceDirection.BIDIRECTIONAL ∧
    gru_sequence test_cells [1, 2, 3, 4, 5, 6, 7, 8] [2, 4, 1] ((List.range 12).map Int.ofNat) [2,
        2, 3]
        [4, 4] [2] ((List.range 24).map Int.ofNat) [2, 12, 1] ((List.range 72).map Int.ofNat) [2,
            12, 3] ((List.range 24).map Int.ofNat) [2, 12] (List.replicate 48 0) (List.replicate 12
            0)
        "sigmoid" "tanh" (0 : Int) RecurrentSequenceDirection.BIDIRECTIONAL true =
      gru_sequence test_cells [1, 2, 3, 4, 5, 6, 7, 8] [2, 4, 1] ((List.range 12).map Int.ofNat)
          [2, 2, 3]
        [4, 4] [2] ((List.range 24).map Int.ofNat) [2, 12, 1] ((List.range 72).map Int.ofNat) [2,
            12, 3] ((List.range 24).map Int.ofNat) [2, 12] (List.replicate 48 5) (List.replicate 12
            6)
        "sigmoid" "tanh" (0 : Int) RecurrentSequenceDirection.BIDIRECTIONAL true ∧
    rnn_sequence test_cells [1, 2, 3, 4, 5, 6, 7, 8] [2, 4, 1] ((List.range 12).map Int.ofNat) [2,
        2, 3]
        [4, 4] [2] ((List.range 24).map Int.ofNat) [2, 12, 1] ((List.range 72).map Int.ofNat) [2,
            12, 3] ((List.range 24).map Int.ofNat) [2, 12] (List.replicate 48 0) (List.replicate 12
            0)
        "sigmoid" (0 : Int) RecurrentSequenceDirection.BIDIRECTIONAL =
      rnn_sequence test_cells [1, 2, 3, 4, 5, 6, 7, 8] [2, 4, 1] ((List.range 12).map Int.ofNat)
          [2, 2, 3]
        [4, 4] [2] ((List.range 24).map Int.ofNat) [2, 12, 1] ((List.range 72).map Int.ofNat) [2,
            12, 3] ((List.range 24).map Int.ofNat) [2, 12] (List.replicate 48 5) (List.replicate 12
            6)
        "sigmoid" (0 : Int) RecurrentSequenceDirection.BIDIRECTIONAL) :=
  ⟨⟨by decide, Or.inl ⟨rfl, rfl⟩, rfl, rfl, rfl, rfl, rfl, rfl, rfl, rfl⟩,
    no_residual_state_leakage test_cells [1, 2, 3, 4, 5, 6, 7, 8] ((List.range 12).map Int.ofNat)
        ((List.range 12).map fun i => 2 * Int.ofNat i) [4, 4] ((List.range 24).map Int.ofNat)
        ((List.range 72).map Int.ofNat) ((List.range 24).map Int.ofNat) [2] [2, 12, 1] [2, 12, 3]
        [2, 12] (List.replicate 48 0) (List.replicate 12 0) (List.replicate 12 0) (List.replicate
        48 5) (List.replicate 12 6) (List.replicate 12 7) "sigmoid" "tanh" "tanh" (0 : Int)
        RecurrentSequenceDirection.BIDIRECTIONAL true 2 4 1 3 2 (by decide) (Or.inl ⟨rfl, rfl⟩) rfl
        rfl rfl rfl rfl rfl rfl rfl⟩

/-- Witness of C12: batch 2, time 4, hidden 3, input 1; `Y` has the `2 * 2 * 4 * 3 = 48`
elements of shape `[2, 2, 4, 3]`. -/
theorem bidirectional_output_layout_witness :
    (((List.replicate 48 0).length = 2 * 2 * 4 * 3) ∧
      ((List.replicate 12 0).length = 2 * 2 * 3) ∧
      ((List.replicate 12 0).length = 2 * 2 * 3)) ∧
    (((lstm_sequence test_cells [1, 2, 3, 4, 5, 6, 7, 8] [2, 4, 1] ((List.range 12).map Int.ofNat)
        [2, 2, 3] ((List.range 12).map fun i => 2 * Int.ofNat i) [2, 2, 3]
        [4, 4] [2] ((List.range 24).map Int.ofNat) [2, 12, 1] ((List.range 72).map Int.ofNat) [2,
            12, 3] ((List.range 24).map Int.ofNat) [2, 12] (List.replicate 48 0) (List.replicate 12
            0) (List.replicate 12 0)
        "sigmoid" "tanh" "tanh" (0 : Int) RecurrentSequenceDirection.BIDIRECTIONAL) =
      (concat
        [(lstm_branch test_cells [1, 2, 3, 4, 5, 6, 7, 8] [2, 4, 1] ((List.range 12).map Int.ofNat)
            [2, 2, 3] ((List.range 12).map fun i => 2 * Int.ofNat i) [2, 2, 3]
            [4, 4] [2] ((List.range 24).map Int.ofNat) [2, 12, 1] ((List.range 72).map Int.ofNat)
                [2, 12, 3] ((List.range 24).map Int.ofNat) [2, 12]
            "sigmoid" "tanh" "tanh" (0 : Int) 0 false).getD 0 [],
         (lstm_branch test_cells [1, 2, 3, 4, 5, 6, 7, 8] [2, 4, 1] ((List.range 12).map Int.ofNat)
             [2, 2, 3] ((List.range 12).map fun i => 2 * Int.ofNat i) [2, 2, 3]
            [4, 4] [2] ((List.range 24).map Int.ofNat) [2, 12, 1] ((List.range 72).map Int.ofNat)
                [2, 12, 3] ((List.range 24).map Int.ofNat) [2, 12]
            "sigmoid" "tanh" "tanh" (0 : Int) 1 true).getD 0 []]
        [[2, 1, 4, 3], [2, 1, 4, 3]] [2, 2, 4, 3] 1,
       concat
        [(lstm_branch test_cells [1, 2, 3, 4, 5, 6, 7, 8] [2, 4, 1] ((List.range 12).map Int.ofNat)
            [2, 2, 3] ((List.range 12).map fun i => 2 * Int.ofNat i) [2, 2, 3]
            [4, 4] [2] ((List.range 24).map Int.ofNat) [2, 12, 1] ((List.range 72).map Int.ofNat)
                [2, 12, 3] ((List.range 24).map Int.ofNat) [2, 12]
            "sigmoid" "tanh" "tanh" (0 : Int) 0 false).getD 1 [],
         (lstm_branch test_cells [1, 2, 3, 4, 5, 6, 7, 8] [2, 4, 1] ((List.range 12).map Int.ofNat)
             [2, 2, 3] ((List.range 12).map fun i => 2 * Int.ofNat i) [2, 2, 3]
            [4, 4] [2] ((List.range 24).map Int.ofNat) [2, 12, 1] ((List.range 72).map Int.ofNat)
                [2, 12, 3] ((List.range 24).map Int.ofNat) [2, 12]
            "sigmoid" "tanh" "tanh" (0 : Int) 1 true).getD 1 []]
        [[2, 1, 3], [2, 1, 3]] [2, 2, 3] 1,
       concat
        [(lstm_branch test_cells [1, 2, 3, 4, 5, 6, 7, 8] [2, 4, 1] ((List.range 12).map Int.ofNat)
            [2, 2, 3] ((List.range 12).map fun i => 2 * Int.ofNat i) [2, 2, 3]
            [4, 4] [2] ((List.range 24).map Int.ofNat) [2, 12, 1] ((List.range 72).map Int.ofNat)
                [2, 12, 3] ((List.range 24).map Int.ofNat) [2, 12]
            "sigmoid" "tanh" "tanh" (0 : Int) 0 false).getD 2 [],
         (lstm_branch test_cells [1, 2, 3, 4, 5, 6, 7, 8] [2, 4, 1] ((List.range 12).map Int.ofNat)
             [2, 2, 3] ((List.range 12).map fun i => 2 * Int.ofNat i) [2, 2, 3]
            [4, 4] [2] ((List.range 24).map Int.ofNat) [2, 12, 1] ((List.range 72).map Int.ofNat)
                [2, 12, 3] ((List.range 24).map Int.ofNat) [2, 12]
            "sigmoid" "tanh" "tanh" (0 : Int) 1 true).getD 2 []]
        [[2, 1, 3], [2, 1, 3]] [2, 2, 3] 1) ∧
    (lstm_sequence test_cells [1, 2, 3, 4, 5, 6, 7, 8] [2, 4, 1] ((List.range 12).map Int.ofNat)
        [2, 2, 3] ((List.range 12).map fun i => 2 * Int.ofNat i) [2, 2, 3]
        [4, 4] [2] ((List.range 24).map Int.ofNat) [2, 12, 1] ((List.range 72).map Int.ofNat) [2,
            12, 3] ((List.range 24).map Int.ofNat) [2, 12] (List.replicate 48 0) (List.replicate 12
            0) (List.replicate 12 0)
        "sigmoid" "tanh" "tanh" (0 : Int) RecurrentSequenceDirection.BIDIRECTIONAL).1.length =
            shape_size [2, 2, 4, 3] ∧
    (lstm_sequence test_cells [1, 2, 3, 4, 5, 6, 7, 8] [2, 4, 1] ((List.range 12).map Int.ofNat)
        [2, 2, 3] ((List.range 12).map fun i => 2 * Int.ofNat i) [2, 2, 3]
        [4, 4] [2] ((List.range 24).map Int.ofNat) [2, 12, 1] ((List.range 72).map Int.ofNat) [2,
            12, 3] ((List.range 24).map Int.ofNat) [2, 12] (List.replicate 48 0) (List.replicate 12
            0) (List.replicate 12 0)
        "sigmoid" "tanh" "tanh" (0 : Int) RecurrentSequenceDirection.BIDIRECTIONAL).2.1.length =
            shape_size [2, 2, 3] ∧
    (lstm_sequence test_cells [1, 2, 3, 4, 5, 6, 7, 8] [2, 4, 1] ((List.range 12).map Int.ofNat)
        [2, 2, 3] ((List.range 12).map fun i => 2 * Int.ofNat i) [2, 2, 3]
        [4, 4] [2] ((List.range 24).map Int.ofNat) [2, 12, 1] ((List.range 72).map Int.ofNat) [2,
            12, 3] ((List.range 24).map Int.ofNat) [2, 12] (List.replicate 48 0) (List.replicate 12
            0) (List.replicate 12 0)
        "sigmoid" "tanh" "tanh" (0 : Int) RecurrentSequenceDirection.BIDIRECTIONAL).2.2.length =
            shape_size [2, 2, 3] ∧
    direction_slice3 (lstm_sequence test_cells [1, 2, 3, 4, 5, 6, 7, 8] [2, 4, 1] ((List.range
        12).map Int.ofNat) [2, 2, 3] ((List.range 12).map fun i => 2 * Int.ofNat i) [2, 2, 3]
        [4, 4] [2] ((List.range 24).map Int.ofNat) [2, 12, 1] ((List.range 72).map Int.ofNat) [2,
            12, 3] ((List.range 24).map Int.ofNat) [2, 12] (List.replicate 48 0) (List.replicate 12
            0) (List.replicate 12 0)
        "sigmoid" "tanh" "tanh" (0 : Int) RecurrentSequenceDirection.BIDIRECTIONAL) 2 4 3 0 =
      ((lstm_branch test_cells [1, 2, 3, 4, 5, 6, 7, 8] [2, 4, 1] ((List.range 12).map Int.ofNat)
          [2, 2, 3] ((List.range 12).map fun i => 2 * Int.ofNat i) [2, 2, 3]
            [4, 4] [2] ((List.range 24).map Int.ofNat) [2, 12, 1] ((List.range 72).map Int.ofNat)
                [2, 12, 3] ((List.range 24).map Int.ofNat) [2, 12]
            "sigmoid" "tanh" "tanh" (0 : Int) 0 false).getD 0 [],
       (lstm_branch test_cells [1, 2, 3, 4, 5, 6, 7, 8] [2, 4, 1] ((List.range 12).map Int.ofNat)
           [2, 2, 3] ((List.range 12).map fun i => 2 * Int.ofNat i) [2, 2, 3]
            [4, 4] [2] ((List.range 24).map Int.ofNat) [2, 12, 1] ((List.range 72).map Int.ofNat)
                [2, 12, 3] ((List.range 24).map Int.ofNat) [2, 12]
            "sigmoid" "tanh" "tanh" (0 : Int) 0 false).getD 1 [],
       (lstm_branch test_cells [1, 2, 3, 4, 5, 6, 7, 8] [2, 4, 1] ((List.range 12).map Int.ofNat)
           [2, 2, 3] ((List.range 12).map fun i => 2 * Int.ofNat i) [2, 2, 3]
            [4, 4] [2] ((List.range 24).map Int.ofNat) [2, 12, 1] ((List.range 72).map Int.ofNat)
                [2, 12, 3] ((List.range 24).map Int.ofNat) [2, 12]
            "sigmoid" "tanh" "tanh" (0 : Int) 0 false).getD 2 []) ∧
    direction_slice3 (lstm_sequence test_cells [1, 2, 3, 4, 5, 6, 7, 8] [2, 4, 1] ((List.range
        12).map Int.ofNat) [2, 2, 3] ((List.range 12).map fun i => 2 * Int.ofNat i) [2, 2, 3]
        [4, 4] [2] ((List.range 24).map Int.ofNat) [2, 12, 1] ((List.range 72).map Int.ofNat) [2,
            12, 3] ((List.range 24).map Int.ofNat) [2, 12] (List.replicate 48 0) (List.replicate 12
            0) (List.replicate 12 0)
        "sigmoid" "tanh" "tanh" (0 : Int) RecurrentSequenceDirection.BIDIRECTIONAL) 2 4 3 1 =
      ((lstm_branch test_cells [1, 2, 3, 4, 5, 6, 7, 8] [2, 4, 1] ((List.range 12).map Int.ofNat)
          [2, 2, 3] ((List.range 12).map fun i => 2 * Int.ofNat i) [2, 2, 3]
            [4, 4] [2] ((List.range 24).map Int.ofNat) [2, 12, 1] ((List.range 72).map Int.ofNat)
                [2, 12, 3] ((List.range 24).map Int.ofNat) [2, 12]
            "sigmoid" "tanh" "tanh" (0 : Int) 1 true).getD 0 [],
       (lstm_branch test_cells [1, 2, 3, 4, 5, 6, 7, 8] [2, 4, 1] ((List.range 12).map Int.ofNat)
           [2, 2, 3] ((List.range 12).map fun i => 2 * Int.ofNat i) [2, 2, 3]
            [4, 4] [2] ((List.range 24).map Int.ofNat) [2, 12, 1] ((List.range 72).map Int.ofNat)
                [2, 12, 3] ((List.range 24).map Int.ofNat) [2, 12]
            "sigmoid" "tanh" "tanh" (0 : Int) 1 true).getD 1 [],
       (lstm_branch test_cells [1, 2, 3, 4, 5, 6, 7, 8] [2, 4, 1] ((List.range 12).map Int.ofNat)
           [2, 2, 3] ((List.range 12).map fun i => 2 * Int.ofNat i) [2, 2, 3]
            [4, 4] [2] ((List.range 24).map Int.ofNat) [2, 12, 1] ((List.range 72).map Int.ofNat)
                [2, 12, 3] ((List.range 24).map Int.ofNat) [2, 12]
            "sigmoid" "tanh" "tanh" (0 : Int) 1 true).getD 2 [])) ∧
    ((gru_sequence test_cells [1, 2, 3, 4, 5, 6, 7, 8] [2, 4, 1] ((List.range 12).map Int.ofNat)
        [2, 2, 3]
        [4, 4] [2] ((List.range 24).map Int.ofNat) [2, 12, 1] ((List.range 72).map Int.ofNat) [2,
            12, 3] ((List.range 24).map Int.ofNat) [2, 12] (List.replicate 48 0) (List.replicate 12
            0)
        "sigmoid" "tanh" (0 : Int) RecurrentSequenceDirection.BIDIRECTIONAL
        true) =
      (concat
        [(single_state_branch test_cells CellType.GRU [1, 2, 3, 4, 5, 6, 7, 8] [2, 4, 1]
            ((List.range 12).map Int.ofNat) [2, 2, 3]
            [4, 4] [2] ((List.range 24).map Int.ofNat) [2, 12, 1] ((List.range 72).map Int.ofNat)
                [2, 12, 3] ((List.range 24).map Int.ofNat) [2, 12]
            ⟨"sigmoid", "tanh", "", (0 : Int), true⟩ 0 false).getD 0 [],
         (single_state_branch test_cells CellType.GRU [1, 2, 3, 4, 5, 6, 7, 8] [2, 4, 1]
             ((List.range 12).map Int.ofNat) [2, 2, 3]
            [4, 4] [2] ((List.range 24).map Int.ofNat) [2, 12, 1] ((List.range 72).map Int.ofNat)
                [2, 12, 3] ((List.range 24).map Int.ofNat) [2, 12]
            ⟨"sigmoid", "tanh", "", (0 : Int), true⟩ 1 true).getD 0 []]
        [[2, 1, 4, 3], [2, 1, 4, 3]] [2, 2, 4, 3] 1,
       concat
        [(single_state_branch test_cells CellType.GRU [1, 2, 3, 4, 5, 6, 7, 8] [2, 4, 1]
            ((List.range 12).map Int.ofNat) [2, 2, 3]
            [4, 4] [2] ((List.range 24).map Int.ofNat) [2, 12, 1] ((List.range 72).map Int.ofNat)
                [2, 12, 3] ((List.range 24).map Int.ofNat) [2, 12]
            ⟨"sigmoid", "tanh", "", (0 : Int), true⟩ 0 false).getD 1 [],
         (single_state_branch test_cells CellType.GRU [1, 2, 3, 4, 5, 6, 7, 8] [2, 4, 1]
             ((List.range 12).map Int.ofNat) [2, 2, 3]
            [4, 4] [2] ((List.range 24).map Int.ofNat) [2, 12, 1] ((List.range 72).map Int.ofNat)
                [2, 12, 3] ((List.range 24).map Int.ofNat) [2, 12]
            ⟨"sigmoid", "tanh", "", (0 : Int), true⟩ 1 true).getD 1 []]
        [[2, 1, 3], [2, 1, 3]] [2, 2, 3] 1) ∧
    (gru_sequence test_cells [1, 2, 3, 4, 5, 6, 7, 8] [2, 4, 1] ((List.range 12).map Int.ofNat) [2,
        2, 3]
        [4, 4] [2] ((List.range 24).map Int.ofNat) [2, 12, 1] ((List.range 72).map Int.ofNat) [2,
            12, 3] ((List.range 24).map Int.ofNat) [2, 12] (List.replicate 48 0) (List.replicate 12
            0)
        "sigmoid" "tanh" (0 : Int) RecurrentSequenceDirection.BIDIRECTIONAL
        true).1.length = shape_size [2, 2, 4, 3] ∧
    (gru_sequence test_cells [1, 2, 3, 4, 5, 6, 7, 8] [2, 4, 1] ((List.range 12).map Int.ofNat) [2,
        2, 3]
        [4, 4] [2] ((List.range 24).map Int.ofNat) [2, 12, 1] ((List.range 72).map Int.ofNat) [2,
            12, 3] ((List.range 24).map Int.ofNat) [2, 12] (List.replicate 48 0) (List.replicate 12
            0)
        "sigmoid" "tanh" (0 : Int) RecurrentSequenceDirection.BIDIRECTIONAL
        true).2.length = shape_size [2, 2, 3] ∧
    direction_slice2 (gru_sequence test_cells [1, 2, 3, 4, 5, 6, 7, 8] [2, 4, 1] ((List.range
        12).map Int.ofNat) [2, 2, 3]
        [4, 4] [2] ((List.range 24).map Int.ofNat) [2, 12, 1] ((List.range 72).map Int.ofNat) [2,
            12, 3] ((List.range 24).map Int.ofNat) [2, 12] (List.replicate 48 0) (List.replicate 12
            0)
        "sigmoid" "tanh" (0 : Int) RecurrentSequenceDirection.BIDIRECTIONAL
        true) 2 4 3 0 =
      ((single_state_branch test_cells CellType.GRU [1, 2, 3, 4, 5, 6, 7, 8] [2, 4, 1] ((List.range
          12).map Int.ofNat) [2, 2, 3]
            [4, 4] [2] ((List.range 24).map Int.ofNat) [2, 12, 1] ((List.range 72).map Int.ofNat)
                [2, 12, 3] ((List.range 24).map Int.ofNat) [2, 12]
            ⟨"sigmoid", "tanh", "", (0 : Int), true⟩ 0 false).getD 0 [],
       (single_state_branch test_cells CellType.GRU [1, 2, 3, 4, 5, 6, 7, 8] [2, 4, 1] ((List.range
           12).map Int.ofNat) [2, 2, 3]
            [4, 4] [2] ((List.range 24).map Int.ofNat) [2, 12, 1] ((List.range 72).map Int.ofNat)
                [2, 12, 3] ((List.range 24).map Int.ofNat) [2, 12]
            ⟨"sigmoid", "tanh", "", (0 : Int), true⟩ 0 false).getD 1 []) ∧
    direction_slice2 (gru_sequence test_cells [1, 2, 3, 4, 5, 6, 7, 8] [2, 4, 1] ((List.range
        12).map Int.ofNat) [2, 2, 3]
        [4, 4] [2] ((List.range 24).map Int.ofNat) [2, 12, 1] ((List.range 72).map Int.ofNat) [2,
            12, 3] ((List.range 24).map Int.ofNat) [2, 12] (List.replicate 48 0) (List.replicate 12
            0)
        "sigmoid" "tanh" (0 : Int) RecurrentSequenceDirection.BIDIRECTIONAL
        true) 2 4 3 1 =
      ((single_state_branch test_cells CellType.GRU [1, 2, 3, 4, 5, 6, 7, 8] [2, 4, 1] ((List.range
          12).map Int.ofNat) [2, 2, 3]
            [4, 4] [2] ((List.range 24).map Int.ofNat) [2, 12, 1] ((List.range 72).map Int.ofNat)
                [2, 12, 3] ((List.range 24).map Int.ofNat) [2, 12]
            ⟨"sigmoid", "tanh", "", (0 : Int), true⟩ 1 true).getD 0 [],
       (single_state_branch test_cells CellType.GRU [1, 2, 3, 4, 5, 6, 7, 8] [2, 4, 1] ((List.range
           12).map Int.ofNat) [2, 2, 3]
            [4, 4] [2] ((List.range 24).map Int.ofNat) [2, 12, 1] ((List.range 72).map Int.ofNat)
                [2, 12, 3] ((List.range 24).map Int.ofNat) [2, 12]
            ⟨"sigmoid", "tanh", "", (0 : Int), true⟩ 1 true).getD 1 [])) ∧
    ((rnn_sequence test_cells [1, 2, 3, 4, 5, 6, 7, 8] [2, 4, 1] ((List.range 12).map Int.ofNat)
        [2, 2, 3]
        [4, 4] [2] ((List.range 24).map Int.ofNat) [2, 12, 1] ((List.range 72).map Int.ofNat) [2,
            12, 3] ((List.range 24).map Int.ofNat) [2, 12] (List.replicate 48 0) (List.replicate 12
            0)
        "sigmoid" (0 : Int) RecurrentSequenceDirection.BIDIRECTIONAL) =
      (concat
        [(single_state_branch test_cells CellType.RNN [1, 2, 3, 4, 5, 6, 7, 8] [2, 4, 1]
            ((List.range 12).map Int.ofNat) [2, 2, 3]
            [4, 4] [2] ((List.range 24).map Int.ofNat) [2, 12, 1] ((List.range 72).map Int.ofNat)
                [2, 12, 3] ((List.range 24).map Int.ofNat) [2, 12]
            ⟨"sigmoid", "", "", (0 : Int), false⟩ 0 false).getD 0 [],
         (single_state_branch test_cells CellType.RNN [1, 2, 3, 4, 5, 6, 7, 8] [2, 4, 1]
             ((List.range 12).map Int.ofNat) [2, 2, 3]
            [4, 4] [2] ((List.range 24).map Int.ofNat) [2, 12, 1] ((List.range 72).map Int.ofNat)
                [2, 12, 3] ((List.range 24).map Int.ofNat) [2, 12]
            ⟨"sigmoid", "", "", (0 : Int), false⟩ 1 true).getD 0 []]
        [[2, 1, 4, 3], [2, 1, 4, 3]] [2, 2, 4, 3] 1,
       concat
        [(single_state_branch test_cells CellType.RNN [1, 2, 3, 4, 5, 6, 7, 8] [2, 4, 1]
            ((List.range 12).map Int.ofNat) [2, 2, 3]
            [4, 4] [2] ((List.range 24).map Int.ofNat) [2, 12, 1] ((List.range 72).map Int.ofNat)
                [2, 12, 3] ((List.range 24).map Int.ofNat) [2, 12]
            ⟨"sigmoid", "", "", (0 : Int), false⟩ 0 false).getD 1 [],
         (single_state_branch test_cells CellType.RNN [1, 2, 3, 4, 5, 6, 7, 8] [2, 4, 1]
             ((List.range 12).map Int.ofNat) [2, 2, 3]
            [4, 4] [2] ((List.range 24).map Int.ofNat) [2, 12, 1] ((List.range 72).map Int.ofNat)
                [2, 12, 3] ((List.range 24).map Int.ofNat) [2, 12]
            ⟨"sigmoid", "", "", (0 : Int), false⟩ 1 true).getD 1 []]
        [[2, 1, 3], [2, 1, 3]] [2, 2, 3] 1) ∧
    (rnn_sequence test_cells [1, 2, 3, 4, 5, 6, 7, 8] [2, 4, 1] ((List.range 12).map Int.ofNat) [2,
        2, 3]
        [4, 4] [2] ((List.range 24).map Int.ofNat) [2, 12, 1] ((List.range 72).map Int.ofNat) [2,
            12, 3] ((List.range 24).map Int.ofNat) [2, 12] (List.replicate 48 0) (List.replicate 12
            0)
        "sigmoid" (0 : Int) RecurrentSequenceDirection.BIDIRECTIONAL).1.length = shape_size [2, 2,
            4, 3] ∧
    (rnn_sequence test_cells [1, 2, 3, 4, 5, 6, 7, 8] [2, 4, 1] ((List.range 12).map Int.ofNat) [2,
        2, 3]
        [4, 4] [2] ((List.range 24).map Int.ofNat) [2, 12, 1] ((List.range 72).map Int.ofNat) [2,
            12, 3] ((List.range 24).map Int.ofNat) [2, 12] (List.replicate 48 0) (List.replicate 12
            0)
        "sigmoid" (0 : Int) RecurrentSequenceDirection.BIDIRECTIONAL).2.length = shape_size [2, 2,
            3] ∧
    direction_slice2 (rnn_sequence test_cells [1, 2, 3, 4, 5, 6, 7, 8] [2, 4, 1] ((List.range
        12).map Int.ofNat) [2, 2, 3]
        [4, 4] [2] ((List.range 24).map Int.ofNat) [2, 12, 1] ((List.range 72).map Int.ofNat) [2,
            12, 3] ((List.range 24).map Int.ofNat) [2, 12] (List.replicate 48 0) (List.replicate 12
            0)
        "sigmoid" (0 : Int) RecurrentSequenceDirection.BIDIRECTIONAL) 2 4 3 0 =
      ((single_state_branch test_cells CellType.RNN [1, 2, 3, 4, 5, 6, 7, 8] [2, 4, 1] ((List.range
          12).map Int.ofNat) [2, 2, 3]
            [4, 4] [2] ((List.range 24).map Int.ofNat) [2, 12, 1] ((List.range 72).map Int.ofNat)
                [2, 12, 3] ((List.range 24).map Int.ofNat) [2, 12]
            ⟨"sigmoid", "", "", (0 : Int), false⟩ 0 false).getD 0 [],
       (single_state_branch test_cells CellType.RNN [1, 2, 3, 4, 5, 6, 7, 8] [2, 4, 1] ((List.range
           12).map Int.ofNat) [2, 2, 3]
            [4, 4] [2] ((List.range 24).map Int.ofNat) [2, 12, 1] ((List.range 72).map Int.ofNat)
                [2, 12, 3] ((List.range 24).map Int.ofNat) [2, 12]
            ⟨"sigmoid", "", "", (0 : Int), false⟩ 0 false).getD 1 []) ∧
    direction_slice2 (rnn_sequence test_cells [1, 2, 3, 4, 5, 6, 7, 8] [2, 4, 1] ((List.range
        12).map Int.ofNat) [2, 2, 3]
        [4, 4] [2] ((List.range 24).map Int.ofNat) [2, 12, 1] ((List.range 72).map Int.ofNat) [2,
            12, 3] ((List.range 24).map Int.ofNat) [2, 12] (List.replicate 48 0) (List.replicate 12
            0)
        "sigmoid" (0 : Int) RecurrentSequenceDirection.BIDIRECTIONAL) 2 4 3 1 =
      ((single_state_branch test_cells CellType.RNN [1, 2, 3, 4, 5, 6, 7, 8] [2, 4, 1] ((List.range
          12).map Int.ofNat) [2, 2, 3]
            [4, 4] [2] ((List.range 24).map Int.ofNat) [2, 12, 1] ((List.range 72).map Int.ofNat)
                [2, 12, 3] ((List.range 24).map Int.ofNat) [2, 12]
            ⟨"sigmoid", "", "", (0 : Int), false⟩ 1 true).getD 0 [],
       (single_state_branch test_cells CellType.RNN [1, 2, 3, 4, 5, 6, 7, 8] [2, 4, 1] ((List.range
           12).map Int.ofNat) [2, 2, 3]
            [4, 4] [2] ((List.range 24).map Int.ofNat) [2, 12, 1] ((List.range 72).map Int.ofNat)
                [2, 12, 3] ((List.range 24).map Int.ofNat) [2, 12]
            ⟨"sigmoid", "", "", (0 : Int), false⟩ 1 true).getD 1 []))) :=
  ⟨⟨rfl, rfl, rfl⟩,
    bidirectional_output_layout test_cells [1, 2, 3, 4, 5, 6, 7, 8] ((List.range 12).map Int.ofNat)
        ((List.range 12).map fun i => 2 * Int.ofNat i) [4, 4] ((List.range 24).map Int.ofNat)
        ((List.range 72).map Int.ofNat) ((List.range 24).map Int.ofNat) [2] [2, 12, 1] [2, 12, 3]
        [2, 12] (List.replicate 48 0) (List.replicate 12 0) (List.replicate 12 0) "sigmoid" "tanh"
        "tanh" (0 : Int) true 2 4 1 3 rfl rfl rfl⟩

/-- Witness of C13: two bidirectional calls (batch 1, time 2, hidden 2) whose inputs agree on
the index-0 halves and differ on the index-1 halves; the index-0 output slices agree. -/
theorem bidirectional_no_cross_branch_interaction_witness :
    ((0 < 2) ∧
      ([1, 2, 3, 4].length = 1 * 2 * 2) ∧
      ([1, 2, 9, 9].length = 1 * 2 * 2) ∧
      ([0, 1, 0, 1].length = 1 * 2 * 2) ∧
      ([0, 1, 8, 8].length = 1 * 2 * 2) ∧
      ([1, 2, 3, 4].length = 2 * [2, 1].prod) ∧
      ([1, 2, 7, 7].length = 2 * [2, 1].prod) ∧
      ([1, 0, 0, 1, 1, 1, 1, 1].length = 2 * [2, 2].prod) ∧
      ([1, 0, 0, 1, 5, 5, 5, 5].length = 2 * [2, 2].prod) ∧
      ([1, 1, 2, 2].length = 2 * [2].prod) ∧
      ([1, 1, 6, 6].length = 2 * [2].prod) ∧
      ((List.replicate 8 0).length = 1 * 2 * 2 * 2) ∧
      ((List.replicate 4 0).length = 1 * 2 * 2) ∧
      ((List.replicate 4 0).length = 1 * 2 * 2) ∧
      (slice_axis [1, 2, 3, 4] [1, 2, 2] 1 0 (0 + 1) = slice_axis [1, 2, 9, 9] [1, 2, 2] 1 0 (0 +
          1)) ∧
      (slice_axis [0, 1, 0, 1] [1, 2, 2] 1 0 (0 + 1) = slice_axis [0, 1, 8, 8] [1, 2, 2] 1 0 (0 +
          1)) ∧
      (slice_axis [1, 2, 3, 4] (2 :: [2, 1]) 0 0 (0 + 1) = slice_axis [1, 2, 7, 7] (2 :: [2, 1]) 0
          0 (0 + 1)) ∧
      (slice_axis [1, 0, 0, 1, 1, 1, 1, 1] (2 :: [2, 2]) 0 0 (0 + 1) = slice_axis [1, 0, 0, 1, 5,
          5, 5, 5] (2 :: [2, 2]) 0 0 (0 + 1)) ∧
      (slice_axis [1, 1, 2, 2] (2 :: [2]) 0 0 (0 + 1) = slice_axis [1, 1, 6, 6] (2 :: [2]) 0 0 (0 +
          1))) ∧
    (direction_slice3
        (lstm_sequence test_cells [1, 2] [1, 2, 1] [1, 2, 3, 4] [1, 2, 2] [0, 1, 0, 1] [1, 2, 2]
          [2] [1] [1, 2, 3, 4] (2 :: [2, 1]) [1, 0, 0, 1, 1, 1, 1, 1] (2 :: [2, 2]) [1, 1, 2, 2] (2
              :: [2]) (List.replicate 8 0) (List.replicate 4 0) (List.replicate 4 0)
          "sigmoid" "tanh" "tanh" (0 : Int) RecurrentSequenceDirection.BIDIRECTIONAL)
        1 2 2 0 =
      direction_slice3
        (lstm_sequence test_cells [1, 2] [1, 2, 1] [1, 2, 9, 9] [1, 2, 2] [0, 1, 8, 8] [1, 2, 2]
          [2] [1] [1, 2, 7, 7] (2 :: [2, 1]) [1, 0, 0, 1, 5, 5, 5, 5] (2 :: [2, 2]) [1, 1, 6, 6] (2
              :: [2]) (List.replicate 8 0) (List.replicate 4 0) (List.replicate 4 0)
          "sigmoid" "tanh" "tanh" (0 : Int) RecurrentSequenceDirection.BIDIRECTIONAL)
        1 2 2 0 ∧
    direction_slice2
        (gru_sequence test_cells [1, 2] [1, 2, 1] [1, 2, 3, 4] [1, 2, 2]
          [2] [1] [1, 2, 3, 4] (2 :: [2, 1]) [1, 0, 0, 1, 1, 1, 1, 1] (2 :: [2, 2]) [1, 1, 2, 2] (2
              :: [2]) (List.replicate 8 0) (List.replicate 4 0)
          "sigmoid" "tanh" (0 : Int) RecurrentSequenceDirection.BIDIRECTIONAL
          false)
        1 2 2 0 =
      direction_slice2
        (gru_sequence test_cells [1, 2] [1, 2, 1] [1, 2, 9, 9] [1, 2, 2]
          [2] [1] [1, 2, 7, 7] (2 :: [2, 1]) [1, 0, 0, 1, 5, 5, 5, 5] (2 :: [2, 2]) [1, 1, 6, 6] (2
              :: [2]) (List.replicate 8 0) (List.replicate 4 0)
          "sigmoid" "tanh" (0 : Int) RecurrentSequenceDirection.BIDIRECTIONAL
          false)
        1 2 2 0 ∧
    direction_slice2
        (rnn_sequence test_cells [1, 2] [1, 2, 1] [1, 2, 3, 4] [1, 2, 2]
          [2] [1] [1, 2, 3, 4] (2 :: [2, 1]) [1, 0, 0, 1, 1, 1, 1, 1] (2 :: [2, 2]) [1, 1, 2, 2] (2
              :: [2]) (List.replicate 8 0) (List.replicate 4 0)
          "sigmoid" (0 : Int) RecurrentSequenceDirection.BIDIRECTIONAL)
        1 2 2 0 =
      direction_slice2
        (rnn_sequence test_cells [1, 2] [1, 2, 1] [1, 2, 9, 9] [1, 2, 2]
          [2] [1] [1, 2, 7, 7] (2 :: [2, 1]) [1, 0, 0, 1, 5, 5, 5, 5] (2 :: [2, 2]) [1, 1, 6, 6] (2
              :: [2]) (List.replicate 8 0) (List.replicate 4 0)
          "sigmoid" (0 : Int) RecurrentSequenceDirection.BIDIRECTIONAL)
        1 2 2 0) :=
  ⟨⟨by decide, rfl, rfl, rfl, rfl, rfl, rfl, rfl, rfl, rfl, rfl, rfl, rfl, rfl, by decide, by
      decide, by decide, by decide, by decide⟩,
    bidirectional_no_cross_branch_interaction test_cells [1, 2] [2] [1, 2, 3, 4] [0, 1, 0, 1] [1,
        2, 3, 4] [1, 0, 0, 1, 1, 1, 1, 1] [1, 1, 2, 2] [1, 2, 9, 9] [0, 1, 8, 8] [1, 2, 7, 7] [1,
        0, 0, 1, 5, 5, 5, 5] [1, 1, 6, 6] [1] [2, 1] [2, 2] [2] (List.replicate 8 0)
        (List.replicate 4 0) (List.replicate 4 0) "sigmoid" "tanh" "tanh" (0 : Int) false 1 2 1 2 0
        (by decide) rfl rfl rfl rfl rfl rfl rfl rfl rfl rfl rfl rfl rfl (by decide) (by decide) (by
        decide) (by decide) (by decide)⟩

/-- Witness of C14: the reverse LSTM pass over three time steps of the example inputs. -/
theorem cell_pass_step_input_order_witness :
    ((example_shapes.getD 0 [] = [2, 3, 2]) ∧
      (1 ≤ 3) ∧
      ((example_inputs.getD 0 []).length = 2 * 3 * 2) ∧
      (2 ≤ [List.replicate 12 9, [7, 7, 7, 7], [8, 8, 8, 8]].length)) ∧
    ((∀ t, t < 3 →
      (in_seqs example_inputs example_shapes true).getD t [] =
        slice_axis (example_inputs.getD 0 []) (example_shapes.getD 0 []) 1
          (if true then 3 - 1 - t else t) ((if true then 3 - 1 - t else t) + 1)) ∧
    (∀ t, t < 3 →
      (loop_state test_cells CellType.LSTM example_inputs example_shapes [List.replicate 12 9, [7,
          7, 7, 7], [8, 8, 8, 8]] example_args true (t + 1)).1 =
        cell_step test_cells CellType.LSTM example_inputs example_shapes example_args
          (slice_axis (example_inputs.getD 0 []) (example_shapes.getD 0 []) 1
            (if true then 3 - 1 - t else t) ((if true then 3 - 1 - t else t) + 1))
          (loop_state test_cells CellType.LSTM example_inputs example_shapes [List.replicate 12 9,
              [7, 7, 7, 7], [8, 8, 8, 8]] example_args true t).1) ∧
    (true = true →
      (loop_state test_cells CellType.LSTM example_inputs example_shapes [List.replicate 12 9, [7,
          7, 7, 7], [8, 8, 8, 8]] example_args true 1).1 =
        cell_step test_cells CellType.LSTM example_inputs example_shapes example_args
          (slice_axis (example_inputs.getD 0 []) (example_shapes.getD 0 []) 1 (3 - 1) 3)
          (init_state CellType.LSTM example_inputs example_shapes [List.replicate 12 9, [7, 7, 7,
              7], [8, 8, 8, 8]])) ∧
    (init_state CellType.LSTM example_inputs example_shapes [List.replicate 12 9, [7, 7, 7, 7], [8,
        8, 8, 8]]).getD 1 [] =
      memcpy ([List.replicate 12 9, [7, 7, 7, 7], [8, 8, 8, 8]].getD 1 []) (example_inputs.getD 2
          []) (shape_size (example_shapes.getD 2 [])) ∧
    (([List.replicate 12 9, [7, 7, 7, 7], [8, 8, 8, 8]].getD 1 []).length = shape_size
        (example_shapes.getD 2 []) →
      (example_inputs.getD 2 []).length = shape_size (example_shapes.getD 2 []) →
      (init_state CellType.LSTM example_inputs example_shapes [List.replicate 12 9, [7, 7, 7, 7],
          [8, 8, 8, 8]]).getD 1 [] = example_inputs.getD 2 []) ∧
    (∀ i, (cell_pass test_cells CellType.LSTM example_inputs example_shapes [List.replicate 12 9,
        [7, 7, 7, 7], [8, 8, 8, 8]] example_args true).getD (i + 1) [] =
      (loop_state test_cells CellType.LSTM example_inputs example_shapes [List.replicate 12 9, [7,
          7, 7, 7], [8, 8, 8, 8]] example_args true 3).1.getD (i + 1) []) ∧
    (∀ (X H seq_lengths W R B : List Int)
      (H_shape seq_lengths_shape W_shape R_shape B_shape : Shape) (Y Ho : List Int)
      (activation_f activation_g : String) (clip : Int) (linear_before_reset : Bool),
      gru_sequence test_cells X [2, 3, 2] H H_shape seq_lengths seq_lengths_shape
          W W_shape R R_shape B B_shape Y Ho activation_f activation_g clip
          RecurrentSequenceDirection.REVERSE linear_before_reset =
        ((cell_pass test_cells CellType.GRU [X, seq_lengths, H, W, R, B]
            [[2, 3, 2], seq_lengths_shape, H_shape, W_shape, R_shape, B_shape]
            [Y, Ho] ⟨activation_f, activation_g, "", clip, linear_before_reset⟩
            true).getD 0 [],
         (loop_state test_cells CellType.GRU [X, seq_lengths, H, W, R, B]
            [[2, 3, 2], seq_lengths_shape, H_shape, W_shape, R_shape, B_shape]
            [Y, Ho] ⟨activation_f, activation_g, "", clip, linear_before_reset⟩
            true 3).1.getD 1 []))) :=
  ⟨⟨rfl, by decide, rfl, by decide⟩,
    cell_pass_step_input_order test_cells CellType.LSTM example_inputs example_shapes
        [List.replicate 12 9, [7, 7, 7, 7], [8, 8, 8, 8]] example_args true 2 3 2 rfl (by decide)
        rfl (by decide)⟩

/-- Witness of C15: the reverse LSTM pass over three time steps; the final hidden state is
the slice of the output sequence at time index 0. -/
theorem final_state_in_output_sequence_witness :
    ((example_shapes.getD 0 [] = [2, 3, 2]) ∧
      (example_shapes.getD 2 [] = [2, 1, 2]) ∧
      (1 ≤ 3) ∧
      ((example_inputs.getD 0 []).length = 2 * 3 * 2) ∧
      ((List.replicate 12 9).length = 2 * 3 * 2) ∧
      ([7, 7, 7, 7].length = 2 * 2) ∧
      (CellType.LSTM = CellType.LSTM → [[8, 8, 8, 8]] ≠ [])) ∧
    ((cell_pass test_cells CellType.LSTM example_inputs example_shapes ((List.replicate 12 9) ::
        [7, 7, 7, 7] :: [[8, 8, 8, 8]]) example_args true).getD 1 [] =
      slice_axis ((cell_pass test_cells CellType.LSTM example_inputs example_shapes
          ((List.replicate 12 9) :: [7, 7, 7, 7] :: [[8, 8, 8, 8]]) example_args true).getD 0 [])
        [2, 3, 2] 1 (if true then 0 else 3 - 1)
        ((if true then 0 else 3 - 1) + 1)) :=
  ⟨⟨rfl, rfl, by decide, rfl, rfl, rfl, fun _ => by decide⟩,
    final_state_in_output_sequence test_cells CellType.LSTM example_inputs example_shapes
        (List.replicate 12 9) [7, 7, 7, 7] [[8, 8, 8, 8]] example_args true 2 3 2 2 rfl rfl (by
        decide) rfl rfl rfl (fun _ => by decide)⟩

/-- Witness of C16: the forward LSTM pass over three time steps of the example inputs. -/
theorem lstm_two_state_threading_witness :
    ((example_shapes.getD 0 [] = [2, 3, 2]) ∧
      (example_shapes.getD 2 [] = [2, 1, 2]) ∧
      ((example_inputs.getD 0 []).length = 2 * 3 * 2) ∧
      ((List.replicate 12 9).length = 2 * 3 * 2) ∧
      ([7, 7, 7, 7].length = 2 * 2)) ∧
    ((∀ m, m ≤ 3 →
      ((loop_state test_cells CellType.LSTM example_inputs example_shapes ((List.replicate 12 9) ::
          [7, 7, 7, 7] :: [8, 8, 8, 8] :: ([] : List (List Int))) example_args false
          m).1.getD 1 [],
        (loop_state test_cells CellType.LSTM example_inputs example_shapes ((List.replicate 12 9)
            :: [7, 7, 7, 7] :: [8, 8, 8, 8] :: ([] : List (List Int))) example_args false
          m).1.getD 2 []) =
        state_after test_cells CellType.LSTM example_inputs example_shapes example_args false
            ((List.replicate 12 9) :: [7, 7, 7, 7] :: [8, 8, 8, 8] :: ([] : List (List Int))) m) ∧
    state_after test_cells CellType.LSTM example_inputs example_shapes example_args false
        ((List.replicate 12 9) :: [7, 7, 7, 7] :: [8, 8, 8, 8] :: ([] : List (List Int))) 0 =
      (memcpy [7, 7, 7, 7] (example_inputs.getD 2 []) (shape_size (example_shapes.getD 2 [])),
       memcpy [8, 8, 8, 8] (example_inputs.getD 3 []) (shape_size (example_shapes.getD 3 []))) ∧
    ([8, 8, 8, 8].length = shape_size (example_shapes.getD 3 []) →
      (example_inputs.getD 3 []).length = shape_size (example_shapes.getD 3 []) →
      (state_after test_cells CellType.LSTM example_inputs example_shapes example_args false
          ((List.replicate 12 9) :: [7, 7, 7, 7] :: [8, 8, 8, 8] :: ([] : List (List Int)))
        0).2 = example_inputs.getD 3 []) ∧
    (∀ m, m < 3 →
      state_after test_cells CellType.LSTM example_inputs example_shapes example_args false
          ((List.replicate 12 9) :: [7, 7, 7, 7] :: [8, 8, 8, 8] :: ([] : List (List Int)))
          (m + 1) =
        (store
          (state_after test_cells CellType.LSTM example_inputs example_shapes example_args false
              ((List.replicate 12 9) :: [7, 7, 7, 7] :: [8, 8, 8, 8] :: ([] : List (List Int)))
            m).1
          (test_cells.lstm_cell
            ((ordered_slices (example_inputs.getD 0 []) (example_shapes.getD 0 []) false).getD m [])
            (squeeze_axis (example_shapes.getD 0 []) 1)
            (state_after test_cells CellType.LSTM example_inputs example_shapes example_args false
              ((List.replicate 12 9) :: [7, 7, 7, 7] :: [8, 8, 8, 8] :: ([] : List (List Int))) m).1
            (squeeze_axis (example_shapes.getD 2 []) 1)
            (state_after test_cells CellType.LSTM example_inputs example_shapes example_args false
              ((List.replicate 12 9) :: [7, 7, 7, 7] :: [8, 8, 8, 8] :: ([] : List (List Int))) m).2
            (squeeze_axis (example_shapes.getD 3 []) 1)
            (example_inputs.getD 4 []) (squeeze_axis (example_shapes.getD 4 []) 0)
            (example_inputs.getD 5 []) (squeeze_axis (example_shapes.getD 5 []) 0)
            (example_inputs.getD 6 []) (squeeze_axis (example_shapes.getD 6 []) 0)
            example_args.activation_f example_args.activation_g example_args.activation_h
                example_args.clip).1,
         store
          (state_after test_cells CellType.LSTM example_inputs example_shapes example_args false
              ((List.replicate 12 9) :: [7, 7, 7, 7] :: [8, 8, 8, 8] :: ([] : List (List Int)))
            m).2
          (test_cells.lstm_cell
            ((ordered_slices (example_inputs.getD 0 []) (example_shapes.getD 0 []) false).getD m [])
            (squeeze_axis (example_shapes.getD 0 []) 1)
            (state_after test_cells CellType.LSTM example_inputs example_shapes example_args false
              ((List.replicate 12 9) :: [7, 7, 7, 7] :: [8, 8, 8, 8] :: ([] : List (List Int))) m).1
            (squeeze_axis (example_shapes.getD 2 []) 1)
            (state_after test_cells CellType.LSTM example_inputs example_shapes example_args false
              ((List.replicate 12 9) :: [7, 7, 7, 7] :: [8, 8, 8, 8] :: ([] : List (List Int))) m).2
            (squeeze_axis (example_shapes.getD 3 []) 1)
            (example_inputs.getD 4 []) (squeeze_axis (example_shapes.getD 4 []) 0)
            (example_inputs.getD 5 []) (squeeze_axis (example_shapes.getD 5 []) 0)
            (example_inputs.getD 6 []) (squeeze_axis (example_shapes.getD 6 []) 0)
            example_args.activation_f example_args.activation_g example_args.activation_h
                example_args.clip).2)) ∧
    ((cell_pass test_cells CellType.LSTM example_inputs example_shapes ((List.replicate 12 9) ::
        [7, 7, 7, 7] :: [8, 8, 8, 8] :: ([] : List (List Int))) example_args
          false).getD 1 [],
      (cell_pass test_cells CellType.LSTM example_inputs example_shapes ((List.replicate 12 9) ::
          [7, 7, 7, 7] :: [8, 8, 8, 8] :: ([] : List (List Int))) example_args
          false).getD 2 []) =
      state_after test_cells CellType.LSTM example_inputs example_shapes example_args false
          ((List.replicate 12 9) :: [7, 7, 7, 7] :: [8, 8, 8, 8] :: ([] : List (List Int))) 3 ∧
    (∀ k, k < 3 →
      slice_axis
          ((cell_pass test_cells CellType.LSTM example_inputs example_shapes ((List.replicate 12 9)
              :: [7, 7, 7, 7] :: [8, 8, 8, 8] :: ([] : List (List Int))) example_args
            false).getD 0 [])
          [2, 3, 2] 1 k (k + 1) =
        (state_after test_cells CellType.LSTM example_inputs example_shapes example_args false
            ((List.replicate 12 9) :: [7, 7, 7, 7] :: [8, 8, 8, 8] :: ([] : List (List Int)))
          ((if false then 3 - 1 - k else k) + 1)).1) ∧
    (∀ type, type ≠ CellType.LSTM →
      cell_pass test_cells type example_inputs example_shapes ((List.replicate 12 9) :: [7, 7, 7,
          7] :: [8, 8, 8, 8] :: ([] : List (List Int))) example_args false =
        cell_pass test_cells type example_inputs example_shapes [(List.replicate 12 9), [7, 7, 7,
            7]] example_args false ++ [8, 8, 8, 8] :: ([] : List (List Int)))) :=
  ⟨⟨rfl, rfl, rfl, rfl, rfl⟩,
    lstm_two_state_threading test_cells example_inputs example_shapes (List.replicate 12 9) [7, 7,
        7, 7] [8, 8, 8, 8] ([] : List (List Int)) example_args false 2 3 2 2 rfl rfl rfl rfl rfl⟩

/-- Witness of C18: `test_cells` against evaluators that agree with it on the parameters
`"sigmoid"`, `"tanh"`, `"tanh"`, clip 0, `linear_before_reset = true` only and return no
elements otherwise, as the last component shows for the activation `"relu"`. -/
theorem cell_parameters_forwarded_witness :
    ((∀ (x : List Int) (xs : Shape) (h : List Int) (hs : Shape) (c : List Int) (cs : Shape) (w :
        List Int) (ws : Shape) (r : List Int) (rs : Shape) (b : List Int) (bs : Shape),
        test_cells.lstm_cell x xs h hs c cs w ws r rs b bs "sigmoid" "tanh" "tanh" (0 : Int) =
        (test_cells_at "sigmoid" "tanh" "tanh" 0 true).lstm_cell x xs h hs c cs w ws r rs b bs
        "sigmoid" "tanh" "tanh" (0 : Int)) ∧
      (∀ (x : List Int) (xs : Shape) (h : List Int) (hs : Shape) (w : List Int) (ws : Shape) (r :
          List Int) (rs : Shape) (b : List Int) (bs : Shape), test_cells.gru_cell x xs h hs w ws r
          rs b bs "sigmoid" "tanh" (0 : Int) true = (test_cells_at "sigmoid" "tanh" "tanh" 0
          true).gru_cell x xs h hs w ws r rs b bs "sigmoid" "tanh" (0 : Int) true) ∧
      (∀ (x : List Int) (xs : Shape) (h : List Int) (hs : Shape) (w : List Int) (ws : Shape) (r :
          List Int) (rs : Shape) (b : List Int) (bs : Shape), test_cells.rnn_cell x xs h hs w ws r
          rs b bs "sigmoid" (0 : Int) = (test_cells_at "sigmoid" "tanh" "tanh" 0 true).rnn_cell x
          xs h hs w ws r rs b bs "sigmoid" (0 : Int))) ∧
    (lstm_sequence test_cells [1, 2, 3, 4, 5, 6, 7, 8] [2, 4, 1] ((List.range 12).map Int.ofNat)
        [2, 2, 3] ((List.range 12).map fun i => 2 * Int.ofNat i) [2, 2, 3] [4, 4] [2]
        ((List.range 24).map Int.ofNat) [2, 12, 1] ((List.range 72).map Int.ofNat) [2, 12, 3]
            ((List.range 24).map Int.ofNat) [2, 12] (List.replicate 48 0) (List.replicate 12 0)
            (List.replicate 12 0) "sigmoid" "tanh" "tanh" (0 : Int)
        RecurrentSequenceDirection.BIDIRECTIONAL =
      lstm_sequence (test_cells_at "sigmoid" "tanh" "tanh" 0 true) [1, 2, 3, 4, 5, 6, 7, 8] [2, 4,
          1] ((List.range 12).map Int.ofNat) [2, 2, 3] ((List.range 12).map fun i => 2 * Int.ofNat
          i) [2, 2, 3] [4, 4] [2]
        ((List.range 24).map Int.ofNat) [2, 12, 1] ((List.range 72).map Int.ofNat) [2, 12, 3]
            ((List.range 24).map Int.ofNat) [2, 12] (List.replicate 48 0) (List.replicate 12 0)
            (List.replicate 12 0) "sigmoid" "tanh" "tanh" (0 : Int)
        RecurrentSequenceDirection.BIDIRECTIONAL ∧
    gru_sequence test_cells [1, 2, 3, 4, 5, 6, 7, 8] [2, 4, 1] ((List.range 12).map Int.ofNat) [2,
        2, 3] [4, 4] [2]
        ((List.range 24).map Int.ofNat) [2, 12, 1] ((List.range 72).map Int.ofNat) [2, 12, 3]
            ((List.range 24).map Int.ofNat) [2, 12] (List.replicate 48 0) (List.replicate 12 0)
            "sigmoid" "tanh" (0 : Int) RecurrentSequenceDirection.BIDIRECTIONAL
        true =
      gru_sequence (test_cells_at "sigmoid" "tanh" "tanh" 0 true) [1, 2, 3, 4, 5, 6, 7, 8] [2, 4,
          1] ((List.range 12).map Int.ofNat) [2, 2, 3] [4, 4] [2]
        ((List.range 24).map Int.ofNat) [2, 12, 1] ((List.range 72).map Int.ofNat) [2, 12, 3]
            ((List.range 24).map Int.ofNat) [2, 12] (List.replicate 48 0) (List.replicate 12 0)
            "sigmoid" "tanh" (0 : Int) RecurrentSequenceDirection.BIDIRECTIONAL
        true ∧
    rnn_sequence test_cells [1, 2, 3, 4, 5, 6, 7, 8] [2, 4, 1] ((List.range 12).map Int.ofNat) [2,
        2, 3] [4, 4] [2]
        ((List.range 24).map Int.ofNat) [2, 12, 1] ((List.range 72).map Int.ofNat) [2, 12, 3]
            ((List.range 24).map Int.ofNat) [2, 12] (List.replicate 48 0) (List.replicate 12 0)
            "sigmoid" (0 : Int) RecurrentSequenceDirection.BIDIRECTIONAL =
      rnn_sequence (test_cells_at "sigmoid" "tanh" "tanh" 0 true) [1, 2, 3, 4, 5, 6, 7, 8] [2, 4,
          1] ((List.range 12).map Int.ofNat) [2, 2, 3] [4, 4] [2]
        ((List.range 24).map Int.ofNat) [2, 12, 1] ((List.range 72).map Int.ofNat) [2, 12, 3]
            ((List.range 24).map Int.ofNat) [2, 12] (List.replicate 48 0) (List.replicate 12 0)
            "sigmoid" (0 : Int) RecurrentSequenceDirection.BIDIRECTIONAL) ∧
    (test_cells.rnn_cell [1] [1, 1] [0] [1, 1] [1] [1, 1] [1] [1, 1] [0] [1] "relu" 0 ≠
      (test_cells_at "sigmoid" "tanh" "tanh" 0 true).rnn_cell [1] [1, 1] [0] [1, 1] [1] [1, 1]
        [1] [1, 1] [0] [1] "relu" 0) :=
  ⟨⟨fun _ _ _ _ _ _ _ _ _ _ _ _ => by simp [test_cells_at], fun _ _ _ _ _ _ _ _ _ _ => by simp
      [test_cells_at], fun _ _ _ _ _ _ _ _ _ _ => by simp [test_cells_at]⟩,
    cell_parameters_forwarded test_cells (test_cells_at "sigmoid" "tanh" "tanh" 0 true) [1, 2, 3,
        4, 5, 6, 7, 8] [2, 4, 1] ((List.range 12).map Int.ofNat) [2, 2, 3] ((List.range 12).map fun
        i => 2 * Int.ofNat i) [2, 2, 3] [4, 4] [2] ((List.range 24).map Int.ofNat) [2, 12, 1]
        ((List.range 72).map Int.ofNat) [2, 12, 3] ((List.range 24).map Int.ofNat) [2, 12]
        (List.replicate 48 0) (List.replicate 12 0) (List.replicate 12 0) "sigmoid" "tanh" "tanh"
        (0 : Int) true RecurrentSequenceDirection.BIDIRECTIONAL (fun _ _ _ _ _ _ _ _ _ _ _ _ => by
        simp [test_cells_at]) (fun _ _ _ _ _ _ _ _ _ _ => by simp [test_cells_at]) (fun _ _ _ _ _ _
        _ _ _ _ => by simp [test_cells_at]),
    by decide⟩

/-- Witness of C20: the reverse LSTM pass over three time steps of the example inputs. -/
theorem cell_pass_safety_witness :
    ((example_inputs.length = if CellType.LSTM = CellType.LSTM then 7 else 6) ∧
      (example_shapes.length = if CellType.LSTM = CellType.LSTM then 7 else 6) ∧
      ([List.replicate 12 9, [7, 7, 7, 7], [8, 8, 8, 8]].length = if CellType.LSTM = CellType.LSTM
          then 3 else 2) ∧
      (example_shapes.getD 0 [] = [2, 3, 2]) ∧
      (1 ≤ 3) ∧
      ((example_shapes.getD 2 []).length = 3) ∧
      (CellType.LSTM = CellType.LSTM → (example_shapes.getD 3 []).length = 3) ∧
      (∀ s ∈ example_shapes.drop (if CellType.LSTM = CellType.LSTM then 4 else 3), 1 ≤ s.length)) ∧
    (cell_pass_checked test_cells CellType.LSTM example_inputs example_shapes [List.replicate 12 9,
        [7, 7, 7, 7], [8, 8, 8, 8]] example_args true =
      some (cell_pass test_cells CellType.LSTM example_inputs example_shapes [List.replicate 12 9,
          [7, 7, 7, 7], [8, 8, 8, 8]] example_args true) ∧
    squeeze_axis_checked (example_shapes.getD 0 []) 1 = some (squeeze_axis (example_shapes.getD 0
        []) 1) ∧
    squeeze_axis_checked (example_shapes.getD 2 []) 1 = some (squeeze_axis (example_shapes.getD 2
        []) 1) ∧
    (CellType.LSTM = CellType.LSTM →
      squeeze_axis_checked (example_shapes.getD 3 []) 1 = some (squeeze_axis (example_shapes.getD 3
          []) 1)) ∧
    (∀ s ∈ example_shapes.drop (if CellType.LSTM = CellType.LSTM then 4 else 3),
      squeeze_axis_checked s 0 = some (squeeze_axis s 0)) ∧
    assign_pointers_checked true 3 3 =
      some ((List.range 3).map fun k => some (dir_index true 3 k)) ∧
    (∀ k, k < 3 → dir_index true 3 k < 3) ∧
    (∀ k, k < 3 → ∃! i, i < 3 ∧ dir_index true 3 i = k) ∧
    (example_shapes.getD 0 []).getD 1 0 ≠ 0 ∧
    shape_size (example_shapes.getD 0 []) % (example_shapes.getD 0 []).getD 1 0 = 0 ∧
    (∀ shapes0 : List Shape, (shapes0.getD 0 []).getD 1 0 = 0 →
      cell_pass_checked test_cells CellType.LSTM example_inputs shapes0 [List.replicate 12 9, [7,
          7, 7, 7], [8, 8, 8, 8]] example_args true = none)) :=
  ⟨⟨rfl, rfl, rfl, rfl, by decide, rfl, fun _ => rfl, by decide⟩,
    cell_pass_safety test_cells CellType.LSTM example_inputs example_shapes [List.replicate 12 9,
        [7, 7, 7, 7], [8, 8, 8, 8]] example_args true 2 3 2 rfl rfl rfl rfl (by decide) rfl (fun _
        => rfl) (by decide)⟩

theorem foldl_range_inv {σ : Type} (f : σ → Nat → σ) (Inv : Nat → σ → Prop) (init : σ)
    (n : Nat) (h0 : Inv 0 init) (hstep : ∀ i s, i < n → Inv i s → Inv (i + 1) (f s i)) :
    Inv n ((List.range n).foldl f init) := by
  induction n with
  | zero => exact h0
  | succ n ih =>
    rw [List.range_succ, List.foldl_append]
    exact hstep n _ (by omega) (ih (fun i s hi hs => hstep i s (by omega) hs))

theorem set_take_append_replicate (l : List Nat) (j v : Nat) (hj : j < l.length)
    (hv : l[j]? = some v) :
    (l.take j ++ List.replicate (l.length - j) 0).set j v =
      l.take (j + 1) ++ List.replicate (l.length - (j + 1)) 0 := by
  rw [List.set_append, if_neg (by simp), List.length_take, Nat.min_eq_left (by omega),
    Nat.sub_self, show l.length - j = (l.length - (j + 1)) + 1 by omega, List.replicate_succ,
    List.set_cons_zero, List.take_succ, hv]
  simp

theorem squeeze_axis_eq_eraseIdx (shape : Shape) (axis : Nat) (h : axis < shape.length) :
    squeeze_axis shape axis = shape.eraseIdx axis := by
  have hE : (shape.eraseIdx axis).length = shape.length - 1 := by
    rw [List.length_eraseIdx, if_pos h]
  have := foldl_range_inv
    (fun (st : Shape × Nat) i =>
      if i ≠ axis then (st.1.set st.2 (shape.getD i 0), st.2 + 1) else st)
    (fun i st => st.2 = (if i ≤ axis then i else i - 1) ∧
      st.1 = (shape.eraseIdx axis).take st.2 ++
        List.replicate ((shape.eraseIdx axis).length - st.2) 0)
    (List.replicate (shape.length - 1) 0, 0) shape.length
    (by simp [hE])
    (by
      intro i s hi hinv
      obtain ⟨hj, hs⟩ := hinv
      by_cases hia : i = axis
      · subst hia
        simp only [ne_eq, not_true_eq_false, ↓reduceIte]
        refine ⟨?_, hs⟩
        rw [hj]
        simp
      · simp only [ne_eq, hia, not_false_eq_true, ↓reduceIte]
        have hjlt : s.2 < (shape.eraseIdx axis).length := by
          rw [hE, hj]; split <;> omega
        have hv : (shape.eraseIdx axis)[s.2]? = some (shape.getD i 0) := by
          rw [List.getD_eq_getElem?_getD, List.getElem?_eq_getElem hi, Option.getD_some,
            ← List.getElem?_eq_getElem hi, hj]
          by_cases hlt : i < axis
          · rw [if_pos (by omega), List.getElem?_eraseIdx_of_lt _ _ _ hlt]
          · rw [if_neg (by omega), List.getElem?_eraseIdx_of_ge _ _ _ (by omega),
              show i - 1 + 1 = i by omega]
        refine ⟨?_, ?_⟩
        · rw [hj]; split <;> split <;> omega
        · nth_rewrite 1 [hs]
          exact set_take_append_replicate _ _ _ hjlt hv)
  obtain ⟨hj, hs⟩ := this
  unfold squeeze_axis
  rw [hs, hj, if_neg (by omega), hE, Nat.sub_self, List.replicate_zero, List.append_nil]
  exact List.take_of_length_le (by omega)

/-- C23: `squeeze_axis` removes exactly one dimension. For every shape and every axis below
its rank `n` (so `n ≥ 1`), `squeeze_axis shape axis` has rank `n - 1` and is the shape with
the element at index `axis` deleted: the dimensions before `axis` keep their index, those
after it move down by one. Consequently a cell evaluation of `cell_pass` on `X` of shape
`[batch, T, input]`, state shapes `[batch, d, hidden]` and `W`, `R`, `B` shapes with a
leading direction dimension is given the step shape `[batch, input]`, the state shape
`[batch, hidden]` and the `W`, `R`, `B` shapes without their leading dimension. -/
theorem squeeze_axis_removes_one_dimension (shape : Shape) (axis : Nat)
    (h : axis < shape.length) :
    (squeeze_axis shape axis).length = shape.length - 1 ∧
    squeeze_axis shape axis = shape.eraseIdx axis ∧
    (∀ j, j < axis → (squeeze_axis shape axis).getD j 0 = shape.getD j 0) ∧
    (∀ j, axis ≤ j → (squeeze_axis shape axis).getD j 0 = shape.getD (j + 1) 0) ∧
    (∀ (batch T input d e hidden dw dr db : Nat) (ws rs bs seq_lengths_shape : Shape),
      squeeze_axis [batch, T, input] 1 = [batch, input] ∧
      squeeze_axis [batch, d, hidden] 1 = [batch, hidden] ∧
      squeeze_axis (dw :: ws) 0 = ws ∧
      (∀ (ev : CellEvaluators α κ) (inputs : List (List α)) (args : CellArgs κ) (x : List α)
          (o : List (List α)),
        cell_step ev CellType.LSTM inputs
            [[batch, T, input], seq_lengths_shape, [batch, d, hidden], [batch, e, hidden],
              dw :: ws, dr :: rs, db :: bs] args x o =
          (o.set 1 (store (o.getD 1 [])
            (ev.lstm_cell x [batch, input] (o.getD 1 []) [batch, hidden] (o.getD 2 [])
              [batch, hidden] (inputs.getD 4 []) ws (inputs.getD 5 []) rs (inputs.getD 6 []) bs
              args.activation_f args.activation_g args.activation_h args.clip).1)).set 2
            (store (o.getD 2 [])
              (ev.lstm_cell x [batch, input] (o.getD 1 []) [batch, hidden] (o.getD 2 [])
                [batch, hidden] (inputs.getD 4 []) ws (inputs.getD 5 []) rs (inputs.getD 6 [])
                bs args.activation_f args.activation_g args.activation_h args.clip).2) ∧
        cell_step ev CellType.GRU inputs
            [[batch, T, input], seq_lengths_shape, [batch, d, hidden], dw :: ws, dr :: rs,
              db :: bs] args x o =
          o.set 1 (store (o.getD 1 [])
            (ev.gru_cell x [batch, input] (o.getD 1 []) [batch, hidden] (inputs.getD 3 []) ws
              (inputs.getD 4 []) rs (inputs.getD 5 []) bs
              args.activation_f args.activation_g args.clip args.linear_before_reset)) ∧
        cell_step ev CellType.RNN inputs
            [[batch, T, input], seq_lengths_shape, [batch, d, hidden], dw :: ws, dr :: rs,
              db :: bs] args x o =
          o.set 1 (store (o.getD 1 [])
            (ev.rnn_cell x [batch, input] (o.getD 1 []) [batch, hidden] (inputs.getD 3 []) ws
              (inputs.getD 4 []) rs (inputs.getD 5 []) bs args.activation_f args.clip)))) := by
  have hsq := squeeze_axis_eq_eraseIdx shape axis h
  refine ⟨?_, hsq, ?_, ?_, ?_⟩
  · rw [hsq, List.length_eraseIdx, if_pos h]
  · intro j hj
    rw [hsq, List.getD_eq_getElem?_getD, List.getD_eq_getElem?_getD,
      List.getElem?_eraseIdx_of_lt _ _ _ hj]
  · intro j hj
    rw [hsq, List.getD_eq_getElem?_getD, List.getD_eq_getElem?_getD,
      List.getElem?_eraseIdx_of_ge _ _ _ hj]
  · intro batch T input d e hidden dw dr db ws rs bs seq_lengths_shape
    have h1 : squeeze_axis [batch, T, input] 1 = [batch, input] :=
      squeeze_axis_eq_eraseIdx _ _ (by simp)
    have h2 : ∀ d, squeeze_axis [batch, d, hidden] 1 = [batch, hidden] :=
      fun d => squeeze_axis_eq_eraseIdx _ _ (by simp)
    have h3 : ∀ (dw : Nat) (ws : Shape), squeeze_axis (dw :: ws) 0 = ws :=
      fun dw ws => squeeze_axis_eq_eraseIdx _ _ (by simp)
    refine ⟨h1, h2 d, h3 dw ws, ?_⟩
    intro ev inputs args x o
    refine ⟨?_, ?_, ?_⟩
    · simp only [cell_step, List.getD_cons_zero, List.getD_cons_succ, getD_two_set_one, h1,
        h2, h3]
    · simp only [cell_step, List.getD_cons_zero, List.getD_cons_succ, h1, h2, h3]
    · simp only [cell_step, List.getD_cons_zero, List.getD_cons_succ, h1, h2, h3]

theorem loop_state_snd [Zero α] (ev : CellEvaluators α κ) (type : CellType)
    (inputs : List (List α)) (shapes : List Shape) (outputs : List (List α))
    (args : CellArgs κ) (r : Bool) :
    (loop_state ev type inputs shapes outputs args r ((shapes.getD 0 []).getD 1 0)).2 =
      (List.range ((shapes.getD 0 []).getD 1 0)).map
        (captured ev type inputs shapes args r outputs) := by
  unfold loop_state time_loop
  rw [in_seqs_eq]
  have hbody : ∀ (st : List (List α) × List (List α)) (t : Nat),
      t ∈ List.range ((shapes.getD 0 []).getD 1 0) →
      (fun (st : List (List α) × List (List α)) time_step =>
        let outputs := cell_step ev type inputs shapes args
          (((List.range ((shapes.getD 0 []).getD 1 0)).map
            (step_input inputs shapes r)).getD time_step []) st.1
        (outputs, st.2.set time_step (memcpy (st.2.getD time_step []) (outputs.getD 1 [])
          (shape_size [(shapes.getD 0 []).getD 0 0, 1, (shapes.getD 2 []).getD 2 0])))) st t =
      (fun (st : List (List α) × List (List α)) t =>
        ((fun t o => cell_step ev type inputs shapes args (step_input inputs shapes r t) o) t st.1,
          st.2.set t (memcpy (st.2.getD t [])
            (((fun t o => cell_step ev type inputs shapes args (step_input inputs shapes r t) o)
              t st.1).getD 1 [])
            (shape_size [(shapes.getD 0 []).getD 0 0, 1, (shapes.getD 2 []).getD 2 0])))) st t := by
    intro st t ht
    have ht' : t < (shapes.getD 0 []).getD 1 0 := by simpa using ht
    simp only [getD_map_range _ _ _ _ ht']
  rw [List.foldl_ext _ _ _ hbody, capture_loop _ _ _ _ _ (by simp)]
  simp only [List.drop_replicate, Nat.sub_self, List.replicate_zero, List.append_nil]
  apply List.map_congr_left
  intro t ht
  have ht' : t < (shapes.getD 0 []).getD 1 0 := by simpa using ht
  rw [getD_replicate_lt _ _ _ _ ht']
  rfl

theorem getD_map_deref (hl : List (List α)) (r : Bool) (n k : Nat) (hk : k < n) :
    (((List.range n).map fun k => some (dir_index r n k)).map (deref hl)).getD k [] =
      hl.getD (dir_index r n k) [] := by
  rw [List.map_map, getD_map_range _ _ _ _ hk]
  rfl

/-- C22: the direction index permutation of `cell_pass`. The index map
`p(i) = T - i - 1` when `is_reverse`, `p(i) = i` otherwise, maps `{0, ..., T-1}` into
itself, is its own inverse there, and is injective and surjective on it. Both pointer loops
of `cell_pass` are the same loop and fill slot `k` of their table with buffer `p(k)`: the
split writes part `k` of `X` (the slice `X[:,k,:]`) to `in_seqs[p(k)]`, and `concat` reads
its argument `k` from `h_list[p(k)]`, which is the hidden state captured by iteration
`p(k)`, the iteration that evaluates the cell on `in_seqs[p(k)]`. So the slot fed to concat
position `k` is the one produced from split part `k`. -/
theorem direction_index_permutation [Zero α] (ev : CellEvaluators α κ) (type : CellType)
    (inputs : List (List α)) (shapes : List Shape) (outputs : List (List α))
    (args : CellArgs κ) (is_reverse : Bool) (batch T input : Nat)
    (hshape : shapes.getD 0 [] = [batch, T, input])
    (hX : (inputs.getD 0 []).length = batch * T * input) :
    (∀ i, dir_index is_reverse T i = if is_reverse then T - i - 1 else i) ∧
    (∀ i, i < T → dir_index is_reverse T i < T) ∧
    (∀ i, i < T → dir_index is_reverse T (dir_index is_reverse T i) = i) ∧
    (∀ i j, i < T → j < T → dir_index is_reverse T i = dir_index is_reverse T j → i = j) ∧
    (∀ k, k < T → ∃ i, i < T ∧ dir_index is_reverse T i = k) ∧
    (List.range T).foldl
        (fun (pointers : List (Option Nat)) i =>
          pointers.set (if is_reverse then T - i - 1 else i) (some i))
        (List.replicate T none) =
      (List.range T).map (fun k => some (dir_index is_reverse T k)) ∧
    in_seqs inputs shapes is_reverse =
      split_into (inputs.getD 0 []) (shapes.getD 0 []) 1 T
        ((List.range T).map fun k => some (dir_index is_reverse T k))
        (List.replicate T (List.replicate (shape_size (shapes.getD 0 []) / T) 0)) ∧
    cell_pass ev type inputs shapes outputs args is_reverse =
      (loop_state ev type inputs shapes outputs args is_reverse T).1.set 0
        (store ((loop_state ev type inputs shapes outputs args is_reverse T).1.getD 0 [])
          (concat
            (((List.range T).map fun k => some (dir_index is_reverse T k)).map
              (deref (loop_state ev type inputs shapes outputs args is_reverse T).2))
            (List.replicate T [batch, 1, (shapes.getD 2 []).getD 2 0])
            [batch, T, (shapes.getD 2 []).getD 2 0] 1)) ∧
    (∀ k, k < T →
      (split (inputs.getD 0 []) (shapes.getD 0 []) 1 T).getD k [] =
        slice_axis (inputs.getD 0 []) (shapes.getD 0 []) 1 k (k + 1) ∧
      (in_seqs inputs shapes is_reverse).getD (dir_index is_reverse T k) [] =
        slice_axis (inputs.getD 0 []) (shapes.getD 0 []) 1 k (k + 1) ∧
      (((List.range T).map fun k => some (dir_index is_reverse T k)).map
          (deref (loop_state ev type inputs shapes outputs args is_reverse T).2)).getD k [] =
        (loop_state ev type inputs shapes outputs args is_reverse T).2.getD
          (dir_index is_reverse T k) [] ∧
      (loop_state ev type inputs shapes outputs args is_reverse T).2.getD
          (dir_index is_reverse T k) [] =
        memcpy (List.replicate (shape_size [batch, 1, (shapes.getD 2 []).getD 2 0]) 0)
          ((cell_step ev type inputs shapes args
            ((in_seqs inputs shapes is_reverse).getD (dir_index is_reverse T k) [])
            (loop_state ev type inputs shapes outputs args is_reverse
              (dir_index is_reverse T k)).1).getD 1 [])
          (shape_size [batch, 1, (shapes.getD 2 []).getD 2 0])) := by
  have hT' : (shapes.getD 0 []).getD 1 0 = T := by rw [hshape]; rfl
  have hb' : (shapes.getD 0 []).getD 0 0 = batch := by rw [hshape]; rfl
  refine ⟨fun i => rfl, fun i hi => dir_index_lt is_reverse T i hi,
    fun i hi => dir_index_invol is_reverse T i hi,
    fun i j hi hj h => dir_index_inj is_reverse T i j hi hj h,
    fun k hk => ⟨dir_index is_reverse T k, dir_index_lt is_reverse T k hk,
      dir_index_invol is_reverse T k hk⟩,
    pointer_table is_reverse T, ?_, ?_, ?_⟩
  · unfold in_seqs
    rw [hT', pointer_table]
  · have := cell_pass_eq_loop ev type inputs shapes outputs args is_reverse
    rw [hT', hb'] at this
    exact this
  · intro k hk
    have hp := dir_index_lt is_reverse T k hk
    have hseq : (in_seqs inputs shapes is_reverse).getD (dir_index is_reverse T k) [] =
        step_input inputs shapes is_reverse (dir_index is_reverse T k) := by
      rw [in_seqs_eq, hT', getD_map_range _ _ _ _ hp]
    refine ⟨?_, ?_, getD_map_deref _ is_reverse T k hk, ?_⟩
    · simp only [split, hshape, getD_map_range _ _ _ _ hk, List.getD_cons_zero,
        List.getD_cons_succ, Nat.div_self (show 0 < T by omega), Nat.mul_one]
    · rw [hseq, step_input_eq_slice inputs shapes is_reverse batch T input hshape (by omega)
        _ hp, dir_index_invol is_reverse T k hk, hshape]
    · have hsnd := loop_state_snd ev type inputs shapes outputs args is_reverse
      rw [hT'] at hsnd
      rw [hsnd, getD_map_range _ _ _ _ hp, hseq,
        loop_state_eq _ _ _ _ _ _ _ _ (by rw [hT']; omega), ← run_steps_succ]
      simp only [captured, hb']

theorem cell_pass_eq_concat_result [Zero α] (ev : CellEvaluators α κ) (type : CellType)
    (inputs : List (List α)) (shapes : List Shape) (outputs : List (List α))
    (args : CellArgs κ) (r : Bool) :
    cell_pass ev type inputs shapes outputs args r =
      (loop_state ev type inputs shapes outputs args r ((shapes.getD 0 []).getD 1 0)).1.set 0
        (store
          ((loop_state ev type inputs shapes outputs args r
            ((shapes.getD 0 []).getD 1 0)).1.getD 0 [])
          (concat_result ev type inputs shapes outputs args r)) := by
  rfl

theorem concat_result_eq_gather [Zero α] (ev : CellEvaluators α κ) (type : CellType)
    (inputs : List (List α)) (shapes : List Shape) (outputs : List (List α))
    (args : CellArgs κ) (r : Bool) (batch T input hidden : Nat)
    (hshape0 : shapes.getD 0 [] = [batch, T, input])
    (hh : (shapes.getD 2 []).getD 2 0 = hidden) :
    concat_result ev type inputs shapes outputs args r =
      gather batch hidden ((List.range T).map fun k =>
        captured ev type inputs shapes args r outputs (dir_index r T k)) := by
  have hsnd := loop_state_snd ev type inputs shapes outputs args r
  unfold concat_result
  rw [hsnd, pointer_table, concat_eq_gather _ _ _ _ (by simp)]
  simp only [hshape0, hh, List.getD_cons_zero, List.getD_cons_succ, List.take_succ_cons,
    List.take_zero, List.prod_cons, List.prod_nil, Nat.mul_one, shape_size, Nat.one_mul]
  have hargs : ((List.range T).map fun k => some (dir_index r T k)).map
      (deref ((List.range T).map (captured ev type inputs shapes args r outputs))) =
      (List.range T).map fun k =>
        captured ev type inputs shapes args r outputs (dir_index r T k) := by
    rw [List.map_map]
    apply List.map_congr_left
    intro k hk
    have hk' : k < T := by simpa using hk
    simp only [Function.comp, deref]
    exact getD_map_range _ _ _ _ (dir_index_lt r T k hk')
  rw [hargs]
  by_cases hb : batch = 0
  · subst hb; simp [gather]
  · rw [Nat.mul_div_cancel_left _ (Nat.pos_of_ne_zero hb)]

theorem length_concat_result [Zero α] (ev : CellEvaluators α κ) (type : CellType)
    (inputs : List (List α)) (shapes : List Shape) (outputs : List (List α))
    (args : CellArgs κ) (r : Bool) (batch T input hidden : Nat)
    (hshape0 : shapes.getD 0 [] = [batch, T, input])
    (hh : (shapes.getD 2 []).getD 2 0 = hidden) :
    (concat_result ev type inputs shapes outputs args r).length = batch * T * hidden := by
  rw [concat_result_eq_gather ev type inputs shapes outputs args r batch T input hidden
    hshape0 hh, length_gather]
  · simp only [List.length_map, List.length_range]
    ring
  · intro a ha
    simp only [List.mem_map, List.mem_range] at ha
    obtain ⟨k, _, rfl⟩ := ha
    rw [length_captured, hshape0, hh]
    exact le_refl _

theorem getD_zero_cell_pass_exact [Zero α] (ev : CellEvaluators α κ) (type : CellType)
    (inputs : List (List α)) (shapes : List Shape) (Y : List α) (orest : List (List α))
    (args : CellArgs κ) (r : Bool) (batch T input hidden : Nat)
    (hshape0 : shapes.getD 0 [] = [batch, T, input])
    (hh : (shapes.getD 2 []).getD 2 0 = hidden) (hY : Y.length = batch * T * hidden) :
    (cell_pass ev type inputs shapes (Y :: orest) args r).getD 0 [] =
      concat_result ev type inputs shapes (Y :: orest) args r := by
  rw [getD_zero_cell_pass, hshape0, hh]
  simp only [List.getD_cons_zero, List.getD_cons_succ]
  rw [← concat_result_eq_gather ev type inputs shapes (Y :: orest) args r batch T input hidden
    hshape0 hh]
  apply store_eq_of_length_eq
  rw [length_concat_result ev type inputs shapes (Y :: orest) args r batch T input hidden
    hshape0 hh, hY]

theorem length_split_part_axis1 (data : List α) (b h i : Nat) (hi : i < 2)
    (hlen : data.length = b * 2 * h) :
    ((split data [b, 2, h] 1 2).getD i []).length = shape_size [b, 2, h] / 2 := by
  unfold split
  rw [getD_map_range _ _ _ _ hi]
  simp only [List.getD_cons_zero, List.getD_cons_succ, Nat.div_self (show 0 < 2 by omega),
    Nat.mul_one]
  rw [length_slice_axis_one data b 2 [h] i hi (by simp [hlen])]
  simp only [shape_size, List.prod_cons, List.prod_nil, Nat.mul_one]
  rw [show b * (2 * h) = 2 * (b * h) by ring, Nat.mul_div_cancel_left _ (show 0 < 2 by omega)]

theorem length_split_part_axis0 (data : List α) (rest : Shape) (i : Nat) (hi : i < 2)
    (hlen : data.length = 2 * rest.prod) :
    ((split data (2 :: rest) 0 2).getD i []).length = shape_size (2 :: rest) / 2 := by
  unfold split
  rw [getD_map_range _ _ _ _ hi]
  simp only [List.getD_cons_zero, Nat.div_self (show 0 < 2 by omega), Nat.mul_one]
  rw [slice_axis_zero]
  simp only [List.length_take, List.length_drop, shape_size, List.prod_cons, hlen,
    Nat.add_sub_cancel_left, Nat.one_mul]
  rw [Nat.mul_div_cancel_left _ (show 0 < 2 by omega)]
  have : i = 0 ∨ i = 1 := by omega
  rcases this with h | h
  · subst h; simp; omega
  · subst h; simp; omega

theorem length_slice_axis_zero_half (data : List α) (rest : Shape) (i : Nat) (hi : i < 2)
    (hlen : data.length = 2 * rest.prod) :
    (slice_axis data (2 :: rest) 0 i (i + 1)).length = rest.prod := by
  rw [slice_axis_zero]
  simp only [List.length_take, List.length_drop, hlen, Nat.add_sub_cancel_left, Nat.one_mul]
  have : i = 0 ∨ i = 1 := by omega
  rcases this with h | h
  · subst h; simp; omega
  · subst h; simp; omega

theorem split_half_exact_axis1 [Zero α] (data : List α) (b h : Nat) (i : Nat) (hi : i < 2)
    (hlen : data.length = b * 2 * h) :
    split_half data [b, 2, h] 1 i = (split data [b, 2, h] 1 2).getD i [] ∧
    (split_half data [b, 2, h] 1 i).length = shape_size [b, 2, h] / 2 ∧
    split_half data [b, 2, h] 1 i = slice_axis data [b, 2, h] 1 i (i + 1) ∧
    (split_half data [b, 2, h] 1 i).length = b * h := by
  have hpart := length_split_part_axis1 data b h i hi hlen
  have hs : split_half data [b, 2, h] 1 i = (split data [b, 2, h] 1 2).getD i [] := by
    unfold split_half
    apply store_eq_of_length_eq
    rw [hpart]
    simp
  have hhalf : shape_size [b, 2, h] / 2 = b * h := by
    simp only [shape_size, List.prod_cons, List.prod_nil, Nat.mul_one]
    rw [show b * (2 * h) = 2 * (b * h) by ring,
      Nat.mul_div_cancel_left _ (show 0 < 2 by omega)]
  refine ⟨hs, ?_, split_half_axis1 data b h i hi hlen, ?_⟩
  · rw [hs, hpart]
  · rw [hs, hpart, hhalf]

theorem split_half_exact_axis0 [Zero α] (data : List α) (rest : Shape) (i : Nat) (hi : i < 2)
    (hlen : data.length = 2 * rest.prod) :
    split_half data (2 :: rest) 0 i = (split data (2 :: rest) 0 2).getD i [] ∧
    (split_half data (2 :: rest) 0 i).length = shape_size (2 :: rest) / 2 ∧
    split_half data (2 :: rest) 0 i = slice_axis data (2 :: rest) 0 i (i + 1) := by
  have hpart := length_split_part_axis0 data rest i hi hlen
  have hs : split_half data (2 :: rest) 0 i = (split data (2 :: rest) 0 2).getD i [] := by
    unfold split_half
    apply store_eq_of_length_eq
    rw [hpart]
    simp
  refine ⟨hs, ?_, split_half_axis0 data rest i hi hlen⟩
  rw [hs, hpart]

theorem two_mul_half_shape_size (rest : Shape) :
    2 * (shape_size (2 :: rest) / 2) = shape_size (2 :: rest) := by
  simp only [shape_size, List.prod_cons]
  rw [Nat.mul_div_cancel_left _ (show 0 < 2 by omega)]

theorem two_mul_half_state_size (b h : Nat) :
    2 * (shape_size [b, 2, h] / 2) = shape_size [b, 2, h] := by
  simp only [shape_size, List.prod_cons, List.prod_nil, Nat.mul_one]
  rw [show b * (2 * h) = 2 * (b * h) by ring,
    Nat.mul_div_cancel_left _ (show 0 < 2 by omega)]

/-- C21: the scratch sizes of the bidirectional branch match what is written. For `X` of
shape `[batch, T, input]`, `H0` (and `C0`) of shape `[batch, 2, hidden]` and `W`, `R`, `B` of
leading dimension 2, each buffer holding the elements of its shape, the adapters run
`cell_pass` on the split halves with the adjusted shapes and the scratch outputs, and for
each half `i` and each pass:
(i) the scratch buffer `*_split[i]` of `shape_size / 2` elements is exactly part `i` of the
split, which is the slice at index `i`, and twice that size is the size of the tensor;
(ii) the output-sequence scratch buffer of `H_shape[0] * H_shape[2] * X_shape[1]` elements
has the `batch * T * hidden` elements of the tensor concatenated by `cell_pass`, and after
the pass it is exactly that tensor;
(iii) the state scratch buffers of `H_shape[0] * H_shape[2]` elements have the size of the
adjusted state shape `[batch, 1, hidden]`, and after the initial copy they hold exactly
the halves of `H0` (and `C0`). -/
theorem bidirectional_scratch_sizes [Zero α] (ev : CellEvaluators α κ) (type : CellType)
    (X H C seq_lengths W R B : List α) (seq_lengths_shape wr rr br : Shape)
    (Y Ho Co : List α) (activation_f activation_g activation_h : String) (clip : κ)
    (linear_before_reset : Bool) (args : CellArgs κ) (is_reverse : Bool)
    (batch T input hidden i : Nat) (hi : i < 2)
    (hH : H.length = batch * 2 * hidden) (hC : C.length = batch * 2 * hidden)
    (hW : W.length = 2 * wr.prod) (hR : R.length = 2 * rr.prod)
    (hB : B.length = 2 * br.prod) :
    (lstm_sequence ev X [batch, T, input] H [batch, 2, hidden] C [batch, 2, hidden]
        seq_lengths seq_lengths_shape W (2 :: wr) R (2 :: rr) B (2 :: br) Y Ho Co
        activation_f activation_g activation_h clip RecurrentSequenceDirection.BIDIRECTIONAL =
      (fun (fwd rev : List (List α)) =>
        (store Y (concat [fwd.getD 0 [], rev.getD 0 []]
          (List.replicate 2 [batch, 1, T, hidden]) [batch, 2, T, hidden] 1),
         store Ho (concat [fwd.getD 1 [], rev.getD 1 []]
          (List.replicate 2 [batch, 1, hidden]) [batch, 2, hidden] 1),
         store Co (concat [fwd.getD 2 [], rev.getD 2 []]
          (List.replicate 2 [batch, 1, hidden]) [batch, 2, hidden] 1)))
        (cell_pass ev CellType.LSTM
          (lstm_branch_inputs X seq_lengths H [batch, 2, hidden] C [batch, 2, hidden]
            W (2 :: wr) R (2 :: rr) B (2 :: br) 0)
          (lstm_bidirectional_shapes [batch, T, input] seq_lengths_shape [batch, 2, hidden]
            [batch, 2, hidden] (2 :: wr) (2 :: rr) (2 :: br))
          (lstm_scratch_outputs [batch, T, input] [batch, 2, hidden])
          ⟨activation_f, activation_g, activation_h, clip, false⟩ false)
        (cell_pass ev CellType.LSTM
          (lstm_branch_inputs X seq_lengths H [batch, 2, hidden] C [batch, 2, hidden]
            W (2 :: wr) R (2 :: rr) B (2 :: br) 1)
          (lstm_bidirectional_shapes [batch, T, input] seq_lengths_shape [batch, 2, hidden]
            [batch, 2, hidden] (2 :: wr) (2 :: rr) (2 :: br))
          (lstm_scratch_outputs [batch, T, input] [batch, 2, hidden])
          ⟨activation_f, activation_g, activation_h, clip, false⟩ true)) ∧
    (gru_sequence ev X [batch, T, input] H [batch, 2, hidden]
        seq_lengths seq_lengths_shape W (2 :: wr) R (2 :: rr) B (2 :: br) Y Ho
        activation_f activation_g clip RecurrentSequenceDirection.BIDIRECTIONAL
        linear_before_reset =
      (fun (fwd rev : List (List α)) =>
        (store Y (concat [fwd.getD 0 [], rev.getD 0 []]
          (List.replicate 2 [batch, 1, T, hidden]) [batch, 2, T, hidden] 1),
         store Ho (concat [fwd.getD 1 [], rev.getD 1 []]
          (List.replicate 2 [batch, 1, hidden]) [batch, 2, hidden] 1)))
        (cell_pass ev CellType.GRU
          (single_state_branch_inputs X seq_lengths H [batch, 2, hidden]
            W (2 :: wr) R (2 :: rr) B (2 :: br) 0)
          (single_state_bidirectional_shapes [batch, T, input] seq_lengths_shape
            [batch, 2, hidden] (2 :: wr) (2 :: rr) (2 :: br))
          (single_state_scratch_outputs [batch, T, input] [batch, 2, hidden])
          ⟨activation_f, activation_g, "", clip, linear_before_reset⟩ false)
        (cell_pass ev CellType.GRU
          (single_state_branch_inputs X seq_lengths H [batch, 2, hidden]
            W (2 :: wr) R (2 :: rr) B (2 :: br) 1)
          (single_state_bidirectional_shapes [batch, T, input] seq_lengths_shape
            [batch, 2, hidden] (2 :: wr) (2 :: rr) (2 :: br))
          (single_state_scratch_outputs [batch, T, input] [batch, 2, hidden])
          ⟨activation_f, activation_g, "", clip, linear_before_reset⟩ true)) ∧
    (rnn_sequence ev X [batch, T, input] H [batch, 2, hidden]
        seq_lengths seq_lengths_shape W (2 :: wr) R (2 :: rr) B (2 :: br) Y Ho
        activation_f clip RecurrentSequenceDirection.BIDIRECTIONAL =
      (fun (fwd rev : List (List α)) =>
        (store Y (concat [fwd.getD 0 [], rev.getD 0 []]
          (List.replicate 2 [batch, 1, T, hidden]) [batch, 2, T, hidden] 1),
         store Ho (concat [fwd.getD 1 [], rev.getD 1 []]
          (List.replicate 2 [batch, 1, hidden]) [batch, 2, hidden] 1)))
        (cell_pass ev CellType.RNN
          (single_state_branch_inputs X seq_lengths H [batch, 2, hidden]
            W (2 :: wr) R (2 :: rr) B (2 :: br) 0)
          (single_state_bidirectional_shapes [batch, T, input] seq_lengths_shape
            [batch, 2, hidden] (2 :: wr) (2 :: rr) (2 :: br))
          (single_state_scratch_outputs [batch, T, input] [batch, 2, hidden])
          ⟨activation_f, "", "", clip, false⟩ false)
        (cell_pass ev CellType.RNN
          (single_state_branch_inputs X seq_lengths H [batch, 2, hidden]
            W (2 :: wr) R (2 :: rr) B (2 :: br) 1)
          (single_state_bidirectional_shapes [batch, T, input] seq_lengths_shape
            [batch, 2, hidden] (2 :: wr) (2 :: rr) (2 :: br))
          (single_state_scratch_outputs [batch, T, input] [batch, 2, hidden])
          ⟨activation_f, "", "", clip, false⟩ true)) ∧
    (2 * (shape_size [batch, 2, hidden] / 2) = shape_size [batch, 2, hidden] ∧
      2 * (shape_size (2 :: wr) / 2) = shape_size (2 :: wr) ∧
      2 * (shape_size (2 :: rr) / 2) = shape_size (2 :: rr) ∧
      2 * (shape_size (2 :: br) / 2) = shape_size (2 :: br)) ∧
    (split_half H [batch, 2, hidden] 1 i = (split H [batch, 2, hidden] 1 2).getD i [] ∧
      (split_half H [batch, 2, hidden] 1 i).length = shape_size [batch, 2, hidden] / 2 ∧
      split_half H [batch, 2, hidden] 1 i = slice_axis H [batch, 2, hidden] 1 i (i + 1)) ∧
    (split_half C [batch, 2, hidden] 1 i = (split C [batch, 2, hidden] 1 2).getD i [] ∧
      (split_half C [batch, 2, hidden] 1 i).length = shape_size [batch, 2, hidden] / 2 ∧
      split_half C [batch, 2, hidden] 1 i = slice_axis C [batch, 2, hidden] 1 i (i + 1)) ∧
    (split_half W (2 :: wr) 0 i = (split W (2 :: wr) 0 2).getD i [] ∧
      (split_half W (2 :: wr) 0 i).length = shape_size (2 :: wr) / 2 ∧
      split_half W (2 :: wr) 0 i = slice_axis W (2 :: wr) 0 i (i + 1)) ∧
    (split_half R (2 :: rr) 0 i = (split R (2 :: rr) 0 2).getD i [] ∧
      (split_half R (2 :: rr) 0 i).length = shape_size (2 :: rr) / 2 ∧
      split_half R (2 :: rr) 0 i = slice_axis R (2 :: rr) 0 i (i + 1)) ∧
    (split_half B (2 :: br) 0 i = (split B (2 :: br) 0 2).getD i [] ∧
      (split_half B (2 :: br) 0 i).length = shape_size (2 :: br) / 2 ∧
      split_half B (2 :: br) 0 i = slice_axis B (2 :: br) 0 i (i + 1)) ∧
    (((lstm_scratch_outputs [batch, T, input] [batch, 2, hidden] : List (List α)).getD 0
          []).length = batch * T * hidden ∧
      (concat_result ev CellType.LSTM
          (lstm_branch_inputs X seq_lengths H [batch, 2, hidden] C [batch, 2, hidden]
            W (2 :: wr) R (2 :: rr) B (2 :: br) i)
          (lstm_bidirectional_shapes [batch, T, input] seq_lengths_shape [batch, 2, hidden]
            [batch, 2, hidden] (2 :: wr) (2 :: rr) (2 :: br))
          (lstm_scratch_outputs [batch, T, input] [batch, 2, hidden]) args
          is_reverse).length = batch * T * hidden ∧
      (cell_pass ev CellType.LSTM
          (lstm_branch_inputs X seq_lengths H [batch, 2, hidden] C [batch, 2, hidden]
            W (2 :: wr) R (2 :: rr) B (2 :: br) i)
          (lstm_bidirectional_shapes [batch, T, input] seq_lengths_shape [batch, 2, hidden]
            [batch, 2, hidden] (2 :: wr) (2 :: rr) (2 :: br))
          (lstm_scratch_outputs [batch, T, input] [batch, 2, hidden]) args
          is_reverse).getD 0 [] =
        concat_result ev CellType.LSTM
          (lstm_branch_inputs X seq_lengths H [batch, 2, hidden] C [batch, 2, hidden]
            W (2 :: wr) R (2 :: rr) B (2 :: br) i)
          (lstm_bidirectional_shapes [batch, T, input] seq_lengths_shape [batch, 2, hidden]
            [batch, 2, hidden] (2 :: wr) (2 :: rr) (2 :: br))
          (lstm_scratch_outputs [batch, T, input] [batch, 2, hidden]) args is_reverse) ∧
    (((single_state_scratch_outputs [batch, T, input] [batch, 2, hidden] :
          List (List α)).getD 0 []).length = batch * T * hidden ∧
      (concat_result ev type
          (single_state_branch_inputs X seq_lengths H [batch, 2, hidden]
            W (2 :: wr) R (2 :: rr) B (2 :: br) i)
          (single_state_bidirectional_shapes [batch, T, input] seq_lengths_shape
            [batch, 2, hidden] (2 :: wr) (2 :: rr) (2 :: br))
          (single_state_scratch_outputs [batch, T, input] [batch, 2, hidden]) args
          is_reverse).length = batch * T * hidden ∧
      (cell_pass ev type
          (single_state_branch_inputs X seq_lengths H [batch, 2, hidden]
            W (2 :: wr) R (2 :: rr) B (2 :: br) i)
          (single_state_bidirectional_shapes [batch, T, input] seq_lengths_shape
            [batch, 2, hidden] (2 :: wr) (2 :: rr) (2 :: br))
          (single_state_scratch_outputs [batch, T, input] [batch, 2, hidden]) args
          is_reverse).getD 0 [] =
        concat_result ev type
          (single_state_branch_inputs X seq_lengths H [batch, 2, hidden]
            W (2 :: wr) R (2 :: rr) B (2 :: br) i)
          (single_state_bidirectional_shapes [batch, T, input] seq_lengths_shape
            [batch, 2, hidden] (2 :: wr) (2 :: rr) (2 :: br))
          (single_state_scratch_outputs [batch, T, input] [batch, 2, hidden]) args
          is_reverse) ∧
    ((lstm_bidirectional_shapes [batch, T, input] seq_lengths_shape [batch, 2, hidden]
          [batch, 2, hidden] (2 :: wr) (2 :: rr) (2 :: br)).getD 2 [] = [batch, 1, hidden] ∧
      (lstm_bidirectional_shapes [batch, T, input] seq_lengths_shape [batch, 2, hidden]
          [batch, 2, hidden] (2 :: wr) (2 :: rr) (2 :: br)).getD 3 [] = [batch, 1, hidden] ∧
      (single_state_bidirectional_shapes [batch, T, input] seq_lengths_shape
          [batch, 2, hidden] (2 :: wr) (2 :: rr) (2 :: br)).getD 2 [] = [batch, 1, hidden] ∧
      ((lstm_scratch_outputs [batch, T, input] [batch, 2, hidden] : List (List α)).getD 1
          []).length = shape_size [batch, 1, hidden] ∧
      ((lstm_scratch_outputs [batch, T, input] [batch, 2, hidden] : List (List α)).getD 2
          []).length = shape_size [batch, 1, hidden] ∧
      ((single_state_scratch_outputs [batch, T, input] [batch, 2, hidden] :
          List (List α)).getD 1 []).length = shape_size [batch, 1, hidden]) ∧
    ((init_state CellType.LSTM
          (lstm_branch_inputs X seq_lengths H [batch, 2, hidden] C [batch, 2, hidden]
            W (2 :: wr) R (2 :: rr) B (2 :: br) i)
          (lstm_bidirectional_shapes [batch, T, input] seq_lengths_shape [batch, 2, hidden]
            [batch, 2, hidden] (2 :: wr) (2 :: rr) (2 :: br))
          (lstm_scratch_outputs [batch, T, input] [batch, 2, hidden])).getD 1 [] =
        slice_axis H [batch, 2, hidden] 1 i (i + 1) ∧
      (init_state CellType.LSTM
          (lstm_branch_inputs X seq_lengths H [batch, 2, hidden] C [batch, 2, hidden]
            W (2 :: wr) R (2 :: rr) B (2 :: br) i)
          (lstm_bidirectional_shapes [batch, T, input] seq_lengths_shape [batch, 2, hidden]
            [batch, 2, hidden] (2 :: wr) (2 :: rr) (2 :: br))
          (lstm_scratch_outputs [batch, T, input] [batch, 2, hidden])).getD 2 [] =
        slice_axis C [batch, 2, hidden] 1 i (i + 1) ∧
      (init_state type
          (single_state_branch_inputs X seq_lengths H [batch, 2, hidden]
            W (2 :: wr) R (2 :: rr) B (2 :: br) i)
          (single_state_bidirectional_shapes [batch, T, input] seq_lengths_shape
            [batch, 2, hidden] (2 :: wr) (2 :: rr) (2 :: br))
          (single_state_scratch_outputs [batch, T, input] [batch, 2, hidden])).getD 1 [] =
        slice_axis H [batch, 2, hidden] 1 i (i + 1)) := by
  have eH := split_half_exact_axis1 H batch hidden i hi hH
  have eC := split_half_exact_axis1 C batch hidden i hi hC
  have eW := split_half_exact_axis0 W wr i hi hW
  have eR := split_half_exact_axis0 R rr i hi hR
  have eB := split_half_exact_axis0 B br i hi hB
  have hsz : shape_size [batch, 1, hidden] = batch * hidden := by
    simp [shape_size]
  refine ⟨rfl, rfl, rfl,
    ⟨two_mul_half_state_size batch hidden, two_mul_half_shape_size wr,
      two_mul_half_shape_size rr, two_mul_half_shape_size br⟩,
    ⟨eH.1, eH.2.1, eH.2.2.1⟩, ⟨eC.1, eC.2.1, eC.2.2.1⟩, eW, eR, eB, ⟨?_, ?_, ?_⟩,
    ⟨?_, ?_, ?_⟩, ⟨rfl, rfl, rfl, ?_, ?_, ?_⟩, ⟨?_, ?_, ?_⟩⟩
  · simp only [lstm_scratch_outputs, List.getD_cons_zero, List.getD_cons_succ,
      List.length_replicate]
    ring
  · exact length_concat_result ev CellType.LSTM _ _ _ args is_reverse batch T input hidden
      rfl rfl
  · exact getD_zero_cell_pass_exact ev CellType.LSTM _ _ _ _ args is_reverse batch T input
      hidden rfl rfl (by simp only [List.getD_cons_zero, List.getD_cons_succ,
        List.length_replicate]; ring)
  · simp only [single_state_scratch_outputs, List.getD_cons_zero, List.getD_cons_succ,
      List.length_replicate]
    ring
  · exact length_concat_result ev type _ _ _ args is_reverse batch T input hidden rfl rfl
  · exact getD_zero_cell_pass_exact ev type _ _ _ _ args is_reverse batch T input
      hidden rfl rfl (by simp only [List.getD_cons_zero, List.getD_cons_succ,
        List.length_replicate]; ring)
  · rw [hsz]; simp [lstm_scratch_outputs]
  · rw [hsz]; simp [lstm_scratch_outputs]
  · rw [hsz]; simp [single_state_scratch_outputs]
  · rw [getD_one_init_state _ _ _ _ (by simp [lstm_scratch_outputs]), ← eH.2.2.1]
    exact memcpy_eq_self_of_length _ _ _
      (by change _ = shape_size [batch, 1, hidden]; rw [hsz]; simp [lstm_scratch_outputs])
      (by change _ = shape_size [batch, 1, hidden]; rw [hsz]; exact eH.2.2.2)
  · have hp := state_pair_init_state CellType.LSTM
      (lstm_branch_inputs X seq_lengths H [batch, 2, hidden] C [batch, 2, hidden]
        W (2 :: wr) R (2 :: rr) B (2 :: br) i)
      (lstm_bidirectional_shapes [batch, T, input] seq_lengths_shape [batch, 2, hidden]
        [batch, 2, hidden] (2 :: wr) (2 :: rr) (2 :: br))
      (lstm_scratch_outputs [batch, T, input] [batch, 2, hidden])
      (by simp [lstm_scratch_outputs]) (by simp [lstm_scratch_outputs])
    have hp2 := congrArg Prod.snd hp
    simp only [initial_state, ↓reduceIte] at hp2
    rw [hp2, ← eC.2.2.1]
    exact memcpy_eq_self_of_length _ _ _
      (by change _ = shape_size [batch, 1, hidden]; rw [hsz]; simp [lstm_scratch_outputs])
      (by change _ = shape_size [batch, 1, hidden]; rw [hsz]; exact eC.2.2.2)
  · rw [getD_one_init_state _ _ _ _ (by simp [single_state_scratch_outputs]), ← eH.2.2.1]
    exact memcpy_eq_self_of_length _ _ _
      (by change _ = shape_size [batch, 1, hidden]; rw [hsz]
          simp [single_state_scratch_outputs])
      (by change _ = shape_size [batch, 1, hidden]; rw [hsz]; exact eH.2.2.2)

/-- Witness of C21: the reverse pass (half 1) of a bidirectional call with batch 1, time 2,
hidden 2. -/
theorem bidirectional_scratch_sizes_witness :
    ((1 < 2) ∧
      (([1, 2, 3, 4] : List Int).length = 1 * 2 * 2) ∧
      (([0, 1, 0, 1] : List Int).length = 1 * 2 * 2) ∧
      (([1, 2, 3, 4] : List Int).length = 2 * [2, 1].prod) ∧
      (([1, 0, 0, 1, 1, 1, 1, 1] : List Int).length = 2 * [2, 2].prod) ∧
      (([1, 1, 2, 2] : List Int).length = 2 * [2].prod)) ∧
    ((lstm_sequence test_cells ([1, 2] : List Int) [1, 2, 1] ([1, 2, 3, 4] : List Int) [1, 2, 2]
        ([0, 1, 0, 1] : List Int) [1, 2, 2]
        ([2] : List Int) [1] ([1, 2, 3, 4] : List Int) (2 :: [2, 1]) ([1, 0, 0, 1, 1, 1, 1, 1] :
            List Int) (2 :: [2, 2]) ([1, 1, 2, 2] : List Int) (2 :: [2]) (List.replicate 8 0)
            (List.replicate 4 0) (List.replicate 4 0)
        "sigmoid" "tanh" "tanh" (0 : Int) RecurrentSequenceDirection.BIDIRECTIONAL =
      (fun (fwd rev : List (List Int)) =>
        (store (List.replicate 8 0) (concat [fwd.getD 0 [], rev.getD 0 []]
          (List.replicate 2 [1, 1, 2, 2]) [1, 2, 2, 2] 1),
         store (List.replicate 4 0) (concat [fwd.getD 1 [], rev.getD 1 []]
          (List.replicate 2 [1, 1, 2]) [1, 2, 2] 1),
         store (List.replicate 4 0) (concat [fwd.getD 2 [], rev.getD 2 []]
          (List.replicate 2 [1, 1, 2]) [1, 2, 2] 1)))
        (cell_pass test_cells CellType.LSTM
          (lstm_branch_inputs ([1, 2] : List Int) ([2] : List Int) ([1, 2, 3, 4] : List Int) [1, 2,
              2] ([0, 1, 0, 1] : List Int) [1, 2, 2]
            ([1, 2, 3, 4] : List Int) (2 :: [2, 1]) ([1, 0, 0, 1, 1, 1, 1, 1] : List Int) (2 :: [2,
                2]) ([1, 1, 2, 2] : List Int) (2 :: [2]) 0)
          (lstm_bidirectional_shapes [1, 2, 1] [1] [1, 2, 2]
            [1, 2, 2] (2 :: [2, 1]) (2 :: [2, 2]) (2 :: [2]))
          (lstm_scratch_outputs [1, 2, 1] [1, 2, 2])
          ⟨"sigmoid", "tanh", "tanh", (0 : Int), false⟩ false)
        (cell_pass test_cells CellType.LSTM
          (lstm_branch_inputs ([1, 2] : List Int) ([2] : List Int) ([1, 2, 3, 4] : List Int) [1, 2,
              2] ([0, 1, 0, 1] : List Int) [1, 2, 2]
            ([1, 2, 3, 4] : List Int) (2 :: [2, 1]) ([1, 0, 0, 1, 1, 1, 1, 1] : List Int) (2 :: [2,
                2]) ([1, 1, 2, 2] : List Int) (2 :: [2]) 1)
          (lstm_bidirectional_shapes [1, 2, 1] [1] [1, 2, 2]
            [1, 2, 2] (2 :: [2, 1]) (2 :: [2, 2]) (2 :: [2]))
          (lstm_scratch_outputs [1, 2, 1] [1, 2, 2])
          ⟨"sigmoid", "tanh", "tanh", (0 : Int), false⟩ true)) ∧
    (gru_sequence test_cells ([1, 2] : List Int) [1, 2, 1] ([1, 2, 3, 4] : List Int) [1, 2, 2]
        ([2] : List Int) [1] ([1, 2, 3, 4] : List Int) (2 :: [2, 1]) ([1, 0, 0, 1, 1, 1, 1, 1] :
            List Int) (2 :: [2, 2]) ([1, 1, 2, 2] : List Int) (2 :: [2]) (List.replicate 8 0)
            (List.replicate 4 0)
        "sigmoid" "tanh" (0 : Int) RecurrentSequenceDirection.BIDIRECTIONAL
        false =
      (fun (fwd rev : List (List Int)) =>
        (store (List.replicate 8 0) (concat [fwd.getD 0 [], rev.getD 0 []]
          (List.replicate 2 [1, 1, 2, 2]) [1, 2, 2, 2] 1),
         store (List.replicate 4 0) (concat [fwd.getD 1 [], rev.getD 1 []]
          (List.replicate 2 [1, 1, 2]) [1, 2, 2] 1)))
        (cell_pass test_cells CellType.GRU
          (single_state_branch_inputs ([1, 2] : List Int) ([2] : List Int) ([1, 2, 3, 4] : List
              Int) [1, 2, 2]
            ([1, 2, 3, 4] : List Int) (2 :: [2, 1]) ([1, 0, 0, 1, 1, 1, 1, 1] : List Int) (2 :: [2,
                2]) ([1, 1, 2, 2] : List Int) (2 :: [2]) 0)
          (single_state_bidirectional_shapes [1, 2, 1] [1]
            [1, 2, 2] (2 :: [2, 1]) (2 :: [2, 2]) (2 :: [2]))
          (single_state_scratch_outputs [1, 2, 1] [1, 2, 2])
          ⟨"sigmoid", "tanh", "", (0 : Int), false⟩ false)
        (cell_pass test_cells CellType.GRU
          (single_state_branch_inputs ([1, 2] : List Int) ([2] : List Int) ([1, 2, 3, 4] : List
              Int) [1, 2, 2]
            ([1, 2, 3, 4] : List Int) (2 :: [2, 1]) ([1, 0, 0, 1, 1, 1, 1, 1] : List Int) (2 :: [2,
                2]) ([1, 1, 2, 2] : List Int) (2 :: [2]) 1)
          (single_state_bidirectional_shapes [1, 2, 1] [1]
            [1, 2, 2] (2 :: [2, 1]) (2 :: [2, 2]) (2 :: [2]))
          (single_state_scratch_outputs [1, 2, 1] [1, 2, 2])
          ⟨"sigmoid", "tanh", "", (0 : Int), false⟩ true)) ∧
    (rnn_sequence test_cells ([1, 2] : List Int) [1, 2, 1] ([1, 2, 3, 4] : List Int) [1, 2, 2]
        ([2] : List Int) [1] ([1, 2, 3, 4] : List Int) (2 :: [2, 1]) ([1, 0, 0, 1, 1, 1, 1, 1] :
            List Int) (2 :: [2, 2]) ([1, 1, 2, 2] : List Int) (2 :: [2]) (List.replicate 8 0)
            (List.replicate 4 0)
        "sigmoid" (0 : Int) RecurrentSequenceDirection.BIDIRECTIONAL =
      (fun (fwd rev : List (List Int)) =>
        (store (List.replicate 8 0) (concat [fwd.getD 0 [], rev.getD 0 []]
          (List.replicate 2 [1, 1, 2, 2]) [1, 2, 2, 2] 1),
         store (List.replicate 4 0) (concat [fwd.getD 1 [], rev.getD 1 []]
          (List.replicate 2 [1, 1, 2]) [1, 2, 2] 1)))
        (cell_pass test_cells CellType.RNN
          (single_state_branch_inputs ([1, 2] : List Int) ([2] : List Int) ([1, 2, 3, 4] : List
              Int) [1, 2, 2]
            ([1, 2, 3, 4] : List Int) (2 :: [2, 1]) ([1, 0, 0, 1, 1, 1, 1, 1] : List Int) (2 :: [2,
                2]) ([1, 1, 2, 2] : List Int) (2 :: [2]) 0)
          (single_state_bidirectional_shapes [1, 2, 1] [1]
            [1, 2, 2] (2 :: [2, 1]) (2 :: [2, 2]) (2 :: [2]))
          (single_state_scratch_outputs [1, 2, 1] [1, 2, 2])
          ⟨"sigmoid", "", "", (0 : Int), false⟩ false)
        (cell_pass test_cells CellType.RNN
          (single_state_branch_inputs ([1, 2] : List Int) ([2] : List Int) ([1, 2, 3, 4] : List
              Int) [1, 2, 2]
            ([1, 2, 3, 4] : List Int) (2 :: [2, 1]) ([1, 0, 0, 1, 1, 1, 1, 1] : List Int) (2 :: [2,
                2]) ([1, 1, 2, 2] : List Int) (2 :: [2]) 1)
          (single_state_bidirectional_shapes [1, 2, 1] [1]
            [1, 2, 2] (2 :: [2, 1]) (2 :: [2, 2]) (2 :: [2]))
          (single_state_scratch_outputs [1, 2, 1] [1, 2, 2])
          ⟨"sigmoid", "", "", (0 : Int), false⟩ true)) ∧
    (2 * (shape_size [1, 2, 2] / 2) = shape_size [1, 2, 2] ∧
      2 * (shape_size (2 :: [2, 1]) / 2) = shape_size (2 :: [2, 1]) ∧
      2 * (shape_size (2 :: [2, 2]) / 2) = shape_size (2 :: [2, 2]) ∧
      2 * (shape_size (2 :: [2]) / 2) = shape_size (2 :: [2])) ∧
    (split_half ([1, 2, 3, 4] : List Int) [1, 2, 2] 1 1 = (split ([1, 2, 3, 4] : List Int) [1, 2,
        2] 1 2).getD 1 [] ∧
      (split_half ([1, 2, 3, 4] : List Int) [1, 2, 2] 1 1).length = shape_size [1, 2, 2] / 2 ∧
      split_half ([1, 2, 3, 4] : List Int) [1, 2, 2] 1 1 = slice_axis ([1, 2, 3, 4] : List Int) [1,
          2, 2] 1 1 (1 + 1)) ∧
    (split_half ([0, 1, 0, 1] : List Int) [1, 2, 2] 1 1 = (split ([0, 1, 0, 1] : List Int) [1, 2,
        2] 1 2).getD 1 [] ∧
      (split_half ([0, 1, 0, 1] : List Int) [1, 2, 2] 1 1).length = shape_size [1, 2, 2] / 2 ∧
      split_half ([0, 1, 0, 1] : List Int) [1, 2, 2] 1 1 = slice_axis ([0, 1, 0, 1] : List Int) [1,
          2, 2] 1 1 (1 + 1)) ∧
    (split_half ([1, 2, 3, 4] : List Int) (2 :: [2, 1]) 0 1 = (split ([1, 2, 3, 4] : List Int) (2
        :: [2, 1]) 0 2).getD 1 [] ∧
      (split_half ([1, 2, 3, 4] : List Int) (2 :: [2, 1]) 0 1).length = shape_size (2 :: [2, 1]) /
          2 ∧
      split_half ([1, 2, 3, 4] : List Int) (2 :: [2, 1]) 0 1 = slice_axis ([1, 2, 3, 4] : List Int)
          (2 :: [2, 1]) 0 1 (1 + 1)) ∧
    (split_half ([1, 0, 0, 1, 1, 1, 1, 1] : List Int) (2 :: [2, 2]) 0 1 = (split ([1, 0, 0, 1, 1,
        1, 1, 1] : List Int) (2 :: [2, 2]) 0 2).getD 1 [] ∧
      (split_half ([1, 0, 0, 1, 1, 1, 1, 1] : List Int) (2 :: [2, 2]) 0 1).length = shape_size (2
          :: [2, 2]) / 2 ∧
      split_half ([1, 0, 0, 1, 1, 1, 1, 1] : List Int) (2 :: [2, 2]) 0 1 = slice_axis ([1, 0, 0, 1,
          1, 1, 1, 1] : List Int) (2 :: [2, 2]) 0 1 (1 + 1)) ∧
    (split_half ([1, 1, 2, 2] : List Int) (2 :: [2]) 0 1 = (split ([1, 1, 2, 2] : List Int) (2 ::
        [2]) 0 2).getD 1 [] ∧
      (split_half ([1, 1, 2, 2] : List Int) (2 :: [2]) 0 1).length = shape_size (2 :: [2]) / 2 ∧
      split_half ([1, 1, 2, 2] : List Int) (2 :: [2]) 0 1 = slice_axis ([1, 1, 2, 2] : List Int) (2
          :: [2]) 0 1 (1 + 1)) ∧
    (((lstm_scratch_outputs [1, 2, 1] [1, 2, 2] : List (List Int)).getD 0
          []).length = 1 * 2 * 2 ∧
      (concat_result test_cells CellType.LSTM
          (lstm_branch_inputs ([1, 2] : List Int) ([2] : List Int) ([1, 2, 3, 4] : List Int) [1, 2,
              2] ([0, 1, 0, 1] : List Int) [1, 2, 2]
            ([1, 2, 3, 4] : List Int) (2 :: [2, 1]) ([1, 0, 0, 1, 1, 1, 1, 1] : List Int) (2 :: [2,
                2]) ([1, 1, 2, 2] : List Int) (2 :: [2]) 1)
          (lstm_bidirectional_shapes [1, 2, 1] [1] [1, 2, 2]
            [1, 2, 2] (2 :: [2, 1]) (2 :: [2, 2]) (2 :: [2]))
          (lstm_scratch_outputs [1, 2, 1] [1, 2, 2]) example_args
          true).length = 1 * 2 * 2 ∧
      (cell_pass test_cells CellType.LSTM
          (lstm_branch_inputs ([1, 2] : List Int) ([2] : List Int) ([1, 2, 3, 4] : List Int) [1, 2,
              2] ([0, 1, 0, 1] : List Int) [1, 2, 2]
            ([1, 2, 3, 4] : List Int) (2 :: [2, 1]) ([1, 0, 0, 1, 1, 1, 1, 1] : List Int) (2 :: [2,
                2]) ([1, 1, 2, 2] : List Int) (2 :: [2]) 1)
          (lstm_bidirectional_shapes [1, 2, 1] [1] [1, 2, 2]
            [1, 2, 2] (2 :: [2, 1]) (2 :: [2, 2]) (2 :: [2]))
          (lstm_scratch_outputs [1, 2, 1] [1, 2, 2]) example_args
          true).getD 0 [] =
        concat_result test_cells CellType.LSTM
          (lstm_branch_inputs ([1, 2] : List Int) ([2] : List Int) ([1, 2, 3, 4] : List Int) [1, 2,
              2] ([0, 1, 0, 1] : List Int) [1, 2, 2]
            ([1, 2, 3, 4] : List Int) (2 :: [2, 1]) ([1, 0, 0, 1, 1, 1, 1, 1] : List Int) (2 :: [2,
                2]) ([1, 1, 2, 2] : List Int) (2 :: [2]) 1)
          (lstm_bidirectional_shapes [1, 2, 1] [1] [1, 2, 2]
            [1, 2, 2] (2 :: [2, 1]) (2 :: [2, 2]) (2 :: [2]))
          (lstm_scratch_outputs [1, 2, 1] [1, 2, 2]) example_args true) ∧
    (((single_state_scratch_outputs [1, 2, 1] [1, 2, 2] :
          List (List Int)).getD 0 []).length = 1 * 2 * 2 ∧
      (concat_result test_cells CellType.GRU
          (single_state_branch_inputs ([1, 2] : List Int) ([2] : List Int) ([1, 2, 3, 4] : List
              Int) [1, 2, 2]
            ([1, 2, 3, 4] : List Int) (2 :: [2, 1]) ([1, 0, 0, 1, 1, 1, 1, 1] : List Int) (2 :: [2,
                2]) ([1, 1, 2, 2] : List Int) (2 :: [2]) 1)
          (single_state_bidirectional_shapes [1, 2, 1] [1]
            [1, 2, 2] (2 :: [2, 1]) (2 :: [2, 2]) (2 :: [2]))
          (single_state_scratch_outputs [1, 2, 1] [1, 2, 2]) example_args
          true).length = 1 * 2 * 2 ∧
      (cell_pass test_cells CellType.GRU
          (single_state_branch_inputs ([1, 2] : List Int) ([2] : List Int) ([1, 2, 3, 4] : List
              Int) [1, 2, 2]
            ([1, 2, 3, 4] : List Int) (2 :: [2, 1]) ([1, 0, 0, 1, 1, 1, 1, 1] : List Int) (2 :: [2,
                2]) ([1, 1, 2, 2] : List Int) (2 :: [2]) 1)
          (single_state_bidirectional_shapes [1, 2, 1] [1]
            [1, 2, 2] (2 :: [2, 1]) (2 :: [2, 2]) (2 :: [2]))
          (single_state_scratch_outputs [1, 2, 1] [1, 2, 2]) example_args
          true).getD 0 [] =
        concat_result test_cells CellType.GRU
          (single_state_branch_inputs ([1, 2] : List Int) ([2] : List Int) ([1, 2, 3, 4] : List
              Int) [1, 2, 2]
            ([1, 2, 3, 4] : List Int) (2 :: [2, 1]) ([1, 0, 0, 1, 1, 1, 1, 1] : List Int) (2 :: [2,
                2]) ([1, 1, 2, 2] : List Int) (2 :: [2]) 1)
          (single_state_bidirectional_shapes [1, 2, 1] [1]
            [1, 2, 2] (2 :: [2, 1]) (2 :: [2, 2]) (2 :: [2]))
          (single_state_scratch_outputs [1, 2, 1] [1, 2, 2]) example_args
          true) ∧
    ((lstm_bidirectional_shapes [1, 2, 1] [1] [1, 2, 2]
          [1, 2, 2] (2 :: [2, 1]) (2 :: [2, 2]) (2 :: [2])).getD 2 [] = [1, 1, 2] ∧
      (lstm_bidirectional_shapes [1, 2, 1] [1] [1, 2, 2]
          [1, 2, 2] (2 :: [2, 1]) (2 :: [2, 2]) (2 :: [2])).getD 3 [] = [1, 1, 2] ∧
      (single_state_bidirectional_shapes [1, 2, 1] [1]
          [1, 2, 2] (2 :: [2, 1]) (2 :: [2, 2]) (2 :: [2])).getD 2 [] = [1, 1, 2] ∧
      ((lstm_scratch_outputs [1, 2, 1] [1, 2, 2] : List (List Int)).getD 1
          []).length = shape_size [1, 1, 2] ∧
      ((lstm_scratch_outputs [1, 2, 1] [1, 2, 2] : List (List Int)).getD 2
          []).length = shape_size [1, 1, 2] ∧
      ((single_state_scratch_outputs [1, 2, 1] [1, 2, 2] :
          List (List Int)).getD 1 []).length = shape_size [1, 1, 2]) ∧
    ((init_state CellType.LSTM
          (lstm_branch_inputs ([1, 2] : List Int) ([2] : List Int) ([1, 2, 3, 4] : List Int) [1, 2,
              2] ([0, 1, 0, 1] : List Int) [1, 2, 2]
            ([1, 2, 3, 4] : List Int) (2 :: [2, 1]) ([1, 0, 0, 1, 1, 1, 1, 1] : List Int) (2 :: [2,
                2]) ([1, 1, 2, 2] : List Int) (2 :: [2]) 1)
          (lstm_bidirectional_shapes [1, 2, 1] [1] [1, 2, 2]
            [1, 2, 2] (2 :: [2, 1]) (2 :: [2, 2]) (2 :: [2]))
          (lstm_scratch_outputs [1, 2, 1] [1, 2, 2])).getD 1 [] =
        slice_axis ([1, 2, 3, 4] : List Int) [1, 2, 2] 1 1 (1 + 1) ∧
      (init_state CellType.LSTM
          (lstm_branch_inputs ([1, 2] : List Int) ([2] : List Int) ([1, 2, 3, 4] : List Int) [1, 2,
              2] ([0, 1, 0, 1] : List Int) [1, 2, 2]
            ([1, 2, 3, 4] : List Int) (2 :: [2, 1]) ([1, 0, 0, 1, 1, 1, 1, 1] : List Int) (2 :: [2,
                2]) ([1, 1, 2, 2] : List Int) (2 :: [2]) 1)
          (lstm_bidirectional_shapes [1, 2, 1] [1] [1, 2, 2]
            [1, 2, 2] (2 :: [2, 1]) (2 :: [2, 2]) (2 :: [2]))
          (lstm_scratch_outputs [1, 2, 1] [1, 2, 2])).getD 2 [] =
        slice_axis ([0, 1, 0, 1] : List Int) [1, 2, 2] 1 1 (1 + 1) ∧
      (init_state CellType.GRU
          (single_state_branch_inputs ([1, 2] : List Int) ([2] : List Int) ([1, 2, 3, 4] : List
              Int) [1, 2, 2]
            ([1, 2, 3, 4] : List Int) (2 :: [2, 1]) ([1, 0, 0, 1, 1, 1, 1, 1] : List Int) (2 :: [2,
                2]) ([1, 1, 2, 2] : List Int) (2 :: [2]) 1)
          (single_state_bidirectional_shapes [1, 2, 1] [1]
            [1, 2, 2] (2 :: [2, 1]) (2 :: [2, 2]) (2 :: [2]))
          (single_state_scratch_outputs [1, 2, 1] [1, 2, 2])).getD 1 [] =
        slice_axis ([1, 2, 3, 4] : List Int) [1, 2, 2] 1 1 (1 + 1))) :=
  ⟨⟨by decide, rfl, rfl, rfl, rfl, rfl⟩,
    bidirectional_scratch_sizes test_cells CellType.GRU ([1, 2] : List Int) ([1, 2, 3, 4] : List
        Int) ([0, 1, 0, 1] : List Int) ([2] : List Int) ([1, 2, 3, 4] : List Int) ([1, 0, 0, 1, 1,
        1, 1, 1] : List Int) ([1, 1, 2, 2] : List Int) [1] [2, 1] [2, 2] [2] (List.replicate 8 0)
        (List.replicate 4 0) (List.replicate 4 0) "sigmoid" "tanh" "tanh" (0 : Int) false
        example_args true 1 2 1 2 1 (by decide) rfl rfl rfl rfl rfl⟩

/-- Witness of C22: the reverse LSTM pass over three time steps of the example inputs. -/
theorem direction_index_permutation_witness :
    ((example_shapes.getD 0 [] = [2, 3, 2]) ∧
      ((example_inputs.getD 0 []).length = 2 * 3 * 2)) ∧
    ((∀ i, dir_index true 3 i = if true then 3 - i - 1 else i) ∧
    (∀ i, i < 3 → dir_index true 3 i < 3) ∧
    (∀ i, i < 3 → dir_index true 3 (dir_index true 3 i) = i) ∧
    (∀ i j, i < 3 → j < 3 → dir_index true 3 i = dir_index true 3 j → i = j) ∧
    (∀ k, k < 3 → ∃ i, i < 3 ∧ dir_index true 3 i = k) ∧
    (List.range 3).foldl
        (fun (pointers : List (Option Nat)) i =>
          pointers.set (if true then 3 - i - 1 else i) (some i))
        (List.replicate 3 none) =
      (List.range 3).map (fun k => some (dir_index true 3 k)) ∧
    in_seqs example_inputs example_shapes true =
      split_into (example_inputs.getD 0 []) (example_shapes.getD 0 []) 1 3
        ((List.range 3).map fun k => some (dir_index true 3 k))
        (List.replicate 3 (List.replicate (shape_size (example_shapes.getD 0 []) / 3) 0)) ∧
    cell_pass test_cells CellType.LSTM example_inputs example_shapes [List.replicate 12 9, [7, 7,
        7, 7], [8, 8, 8, 8]] example_args true =
      (loop_state test_cells CellType.LSTM example_inputs example_shapes [List.replicate 12 9, [7,
          7, 7, 7], [8, 8, 8, 8]] example_args true 3).1.set 0
        (store ((loop_state test_cells CellType.LSTM example_inputs example_shapes [List.replicate
            12 9, [7, 7, 7, 7], [8, 8, 8, 8]] example_args true 3).1.getD 0 [])
          (concat
            (((List.range 3).map fun k => some (dir_index true 3 k)).map
              (deref (loop_state test_cells CellType.LSTM example_inputs example_shapes
                  [List.replicate 12 9, [7, 7, 7, 7], [8, 8, 8, 8]] example_args true 3).2))
            (List.replicate 3 [2, 1, (example_shapes.getD 2 []).getD 2 0])
            [2, 3, (example_shapes.getD 2 []).getD 2 0] 1)) ∧
    (∀ k, k < 3 →
      (split (example_inputs.getD 0 []) (example_shapes.getD 0 []) 1 3).getD k [] =
        slice_axis (example_inputs.getD 0 []) (example_shapes.getD 0 []) 1 k (k + 1) ∧
      (in_seqs example_inputs example_shapes true).getD (dir_index true 3 k) [] =
        slice_axis (example_inputs.getD 0 []) (example_shapes.getD 0 []) 1 k (k + 1) ∧
      (((List.range 3).map fun k => some (dir_index true 3 k)).map
          (deref (loop_state test_cells CellType.LSTM example_inputs example_shapes [List.replicate
              12 9, [7, 7, 7, 7], [8, 8, 8, 8]] example_args true 3).2)).getD k [] =
        (loop_state test_cells CellType.LSTM example_inputs example_shapes [List.replicate 12 9,
            [7, 7, 7, 7], [8, 8, 8, 8]] example_args true 3).2.getD
          (dir_index true 3 k) [] ∧
      (loop_state test_cells CellType.LSTM example_inputs example_shapes [List.replicate 12 9, [7,
          7, 7, 7], [8, 8, 8, 8]] example_args true 3).2.getD
          (dir_index true 3 k) [] =
        memcpy (List.replicate (shape_size [2, 1, (example_shapes.getD 2 []).getD 2 0]) 0)
          ((cell_step test_cells CellType.LSTM example_inputs example_shapes example_args
            ((in_seqs example_inputs example_shapes true).getD (dir_index true 3 k) [])
            (loop_state test_cells CellType.LSTM example_inputs example_shapes [List.replicate 12
                9, [7, 7, 7, 7], [8, 8, 8, 8]] example_args true
              (dir_index true 3 k)).1).getD 1 [])
          (shape_size [2, 1, (example_shapes.getD 2 []).getD 2 0]))) :=
  ⟨⟨rfl, rfl⟩,
    direction_index_permutation test_cells CellType.LSTM example_inputs example_shapes
        [List.replicate 12 9, [7, 7, 7, 7], [8, 8, 8, 8]] example_args true 2 3 2 rfl rfl⟩

/-- Witness of C23: squeezing axis 1 of the shape `[2, 3, 4]` gives `[2, 4]`. -/
theorem squeeze_axis_removes_one_dimension_witness :
    ((1 < [2, 3, 4].length)) ∧
    ((squeeze_axis [2, 3, 4] 1).length = [2, 3, 4].length - 1 ∧
    squeeze_axis [2, 3, 4] 1 = [2, 3, 4].eraseIdx 1 ∧
    (∀ j, j < 1 → (squeeze_axis [2, 3, 4] 1).getD j 0 = [2, 3, 4].getD j 0) ∧
    (∀ j, 1 ≤ j → (squeeze_axis [2, 3, 4] 1).getD j 0 = [2, 3, 4].getD (j + 1) 0) ∧
    (∀ (batch T input d e hidden dw dr db : Nat) (ws rs bs seq_lengths_shape : Shape),
      squeeze_axis [batch, T, input] 1 = [batch, input] ∧
      squeeze_axis [batch, d, hidden] 1 = [batch, hidden] ∧
      squeeze_axis (dw :: ws) 0 = ws ∧
      (∀ (ev : CellEvaluators Int Int) (inputs : List (List Int)) (args : CellArgs Int) (x : List
          Int)
          (o : List (List Int)),
        cell_step ev CellType.LSTM inputs
            [[batch, T, input], seq_lengths_shape, [batch, d, hidden], [batch, e, hidden],
              dw :: ws, dr :: rs, db :: bs] args x o =
          (o.set 1 (store (o.getD 1 [])
            (ev.lstm_cell x [batch, input] (o.getD 1 []) [batch, hidden] (o.getD 2 [])
              [batch, hidden] (inputs.getD 4 []) ws (inputs.getD 5 []) rs (inputs.getD 6 []) bs
              args.activation_f args.activation_g args.activation_h args.clip).1)).set 2
            (store (o.getD 2 [])
              (ev.lstm_cell x [batch, input] (o.getD 1 []) [batch, hidden] (o.getD 2 [])
                [batch, hidden] (inputs.getD 4 []) ws (inputs.getD 5 []) rs (inputs.getD 6 [])
                bs args.activation_f args.activation_g args.activation_h args.clip).2) ∧
        cell_step ev CellType.GRU inputs
            [[batch, T, input], seq_lengths_shape, [batch, d, hidden], dw :: ws, dr :: rs,
              db :: bs] args x o =
          o.set 1 (store (o.getD 1 [])
            (ev.gru_cell x [batch, input] (o.getD 1 []) [batch, hidden] (inputs.getD 3 []) ws
              (inputs.getD 4 []) rs (inputs.getD 5 []) bs
              args.activation_f args.activation_g args.clip args.linear_before_reset)) ∧
        cell_step ev CellType.RNN inputs
            [[batch, T, input], seq_lengths_shape, [batch, d, hidden], dw :: ws, dr :: rs,
              db :: bs] args x o =
          o.set 1 (store (o.getD 1 [])
            (ev.rnn_cell x [batch, input] (o.getD 1 []) [batch, hidden] (inputs.getD 3 []) ws
              (inputs.getD 4 []) rs (inputs.getD 5 []) bs args.activation_f args.clip))))) ∧
    (squeeze_axis [2, 3, 4] 1 = [2, 4]) :=
  ⟨by decide,
    squeeze_axis_removes_one_dimension [2, 3, 4] 1 (by decide),
    by decide⟩

/-- C4: state continuity of `cell_pass`. For every cell kind and every input with `T ≥ 1`,
the final hidden state in `outputs[1]` is the hidden state after `T` applications of the
cell evaluator, starting from the initial state and consuming the time slices
`X[:,0,:], ..., X[:,T-1,:]` in that order when `is_reverse` is false and in the opposite
order when it is true; it is the value returned by the last (`T`-th) evaluation, stored
into the state buffer left by the first `T - 1` evaluations. The state before the first
evaluation is the copy of `H0 = inputs[2]` (and of `C0 = inputs[3]` for LSTM) into the state
buffers: when the state buffers and the initial states hold exactly the elements of the
state shapes it is `H0` (and `C0`) itself, and the final hidden state is the result of the
`T` evaluations started from `H0` (and `C0`). -/
theorem cell_pass_state_continuity [Zero α] (ev : CellEvaluators α κ) (type : CellType)
    (inputs : List (List α)) (shapes : List Shape) (outputs : List (List α))
    (args : CellArgs κ) (is_reverse : Bool) (batch T input : Nat)
    (hshape : shapes.getD 0 [] = [batch, T, input]) (hT : 1 ≤ T)
    (hX : (inputs.getD 0 []).length = batch * T * input)
    (h2 : 2 ≤ outputs.length) (h3 : type = CellType.LSTM → 3 ≤ outputs.length) :
    (cell_pass ev type inputs shapes outputs args is_reverse).getD 1 [] =
      ((ordered_slices (inputs.getD 0 []) (shapes.getD 0 []) is_reverse).foldl
        (fun s x => state_step ev type inputs shapes args x s)
        (initial_state type inputs shapes outputs)).1 ∧
    (cell_pass ev type inputs shapes outputs args is_reverse).getD 1 [] =
      store (state_after ev type inputs shapes args is_reverse outputs (T - 1)).1
        (evaluate_cell ev type inputs shapes args
          ((ordered_slices (inputs.getD 0 []) (shapes.getD 0 []) is_reverse).getD (T - 1) [])
          (state_after ev type inputs shapes args is_reverse outputs (T - 1))).1 ∧
    ((evaluate_cell ev type inputs shapes args
          ((ordered_slices (inputs.getD 0 []) (shapes.getD 0 []) is_reverse).getD (T - 1) [])
          (state_after ev type inputs shapes args is_reverse outputs (T - 1))).1.length =
        (outputs.getD 1 []).length →
      (cell_pass ev type inputs shapes outputs args is_reverse).getD 1 [] =
        (evaluate_cell ev type inputs shapes args
          ((ordered_slices (inputs.getD 0 []) (shapes.getD 0 []) is_reverse).getD (T - 1) [])
          (state_after ev type inputs shapes args is_reverse outputs (T - 1))).1) ∧
    state_after ev type inputs shapes args is_reverse outputs 0 =
      initial_state type inputs shapes outputs ∧
    ((outputs.getD 1 []).length = shape_size (shapes.getD 2 []) →
      (inputs.getD 2 []).length = shape_size (shapes.getD 2 []) →
      (initial_state type inputs shapes outputs).1 = inputs.getD 2 []) ∧
    (type = CellType.LSTM →
      (outputs.getD 2 []).length = shape_size (shapes.getD 3 []) →
      (inputs.getD 3 []).length = shape_size (shapes.getD 3 []) →
      (initial_state type inputs shapes outputs).2 = inputs.getD 3 []) ∧
    ((outputs.getD 1 []).length = shape_size (shapes.getD 2 []) →
      (inputs.getD 2 []).length = shape_size (shapes.getD 2 []) →
      (type = CellType.LSTM →
        (outputs.getD 2 []).length = shape_size (shapes.getD 3 []) ∧
        (inputs.getD 3 []).length = shape_size (shapes.getD 3 [])) →
      (cell_pass ev type inputs shapes outputs args is_reverse).getD 1 [] =
        ((ordered_slices (inputs.getD 0 []) (shapes.getD 0 []) is_reverse).foldl
          (fun s x => state_step ev type inputs shapes args x s)
          (inputs.getD 2 [],
            if type = CellType.LSTM then inputs.getD 3 [] else outputs.getD 2 [])).1) := by
  have hlen : (ordered_slices (inputs.getD 0 []) (shapes.getD 0 []) is_reverse).length = T := by
    rw [hshape, length_ordered_slices]
  have hfinal := final_hidden_eq_state_after ev type inputs shapes outputs args is_reverse
    batch T input hshape hX h2 h3
  have hlast : state_after ev type inputs shapes args is_reverse outputs T =
      state_step ev type inputs shapes args
        ((ordered_slices (inputs.getD 0 []) (shapes.getD 0 []) is_reverse).getD (T - 1) [])
        (state_after ev type inputs shapes args is_reverse outputs (T - 1)) := by
    have := state_after_succ ev type inputs shapes args is_reverse outputs (T - 1)
      (by rw [hlen]; omega)
    rw [show T - 1 + 1 = T by omega] at this
    exact this
  have hfold : (cell_pass ev type inputs shapes outputs args is_reverse).getD 1 [] =
      ((ordered_slices (inputs.getD 0 []) (shapes.getD 0 []) is_reverse).foldl
        (fun s x => state_step ev type inputs shapes args x s)
        (initial_state type inputs shapes outputs)).1 := by
    rw [hfinal]
    unfold state_after
    rw [List.take_of_length_le (by rw [hlen])]
  have hH0 : (outputs.getD 1 []).length = shape_size (shapes.getD 2 []) →
      (inputs.getD 2 []).length = shape_size (shapes.getD 2 []) →
      (initial_state type inputs shapes outputs).1 = inputs.getD 2 [] :=
    fun h1 h2' => memcpy_eq_self_of_length _ _ _ h1 h2'
  have hC0 : type = CellType.LSTM →
      (outputs.getD 2 []).length = shape_size (shapes.getD 3 []) →
      (inputs.getD 3 []).length = shape_size (shapes.getD 3 []) →
      (initial_state type inputs shapes outputs).2 = inputs.getD 3 [] := by
    intro ht h1 h2'
    simp only [initial_state, ht, ↓reduceIte]
    exact memcpy_eq_self_of_length _ _ _ h1 h2'
  refine ⟨hfold, ?_, ?_, ?_, hH0, hC0, ?_⟩
  · rw [hfinal, hlast]
    rfl
  · intro hl
    rw [hfinal, hlast]
    simp only [state_step]
    apply store_eq_of_length_eq
    rw [hl, length_state_after_fst]
  · simp only [state_after, List.take_zero, List.foldl_nil]
  · intro h1 h2' hc
    rw [hfold]
    congr 2
    have hfst := hH0 h1 h2'
    have hsnd : (initial_state type inputs shapes outputs).2 =
        if type = CellType.LSTM then inputs.getD 3 [] else outputs.getD 2 [] := by
      by_cases ht : type = CellType.LSTM
      · rw [if_pos ht]
        exact hC0 ht (hc ht).1 (hc ht).2
      · simp only [initial_state, ht, ↓reduceIte]
    exact Prod.ext hfst hsnd

/-- C6: length preservation of `cell_pass`. For `X` of shape `[batch, T, input]` and hidden
state of shape `[batch, 1, hidden]` the output sequence written to `outputs[0]` is the
concatenation along the time axis of exactly `T` per-step slots, the buffers of `h_list`
left by the time loop in the order of `to_concat_pointers`; it has the
`batch * T * hidden` elements of shape `[batch, T, hidden]`, so its time dimension is the
`T` of `X`. For every time index `k < T` slot `k` has the elements of shape
`[batch, 1, hidden]`, it is the `k`-th time slice of the output sequence, and it is the
copy of the hidden-state buffer `outputs[1]` taken right after the cell evaluation on the
input time slice `X[:,k,:]` (the hidden state itself when `outputs[1]` has the size of the
state shape): one slot per input time slice. -/
theorem cell_pass_length_preservation [Zero α] (ev : CellEvaluators α κ) (type : CellType)
    (inputs : List (List α)) (shapes : List Shape) (Y : List α) (orest : List (List α))
    (args : CellArgs κ) (is_reverse : Bool) (batch T input hidden : Nat)
    (hshape0 : shapes.getD 0 [] = [batch, T, input])
    (hshape2 : shapes.getD 2 [] = [batch, 1, hidden]) (_hT : 1 ≤ T)
    (hX : (inputs.getD 0 []).length = batch * T * input)
    (hY : shape_size [batch, T, hidden] ≤ Y.length) :
    ((List.range T).map fun k =>
        (loop_state ev type inputs shapes (Y :: orest) args is_reverse T).2.getD
          (dir_index is_reverse T k) []).length = T ∧
    (cell_pass ev type inputs shapes (Y :: orest) args is_reverse).getD 0 [] =
      concat
          ((List.range T).map fun k =>
            (loop_state ev type inputs shapes (Y :: orest) args is_reverse T).2.getD
              (dir_index is_reverse T k) [])
          (List.replicate T [batch, 1, hidden]) [batch, T, hidden] 1 ++
        Y.drop (shape_size [batch, T, hidden]) ∧
    (concat
        ((List.range T).map fun k =>
          (loop_state ev type inputs shapes (Y :: orest) args is_reverse T).2.getD
            (dir_index is_reverse T k) [])
        (List.replicate T [batch, 1, hidden]) [batch, T, hidden] 1).length =
      shape_size [batch, T, hidden] ∧
    (∀ k, k < T →
      ((loop_state ev type inputs shapes (Y :: orest) args is_reverse T).2.getD
          (dir_index is_reverse T k) []).length = shape_size [batch, 1, hidden] ∧
      slice_axis
          (concat
            ((List.range T).map fun k =>
              (loop_state ev type inputs shapes (Y :: orest) args is_reverse T).2.getD
                (dir_index is_reverse T k) [])
            (List.replicate T [batch, 1, hidden]) [batch, T, hidden] 1)
          [batch, T, hidden] 1 k (k + 1) =
        (loop_state ev type inputs shapes (Y :: orest) args is_reverse T).2.getD
          (dir_index is_reverse T k) [] ∧
      (loop_state ev type inputs shapes (Y :: orest) args is_reverse T).2.getD
          (dir_index is_reverse T k) [] =
        memcpy (List.replicate (shape_size [batch, 1, hidden]) 0)
          ((cell_step ev type inputs shapes args
            (slice_axis (inputs.getD 0 []) (shapes.getD 0 []) 1 k (k + 1))
            (loop_state ev type inputs shapes (Y :: orest) args is_reverse
              (dir_index is_reverse T k)).1).getD 1 [])
          (shape_size [batch, 1, hidden]) ∧
      ((orest.getD 0 []).length = shape_size [batch, 1, hidden] →
        (loop_state ev type inputs shapes (Y :: orest) args is_reverse T).2.getD
            (dir_index is_reverse T k) [] =
          (cell_step ev type inputs shapes args
            (slice_axis (inputs.getD 0 []) (shapes.getD 0 []) 1 k (k + 1))
            (loop_state ev type inputs shapes (Y :: orest) args is_reverse
              (dir_index is_reverse T k)).1).getD 1 [])) := by
  have hT' : (shapes.getD 0 []).getD 1 0 = T := by rw [hshape0]; rfl
  have hb' : (shapes.getD 0 []).getD 0 0 = batch := by rw [hshape0]; rfl
  have hh' : (shapes.getD 2 []).getD 2 0 = hidden := by rw [hshape2]; rfl
  have hsnd := loop_state_snd ev type inputs shapes (Y :: orest) args is_reverse
  rw [hT'] at hsnd
  have hslot : ∀ k, k < T →
      (loop_state ev type inputs shapes (Y :: orest) args is_reverse T).2.getD
          (dir_index is_reverse T k) [] =
        captured ev type inputs shapes args is_reverse (Y :: orest)
          (dir_index is_reverse T k) := by
    intro k hk
    rw [hsnd, getD_map_range _ _ _ _ (dir_index_lt is_reverse T k hk)]
  have hslots : ((List.range T).map fun k =>
      (loop_state ev type inputs shapes (Y :: orest) args is_reverse T).2.getD
        (dir_index is_reverse T k) []) =
      (List.range T).map (fun k =>
        captured ev type inputs shapes args is_reverse (Y :: orest)
          (dir_index is_reverse T k)) := by
    apply List.map_congr_left
    intro k hk
    exact hslot k (by simpa using hk)
  have hparts : ∀ a ∈ (List.range T).map (fun k =>
      captured ev type inputs shapes args is_reverse (Y :: orest)
        (dir_index is_reverse T k)), a.length = batch * hidden := by
    intro a ha
    simp only [List.mem_map, List.mem_range] at ha
    obtain ⟨t, ht, rfl⟩ := ha
    rw [length_captured, hshape0, hshape2]
    rfl
  have hc : concat ((List.range T).map (fun k =>
      captured ev type inputs shapes args is_reverse (Y :: orest) (dir_index is_reverse T k)))
      (List.replicate T [batch, 1, hidden]) [batch, T, hidden] 1 =
      gather batch hidden ((List.range T).map (fun k =>
      captured ev type inputs shapes args is_reverse (Y :: orest) (dir_index is_reverse T k))) := by
    rw [concat_eq_gather _ _ _ _ (by simp)]
    simp only [List.take_succ_cons, List.take_zero, List.prod_cons, List.prod_nil, Nat.mul_one,
      shape_size, Nat.one_mul]
    by_cases hb : batch = 0
    · subst hb; simp [gather]
    · rw [Nat.mul_div_cancel_left _ (Nat.pos_of_ne_zero hb)]
  have hg := length_gather batch hidden _ (fun a ha => by rw [hparts a ha])
  simp only [List.length_map, List.length_range] at hg
  have hsz : shape_size [batch, T, hidden] = batch * (T * hidden) := by simp [shape_size]
  have hsz1 : shape_size [batch, 1, hidden] = batch * hidden := by simp [shape_size]
  rw [hslots, hc]
  refine ⟨by simp, ?_, ?_, ?_⟩
  · rw [getD_zero_cell_pass, hshape0, hshape2]
    simp only [List.getD_cons_zero, List.getD_cons_succ]
    rw [store_eq_append _ _ (by rw [hg, ← hsz]; exact hY), hg, hsz]
  · rw [hg, hsz]
  · intro k hk
    have hp := dir_index_lt is_reverse T k hk
    have hstep : (loop_state ev type inputs shapes (Y :: orest) args is_reverse T).2.getD
          (dir_index is_reverse T k) [] =
        memcpy (List.replicate (shape_size [batch, 1, hidden]) 0)
          ((cell_step ev type inputs shapes args
            (slice_axis (inputs.getD 0 []) (shapes.getD 0 []) 1 k (k + 1))
            (loop_state ev type inputs shapes (Y :: orest) args is_reverse
              (dir_index is_reverse T k)).1).getD 1 [])
          (shape_size [batch, 1, hidden]) := by
      rw [hslot k hk, loop_state_eq _ _ _ _ _ _ _ _ (by rw [hT']; omega)]
      have hin := step_input_eq_slice inputs shapes is_reverse batch T input hshape0
        (by omega) _ hp
      rw [dir_index_invol is_reverse T k hk, ← hshape0] at hin
      rw [← hin, ← run_steps_succ]
      simp only [captured, hb', hh']
    refine ⟨?_, ?_, hstep, ?_⟩
    · rw [hslot k hk, length_captured, hb', hh', hsz1]
    · rw [slice_axis_gather_of_length batch hidden T _ (by simp) hparts k hk,
        getD_map_range _ _ _ _ hk, hslot k hk]
    · intro hHo
      rw [hstep]
      apply memcpy_eq_self_of_length
      · simp
      · rw [length_getD_cell_step, loop_state_eq _ _ _ _ _ _ _ _ (by rw [hT']; omega),
          length_getD_run_steps]
        simpa using hHo

/-- Witness of C4: an LSTM pass over three time steps, in reverse order. The state buffers and the
initial states have the size of the state shape, the state before the first evaluation is
`H0 = [1, 0, 2, 1]`, and the final hidden state differs from it. -/
theorem cell_pass_state_continuity_witness :
    ((example_shapes.getD 0 [] = [2, 3, 2]) ∧
      (1 ≤ 3) ∧
      ((example_inputs.getD 0 []).length = 2 * 3 * 2) ∧
      (2 ≤ [List.replicate 12 (9 : Int), [7, 7, 7, 7], [8, 8, 8, 8]].length) ∧
      (CellType.LSTM = CellType.LSTM → 3 ≤ [List.replicate 12 (9 : Int), [7, 7, 7, 7], [8, 8, 8,
          8]].length)) ∧
    ((cell_pass test_cells CellType.LSTM example_inputs example_shapes [List.replicate 12 (9 :
        Int), [7, 7, 7, 7], [8, 8, 8, 8]] example_args true).getD 1 [] =
      ((ordered_slices (example_inputs.getD 0 []) (example_shapes.getD 0 []) true).foldl
        (fun s x => state_step test_cells CellType.LSTM example_inputs example_shapes example_args
            x s)
        (initial_state CellType.LSTM example_inputs example_shapes [List.replicate 12 (9 : Int),
            [7, 7, 7, 7], [8, 8, 8, 8]])).1 ∧
    (cell_pass test_cells CellType.LSTM example_inputs example_shapes [List.replicate 12 (9 : Int),
        [7, 7, 7, 7], [8, 8, 8, 8]] example_args true).getD 1 [] =
      store (state_after test_cells CellType.LSTM example_inputs example_shapes example_args true
          [List.replicate 12 (9 : Int), [7, 7, 7, 7], [8, 8, 8, 8]] (3 - 1)).1
        (evaluate_cell test_cells CellType.LSTM example_inputs example_shapes example_args
          ((ordered_slices (example_inputs.getD 0 []) (example_shapes.getD 0 []) true).getD (3 - 1)
              [])
          (state_after test_cells CellType.LSTM example_inputs example_shapes example_args true
              [List.replicate 12 (9 : Int), [7, 7, 7, 7], [8, 8, 8, 8]] (3 - 1))).1 ∧
    ((evaluate_cell test_cells CellType.LSTM example_inputs example_shapes example_args
          ((ordered_slices (example_inputs.getD 0 []) (example_shapes.getD 0 []) true).getD (3 - 1)
              [])
          (state_after test_cells CellType.LSTM example_inputs example_shapes example_args true
              [List.replicate 12 (9 : Int), [7, 7, 7, 7], [8, 8, 8, 8]] (3 - 1))).1.length =
        ([List.replicate 12 (9 : Int), [7, 7, 7, 7], [8, 8, 8, 8]].getD 1 []).length →
      (cell_pass test_cells CellType.LSTM example_inputs example_shapes [List.replicate 12 (9 :
          Int), [7, 7, 7, 7], [8, 8, 8, 8]] example_args true).getD 1 [] =
        (evaluate_cell test_cells CellType.LSTM example_inputs example_shapes example_args
          ((ordered_slices (example_inputs.getD 0 []) (example_shapes.getD 0 []) true).getD (3 - 1)
              [])
          (state_after test_cells CellType.LSTM example_inputs example_shapes example_args true
              [List.replicate 12 (9 : Int), [7, 7, 7, 7], [8, 8, 8, 8]] (3 - 1))).1) ∧
    state_after test_cells CellType.LSTM example_inputs example_shapes example_args true
        [List.replicate 12 (9 : Int), [7, 7, 7, 7], [8, 8, 8, 8]] 0 =
      initial_state CellType.LSTM example_inputs example_shapes [List.replicate 12 (9 : Int), [7,
          7, 7, 7], [8, 8, 8, 8]] ∧
    (([List.replicate 12 (9 : Int), [7, 7, 7, 7], [8, 8, 8, 8]].getD 1 []).length = shape_size
        (example_shapes.getD 2 []) →
      (example_inputs.getD 2 []).length = shape_size (example_shapes.getD 2 []) →
      (initial_state CellType.LSTM example_inputs example_shapes [List.replicate 12 (9 : Int), [7,
          7, 7, 7], [8, 8, 8, 8]]).1 = example_inputs.getD 2 []) ∧
    (CellType.LSTM = CellType.LSTM →
      ([List.replicate 12 (9 : Int), [7, 7, 7, 7], [8, 8, 8, 8]].getD 2 []).length = shape_size
          (example_shapes.getD 3 []) →
      (example_inputs.getD 3 []).length = shape_size (example_shapes.getD 3 []) →
      (initial_state CellType.LSTM example_inputs example_shapes [List.replicate 12 (9 : Int), [7,
          7, 7, 7], [8, 8, 8, 8]]).2 = example_inputs.getD 3 []) ∧
    (([List.replicate 12 (9 : Int), [7, 7, 7, 7], [8, 8, 8, 8]].getD 1 []).length = shape_size
        (example_shapes.getD 2 []) →
      (example_inputs.getD 2 []).length = shape_size (example_shapes.getD 2 []) →
      (CellType.LSTM = CellType.LSTM →
        ([List.replicate 12 (9 : Int), [7, 7, 7, 7], [8, 8, 8, 8]].getD 2 []).length = shape_size
            (example_shapes.getD 3 []) ∧
        (example_inputs.getD 3 []).length = shape_size (example_shapes.getD 3 [])) →
      (cell_pass test_cells CellType.LSTM example_inputs example_shapes [List.replicate 12 (9 :
          Int), [7, 7, 7, 7], [8, 8, 8, 8]] example_args true).getD 1 [] =
        ((ordered_slices (example_inputs.getD 0 []) (example_shapes.getD 0 []) true).foldl
          (fun s x => state_step test_cells CellType.LSTM example_inputs example_shapes
              example_args x s)
          (example_inputs.getD 2 [],
            if CellType.LSTM = CellType.LSTM then example_inputs.getD 3 [] else [List.replicate 12
                (9 : Int), [7, 7, 7, 7], [8, 8, 8, 8]].getD 2 [])).1)) ∧
    ((initial_state CellType.LSTM example_inputs example_shapes
        [List.replicate 12 (9 : Int), [7, 7, 7, 7], [8, 8, 8, 8]]).1 = [1, 0, 2, 1] ∧
      example_inputs.getD 2 [] = [1, 0, 2, 1] ∧
      (cell_pass test_cells CellType.LSTM example_inputs example_shapes
        [List.replicate 12 9, [7, 7, 7, 7], [8, 8, 8, 8]] example_args true).getD 1 [] ≠
        [1, 0, 2, 1]) :=
  ⟨⟨rfl, by decide, rfl, by decide, fun _ => by decide⟩,
    cell_pass_state_continuity test_cells CellType.LSTM example_inputs example_shapes
        [List.replicate 12 (9 : Int), [7, 7, 7, 7], [8, 8, 8, 8]] example_args true 2 3 2 rfl (by
        decide) rfl (by decide) (fun _ => by decide),
    ⟨by decide, by decide, by decide⟩⟩

/-- Witness of C6: a forward LSTM pass with `T = 3`. -/
theorem cell_pass_length_preservation_witness :
    ((example_shapes.getD 0 [] = [2, 3, 2]) ∧
      (example_shapes.getD 2 [] = [2, 1, 2]) ∧
      (1 ≤ 3) ∧
      ((example_inputs.getD 0 []).length = 2 * 3 * 2) ∧
      (shape_size [2, 3, 2] ≤ (List.replicate 12 (9 : Int)).length)) ∧
    (((List.range 3).map fun k =>
        (loop_state test_cells CellType.LSTM example_inputs example_shapes ((List.replicate 12 (9 :
            Int)) :: [[7, 7, 7, 7], [8, 8, 8, 8]]) example_args false 3).2.getD
          (dir_index false 3 k) []).length = 3 ∧
    (cell_pass test_cells CellType.LSTM example_inputs example_shapes ((List.replicate 12 (9 :
        Int)) :: [[7, 7, 7, 7], [8, 8, 8, 8]]) example_args false).getD 0 [] =
      concat
          ((List.range 3).map fun k =>
            (loop_state test_cells CellType.LSTM example_inputs example_shapes ((List.replicate 12
                (9 : Int)) :: [[7, 7, 7, 7], [8, 8, 8, 8]]) example_args false 3).2.getD
              (dir_index false 3 k) [])
          (List.replicate 3 [2, 1, 2]) [2, 3, 2] 1 ++
        (List.replicate 12 (9 : Int)).drop (shape_size [2, 3, 2]) ∧
    (concat
        ((List.range 3).map fun k =>
          (loop_state test_cells CellType.LSTM example_inputs example_shapes ((List.replicate 12 (9
              : Int)) :: [[7, 7, 7, 7], [8, 8, 8, 8]]) example_args false 3).2.getD
            (dir_index false 3 k) [])
        (List.replicate 3 [2, 1, 2]) [2, 3, 2] 1).length =
      shape_size [2, 3, 2] ∧
    (∀ k, k < 3 →
      ((loop_state test_cells CellType.LSTM example_inputs example_shapes ((List.replicate 12 (9 :
          Int)) :: [[7, 7, 7, 7], [8, 8, 8, 8]]) example_args false 3).2.getD
          (dir_index false 3 k) []).length = shape_size [2, 1, 2] ∧
      slice_axis
          (concat
            ((List.range 3).map fun k =>
              (loop_state test_cells CellType.LSTM example_inputs example_shapes ((List.replicate
                  12 (9 : Int)) :: [[7, 7, 7, 7], [8, 8, 8, 8]]) example_args false 3).2.getD
                (dir_index false 3 k) [])
            (List.replicate 3 [2, 1, 2]) [2, 3, 2] 1)
          [2, 3, 2] 1 k (k + 1) =
        (loop_state test_cells CellType.LSTM example_inputs example_shapes ((List.replicate 12 (9 :
            Int)) :: [[7, 7, 7, 7], [8, 8, 8, 8]]) example_args false 3).2.getD
          (dir_index false 3 k) [] ∧
      (loop_state test_cells CellType.LSTM example_inputs example_shapes ((List.replicate 12 (9 :
          Int)) :: [[7, 7, 7, 7], [8, 8, 8, 8]]) example_args false 3).2.getD
          (dir_index false 3 k) [] =
        memcpy (List.replicate (shape_size [2, 1, 2]) 0)
          ((cell_step test_cells CellType.LSTM example_inputs example_shapes example_args
            (slice_axis (example_inputs.getD 0 []) (example_shapes.getD 0 []) 1 k (k + 1))
            (loop_state test_cells CellType.LSTM example_inputs example_shapes ((List.replicate 12
                (9 : Int)) :: [[7, 7, 7, 7], [8, 8, 8, 8]]) example_args false
              (dir_index false 3 k)).1).getD 1 [])
          (shape_size [2, 1, 2]) ∧
      (([[7, 7, 7, 7], [8, 8, 8, 8]].getD 0 []).length = shape_size [2, 1, 2] →
        (loop_state test_cells CellType.LSTM example_inputs example_shapes ((List.replicate 12 (9 :
            Int)) :: [[7, 7, 7, 7], [8, 8, 8, 8]]) example_args false 3).2.getD
            (dir_index false 3 k) [] =
          (cell_step test_cells CellType.LSTM example_inputs example_shapes example_args
            (slice_axis (example_inputs.getD 0 []) (example_shapes.getD 0 []) 1 k (k + 1))
            (loop_state test_cells CellType.LSTM example_inputs example_shapes ((List.replicate 12
                (9 : Int)) :: [[7, 7, 7, 7], [8, 8, 8, 8]]) example_args false
              (dir_index false 3 k)).1).getD 1 []))) :=
  ⟨⟨rfl, rfl, by decide, rfl, by decide⟩,
    cell_pass_length_preservation test_cells CellType.LSTM example_inputs example_shapes
        (List.replicate 12 (9 : Int)) [[7, 7, 7, 7], [8, 8, 8, 8]] example_args false 2 3 2 2 rfl
        rfl (by decide) rfl (by decide)⟩

end Lemmas

end ngraph.runtime.reference
